import Mathlib

/-!
# Object loading content: a shallow embedding

Embedding of `content/base/src/nsObjectLoadingContent.cpp`: the state machine
that decides what an `<object>`/`<embed>`/`<applet>` node loads (image,
sub-document, plugin, fallback) and drives the load.

Conventions.
* The members of `nsObjectLoadingContent` are the fields of `State`, under the
  names they have in the source.
* Services the class calls (plugin host, permission manager, content policy,
  network, layout, DOM) are answers stored in an environment record.
* Calls with an effect outside the object are appended to `State.log`.
* A service call that can run script and come back into the object is followed
  by `Env.reenter site`, a function on states; an environment whose `reenter` is
  the identity describes a run without nested calls.
-/

namespace ObjLC

/-! ## Enumerations -/

/-- The `ObjectType` enumeration of the class. -/
inductive ObjectType
  | eType_Loading
  | eType_Image
  | eType_Plugin
  | eType_Document
  | eType_Null
  deriving DecidableEq, Repr

/-- The `FallbackType` enumeration of the class (the cases of the switch in
`ObjectState`). -/
inductive FallbackType
  | eFallbackUnsupported
  | eFallbackAlternate
  | eFallbackDisabled
  | eFallbackBlocklisted
  | eFallbackOutdated
  | eFallbackCrashed
  | eFallbackSuppressed
  | eFallbackUserDisabled
  | eFallbackClickToPlay
  | eFallbackVulnerableUpdatable
  | eFallbackVulnerableNoUpdate
  | eFallbackPlayPreview
  deriving DecidableEq, Repr

/-- The values of `nsIPluginTag::STATE_*` that `GetStateForType` reports. The
source compares the value with the three named constants only; any further
value would end in `MOZ_CRASH("Unexpected enabledState")`. -/
inductive PluginState
  | STATE_DISABLED
  | STATE_CLICKTOPLAY
  | STATE_ENABLED
  deriving DecidableEq, Repr

/-- The values of `nsIBlocklistService::STATE_*`. -/
inductive BlocklistState
  | STATE_NOT_BLOCKED
  | STATE_SOFTBLOCKED
  | STATE_BLOCKED
  | STATE_OUTDATED
  | STATE_VULNERABLE_UPDATE_AVAILABLE
  | STATE_VULNERABLE_NO_UPDATE
  deriving DecidableEq, Repr

/-- The values of `nsIPermissionManager::*_ACTION`; `OTHER_ACTION` stands for
any value the `switch` of `ShouldPlay` sends to its `default` label. -/
inductive PermissionAction
  | UNKNOWN_ACTION
  | ALLOW_ACTION
  | DENY_ACTION
  | PROMPT_ACTION
  | OTHER_ACTION
  deriving DecidableEq, Repr

/-! ## URIs, channels and other handles -/

/-- An `nsIURI`. `scheme = none` is a failing `SchemeIs`; a `nested` URI is an
`nsINestedURI` with the given inner URI; `fileExtension = some e` makes the URI
an `nsIURL` whose `GetFileExtension` is `e`. -/
inductive URI
  | simple (spec : String) (scheme : Option String) (fileExtension : Option String)
  | nested (spec : String) (scheme : Option String) (fileExtension : Option String)
      (inner : URI)
  deriving DecidableEq, Repr

namespace URI

def spec : URI → String
  | simple s _ _ => s
  | nested s _ _ _ => s

def scheme : URI → Option String
  | simple _ s _ => s
  | nested _ s _ _ => s

def fileExtension : URI → Option String
  | simple _ _ e => e
  | nested _ _ e _ => e

def inner : URI → Option URI
  | simple _ _ _ => none
  | nested _ _ _ i => some i

end URI

/-- An `nsIChannel`: its identity, what `GetContentType` answers (`none` when
it fails), what `NS_GetFinalChannelURI` answers (`none` when it fails) and its
load flags. `SetContentType` and `SetLoadFlags` rewrite the record. -/
structure Channel where
  id : Nat
  contentType : Option String
  finalURI : Option URI
  documentURIFlag : Bool
  deriving DecidableEq, Repr

/-- Who consumes the bytes of the channel (`mFinalListener`). -/
inductive Listener
  | image (chan : Nat)
  | document (chan : Nat)
  | pluginStream (owner : Nat)
  deriving DecidableEq, Repr

/-- The bits of `EventStates` that `ObjectState` can produce. -/
structure EventStates where
  loading : Bool
  broken : Bool
  suppressed : Bool
  userDisabled : Bool
  handlerDisabled : Bool
  handlerBlocked : Bool
  handlerCrashed : Bool
  typeUnsupported : Bool
  typeUnsupportedPlatform : Bool
  typeClickToPlay : Bool
  typePlayPreview : Bool
  vulnerableUpdatable : Bool
  vulnerableNoUpdate : Bool
  deriving DecidableEq, Repr

namespace EventStates

/-- The value of `EventStates()`. -/
def empty : EventStates :=
  ⟨false, false, false, false, false, false, false, false, false, false, false, false, false⟩

/-- The operator `^` of `EventStates`. -/
def xor (a b : EventStates) : EventStates :=
  ⟨Bool.xor a.loading b.loading, Bool.xor a.broken b.broken,
   Bool.xor a.suppressed b.suppressed, Bool.xor a.userDisabled b.userDisabled,
   Bool.xor a.handlerDisabled b.handlerDisabled, Bool.xor a.handlerBlocked b.handlerBlocked,
   Bool.xor a.handlerCrashed b.handlerCrashed, Bool.xor a.typeUnsupported b.typeUnsupported,
   Bool.xor a.typeUnsupportedPlatform b.typeUnsupportedPlatform,
   Bool.xor a.typeClickToPlay b.typeClickToPlay, Bool.xor a.typePlayPreview b.typePlayPreview,
   Bool.xor a.vulnerableUpdatable b.vulnerableUpdatable,
   Bool.xor a.vulnerableNoUpdate b.vulnerableNoUpdate⟩

end EventStates

/-- The `nsresult` values the class returns. -/
inductive nsresult
  | NS_OK
  | NS_ERROR_FAILURE
  | NS_ERROR_UNEXPECTED
  | NS_ERROR_NOT_AVAILABLE
  | NS_BINDING_ABORTED
  deriving DecidableEq, Repr

/-- The macro `NS_FAILED`. -/
def nsresult.failed (rv : nsresult) : Bool :=
  decide (rv ≠ .NS_OK)

/-- The sites of `LoadObject` and of the functions it calls where the source
expects that script may run and come back into the object. -/
inductive Site
  | stopPlugin
  | cancelChannel
  | listenerStop
  | javaCodebase
  | loadPolicy
  | processPolicy
  | notifySync
  | notifyFinal
  | notifyFallback
  | flushLayout
  | spawn
  | listenerStart
  deriving DecidableEq, Repr

/-- Calls that leave the object, in the order they are made. -/
inductive Effect
  | testPermission (key : String)
  | updateExpireTime (key : String) (sessionExpiry persistentExpiry : Nat)
  | cancelImageRequests
  | frameLoaderDestroy (id : Nat)
  | frameLoaderCreate (id : Nat)
  /-- The call `Cancel(NS_BINDING_ABORTED)` on a channel: the one call of
  `Cancel` in the class, always with this status. -/
  | channelCancel (chan : Nat)
  | channelOpen (chan : Nat)
  | channelSetContentType (chan : Nat) (type : String)
  | listenerOnStart (l : Listener) (chan : Option Nat)
  | listenerOnStop (l : Listener) (chan : Nat) (status : nsresult)
  | checkJavaCodebase
  | checkLoadPolicy
  | checkProcessPolicy (policyType : ObjectType)
  | updateState
  | contentStateChanged (changed : EventStates)
  | flushFrames
  | recreateFrames
  | flushLayout
  | teardownProtoChain
  | postInstantiateEvent (task : Nat)
  | spawnPlugin (type : String)
  | stopPluginInstance (owner : Nat)
  | ownerDestroy (owner : Nat)
  | ownerSetFrame (owner : Nat) (frame : Bool)
  | postStopRunnable (owner : Nat)
  | notifyContentObjectWrapper
  | dispatchEvent (name : String)
  | loadImageWithChannel (chan : Nat)
  | uriLoaderOpenChannel (chan : Nat)
  | redirectVerifyCallback (rv : nsresult)
  | postPluginCrashedEvent (pluginDumpID browserDumpID pluginName pluginFilename : String)
      (submittedCrashReport : Bool)
  deriving DecidableEq, Repr

/-! ## The object -/

/-- The members of `nsObjectLoadingContent`. Handles (`mFrameLoader`,
`mInstanceOwner`, the two pending events) are identities; `log` is the record
of calls made so far and `nextId` the source of fresh identities. -/
structure State where
  mType : ObjectType
  mFallbackType : FallbackType
  mChannelLoaded : Bool
  mInstantiating : Bool
  mNetworkCreated : Bool
  mActivated : Bool
  mPlayPreviewCanceled : Bool
  mIsStopping : Bool
  mIsLoading : Bool
  mScriptRequested : Bool
  mContentType : String
  mOriginalContentType : String
  mURI : Option URI
  mOriginalURI : Option URI
  mBaseURI : Option URI
  mChannel : Option Channel
  mFinalListener : Option Listener
  mFrameLoader : Option Nat
  mInstanceOwner : Option Nat
  mPendingInstantiateEvent : Option Nat
  mPendingCheckPluginStopEvent : Option Nat
  nextId : Nat
  log : List Effect
  deriving DecidableEq, Repr

/-- The state the constructor `nsObjectLoadingContent()` leaves. -/
def State.init : State :=
  { mType := .eType_Loading, mFallbackType := .eFallbackAlternate, mChannelLoaded := false,
    mInstantiating := false, mNetworkCreated := true, mActivated := false,
    mPlayPreviewCanceled := false, mIsStopping := false, mIsLoading := false,
    mScriptRequested := false, mContentType := "", mOriginalContentType := "",
    mURI := none, mOriginalURI := none, mBaseURI := none, mChannel := none,
    mFinalListener := none, mFrameLoader := none, mInstanceOwner := none,
    mPendingInstantiateEvent := none, mPendingCheckPluginStopEvent := none,
    nextId := 0, log := [] }

/-- The identity of the tracked channel, `none` for a null `mChannel`. -/
def State.channelId (s : State) : Option Nat :=
  s.mChannel.map Channel.id

/-- Append one call to the record. -/
def State.emit (s : State) (e : Effect) : State :=
  { s with log := s.log ++ [e] }

/-! ## The play gate: `ShouldPlay` -/

/-- What the services used by `ShouldPlay` answer. A function from the content
type is the plugin host asked for that type; `none` is a failing call. -/
structure PlayEnv where
  /-- `GetPlayPreviewInfo`: `some ignoreCTP` when it succeeds. -/
  playPreviewInfo : String → Option Bool
  /-- `GetStateForType`; on failure the local keeps `STATE_DISABLED`. -/
  stateForType : String → Option PluginState
  /-- `GetBlocklistStateForType`; on failure the local keeps `STATE_NOT_BLOCKED`. -/
  blocklistStateForType : String → Option BlocklistState
  /-- `ownerDoc->GetWindow()` is not null. -/
  hasWindow : Bool
  /-- `window->GetTop` succeeds. -/
  getTopOk : Bool
  /-- `topWindow->GetDocument` succeeds. -/
  getTopDocumentOk : Bool
  /-- The permission manager service is available. -/
  permissionManagerOk : Bool
  /-- `IsSystemPrincipal(topDoc->NodePrincipal())`. -/
  topIsSystemPrincipal : Bool
  /-- `GetPermissionStringForType`. -/
  permissionStringForType : String → Option String
  /-- `TestPermissionFromPrincipal` for the top document and a key. -/
  testPermissionFromPrincipal : String → Option PermissionAction
  /-- `PR_Now()`, in microseconds. -/
  now : Nat
  /-- The preference cache `sSessionTimeoutMinutes` (a `uint32_t`). -/
  sSessionTimeoutMinutes : Nat
  /-- The preference cache `sPersistentTimeoutDays` (a `uint32_t`). -/
  sPersistentTimeoutDays : Nat

/-- The first argument after the flag of `UpdateExpireTime`:
`nowms + sSessionTimeoutMinutes * 60 * 1000`, the product in `uint32_t`, the
sum in `uint64_t`. -/
def sessionExpiry (nowms minutes : Nat) : Nat :=
  (nowms + (minutes % 2 ^ 32 * 60 * 1000) % 2 ^ 32) % 2 ^ 64

/-- The last argument of `UpdateExpireTime`:
`nowms / 1000 + uint64_t(sPersistentTimeoutDays) * 24 * 60 * 60 * 1000`, all in
`uint64_t`. -/
def persistentExpiry (nowms days : Nat) : Nat :=
  (nowms / 1000 + (days % 2 ^ 32 * 24 * 60 * 60 * 1000) % 2 ^ 64) % 2 ^ 64

/-- What a call of `ShouldPlay` leaves: the returned `bool`, the value of the
reference argument `aReason` after the call, and the calls made on the
permission manager. -/
structure PlayResult where
  play : Bool
  reason : FallbackType
  effects : List Effect
  deriving DecidableEq, Repr

/-- The part of `ShouldPlay` after the blocklist checks: the permission of the
top-level page, then the defaults. `reason` is the value of `aReason` on
entry to this part. -/
def ShouldPlay_permission (pe : PlayEnv) (contentType : String) (reason : FallbackType)
    (enabledState : PluginState) (blocklistState : BlocklistState) : PlayResult :=
  if !pe.hasWindow then ⟨false, reason, []⟩
  else if !pe.getTopOk then ⟨false, reason, []⟩
  else if !pe.getTopDocumentOk then ⟨false, reason, []⟩
  else if !pe.permissionManagerOk then ⟨false, reason, []⟩
  else
    let defaults (effects : List Effect) : PlayResult :=
      if blocklistState = .STATE_VULNERABLE_UPDATE_AVAILABLE
          ∨ blocklistState = .STATE_VULNERABLE_NO_UPDATE then
        ⟨false, reason, effects⟩
      else
        match enabledState with
        | .STATE_ENABLED => ⟨true, reason, effects⟩
        | .STATE_CLICKTOPLAY => ⟨false, reason, effects⟩
        -- not reached: `STATE_DISABLED` has returned before
        | .STATE_DISABLED => ⟨false, reason, effects⟩
    if !pe.topIsSystemPrincipal then
      match pe.permissionStringForType contentType with
      | none => ⟨false, reason, []⟩
      | some key =>
        match pe.testPermissionFromPrincipal key with
        | none => ⟨false, reason, [.testPermission key]⟩
        | some permission =>
          let nowms := (pe.now / 1000) % 2 ^ 64
          let effects : List Effect :=
            if permission ≠ .UNKNOWN_ACTION then
              [.testPermission key,
               .updateExpireTime key (sessionExpiry nowms pe.sSessionTimeoutMinutes)
                 (persistentExpiry nowms pe.sPersistentTimeoutDays)]
            else [.testPermission key]
          match permission with
          | .ALLOW_ACTION => ⟨true, reason, effects⟩
          | .DENY_ACTION => ⟨false, .eFallbackDisabled, effects⟩
          | .PROMPT_ACTION => ⟨false, reason, effects⟩
          | .UNKNOWN_ACTION => defaults effects
          | .OTHER_ACTION => ⟨false, reason, effects⟩
    else defaults []

/-- The method `ShouldPlay(aReason, aIgnoreCurrentType)`. `aReason` is the
value the caller's variable has on entry. -/
def ShouldPlay (pe : PlayEnv) (s : State) (aReason : FallbackType)
    (aIgnoreCurrentType : Bool) : PlayResult :=
  let playPreviewInfo := pe.playPreviewInfo s.mContentType
  let isPlayPreviewSpecified := playPreviewInfo.isSome
  let ignoreCTP := playPreviewInfo.getD false
  if isPlayPreviewSpecified && !s.mPlayPreviewCanceled && ignoreCTP then
    ⟨false, .eFallbackPlayPreview, []⟩
  else if !aIgnoreCurrentType && s.mType ≠ .eType_Plugin then
    ⟨true, aReason, []⟩
  else
    let enabledState := (pe.stateForType s.mContentType).getD .STATE_DISABLED
    if enabledState = .STATE_DISABLED then
      ⟨false, .eFallbackDisabled, []⟩
    else
      let blocklistState := (pe.blocklistStateForType s.mContentType).getD .STATE_NOT_BLOCKED
      if blocklistState = .STATE_BLOCKED then
        ⟨false, .eFallbackBlocklisted, []⟩
      else
        let reason₁ : FallbackType :=
          if blocklistState = .STATE_VULNERABLE_UPDATE_AVAILABLE then
            .eFallbackVulnerableUpdatable
          else if blocklistState = .STATE_VULNERABLE_NO_UPDATE then
            .eFallbackVulnerableNoUpdate
          else .eFallbackClickToPlay
        let reason₂ : FallbackType :=
          if reason₁ = .eFallbackClickToPlay ∧ isPlayPreviewSpecified
              ∧ !s.mPlayPreviewCanceled ∧ !ignoreCTP then
            .eFallbackPlayPreview
          else reason₁
        ShouldPlay_permission pe s.mContentType reason₂ enabledState blocklistState

/-! ## The element and the services around it -/

/-- The tag of the owning element. -/
inductive Tag
  | object
  | embed
  | applet
  | other
  deriving DecidableEq, Repr

/-- A `<param>` descendant of the element: its `name` and `value` attributes
and whether the first `<object>`/`<applet>` ancestor of the param is the
element itself. -/
structure Param where
  name : String
  value : String
  parentIsThis : Bool
  deriving DecidableEq, Repr

/-- A child node, as `LoadFallback` looks at it. -/
structure Child where
  isHTMLParam : Bool
  isSignificant : Bool
  deriving DecidableEq, Repr

/-- The owning element: tag, attributes (an absent attribute reads as the empty
string), param descendants in document order and children in sibling order. -/
structure Element where
  tag : Tag
  isHTML : Bool
  typeAttr : String
  classid : String
  codebase : Option String
  data : String
  src : String
  typemustmatch : Bool
  params : List Param
  children : List Child
  deriving DecidableEq, Repr

/-- The bits of `Capabilities` returned by the virtual `GetCapabilities`. -/
structure Capabilities where
  eSupportImages : Bool
  eSupportPlugins : Bool
  eSupportDocuments : Bool
  eSupportSVG : Bool
  eSupportClassID : Bool
  eAllowPluginSkipChannel : Bool
  deriving DecidableEq, Repr

/-- The base implementation `nsObjectLoadingContent::GetCapabilities`. -/
def GetCapabilities : Capabilities :=
  { eSupportImages := true, eSupportPlugins := true, eSupportDocuments := true,
    eSupportSVG := true, eSupportClassID := false, eAllowPluginSkipChannel := false }

/-- The answers of `nsIWebNavigationInfo::IsTypeSupported`. -/
inductive Supported
  | UNSUPPORTED
  | PLUGIN
  | OTHER
  deriving DecidableEq, Repr

/-- The decisions of `nsIContentPolicy`. -/
inductive ContentPolicy
  | ACCEPT
  | REJECT_REQUEST
  | REJECT_TYPE
  | REJECT_SERVER
  | REJECT_OTHER
  deriving DecidableEq, Repr

/-- What the services answer during one call into the object. A function is a
service asked with those arguments; `none` (or `false` in an `...Ok` field) is
a failing call. -/
structure Env where
  element : Element
  caps : Capabilities
  play : PlayEnv
  /-- `IsInDoc()` and the owner document is active. -/
  inActiveDocument : Bool
  isBeingUsedAsImage : Bool
  isLoadedAsData : Bool
  isStaticDocument : Bool
  /-- `GetCurrentDoc()` is not null. -/
  hasCurrentDoc : Bool
  /-- `doc->GetShell()` is not null. -/
  hasShell : Bool
  /-- `GetPrimaryFrame()` after the synchronous notification of `LoadObject`. -/
  frameAfterNotify : Bool
  /-- `GetPrimaryFrame()` after the layout flush of `InstantiatePluginInstance`. -/
  frameAfterFlush : Bool
  /-- `GetPrimaryFrame()` after the plugin has been spawned. -/
  frameAfterSpawn : Bool
  /-- The preference `plugin.java.mime`. -/
  javaMIME : String
  isJavaMIMEType : String → Bool
  pluginExistsForType : String → Bool
  /-- `IsPluginEnabledForExtension`. -/
  pluginTypeForExtension : String → Option String
  isSupportedImage : String → Bool
  /-- The web navigation info service is available. -/
  webNavInfoOk : Bool
  isTypeSupported : String → Option Supported
  /-- `none`: no stream converter service; `some none`: `CanConvert` fails. -/
  canConvert : String → Option (Option Bool)
  svgEnabled : Bool
  /-- `thisContent->GetBaseURI()`. -/
  docBaseURI : Option URI
  /-- `NewURIWithDocumentCharset` for a string and a base. -/
  newURI : String → Option URI → Option URI
  /-- The first out-parameter of `NS_ParseContentType`. -/
  parseContentType : String → String
  /-- `ImageState()` of the image loading base class. -/
  imageState : EventStates
  /-- `PR_GetEnv("MOZ_PLUGINS_BLOCKED")`. -/
  pluginsBlockedEnv : Option String
  /-- `CheckLoadURIWithPrincipal` with the node principal succeeds. -/
  checkLoadURIWithPrincipal : Option URI → Bool
  principalGetURIOk : Bool
  uriIsLocalFile : Option URI → Bool
  strictFileOriginPolicy : Bool
  relaxStrictFileOriginPolicy : Option URI → Bool
  /-- `NS_CheckContentLoadPolicy` for a URI and a MIME type. -/
  contentLoadPolicy : URI → String → Option ContentPolicy
  /-- `NS_CheckContentProcessPolicy` for a kind, a URI and a MIME type. -/
  contentProcessPolicy : ObjectType → Option URI → String → Option ContentPolicy
  ioServiceOk : Bool
  /-- `GetProtocolHandler` for a scheme: `some ext`, `ext` telling whether the
  handler is the external protocol handler. -/
  protocolHandler : String → Option Bool
  getCspOk : Bool
  newChannelOk : URI → Bool
  asyncOpenOk : URI → Bool
  /-- What the channel opened for a URI will report as its content type. -/
  channelContentType : URI → Option String
  /-- What `NS_GetFinalChannelURI` will report for that channel. -/
  channelFinalURI : URI → Option URI
  /-- `IsSuccessfulRequest` for a channel. -/
  requestSuccessful : Nat → Bool
  /-- `chan->GetURI` for a channel. -/
  channelGetURI : Nat → Option URI
  loadImageWithChannelOk : Bool
  frameLoaderCreateOk : Bool
  checkForRecursiveLoadOk : Option URI → Bool
  getDocShellOk : Bool
  uriLoaderServiceOk : Bool
  uriLoaderOpenChannelOk : Bool
  /-- `NS_DispatchToCurrentThread` succeeds. -/
  dispatchOk : Bool
  /-- The plugin host creates an instance owner. -/
  spawnOk : Bool
  /-- A failing spawn still hands out an instance owner. -/
  spawnFailureLeavesOwner : Bool
  /-- `owner->GetInstance` yields an instance. -/
  ownerHasInstance : Bool
  ownerGetInstanceOk : Bool
  newPluginStreamListenerOk : Bool
  blocklistServiceOk : Bool
  /-- `GetPluginBlocklistState` for the tag of the running instance. -/
  instanceBlocklistState : BlocklistState
  /-- `OnStartRequest` of a final listener succeeds. -/
  listenerOnStartOk : Listener → Bool
  /-- The build is for Windows (`XP_WIN`). -/
  xpWin : Bool
  /-- The build is for Windows or X11. -/
  xpWinOrX11 : Bool
  /-- The MIME type of the running instance, `inst->GetMIMEType`. -/
  instanceMIMEType : Option String
  /-- `MatchPluginName` holds for one of the four names never stopped late. -/
  matchesNoDelayName : Bool
  /-- What a nested entry into the object at a site leaves. -/
  reenter : Site → State → State

/-! ## Strings -/

/-- ASCII lower-casing, as `LowerCaseEquals...` and `EqualsIgnoreCase` apply
it to the receiver. -/
def asciiLower (s : String) : String :=
  String.mk (s.toList.map Char.toLower)

/-- The characters of the set `" \n\r\t\b"` given to `Trim`. -/
def trimSet : List Char :=
  [Char.ofNat 32, Char.ofNat 10, Char.ofNat 13, Char.ofNat 9, Char.ofNat 8]

/-- The call `Trim(" \n\r\t\b", true, true, false)`. -/
def trimWS (s : String) : String :=
  String.mk ((s.toList.dropWhile (fun c => decide (c ∈ trimSet))).reverse.dropWhile
    (fun c => decide (c ∈ trimSet))).reverse

/-- The characters after the last `.` of a list, `none` without a dot
(`RFindChar` and `Substring(spec, offset + 1, spec.Length())`). -/
def afterLastDot : List Char → Option (List Char)
  | [] => none
  | c :: cs =>
    match afterLastDot cs with
    | some r => some r
    | none => if c = Char.ofNat 46 then some cs else none

/-- The helper `GetExtensionFromURI`. -/
def GetExtensionFromURI (uri : URI) : String :=
  match uri.fileExtension with
  | some e => e
  | none =>
    match afterLastDot uri.spec.toList with
    | some r => String.mk r
    | none => ""

/-- The helper `IsPluginEnabledByExtension`: `some mimeType` when it returns
true. A null URI is answered with `none`. -/
def IsPluginEnabledByExtension (env : Env) (uri : Option URI) : Option String :=
  match uri with
  | none => none
  | some u =>
    let ext := GetExtensionFromURI u
    if decide (ext = "") then none else env.pluginTypeForExtension ext

/-- The helper `URIEquals`. -/
def URIEquals (a b : Option URI) : Bool :=
  decide (a = b)

/-! ## `GetTypeOfContent` -/

/-- The method `IsSupportedDocument`. -/
def IsSupportedDocument (env : Env) (aMimeType : String) : Bool :=
  if !env.webNavInfoOk then false
  else
    match env.isTypeSupported aMimeType with
    | none => false
    | some supported =>
      if supported ≠ .UNSUPPORTED then decide (supported ≠ .PLUGIN)
      else
        match env.canConvert aMimeType with
        | none => false
        | some none => false
        | some (some canConvert) => canConvert

/-- The method `GetTypeOfContent`. -/
def GetTypeOfContent (env : Env) (aMIMEType : String) : ObjectType :=
  if decide (aMIMEType = "") then .eType_Null
  else if env.caps.eSupportImages && env.isSupportedImage aMIMEType then .eType_Image
  else
    let isSVG := decide (asciiLower aMIMEType = "image/svg+xml")
    let isSVGEnabled := isSVG && env.svgEnabled
    let supportType := if isSVG then env.caps.eSupportSVG else env.caps.eSupportDocuments
    if (isSVGEnabled || !isSVG) && supportType && IsSupportedDocument env aMIMEType then
      .eType_Document
    else if env.caps.eSupportPlugins && env.pluginExistsForType aMIMEType then .eType_Plugin
    else .eType_Null

/-! ## The type resolver: `UpdateObjectParameters` -/

/-- The bits of `ParameterUpdateFlags`; `eParamNoChange` is no bit set. -/
structure ParameterUpdateFlags where
  eParamChannelChanged : Bool
  eParamStateChanged : Bool
  eParamContentTypeChanged : Bool
  deriving DecidableEq, Repr

/-- The value `eParamNoChange`. -/
def eParamNoChange : ParameterUpdateFlags :=
  ⟨false, false, false⟩

/-- A flag word converted to `bool`: some bit is set. -/
def ParameterUpdateFlags.any (f : ParameterUpdateFlags) : Bool :=
  f.eParamChannelChanged || f.eParamStateChanged || f.eParamContentTypeChanged

/-- Modelled from the spec: the macro `APPLICATION_GUESS_FROM_EXT` of
`nsMimeTypes.h`, a header that is not among the sources (the spec's
"octet-stream sniffing results"). -/
def APPLICATION_GUESS_FROM_EXT : String :=
  "application/x-vnd.mozilla.guess-from-ext"

/-- Modelled from the spec: the macro `APPLICATION_OCTET_STREAM` of
`nsMimeTypes.h`, a header that is not among the sources (the spec's generic
"octet-stream"). -/
def APPLICATION_OCTET_STREAM : String :=
  "application/octet-stream"

/-- Modelled from the spec: the macro `BINARY_OCTET_STREAM` of `nsMimeTypes.h`,
a header that is not among the sources (the spec's generic "octet-stream"). -/
def BINARY_OCTET_STREAM : String :=
  "binary/octet-stream"

/-- The locals of `UpdateObjectParameters` when it reaches the comparison
with the original parameters. `recurse` tells that the method has left
through `return UpdateObjectParameters(true)` instead. -/
structure Resolved where
  newMime : String
  typeAttr : String
  newURI : Option URI
  newBaseURI : Option URI
  isJava : Bool
  stateInvalid : Bool
  recurse : Bool
  deriving DecidableEq, Repr

/-- The loop over the `<param>` descendants: the last param named `codebase`
whose plugin parent is the element sets `hasCodebase` and `codebaseStr`. -/
def javaParamCodebase (params : List Param) (init : Bool × String) : Bool × String :=
  params.foldl
    (fun acc p =>
      if asciiLower (trimWS p.name) = "codebase" ∧ p.parentIsThis = true then
        (true, trimWS p.value)
      else acc)
    init

/-- The block "Codebase" of `UpdateObjectParameters`: the base URI that the
codebase attribute (for Java also a `<param>`) gives, the document's base URI
where there is none or it does not parse. -/
def resolveCodebase (env : Env) (isJava : Bool) : Option URI :=
  let el := env.element
  let (hasCodebase, codebaseStr₀) : Bool × String :=
    if isJava then javaParamCodebase el.params (el.codebase.isSome, el.codebase.getD "")
    else (el.codebase.isSome, el.codebase.getD "")
  let codebaseStr : String :=
    if isJava && hasCodebase && decide (codebaseStr₀ = "") then "/"
    else if isJava && !hasCodebase then "."
    else codebaseStr₀
  let newBaseURI₀ : Option URI :=
    if decide (codebaseStr ≠ "") then env.newURI codebaseStr env.docBaseURI else none
  if newBaseURI₀.isNone then env.docBaseURI else newBaseURI₀

/-- The string that the block "URI" of `UpdateObjectParameters` reads: `data`
of an `<object>`, `src` of an `<embed>`, nothing for Java. -/
def uriAttribute (env : Env) (isJava : Bool) : String :=
  if isJava then ""
  else if env.element.tag = .object then env.element.data
  else if env.element.tag = .embed then env.element.src
  else ""

/-- `UpdateObjectParameters(aJavaURI)` from its start to the comparison with
the original parameters: initial MIME type, classid, codebase, URI and the
extension hint. Only locals are written in this part. -/
def resolveAttributes (env : Env) (aJavaURI : Bool) : Resolved :=
  let el := env.element
  -- Initial MIME Type
  let (newMime₀, typeAttr, isJava₀) : String × String × Bool :=
    if aJavaURI || decide (el.tag = .applet) then (env.javaMIME, "", true)
    else if decide (el.typeAttr ≠ "") then (el.typeAttr, el.typeAttr, env.isJavaMIMEType el.typeAttr)
    else ("", "", false)
  -- classID
  let (newMime₁, isJava, stateInvalid₁) : String × Bool × Bool :=
    if env.caps.eSupportClassID && decide (el.classid ≠ "") then
      if ("java:".toList.isPrefixOf el.classid.toList) && env.pluginExistsForType env.javaMIME then
        (env.javaMIME, true, false)
      else ("", isJava₀, true)
    else (newMime₀, isJava₀, false)
  -- Codebase
  let newBaseURI : Option URI := resolveCodebase env isJava
  -- URI
  let uriStr : String := uriAttribute env isJava
  let (newURI, stateInvalid) : Option URI × Bool :=
    if decide (uriStr ≠ "") then
      match env.newURI uriStr newBaseURI with
      | some u => (some u, stateInvalid₁)
      | none => (none, true)
    else (none, stateInvalid₁)
  -- the extension as a type hint
  if decide (GetTypeOfContent env newMime₁ ≠ .eType_Plugin) && newURI.isSome
      && env.caps.eAllowPluginSkipChannel then
    match IsPluginEnabledByExtension env newURI with
    | some mimeType =>
      ⟨mimeType, typeAttr, newURI, newBaseURI, isJava, stateInvalid,
        !isJava && env.isJavaMIMEType mimeType⟩
    | none => ⟨newMime₁, typeAttr, newURI, newBaseURI, isJava, stateInvalid, false⟩
  else ⟨newMime₁, typeAttr, newURI, newBaseURI, isJava, stateInvalid, false⟩

/-- The locals that the block "if we have a channel" of
`UpdateObjectParameters` may rewrite, with the channel. -/
structure ChannelResolved where
  newMime : String
  newURI : Option URI
  stateInvalid : Bool
  chan : Channel
  log : List Effect
  deriving DecidableEq, Repr

/-- The channel's content type as `UpdateObjectParameters` takes it: a
guessed type becomes `application/octet-stream` on the channel too, and the
binary types are marked. The result is `channelType`, `binaryChannelType`, the
channel and the calls made on it. -/
def binaryChannelType (channelType₀ : String) (chan₀ : Channel) :
    String × Bool × Channel × List Effect :=
  if channelType₀ = APPLICATION_GUESS_FROM_EXT then
    (APPLICATION_OCTET_STREAM, true,
      { chan₀ with contentType := some APPLICATION_OCTET_STREAM },
      [Effect.channelSetContentType chan₀.id APPLICATION_OCTET_STREAM])
  else if channelType₀ = APPLICATION_OCTET_STREAM ∨ channelType₀ = BINARY_OCTET_STREAM then
    (channelType₀, true, chan₀, [])
  else (channelType₀, false, chan₀, [])

/-- The decision of `UpdateObjectParameters` whether the type hint overrides
the channel's type: `overrideChannelType`, `newMime` and `stateInvalid` after
the cascade that starts at `typemustmatch`. -/
def overrideChannelType (env : Env) (r : Resolved) (channelType : String) (binary : Bool)
    (newURI : Option URI) (stateInvalid₁ : Bool) : Bool × String × Bool :=
  let typeHint : ObjectType :=
    if decide (r.newMime = "") then .eType_Null else GetTypeOfContent env r.newMime
  if env.element.typemustmatch then
    if asciiLower r.typeAttr ≠ channelType then (false, r.newMime, true)
    else (false, r.newMime, stateInvalid₁)
  else if typeHint = .eType_Plugin then (true, r.newMime, stateInvalid₁)
  else
    match (if env.caps.eAllowPluginSkipChannel then IsPluginEnabledByExtension env newURI
           else none) with
    | some mimeType => (true, mimeType, stateInvalid₁)
    | none =>
      if binary && decide (typeHint ≠ .eType_Null) && decide (typeHint ≠ .eType_Document) then
        (true, r.newMime, stateInvalid₁)
      else
        match (if binary then IsPluginEnabledByExtension env newURI else none) with
        | some mimeType => (true, mimeType, stateInvalid₁)
        | none => (false, r.newMime, stateInvalid₁)

/-- The block of `UpdateObjectParameters` run when `newChannel && mChannel`:
the channel's type and final URI against the hints. -/
def resolveWithChannel (env : Env) (r : Resolved) (chan₀ : Channel) : ChannelResolved :=
  let t₀ : String × Bool :=
    match chan₀.contentType with
    | some ty => (ty, r.stateInvalid)
    | none => ("", true)
  let b := binaryChannelType t₀.1 chan₀
  -- Channel can change our URI through redirection
  let newURI : Option URI := b.2.2.1.finalURI
  let o := overrideChannelType env r b.1 b.2.1 newURI (t₀.2 || newURI.isNone)
  if o.1 then
    let parsedMime := env.parseContentType o.2.1
    if decide (parsedMime ≠ "") then
      ⟨o.2.1, newURI, o.2.2, { b.2.2.1 with contentType := some parsedMime },
        b.2.2.2 ++ [Effect.channelSetContentType b.2.2.1.id parsedMime]⟩
    else ⟨o.2.1, newURI, o.2.2, b.2.2.1, b.2.2.2⟩
  else
    ⟨b.1, newURI, o.2.2 || env.isJavaMIMEType b.1, b.2.2.1, b.2.2.2⟩

/-- The block "Determine final type" of `UpdateObjectParameters`: the new
type and MIME type from the locals. -/
def determineFinalType (env : Env) (stateInvalid newChannel : Bool) (newMime : String)
    (newURI : Option URI) : ObjectType × String :=
  if stateInvalid then (.eType_Null, "")
  else if newChannel then (GetTypeOfContent env newMime, newMime)
  else if (env.caps.eAllowPluginSkipChannel || newURI.isNone)
      && decide (GetTypeOfContent env newMime = .eType_Plugin) then
    (.eType_Plugin, newMime)
  else if newURI.isSome then (.eType_Loading, newMime)
  else (.eType_Null, newMime)

/-- The locals of `UpdateObjectParameters` when it reaches the block
"Determine final type". -/
structure ChannelInformed where
  channelChanged : Bool
  useChannel : Bool
  newChannel : Bool
  newMime : String
  newURI : Option URI
  stateInvalid : Bool
  mChannel : Option Channel
  log : List Effect
  deriving DecidableEq, Repr

/-- `UpdateObjectParameters` from the comparison with the original
parameters to the block "Determine final type": whether the channel
parameters changed, whether a loaded channel is used, and what it says. -/
def channelInformed (env : Env) (s : State) (r : Resolved) : ChannelInformed :=
  -- Check if the original (pre-channel) content-type or URI changed
  let channelChanged : Bool :=
    decide (s.mOriginalContentType ≠ r.newMime) || !URIEquals s.mOriginalURI r.newURI
  let useChannel : Bool := s.mChannelLoaded && !channelChanged
  let newChannel : Bool := useChannel && decide (s.mType = .eType_Loading)
  -- If we have a channel, see if its MIME type should take precedence
  if newChannel then
    match s.mChannel with
    | some chan =>
      let c := resolveWithChannel env r chan
      ⟨channelChanged, useChannel, newChannel, c.newMime, c.newURI, c.stateInvalid, some c.chan,
        s.log ++ c.log⟩
    | none =>
      ⟨channelChanged, useChannel, newChannel, r.newMime, r.newURI, true, none, s.log⟩
  else
    ⟨channelChanged, useChannel, newChannel, r.newMime, r.newURI, r.stateInvalid, s.mChannel,
      s.log⟩

/-- `UpdateObjectParameters` from the comparison with the original
parameters to its end. -/
def updateFromResolved (env : Env) (s : State) (r : Resolved) : State × ParameterUpdateFlags :=
  let ci := channelInformed env s r
  -- Determine final type
  let (newType₀, newMime₁) :=
    determineFinalType env ci.stateInvalid ci.newChannel ci.newMime ci.newURI
  -- Handle existing channels
  let (newType, newMime, newURI, channelChanged₁, useChannel) :
      ObjectType × String × Option URI × Bool × Bool :=
    if ci.useChannel && decide (newType₀ = .eType_Loading) then
      (s.mType, s.mContentType, s.mURI, ci.channelChanged, ci.useChannel)
    else if ci.useChannel && !ci.newChannel then
      (newType₀, newMime₁, ci.newURI, true, false)
    else (newType₀, newMime₁, ci.newURI, ci.channelChanged, ci.useChannel)
  -- Update changed values
  let typeChanged : Bool := decide (newType ≠ s.mType)
  let baseChanged : Bool := !URIEquals s.mBaseURI r.newBaseURI
  let uriChanged : Bool := !URIEquals newURI s.mURI
  let mimeChanged : Bool := decide (newType ≠ .eType_Loading) && decide (s.mContentType ≠ newMime)
  let stateChanged : Bool := typeChanged || (baseChanged && r.isJava) || uriChanged || mimeChanged
  let invalidate : Bool := useChannel && !ci.newChannel && stateChanged
  ({ s with
      mOriginalContentType := r.newMime
      mOriginalURI := r.newURI
      mChannel := ci.mChannel
      log := ci.log
      mType := if invalidate then .eType_Loading else newType
      mBaseURI := if baseChanged then r.newBaseURI else s.mBaseURI
      mURI := if uriChanged then newURI else s.mURI
      mContentType := if mimeChanged then newMime else s.mContentType },
   { eParamChannelChanged := channelChanged₁ || invalidate
     eParamStateChanged := stateChanged
     eParamContentTypeChanged := mimeChanged })

/-- The attributes as `UpdateObjectParameters(aJavaURI)` resolves them: the
call `UpdateObjectParameters(true)` made from inside resolves them again as
Java. -/
def resolved (env : Env) (aJavaURI : Bool) : Resolved :=
  let r := resolveAttributes env aJavaURI
  if r.recurse then resolveAttributes env true else r

/-- The method `UpdateObjectParameters(aJavaURI)`. -/
def UpdateObjectParameters (env : Env) (s : State) (aJavaURI : Bool) :
    State × ParameterUpdateFlags :=
  updateFromResolved env s (resolved env aJavaURI)

/-! ## State notifications -/

/-- The method `ObjectState`. -/
def ObjectState (env : Env) (s : State) : EventStates :=
  match s.mType with
  | .eType_Loading => { EventStates.empty with loading := true }
  | .eType_Image => env.imageState
  | .eType_Plugin => EventStates.empty
  | .eType_Document => EventStates.empty
  | .eType_Null =>
    match s.mFallbackType with
    | .eFallbackSuppressed => { EventStates.empty with suppressed := true }
    | .eFallbackUserDisabled => { EventStates.empty with userDisabled := true }
    | .eFallbackClickToPlay => { EventStates.empty with typeClickToPlay := true }
    | .eFallbackPlayPreview => { EventStates.empty with typePlayPreview := true }
    | .eFallbackDisabled => { EventStates.empty with broken := true, handlerDisabled := true }
    | .eFallbackBlocklisted => { EventStates.empty with broken := true, handlerBlocked := true }
    | .eFallbackCrashed => { EventStates.empty with broken := true, handlerCrashed := true }
    | .eFallbackUnsupported =>
      if (env.pluginsBlockedEnv.map (fun v => v.toList.head?)) = some (some '1') then
        { EventStates.empty with broken := true, typeUnsupportedPlatform := true }
      else { EventStates.empty with broken := true, typeUnsupported := true }
    | .eFallbackOutdated => { EventStates.empty with broken := true }
    | .eFallbackAlternate => { EventStates.empty with broken := true }
    | .eFallbackVulnerableUpdatable => { EventStates.empty with vulnerableUpdatable := true }
    | .eFallbackVulnerableNoUpdate => { EventStates.empty with vulnerableNoUpdate := true }

/-- The method `NotifyStateChanged`. `site` names the call, for the nested
entries that the document notification, the frame flush or the frame rebuild
may cause. -/
def NotifyStateChanged (env : Env) (s : State) (aOldType : ObjectType)
    (aOldState : EventStates) (aSync aNotify : Bool) (site : Site) : State :=
  let s₁ := s.emit .updateState
  if !aNotify then s₁
  else if !env.hasCurrentDoc then s₁
  else
    let newState := ObjectState env s₁
    if newState ≠ aOldState then
      let s₂ := s₁.emit (.contentStateChanged (EventStates.xor aOldState newState))
      if aSync then env.reenter site (s₂.emit .flushFrames)
      else env.reenter site s₂
    else if aOldType ≠ s₁.mType then
      if env.hasShell then env.reenter site (s₁.emit .recreateFrames) else s₁
    else s₁

/-! ## The channel -/

/-- The method `CloseChannel`. -/
def CloseChannel (env : Env) (s : State) : State :=
  match s.mChannel with
  | none => s
  | some channelGrip =>
    let listenerGrip := s.mFinalListener
    let s₁ := { s with mChannel := none, mFinalListener := none }
    let s₂ := env.reenter .cancelChannel (s₁.emit (.channelCancel channelGrip.id))
    match listenerGrip with
    | some l =>
      env.reenter .listenerStop (s₂.emit (.listenerOnStop l channelGrip.id .NS_BINDING_ABORTED))
    | none => s₂

/-- The helper `CanHandleURI`. -/
def CanHandleURI (env : Env) (aURI : URI) : Bool :=
  match aURI.scheme with
  | none => false
  | some scheme =>
    if !env.ioServiceOk then false
    else
      match env.protocolHandler scheme with
      | none => false
      | some isExternal => !isExternal

/-- The method `OpenChannel`. `NS_ERROR_FAILURE` stands for the failure code
of whichever service call failed. -/
def OpenChannel (env : Env) (s : State) : State × nsresult :=
  let s₁ := { s with mChannel := none }
  match s₁.mURI with
  | none => (s₁, .NS_ERROR_NOT_AVAILABLE)
  | some uri =>
    if !CanHandleURI env uri then (s₁, .NS_ERROR_NOT_AVAILABLE)
    else if !env.checkLoadURIWithPrincipal (some uri) then (s₁, .NS_ERROR_FAILURE)
    else if !env.getCspOk then (s₁, .NS_ERROR_FAILURE)
    else if !env.newChannelOk uri then (s₁, .NS_ERROR_FAILURE)
    else if !env.asyncOpenOk uri then (s₁, .NS_ERROR_FAILURE)
    else
      let chan : Channel :=
        { id := s₁.nextId, contentType := env.channelContentType uri,
          finalURI := env.channelFinalURI uri, documentURIFlag := false }
      (({ s₁ with mChannel := some chan, nextId := s₁.nextId + 1 }).emit (.channelOpen chan.id),
        .NS_OK)

/-! ## Stopping and unloading -/

/-- The helper `DoDelayedStop`: whether the stop is put off; the name tests
are compiled in on platforms other than Windows and X11 only. -/
def DoDelayedStop (env : Env) (aDelayedStop : Bool) : Bool :=
  aDelayedStop && (env.xpWinOrX11 || !env.matchesNoDelayName)

/-- The method `DoStopPlugin`. -/
def DoStopPlugin (env : Env) (s : State) (aInstanceOwner : Nat)
    (aDelayedStop aForcedReentry : Bool) : State :=
  if s.mIsStopping && !aForcedReentry then s
  else
    let s₁ := { s with mIsStopping := true }
    if env.ownerHasInstance && DoDelayedStop env aDelayedStop then
      s₁.emit (.postStopRunnable aInstanceOwner)
    else
      let s₂ :=
        if env.ownerHasInstance then
          env.reenter .stopPlugin (s₁.emit (.stopPluginInstance aInstanceOwner))
        else s₁
      let s₃ := env.reenter .stopPlugin (s₂.emit (.ownerDestroy aInstanceOwner))
      if !s₃.mIsStopping then s₃
      else { s₃.emit .teardownProtoChain with mIsStopping := false }

/-- The method `StopPluginInstance`. Where a nested entry during
`CloseChannel` has cleared `mInstanceOwner`, the source dereferences a null
pointer; the embedding stops there. -/
def StopPluginInstance (env : Env) (s : State) : State :=
  let s₁ := { s with mPendingInstantiateEvent := none, mPendingCheckPluginStopEvent := none,
                     mInstantiating := false }
  if s₁.mInstanceOwner.isNone then s₁
  else
    let s₂ := if s₁.mChannel.isSome then CloseChannel env s₁ else s₁
    match s₂.mInstanceOwner with
    | none => s₂
    | some owner =>
      let s₃ := s₂.emit (.ownerSetFrame owner false)
      let delayedStop : Bool :=
        env.xpWin && env.ownerHasInstance
          && decide (env.instanceMIMEType = some "audio/x-pn-realaudio-plugin")
      DoStopPlugin env { s₃ with mInstanceOwner := none } owner delayedStop false

/-- The statements `if (mFrameLoader) { mFrameLoader->Destroy(); mFrameLoader =
nullptr; }` of `UnloadObject`. -/
def destroyFrameLoader (s : State) : State :=
  match s.mFrameLoader with
  | some fl => { s.emit (.frameLoaderDestroy fl) with mFrameLoader := none }
  | none => s

/-- The method `UnloadObject(aResetState)`. -/
def UnloadObject (env : Env) (s : State) (aResetState : Bool) : State :=
  let s₂ := destroyFrameLoader (s.emit .cancelImageRequests)
  let s₃ :=
    if aResetState then
      let s' := if s₂.mType ≠ .eType_Plugin then CloseChannel env s₂ else s₂
      { s' with mChannelLoaded := false, mType := .eType_Loading, mURI := none,
                mOriginalURI := none, mBaseURI := none, mContentType := "",
                mOriginalContentType := "" }
    else s₂
  let s₄ := { s₃ with mInstantiating := false, mScriptRequested := false }
  let s₅ :=
    if s₄.mInstanceOwner.isNone then { s₄.emit .teardownProtoChain with mIsStopping := false }
    else s₄
  StopPluginInstance env s₅

/-! ## Fallback -/

/-- The method `LoadFallback(aType, aNotify)`. -/
def LoadFallback (env : Env) (s : State) (aType : FallbackType) (aNotify : Bool) : State :=
  let oldState := ObjectState env s
  let oldType := s.mType
  let aType₁ : FallbackType :=
    if !env.element.isHTML || decide (s.mContentType = "") then .eFallbackAlternate else aType
  let aType₂ : FallbackType :=
    if decide (env.element.tag = .object)
        && (decide (aType₁ = .eFallbackUnsupported) || decide (aType₁ = .eFallbackDisabled)
            || decide (aType₁ = .eFallbackBlocklisted))
        && env.element.children.any (fun child => !child.isHTMLParam && child.isSignificant) then
      .eFallbackAlternate
    else aType₁
  let s₁ := { s with mType := .eType_Null, mFallbackType := aType₂ }
  if !aNotify then s₁
  else NotifyStateChanged env s₁ oldType oldState false true .notifyFallback

/-! ## Policy checks -/

/-- The method `CheckJavaCodebase`. -/
def CheckJavaCodebase (env : Env) (s : State) : State × Bool :=
  let ok : Bool :=
    if !env.checkLoadURIWithPrincipal s.mBaseURI then false
    else if !env.principalGetURIOk then false
    else if env.uriIsLocalFile s.mBaseURI && env.strictFileOriginPolicy
        && !env.relaxStrictFileOriginPolicy s.mBaseURI then false
    else true
  (env.reenter .javaCodebase (s.emit .checkJavaCodebase), ok)

/-- The method `CheckLoadPolicy(aContentPolicy)`; the last component is the
value of `*aContentPolicy` after the call. -/
def CheckLoadPolicy (env : Env) (s : State) (aContentPolicy : ContentPolicy) :
    State × Bool × ContentPolicy :=
  match s.mURI with
  | none => (s, false, aContentPolicy)
  | some uri =>
    let s₁ := env.reenter .loadPolicy (s.emit .checkLoadPolicy)
    match env.contentLoadPolicy uri s.mContentType with
    | none => (s₁, false, .ACCEPT)
    | some decision => (s₁, decide (decision = .ACCEPT), decision)

/-- The method `CheckProcessPolicy(aContentPolicy)`; the last component is
the value of `*aContentPolicy` after the call. -/
def CheckProcessPolicy (env : Env) (s : State) (aContentPolicy : ContentPolicy) :
    State × Bool × ContentPolicy :=
  if s.mType = .eType_Image ∨ s.mType = .eType_Document ∨ s.mType = .eType_Plugin then
    let s₁ := env.reenter .processPolicy (s.emit (.checkProcessPolicy s.mType))
    match env.contentProcessPolicy s.mType (if s.mURI.isSome then s.mURI else s.mBaseURI)
        s.mContentType with
    | none => (s₁, false, .ACCEPT)
    | some decision => (s₁, decide (decision = .ACCEPT), decision)
  else (s, false, aContentPolicy)

/-! ## Plugin instances -/

/-- The method `MakePluginListener`. -/
def MakePluginListener (env : Env) (s : State) : State × Bool :=
  match s.mInstanceOwner with
  | none => (s, false)
  | some owner =>
    if !env.ownerGetInstanceOk then (s, false)
    else if !env.newPluginStreamListenerOk then (s, false)
    else ({ s with mFinalListener := some (.pluginStream owner) }, true)

/-- The method `AsyncStartPluginInstance`. -/
def AsyncStartPluginInstance (env : Env) (s : State) : State × nsresult :=
  if s.mInstanceOwner.isSome || s.mPendingInstantiateEvent.isSome then (s, .NS_OK)
  else if env.isStaticDocument || env.isBeingUsedAsImage then (s, .NS_OK)
  else if env.dispatchOk then
    (({ s with mPendingInstantiateEvent := some s.nextId, nextId := s.nextId + 1 }).emit
        (.postInstantiateEvent s.nextId), .NS_OK)
  else (s, .NS_ERROR_FAILURE)

/-- The block of `InstantiatePluginInstance` for "Plugin instantiation failed
or re-entered, killing old instance". -/
def killNewOwner (env : Env) (s : State) (newOwner : Option Nat) : State :=
  match newOwner with
  | some o =>
    let s₁ := s.emit (.ownerSetFrame o false)
    let s₂ := if env.ownerHasInstance then s₁.emit (.stopPluginInstance o) else s₁
    s₂.emit (.ownerDestroy o)
  | none => s

/-- `InstantiatePluginInstance(aIsLoading)` from `mInstanceOwner = newOwner`
to its end. -/
def wireNewOwner (env : Env) (s : State) (aIsLoading : Bool) (ownerId : Nat) : State :=
  let s₁ := { s with mInstanceOwner := some ownerId }
  let s₂ := if env.frameAfterSpawn then s₁.emit (.ownerSetFrame ownerId true) else s₁
  let s₃ := s₂.emit .notifyContentObjectWrapper
  let s₄ :=
    if env.ownerHasInstance
        && (env.blocklistServiceOk && decide (env.instanceBlocklistState = .STATE_OUTDATED)) then
      s₃.emit (.dispatchEvent "PluginOutdated")
    else s₃
  let s₅ :=
    if env.ownerHasInstance
        && ((s₄.mURI.isSome && !s₄.mChannelLoaded) || (s₄.mChannelLoaded && !aIsLoading)) then
      (OpenChannel env s₄).1
    else s₄
  s₅.emit (.dispatchEvent "PluginInstantiated")

/-- The body of `InstantiatePluginInstance(aIsLoading)` after
`mInstantiating = true`; the caller clears the flag again on every way out. -/
def InstantiatePluginInstance_body (env : Env) (s : State) (aIsLoading : Bool) :
    State × nsresult :=
  if !env.hasCurrentDoc || !env.inActiveDocument then (s, .NS_ERROR_FAILURE)
  else
    -- Flushing layout may have re-entered and loaded something underneath us
    let s₁ := env.reenter .flushLayout (s.emit .flushLayout)
    if !s₁.mInstantiating then (s₁, .NS_OK)
    else if !env.frameAfterFlush then (s₁, .NS_OK)
    else
      let ownerId := s₁.nextId
      let s₂ :=
        env.reenter .spawn
          (({ s₁ with nextId := s₁.nextId + 1 }).emit (.spawnPlugin s₁.mContentType))
      if !s₂.mInstantiating || !env.spawnOk then
        (killNewOwner env s₂
          (if env.spawnOk || env.spawnFailureLeavesOwner then some ownerId else none), .NS_OK)
      else (wireNewOwner env s₂ aIsLoading ownerId, .NS_OK)

/-- The method `InstantiatePluginInstance(aIsLoading)`. -/
def InstantiatePluginInstance (env : Env) (s : State) (aIsLoading : Bool) :
    State × nsresult :=
  if s.mInstanceOwner.isSome || decide (s.mType ≠ .eType_Plugin)
      || decide (s.mIsLoading ≠ aIsLoading) || s.mInstantiating then
    (s, .NS_OK)
  else
    let r := InstantiatePluginInstance_body env { s with mInstantiating := true } aIsLoading
    ({ r.1 with mInstantiating := false }, r.2)

/-! ## The lifecycle controller: `LoadObject` -/

/-- The arguments and locals of `LoadObject` that live across its blocks. -/
structure LoadCtx where
  aNotify : Bool
  aForceLoad : Bool
  aLoadingChannel : Option Nat
  oldState : EventStates
  oldType : ObjectType
  stateChange : ParameterUpdateFlags
  fallbackType : FallbackType
  deriving DecidableEq, Repr

/-- The loop of `LoadObject` over `mURI` and its inner URIs: true when it
sets `mType = eType_Null`. The scheme of a URI is tested only while the URI is
an `nsINestedURI`; a failing `SchemeIs` counts as view-source. -/
def blocksViewSource : URI → Bool
  | .simple _ _ _ => false
  | .nested _ scheme _ inner =>
    decide (scheme = none) || decide (scheme = some "view-source") || blocksViewSource inner

/-- The end of `LoadObject`: `if (NS_FAILED(rv) && mIsLoading)`, unload and
fall back with a notification. -/
def LoadObject_failure (env : Env) (s : State) (ctx : LoadCtx) (rv : nsresult) : State :=
  if rv.failed && s.mIsLoading then
    let s₁ := UnloadObject env { s with mType := .eType_Null } false
    if !s₁.mIsLoading then s₁
    else LoadFallback env (CloseChannel env s₁) ctx.fallbackType true
  else s

/-- The call `mFinalListener->OnStartRequest(aRequest, nullptr)`. With a null
`mFinalListener` the source dereferences a null pointer; the embedding
answers with a failure then. -/
def finalListenerOnStart (env : Env) (s : State) (aRequest : Option Nat) : State × nsresult :=
  match s.mFinalListener with
  | some l =>
    (env.reenter .listenerStart (s.emit (.listenerOnStart l aRequest)),
      if env.listenerOnStartOk l then .NS_OK else .NS_ERROR_FAILURE)
  | none => (s, .NS_ERROR_FAILURE)

/-- `LoadObject` after the final notification: the plugin spawn and the
final listener that were put off. -/
def LoadObject_deferred (env : Env) (s : State) (ctx : LoadCtx) (doSpawnPlugin : Bool)
    (finalListener : Option Listener) : State :=
  if doSpawnPlugin then
    let r := InstantiatePluginInstance env s true
    if !r.1.mIsLoading then r.1
    else if ctx.aLoadingChannel.isSome && !r.2.failed then
      let m := MakePluginListener env r.1
      if m.2 then
        let o := finalListenerOnStart env m.1 m.1.channelId
        if o.2.failed then
          -- Plugins can reject their initial stream, but continue to run.
          let s₂ := CloseChannel env o.1
          if !s₂.mIsLoading then s₂ else LoadObject_failure env s₂ ctx .NS_OK
        else LoadObject_failure env o.1 ctx o.2
      else LoadObject_failure env m.1 ctx r.2
    else LoadObject_failure env r.1 ctx r.2
  else if finalListener.isSome then
    let o := finalListenerOnStart env { s with mFinalListener := finalListener } s.channelId
    LoadObject_failure env o.1 ctx o.2
  else LoadObject_failure env s ctx .NS_OK

/-- `LoadObject` from "Loaded, handle notifications and fallback" on: the
switch has left `rv`, `finalListener`, `doSpawnPlugin` and possibly new values
of `oldType` and `oldState`. -/
def LoadObject_notify (env : Env) (s : State) (ctx : LoadCtx) (rv : nsresult)
    (finalListener : Option Listener) (doSpawnPlugin : Bool) : State :=
  let s₁ := if rv.failed then { s with mType := .eType_Null } else s
  let s₂ :=
    if s₁.mType = .eType_Null then
      LoadFallback env (if s₁.mChannel.isSome then CloseChannel env s₁ else s₁)
        ctx.fallbackType false
    else s₁
  let fallen : Bool := decide (s₁.mType = .eType_Null)
  -- Notify of our final state
  let s₃ := NotifyStateChanged env s₂ ctx.oldType ctx.oldState false ctx.aNotify .notifyFinal
  if !s₃.mIsLoading then s₃
  else
    LoadObject_deferred env s₃ ctx (doSpawnPlugin && !fallen)
      (if fallen then none else finalListener)

/-- The case `eType_Document` of the switch of `LoadObject`. -/
def LoadObject_document (env : Env) (s : State) (ctx : LoadCtx) : State :=
  match s.mChannel with
  | none => LoadObject_notify env { s with mType := .eType_Null } ctx .NS_OK none false
  | some chan =>
    if !env.frameLoaderCreateOk then
      LoadObject_notify env { s with mType := .eType_Null } ctx .NS_OK none false
    else
      let s₁ :=
        ({ s with mFrameLoader := some s.nextId, nextId := s.nextId + 1 }).emit
          (.frameLoaderCreate s.nextId)
      if !env.checkForRecursiveLoadOk s₁.mURI then
        LoadObject_notify env
          { s₁.emit (.frameLoaderDestroy s.nextId) with
              mFrameLoader := none, mType := .eType_Null }
          ctx .NS_ERROR_FAILURE none false
      else
        -- We're loading a document, so we have to set LOAD_DOCUMENT_URI
        let s₂ := { s₁ with mChannel := some { chan with documentURIFlag := true } }
        if !env.getDocShellOk then
          LoadObject_notify env { s₂ with mType := .eType_Null } ctx .NS_ERROR_FAILURE none false
        else if !env.uriLoaderServiceOk then
          LoadObject_notify env { s₂ with mType := .eType_Null } ctx .NS_ERROR_FAILURE none false
        else
          let s₃ := s₂.emit (.uriLoaderOpenChannel chan.id)
          if env.uriLoaderOpenChannelOk then
            LoadObject_notify env s₃ ctx .NS_OK (some (.document chan.id)) false
          else LoadObject_notify env s₃ ctx .NS_ERROR_FAILURE none false

/-- The switch "Attempt to load new type" of `LoadObject`. -/
def LoadObject_dispatch (env : Env) (s : State) (ctx : LoadCtx) : State :=
  match s.mType with
  | .eType_Image =>
    match s.mChannel with
    | none => LoadObject_notify env s ctx .NS_ERROR_UNEXPECTED none false
    | some chan =>
      let s₁ := s.emit (.loadImageWithChannel chan.id)
      if env.loadImageWithChannelOk then
        LoadObject_notify env s₁ ctx .NS_OK (some (.image chan.id)) false
      else LoadObject_notify env s₁ ctx .NS_ERROR_FAILURE none false
  | .eType_Plugin =>
    if s.mChannel.isSome then
      -- Force a sync state change now, we need the frame created
      let s₁ := NotifyStateChanged env s ctx.oldType ctx.oldState true ctx.aNotify .notifySync
      let ctx₁ := { ctx with oldType := s₁.mType, oldState := ObjectState env s₁ }
      if !env.frameAfterNotify then
        LoadObject_notify env (CloseChannel env s₁) ctx₁ .NS_OK none false
      else LoadObject_notify env s₁ ctx₁ .NS_OK none true
    else
      let r := AsyncStartPluginInstance env s
      LoadObject_notify env r.1 ctx r.2 none false
  | .eType_Document => LoadObject_document env s ctx
  | .eType_Loading =>
    -- If our type remains Loading, we need a channel to proceed
    let r := OpenChannel env s
    LoadObject_notify env r.1 ctx r.2 none false
  | .eType_Null => LoadObject_notify env s ctx .NS_OK none false

/-- The sanity checks of `LoadObject` before the switch on the final type
(two `NS_NOTREACHED` returns), and the switch. -/
def LoadObject_sanity (env : Env) (s : State) (ctx : LoadCtx) : State :=
  -- Sanity check: no loaded resources, pending events, or final listener
  if s.mFrameLoader.isSome || s.mPendingInstantiateEvent.isSome || s.mInstanceOwner.isSome
      || s.mPendingCheckPluginStopEvent.isSome || s.mFinalListener.isSome then s
  else if decide (s.mType ≠ .eType_Null) && (s.mChannel.isSome != s.mChannelLoaded) then s
  else LoadObject_dispatch env s ctx

/-- The state of `LoadObject` after the `ShouldPlay` gate and the activation
line. `ShouldPlay` gets an unset `clickToPlayReason`; it writes the variable on
every path that returns false. -/
def LoadObject_played (env : Env) (s : State) : State :=
  -- If we're a plugin but shouldn't start yet, load fallback
  let gated : Bool :=
    !s.mActivated && (decide (s.mType = .eType_Null) || decide (s.mType = .eType_Plugin))
  let play := ShouldPlay env.play s .eFallbackAlternate false
  let s₂ :=
    if gated then
      if !play.play then { s with mType := .eType_Null, log := s.log ++ play.effects }
      else { s with log := s.log ++ play.effects }
    else s
  if !s₂.mActivated && decide (s₂.mType = .eType_Plugin) then { s₂ with mActivated := true }
  else s₂

/-- The `fallbackType` local of `LoadObject` after the `ShouldPlay` gate. -/
def LoadObject_playedCtx (env : Env) (s : State) (ctx : LoadCtx) : LoadCtx :=
  let gated : Bool :=
    !s.mActivated && (decide (s.mType = .eType_Null) || decide (s.mType = .eType_Plugin))
  let play := ShouldPlay env.play s .eFallbackAlternate false
  if gated && !play.play then { ctx with fallbackType := play.reason } else ctx

/-- `LoadObject` from the `ShouldPlay` gate on. -/
def LoadObject_play (env : Env) (s : State) (ctx : LoadCtx) : State :=
  LoadObject_sanity env (LoadObject_played env s) (LoadObject_playedCtx env s ctx)

/-- The block "Don't allow view-source scheme" of `LoadObject`, and what
follows it. -/
def LoadObject_gate (env : Env) (s : State) (ctx : LoadCtx) : State :=
  if decide (s.mType ≠ .eType_Null)
      && (match s.mURI with
          | some uri => blocksViewSource uri
          | none => false) then
    LoadObject_play env { s with mType := .eType_Null } ctx
  else LoadObject_play env s ctx

/-- The three policy calls of the block "Security checks" of `LoadObject`:
the state, `allowLoad` and `contentPolicy` after them. -/
def LoadObject_policy (env : Env) (s : State) : State × Bool × ContentPolicy :=
  let j : State × Bool :=
    if env.isJavaMIMEType s.mContentType then CheckJavaCodebase env s else (s, true)
  -- If mChannelLoaded is set we presumably already passed load policy
  let l : State × Bool × ContentPolicy :=
    if j.2 && j.1.mURI.isSome && !j.1.mChannelLoaded then CheckLoadPolicy env j.1 .ACCEPT
    else (j.1, j.2, .ACCEPT)
  -- If we're loading a type now, check ProcessPolicy
  if l.2.1 && decide (l.1.mType ≠ .eType_Loading) then CheckProcessPolicy env l.1 l.2.2
  else l

/-- The block "Security checks" of `LoadObject`, and what follows it. -/
def LoadObject_security (env : Env) (s : State) (ctx : LoadCtx) : State :=
  if s.mType ≠ .eType_Null then
    let p := LoadObject_policy env s
    -- Content policy implementations can mutate the DOM, check for re-entry
    if !p.1.mIsLoading then p.1
    else if !p.2.1 then
      LoadObject_gate env { p.1 with mType := .eType_Null }
        { ctx with fallbackType :=
            if p.2.2 = .REJECT_TYPE then .eFallbackUserDisabled else .eFallbackSuppressed }
    else LoadObject_gate env p.1 ctx
  else LoadObject_gate env s ctx

/-- How a block of `LoadObject` ends: the method has returned, or control
goes on to the next block. -/
inductive Outcome
  | returned (s : State)
  | goesOn (s : State)
  deriving DecidableEq, Repr

/-- The state at the end of a block. -/
def Outcome.state : Outcome → State
  | .returned s => s
  | .goesOn s => s

/-- `LoadObject` from `UnloadObject(false)` to the end of "Determine what's
going on with our channel". -/
def LoadObject_channel (env : Env) (s : State) (ctx : LoadCtx) : Outcome :=
  let s₁ := UnloadObject env s false
  if !s₁.mIsLoading then .returned s₁
  else if ctx.stateChange.eParamChannelChanged then
    .goesOn { CloseChannel env s₁ with mChannelLoaded := false }
  else if decide (s₁.mType = .eType_Null) && s₁.mChannel.isSome then
    .goesOn (CloseChannel env s₁)
  else if decide (s₁.mType = .eType_Loading) && s₁.mChannel.isSome then .returned s₁
  else if s₁.mChannelLoaded && decide (s₁.channelId ≠ ctx.aLoadingChannel) then .returned s₁
  else .goesOn s₁

/-- `LoadObject` from `UnloadObject(false)` to its end. -/
def LoadObject_unload (env : Env) (s : State) (ctx : LoadCtx) : State :=
  match LoadObject_channel env s ctx with
  | .returned s₁ => s₁
  | .goesOn s₁ => LoadObject_security env s₁ ctx

/-- `LoadObject` up to the point where `mIsLoading` is set: the guards, the
forced close, `UpdateObjectParameters` and the no-change return. The result
is the state and, when the load goes on, the locals. -/
def LoadObject_entry (env : Env) (s : State) (aNotify aForceLoad : Bool)
    (aLoadingChannel : Option Nat) : State × Option LoadCtx :=
  if !env.inActiveDocument then (s, none)
  else if env.isBeingUsedAsImage || env.isLoadedAsData then (s, none)
  else
    let s₁ :=
      if aForceLoad && s.mChannelLoaded then { CloseChannel env s with mChannelLoaded := false }
      else s
    -- Save these for NotifyStateChanged();
    let oldState := ObjectState env s₁
    let oldType := s₁.mType
    let u := UpdateObjectParameters env s₁ false
    if !u.2.any && !aForceLoad then (u.1, none)
    else
      let fallbackType : FallbackType :=
        if u.1.mType = .eType_Null ∧ GetTypeOfContent env u.1.mContentType = .eType_Null then
          .eFallbackUnsupported
        else .eFallbackAlternate
      let s₂ :=
        if u.1.mActivated && u.2.eParamContentTypeChanged then { u.1 with mActivated := false }
        else u.1
      (s₂, some ⟨aNotify, aForceLoad, aLoadingChannel, oldState, oldType, u.2, fallbackType⟩)

/-- The method `LoadObject(aNotify, aForceLoad, aLoadingChannel)`. The guard
object `AutoSetLoadingToFalse` clears `mIsLoading` on every way out after the
flag has been set. -/
def LoadObject (env : Env) (s : State) (aNotify aForceLoad : Bool)
    (aLoadingChannel : Option Nat) : State × nsresult :=
  if !env.inActiveDocument then (s, .NS_ERROR_UNEXPECTED)
  else
    match LoadObject_entry env s aNotify aForceLoad aLoadingChannel with
    | (s₁, none) => (s₁, .NS_OK)
    | (s₁, some ctx) =>
      ({ LoadObject_unload env { s₁ with mIsLoading := true } ctx with mIsLoading := false },
        .NS_OK)

/-! ## Channel callbacks and plugin events -/

/-- The method `InitializeFromChannel(aChannel)`. -/
def InitializeFromChannel (env : Env) (s : State) (aChannel : Channel) : State × nsresult :=
  if decide (s.mType ≠ .eType_Loading) || s.mChannel.isSome then (s, .NS_ERROR_UNEXPECTED)
  else
    let u := UpdateObjectParameters env s false
    -- But we always want to load from a channel, in this case.
    ({ u.1 with mType := .eType_Loading, mChannel := some aChannel }, .NS_OK)

/-- The method `OnStartRequest(aRequest, aContext)`; `aRequest` is the identity
of the request, `none` for a null pointer. -/
def OnStartRequest (env : Env) (s : State) (aRequest : Option Nat) : State × nsresult :=
  if decide (aRequest ≠ s.channelId) || aRequest.isNone then
    (s, .NS_BINDING_ABORTED)
  else if s.mType = .eType_Plugin then
    if s.mInstanceOwner.isNone then (s, .NS_BINDING_ABORTED)
    else
      let m := MakePluginListener env s
      if m.2 then finalListenerOnStart env m.1 aRequest else (m.1, .NS_BINDING_ABORTED)
  else if s.mType ≠ .eType_Loading then (s, .NS_BINDING_ABORTED)
  else
    let s₁ := { s with mChannelLoaded := true }
    let uri : Option URI :=
      match aRequest with
      | some id => if env.requestSuccessful id then env.channelGetURI id else none
      | none => none
    if uri.isNone then
      ((LoadObject env { s₁ with mChannel := none } true false none).1, .NS_ERROR_FAILURE)
    else LoadObject env s₁ true false aRequest

/-- The method `OnStopRequest(aRequest, aContext, aStatusCode)`. -/
def OnStopRequest (env : Env) (s : State) (callerIsChrome : Bool) (aRequest : Option Nat)
    (aStatusCode : nsresult) : State × nsresult :=
  if !callerIsChrome then (s, .NS_ERROR_NOT_AVAILABLE)
  else if aRequest ≠ s.channelId then (s, .NS_BINDING_ABORTED)
  else
    let s₁ := { s with mChannel := none }
    match s₁.mFinalListener with
    | some l =>
      (env.reenter .listenerStop
          (({ s₁ with mFinalListener := none }).emit
            (.listenerOnStop l (aRequest.getD 0) aStatusCode)), .NS_OK)
    | none => (s₁, .NS_OK)

/-- The method `AsyncOnChannelRedirect(aOldChannel, aNewChannel, aFlags, cb)`. -/
def AsyncOnChannelRedirect (s : State) (aOldChannel : Option Nat)
    (aNewChannel : Option Channel) : State × nsresult :=
  if s.mChannel.isNone || decide (aOldChannel ≠ s.channelId) then
    (s, .NS_BINDING_ABORTED)
  else (({ s with mChannel := aNewChannel }).emit (.redirectVerifyCallback .NS_OK), .NS_OK)

/-- The method `PluginDestroyed`. Without an instance owner the source
dereferences a null pointer; the embedding makes no call on the owner then. -/
def PluginDestroyed (s : State) : State × nsresult :=
  let s₁ := s.emit .teardownProtoChain
  let s₂ :=
    match s₁.mInstanceOwner with
    | some owner => s₁.emit (.ownerDestroy owner)
    | none => s₁
  ({ s₂ with mInstanceOwner := none }, .NS_OK)

/-- The method `PluginCrashed(aPluginTag, pluginDumpID, browserDumpID,
submittedCrashReport)`; the name and file name are read from the tag. -/
def PluginCrashed (env : Env) (s : State) (pluginName pluginFilename : String)
    (pluginDumpID browserDumpID : String) (submittedCrashReport : Bool) : State × nsresult :=
  let s₁ := (PluginDestroyed s).1
  -- Switch to fallback/crashed state, notify
  let s₂ := LoadFallback env s₁ .eFallbackCrashed true
  let s₃ :=
    if env.dispatchOk then
      s₂.emit (.postPluginCrashedEvent pluginDumpID browserDumpID pluginName pluginFilename
        submittedCrashReport)
    else s₂
  (s₃, .NS_OK)

/-! ## Deferred tasks and activation by the user -/

/-- The method `SyncStartPluginInstance`; it calls `InstantiatePluginInstance`
with the default `aIsLoading = false`. -/
def SyncStartPluginInstance (env : Env) (s : State) : State × nsresult :=
  if !env.inActiveDocument then (s, .NS_ERROR_FAILURE)
  else InstantiatePluginInstance env s false

/-- The method `nsAsyncInstantiateEvent::Run`; `task` is the identity of the
event that runs (`this`). -/
def nsAsyncInstantiateEvent.Run (env : Env) (s : State) (task : Nat) : State × nsresult :=
  -- If objLC is no longer tracking this event, we've been canceled or superseded
  if s.mPendingInstantiateEvent ≠ some task then (s, .NS_OK)
  else SyncStartPluginInstance env { s with mPendingInstantiateEvent := none }

/-- The method `CheckPluginStopEvent::Run`; `task` is the identity of the
event that runs (`this`) and `hasFrame` what `GetPrimaryFrame()` answers before
the layout flush. `UnloadObject()` is called with its default `aResetState =
true`. -/
def CheckPluginStopEvent.Run (env : Env) (s : State) (task : Nat) (hasFrame : Bool) :
    State × nsresult :=
  if s.mPendingCheckPluginStopEvent ≠ some task then (s, .NS_OK)
  else if !env.inActiveDocument then (UnloadObject env s true, .NS_OK)
  else if !hasFrame then
    if env.hasCurrentDoc then
      let s₁ := env.reenter .flushLayout (s.emit .flushLayout)
      if s₁.mPendingCheckPluginStopEvent ≠ some task then (s₁, .NS_OK)
      else if env.frameAfterFlush then ({ s₁ with mPendingCheckPluginStopEvent := none }, .NS_OK)
      else
        -- Still no frame, suspend plugin
        ({ StopPluginInstance env s₁ with mPendingCheckPluginStopEvent := none }, .NS_OK)
    else ({ StopPluginInstance env s with mPendingCheckPluginStopEvent := none }, .NS_OK)
  else ({ s with mPendingCheckPluginStopEvent := none }, .NS_OK)

/-- The method `PlayPlugin`. `callerIsChrome` is `IsCallerChrome()`;
`atLeastClickToPlay` is the comparison `mFallbackType >= eFallbackClickToPlay`,
which depends on the values of the enumeration in the header. -/
def PlayPlugin (env : Env) (s : State) (callerIsChrome : Bool)
    (atLeastClickToPlay : FallbackType → Bool) : State × nsresult :=
  if !callerIsChrome then (s, .NS_OK)
  else
    let s₁ := if !s.mActivated then { s with mActivated := true } else s
    -- If we're in a click-to-play or play preview state, we need to reload
    if decide (s₁.mType = .eType_Null) && atLeastClickToPlay s₁.mFallbackType then
      LoadObject env s₁ true true none
    else (s₁, .NS_OK)

/-- The method `CancelPlayPreview`. `callerIsChrome` is `IsCallerChrome()`. -/
def CancelPlayPreview (env : Env) (s : State) (callerIsChrome : Bool) : State × nsresult :=
  if !callerIsChrome then (s, .NS_ERROR_NOT_AVAILABLE)
  else
    let s₁ := { s with mPlayPreviewCanceled := true }
    -- If we're in play preview state already, reload
    if decide (s₁.mType = .eType_Null) && decide (s₁.mFallbackType = .eFallbackPlayPreview) then
      LoadObject env s₁ true true none
    else (s₁, .NS_OK)

/-! ## Runs without nested entries, and what a log shows -/

/-- No service call comes back into the object. -/
def Env.quiet (env : Env) : Prop :=
  ∀ (site : Site) (s : State), env.reenter site s = s

/-- The entry of a log is a channel successfully opened. -/
def Effect.isChannelOpen : Effect → Bool
  | .channelOpen _ => true
  | _ => false

/-- The entry of a log is an asynchronous instantiation task being posted. -/
def Effect.isPostInstantiate : Effect → Bool
  | .postInstantiateEvent _ => true
  | _ => false

/-- The entry of a log is a plugin being spawned. -/
def Effect.isSpawn : Effect → Bool
  | .spawnPlugin _ => true
  | _ => false

/-- The entry of a log is a notification that reaches the document: a content
state change or a frame rebuild. -/
def Effect.isStateNotification : Effect → Bool
  | .contentStateChanged _ => true
  | .recreateFrames => true
  | _ => false

/-! ## Views of a state -/

/-- The members that nothing in `LoadObject` after `UpdateObjectParameters`
writes when no nested entry happens. -/
structure Params where
  mBaseURI : Option URI
  mOriginalContentType : String
  mOriginalURI : Option URI
  mURI : Option URI
  mContentType : String
  mIsLoading : Bool
  mPlayPreviewCanceled : Bool

/-- The resolved parameters of a state. -/
def State.params (s : State) : Params :=
  ⟨s.mBaseURI, s.mOriginalContentType, s.mOriginalURI, s.mURI, s.mContentType, s.mIsLoading,
    s.mPlayPreviewCanceled⟩

/-- The number of channels opened so far. -/
def State.opens (s : State) : Nat :=
  s.log.countP Effect.isChannelOpen

/-- The entry of a log is an `OnStartRequest` delivered to a final listener. -/
def Effect.isListenerOnStart : Effect → Bool
  | .listenerOnStart _ _ => true
  | _ => false

/-- The entry of a log is one of the three policy calls of `LoadObject`. -/
def Effect.isPolicyCheck : Effect → Bool
  | .checkJavaCodebase => true
  | .checkLoadPolicy => true
  | .checkProcessPolicy _ => true
  | _ => false

/-- The number of policy calls made so far. -/
def State.policyChecks (s : State) : Nat :=
  s.log.countP Effect.isPolicyCheck

/-- The number of `Cancel` calls made so far on the channel `id`. -/
def State.cancels (s : State) (id : Nat) : Nat :=
  s.log.countP (fun e => decide (e = .channelCancel id))

/-- The `Cancel` calls on the channel `id` in a log, and one more while the
channel is still held. -/
def cancelsDueOf (log : List Effect) (chan : Option Channel) (id : Nat) : Nat :=
  log.countP (fun e => decide (e = .channelCancel id))
    + if chan.map Channel.id = some id then 1 else 0

/-- The `Cancel` calls on the channel `id` made so far, and one more while the
channel is still held in `mChannel`. -/
def State.cancelsDue (s : State) (id : Nat) : Nat :=
  cancelsDueOf s.log s.mChannel id

/-- The type of a state and what is loaded into it: the frame loader and the
instance owner. -/
structure Res where
  ty : ObjectType
  fl : Option Nat
  io : Option Nat
  deriving DecidableEq, Repr

/-- The type, frame loader and instance owner of a state. -/
def State.res (s : State) : Res :=
  ⟨s.mType, s.mFrameLoader, s.mInstanceOwner⟩

/-- An instance owner is held only with `eType_Plugin`, a frame loader only
with `eType_Document` or `eType_Null`. -/
def Res.ok (r : Res) : Prop :=
  (r.io.isSome = true → r.ty = .eType_Plugin)
  ∧ (r.fl.isSome = true → r.ty = .eType_Document ∨ r.ty = .eType_Null)

/-- Nothing is loaded: no frame loader and no instance owner. -/
def Res.bare (r : Res) : Prop :=
  r.fl = none ∧ r.io = none

/-- What `LoadObject` holds when it comes to its notifications: no instance
owner yet, and a frame loader only with `eType_Document` or `eType_Null`. -/
def Res.loaded (r : Res) : Prop :=
  r.io = none ∧ (r.fl.isSome = true → r.ty = .eType_Document ∨ r.ty = .eType_Null)

/-- The states that the public entry points reach from a new object when no
call enters the object again from inside: `LoadObject`, the channel callbacks,
`InitializeFromChannel`, `InstantiatePluginInstance`, `StopPluginInstance`,
`PluginCrashed` and `UnloadObject`, each with any arguments and on any page. -/
inductive Reachable : State → Prop
  | init : Reachable State.init
  | loadObject (env : Env) (hq : env.quiet) (s : State) (aNotify aForceLoad : Bool)
      (aLoadingChannel : Option Nat) :
      Reachable s → Reachable (LoadObject env s aNotify aForceLoad aLoadingChannel).1
  | initializeFromChannel (env : Env) (s : State) (aChannel : Channel) :
      Reachable s → Reachable (InitializeFromChannel env s aChannel).1
  | onStartRequest (env : Env) (hq : env.quiet) (s : State) (aRequest : Option Nat) :
      Reachable s → Reachable (OnStartRequest env s aRequest).1
  | onStopRequest (env : Env) (hq : env.quiet) (s : State) (callerIsChrome : Bool)
      (aRequest : Option Nat) (aStatusCode : nsresult) :
      Reachable s → Reachable (OnStopRequest env s callerIsChrome aRequest aStatusCode).1
  | asyncOnChannelRedirect (s : State) (aOldChannel : Option Nat)
      (aNewChannel : Option Channel) :
      Reachable s → Reachable (AsyncOnChannelRedirect s aOldChannel aNewChannel).1
  | instantiatePluginInstance (env : Env) (hq : env.quiet) (s : State) (aIsLoading : Bool) :
      Reachable s → Reachable (InstantiatePluginInstance env s aIsLoading).1
  | stopPluginInstance (env : Env) (hq : env.quiet) (s : State) :
      Reachable s → Reachable (StopPluginInstance env s)
  | pluginCrashed (env : Env) (hq : env.quiet) (s : State) (pluginName pluginFilename : String)
      (pluginDumpID browserDumpID : String) (submittedCrashReport : Bool) :
      Reachable s →
      Reachable (PluginCrashed env s pluginName pluginFilename pluginDumpID browserDumpID
        submittedCrashReport).1
  | unloadObject (env : Env) (hq : env.quiet) (s : State) (aResetState : Bool) :
      Reachable s → Reachable (UnloadObject env s aResetState)

/-- The URI, or one of the URIs nested in it, has the scheme `view-source`.
A view-source URI is always an `nsINestedURI` (the remark of the source), so
the innermost URI of a chain, which is not nested, is not one. -/
def viewSourceInChain : URI → Bool
  | .simple _ _ _ => false
  | .nested _ scheme _ inner => decide (scheme = some "view-source") || viewSourceInChain inner

/-! ## The precedence of the final kind, in the words of the spec -/

/-- The precedence of the spec for the final kind: invalid state gives Null;
else a channel loaded for this pass gives the kind of the channel-informed
type; else a module type hint with the skip-channel capability gives
ExternalModule; else a URI gives Loading; else Null. -/
def specFinalKind (stateInvalid channelLoaded : Bool) (channelKind : ObjectType)
    (hintIsModule skipChannel uriPresent : Bool) : ObjectType :=
  if stateInvalid then .eType_Null
  else if channelLoaded then channelKind
  else if hintIsModule && skipChannel then .eType_Plugin
  else if uriPresent then .eType_Loading
  else .eType_Null

/-- The same precedence with the third rule as the source has it: a module
type hint gives ExternalModule when the skip-channel capability is set or no
URI is present. -/
def amendedFinalKind (stateInvalid channelLoaded : Bool) (channelKind : ObjectType)
    (hintIsModule skipChannel uriPresent : Bool) : ObjectType :=
  if stateInvalid then .eType_Null
  else if channelLoaded then channelKind
  else if hintIsModule && (skipChannel || !uriPresent) then .eType_Plugin
  else if uriPresent then .eType_Loading
  else .eType_Null

/-- The entry of a log is a crash notification being queued. -/
def Effect.isCrashEvent : Effect → Bool
  | .postPluginCrashedEvent _ _ _ _ _ => true
  | _ => false

/-! ## The channel-type override, in the words of the spec -/

/-- The channel-type override of the spec, for a channel newly loaded for
this pass. `channelType` is the channel's content type and `binary` tells that
it is a binary type; `hint` is the type hint and `hintKind` its kind;
`moduleByExtension` is the module found by the extension of the URI. The
result is the content type chosen, `none` for the invalid state. (1) with the
mandatory type-match attribute the state is invalid unless the type attribute
equals the channel's type case-insensitively, and on a match the channel type
is used; (2) a module type hint replaces the channel type; (3) with the
skip-channel capability a module found by extension replaces it; (4) for a
binary channel type a hint that is neither Null nor Document replaces it, else
a module found by extension replaces it; (5) the channel type is used, and a
Java channel type makes the state invalid. -/
def specChannelType (typeMustMatch : Bool) (typeAttr channelType : String) (binary : Bool)
    (hint : String) (hintKind : ObjectType) (skipChannel : Bool)
    (moduleByExtension : Option String) (isJava : String → Bool) : Option String :=
  if typeMustMatch then
    if asciiLower typeAttr = asciiLower channelType then some channelType else none
  else if hintKind = .eType_Plugin then some hint
  else if skipChannel = true ∧ moduleByExtension.isSome = true then moduleByExtension
  else if binary = true ∧ hintKind ≠ .eType_Null ∧ hintKind ≠ .eType_Document then some hint
  else if binary = true ∧ moduleByExtension.isSome = true then moduleByExtension
  else if isJava channelType = true then none
  else some channelType

/-- The same override with the first rule as the source has it: the type
attribute, lower-cased, is compared with the channel's type as it is, and on a
match the channel type is used as in the last rule, a Java channel type making
the state invalid. -/
def amendedChannelType (typeMustMatch : Bool) (typeAttr channelType : String) (binary : Bool)
    (hint : String) (hintKind : ObjectType) (skipChannel : Bool)
    (moduleByExtension : Option String) (isJava : String → Bool) : Option String :=
  if typeMustMatch then
    if asciiLower typeAttr = channelType then
      if isJava channelType = true then none else some channelType
    else none
  else if hintKind = .eType_Plugin then some hint
  else if skipChannel = true ∧ moduleByExtension.isSome = true then moduleByExtension
  else if binary = true ∧ hintKind ≠ .eType_Null ∧ hintKind ≠ .eType_Document then some hint
  else if binary = true ∧ moduleByExtension.isSome = true then moduleByExtension
  else if isJava channelType = true then none
  else some channelType

/-- What the block of `UpdateObjectParameters` for a new channel chooses: the
content type, `none` when it leaves `stateInvalid` set. -/
def ChannelResolved.chosen (c : ChannelResolved) : Option String :=
  if c.stateInvalid then none else some c.newMime

/-! ## Sample inputs -/

/-- A play-gate environment for one plugin type: a normal page with a window
and a permission manager, answering the given enabled state, blocklist state
and stored permission for every type; no play preview is registered. -/
def samplePlayEnv (st : PluginState) (bl : BlocklistState) (perm : PermissionAction) :
    PlayEnv :=
  { playPreviewInfo := fun _ => none
    stateForType := fun _ => some st
    blocklistStateForType := fun _ => some bl
    hasWindow := true
    getTopOk := true
    getTopDocumentOk := true
    permissionManagerOk := true
    topIsSystemPrincipal := false
    permissionStringForType := fun _ => some "plugin:test"
    testPermissionFromPrincipal := fun _ => some perm
    now := 1000000000
    sSessionTimeoutMinutes := 60
    sPersistentTimeoutDays := 90 }

/-- A target resolved to a plugin of type `application/x-test`. -/
def samplePluginState : State :=
  { State.init with mType := .eType_Plugin, mContentType := "application/x-test" }

/-- The URI `view-source:http://evil/`, nested around `http://evil/`. -/
def viewSourceURI : URI :=
  .nested "view-source:http://evil/" (some "view-source") none
    (.simple "http://evil/" (some "http") (some ""))

/-- An `<object>` element without attributes or children. -/
def sampleElement : Element :=
  { tag := .object, isHTML := true, typeAttr := "", classid := "", codebase := none,
    data := "", src := "", typemustmatch := false, params := [], children := [] }

/-- A page in an active document where every service succeeds and no nested
entry happens: `image/png` is a supported image, `text/html` a supported
document, `application/x-test` an enabled plugin (extension `tst`); a channel
reports the type `image/png`; the string `bad` does not parse as a URI and
`view-source:http://evil/` parses to `viewSourceURI`. -/
def sampleEnv : Env :=
  { element := sampleElement
    caps := GetCapabilities
    play := samplePlayEnv .STATE_ENABLED .STATE_NOT_BLOCKED .UNKNOWN_ACTION
    inActiveDocument := true
    isBeingUsedAsImage := false
    isLoadedAsData := false
    isStaticDocument := false
    hasCurrentDoc := true
    hasShell := true
    frameAfterNotify := true
    frameAfterFlush := true
    frameAfterSpawn := true
    javaMIME := "application/x-java-vm"
    isJavaMIMEType := fun m => decide (m = "application/x-java-vm")
    pluginExistsForType := fun m =>
      decide (m = "application/x-test") || decide (m = "application/x-java-vm")
    pluginTypeForExtension := fun e => if e = "tst" then some "application/x-test" else none
    isSupportedImage := fun m => decide (m = "image/png")
    webNavInfoOk := true
    isTypeSupported := fun m =>
      some (if m = "text/html" then .OTHER
            else if m = "application/x-test" then .PLUGIN else .UNSUPPORTED)
    canConvert := fun _ => some (some false)
    svgEnabled := true
    docBaseURI := some (.simple "http://example.org/" (some "http") (some ""))
    newURI := fun str _ =>
      if str = "bad" then none
      else if str = "view-source:http://evil/" then some viewSourceURI
      else some (.simple str (some "http") none)
    parseContentType := fun m => m
    imageState := EventStates.empty
    pluginsBlockedEnv := none
    checkLoadURIWithPrincipal := fun _ => true
    principalGetURIOk := true
    uriIsLocalFile := fun _ => false
    strictFileOriginPolicy := true
    relaxStrictFileOriginPolicy := fun _ => false
    contentLoadPolicy := fun _ _ => some .ACCEPT
    contentProcessPolicy := fun _ _ _ => some .ACCEPT
    ioServiceOk := true
    protocolHandler := fun _ => some false
    getCspOk := true
    newChannelOk := fun _ => true
    asyncOpenOk := fun _ => true
    channelContentType := fun _ => some "image/png"
    channelFinalURI := fun u => some u
    requestSuccessful := fun _ => true
    channelGetURI := fun _ => some (.simple "http://example.org/a" (some "http") none)
    loadImageWithChannelOk := true
    frameLoaderCreateOk := true
    checkForRecursiveLoadOk := fun _ => true
    getDocShellOk := true
    uriLoaderServiceOk := true
    uriLoaderOpenChannelOk := true
    dispatchOk := true
    spawnOk := true
    spawnFailureLeavesOwner := false
    ownerHasInstance := true
    ownerGetInstanceOk := true
    newPluginStreamListenerOk := true
    blocklistServiceOk := true
    instanceBlocklistState := .STATE_NOT_BLOCKED
    listenerOnStartOk := fun _ => true
    xpWin := false
    xpWinOrX11 := true
    instanceMIMEType := some "application/x-test"
    matchesNoDelayName := false
    reenter := fun _ s => s }

/-- The sample page as a full-page plugin document: `<embed
type="application/x-test" src="movie">` with the skip-channel capability, the
channel reporting the plugin type. -/
def pluginDocumentEnv : Env :=
  { sampleEnv with
      element := { sampleElement with tag := .embed, typeAttr := "application/x-test",
                                      src := "movie" }
      caps := { GetCapabilities with eAllowPluginSkipChannel := true }
      channelContentType := fun _ => some "application/x-test" }

/-- The channel that a plugin document hands to `InitializeFromChannel`. -/
def pluginDocumentChannel : Channel :=
  { id := 7, contentType := some "application/x-test",
    finalURI := some (.simple "movie" (some "http") none), documentURIFlag := false }

/-- The state of the plugin document's element when its channel starts:
`InitializeFromChannel` has run and `OnStartRequest` has set `mChannelLoaded`
and is about to call `LoadObject(true, false, aRequest)`. -/
def pluginDocumentStart : State :=
  { (InitializeFromChannel pluginDocumentEnv State.init pluginDocumentChannel).1 with
      mChannelLoaded := true }

/-- The state that this call of `LoadObject` leaves. -/
def pluginDocumentLoaded : State :=
  (LoadObject pluginDocumentEnv pluginDocumentStart true false (some 7)).1

/-- The sample page with `<object type="application/x-test"
data="view-source:http://evil/">`. -/
def viewSourceEnv : Env :=
  { sampleEnv with
    element :=
      { sampleElement with
        typeAttr := "application/x-test", data := "view-source:http://evil/" } }

/-- The locals of the first `LoadObject(true, false)` on the page
`viewSourceEnv`. -/
def viewSourceCtx : LoadCtx :=
  { aNotify := true, aForceLoad := false, aLoadingChannel := none,
    oldState := ObjectState viewSourceEnv State.init, oldType := .eType_Loading,
    stateChange := (UpdateObjectParameters viewSourceEnv State.init false).2,
    fallbackType := .eFallbackAlternate }

/-- The sample page with `<object type="image/png" data="http://x/a.png">`. -/
def imageObjectEnv : Env :=
  { sampleEnv with
    element := { sampleElement with typeAttr := "image/png", data := "http://x/a.png" } }

/-- The page `imageObjectEnv` after a script has set `data` to
`http://x/b.png`. -/
def movedImageEnv : Env :=
  { sampleEnv with
    element := { sampleElement with typeAttr := "image/png", data := "http://x/b.png" } }

/-- The channel that the first load on the page `imageObjectEnv` opens. -/
def imageChannel : Channel :=
  { id := 0, contentType := some "image/png",
    finalURI := some (.simple "http://x/a.png" (some "http") none), documentURIFlag := false }

/-- The state that the first `LoadObject(true, false)` leaves on the page
`imageObjectEnv`: waiting for the channel. -/
def imageLoading : State :=
  (LoadObject imageObjectEnv State.init true false none).1

/-- The sample page with `<object classid="clsid:1"
type="application/x-test">`, the element supporting classid as the HTML object
element does. -/
def classidObjectEnv : Env :=
  { sampleEnv with
    caps := { GetCapabilities with eSupportClassID := true }
    element := { sampleElement with typeAttr := "application/x-test", classid := "clsid:1" } }

/-- The page `imageObjectEnv` with a server that answers `text/html`. -/
def htmlBehindImageEnv : Env :=
  { imageObjectEnv with channelContentType := fun _ => some "text/html" }

/-- The sample page with `<object data="http://x/a.html">` and a server that
answers `text/html`. -/
def documentObjectEnv : Env :=
  { sampleEnv with
    element := { sampleElement with data := "http://x/a.html" }
    channelContentType := fun _ => some "text/html" }

/-- The state on the page `documentObjectEnv` after the first `LoadObject` and
the `OnStartRequest` of the channel it opened. -/
def documentLoaded : State :=
  (OnStartRequest documentObjectEnv
    (LoadObject documentObjectEnv State.init true false none).1 (some 0)).1

/-- The page `documentObjectEnv` with a URI loader that refuses the channel. -/
def refusedDocumentEnv : Env :=
  { documentObjectEnv with uriLoaderOpenChannelOk := false }

/-- The sample page with `<object type="application/x-test"
data="http://x/movie.tst">` and a server that answers with the plugin's type:
the plugin is loaded with a channel. -/
def streamedPluginEnv : Env :=
  { sampleEnv with
    element :=
      { sampleElement with typeAttr := "application/x-test", data := "http://x/movie.tst" }
    channelContentType := fun _ => some "application/x-test" }

/-- The page `streamedPluginEnv` after a script has removed `data` and set
`type` to a type that nothing handles. -/
def retargetedEnv : Env :=
  { sampleEnv with element := { sampleElement with typeAttr := "application/x-unknown" } }

/-- The page `streamedPluginEnv` with a script that runs during the
synchronous state change of `LoadObject` (the frame construction it forces):
the script retargets the element, which runs `LoadObject` again, to its end,
from inside the notification. -/
def reenteredPluginEnv : Env :=
  { streamedPluginEnv with
    reenter := fun site s =>
      match site with
      | .notifySync => (LoadObject retargetedEnv s true false none).1
      | _ => s }

/-- The state that the first `LoadObject` leaves on the page
`streamedPluginEnv`: waiting for the channel. -/
def streamedPluginWaiting : State :=
  (LoadObject streamedPluginEnv State.init true false none).1

/-- The locals of the `LoadObject` that `OnStartRequest` calls on
`streamedPluginWaiting`. -/
def streamedPluginCtx : LoadCtx :=
  { aNotify := true, aForceLoad := false, aLoadingChannel := some 0,
    oldState := { EventStates.empty with loading := true }, oldType := .eType_Loading,
    stateChange := ⟨false, true, true⟩, fallbackType := .eFallbackAlternate }

/-- The state in which that `LoadObject` reaches its switch: `eType_Plugin`
with the loaded channel. -/
def streamedPluginAtSwitch : State :=
  LoadObject_played streamedPluginEnv
    (LoadObject_policy streamedPluginEnv
      (LoadObject_channel streamedPluginEnv
        { (LoadObject_entry streamedPluginEnv
            { streamedPluginWaiting with mChannelLoaded := true } true false (some 0)).1 with
          mIsLoading := true } streamedPluginCtx).state).1

/-- The state that the synchronous notification of the switch hands to the
document, and so to the script. -/
def syncNotifyState : State :=
  NotifyStateChanged streamedPluginEnv streamedPluginAtSwitch .eType_Loading
    { EventStates.empty with loading := true } true true .notifySync

/-- The state that the nested `LoadObject` of the script leaves. -/
def nestedLoaded : State :=
  (LoadObject retargetedEnv syncNotifyState true false none).1

/-- The sample page with `<object type="application/x-test">`: a plugin type
and no URI attribute. -/
def pluginObjectEnv : Env :=
  { sampleEnv with element := { sampleElement with typeAttr := "application/x-test" } }

/-- The play-gate environment `samplePlayEnv` with a play preview registered
for every type; `ignoreCTP` is what `GetIgnoreCTP` answers. -/
def previewPlayEnv (ignoreCTP : Bool) (st : PluginState) (bl : BlocklistState)
    (perm : PermissionAction) : PlayEnv :=
  { samplePlayEnv st bl perm with playPreviewInfo := fun _ => some ignoreCTP }

/-- The session expiry in the words of the spec: now plus the session window
of so many minutes, as an exact millisecond timestamp. -/
def specSessionExpiry (nowms minutes : Nat) : Nat :=
  nowms + minutes * 60 * 1000

/-- The persistent expiry in the words of the spec: now plus the persistent
window of so many days, as an exact millisecond timestamp. -/
def specPersistentExpiry (nowms days : Nat) : Nat :=
  nowms + days * 24 * 60 * 60 * 1000

/-- An enabled plugin on a site with stored permission Allow, with the clock
at `now` microseconds and the two preferences set as given. -/
def clockPlayEnv (now minutes days : Nat) : PlayEnv :=
  { samplePlayEnv .STATE_ENABLED .STATE_NOT_BLOCKED .ALLOW_ACTION with
    now := now, sSessionTimeoutMinutes := minutes, sPersistentTimeoutDays := days }

/-- The sample page with `<object data="http://x/a">`, no `type`, and a content
policy that rejects the load of every URI (not by type). -/
def blockedObjectEnv : Env :=
  { sampleEnv with
    element := { sampleElement with data := "http://x/a" }
    contentLoadPolicy := fun _ _ => some .REJECT_REQUEST }

/-- The locals of the first `LoadObject(true, false)` on the page
`blockedObjectEnv`. -/
def blockedObjectCtx : LoadCtx :=
  { aNotify := true, aForceLoad := false, aLoadingChannel := none,
    oldState := ObjectState blockedObjectEnv State.init, oldType := .eType_Loading,
    stateChange := (UpdateObjectParameters blockedObjectEnv State.init false).2,
    fallbackType := .eFallbackAlternate }

/-- The sample page with `<embed type="application/x-test" src="movie">`, the
element having the skip-channel capability as the HTML embed element does, and
a content policy that rejects the load by type. -/
def blockedPluginEnv : Env :=
  { pluginDocumentEnv with contentLoadPolicy := fun _ _ => some .REJECT_TYPE }

/-- The locals of the first `LoadObject(true, false)` on the page
`blockedPluginEnv`. -/
def blockedPluginCtx : LoadCtx :=
  { aNotify := true, aForceLoad := false, aLoadingChannel := none,
    oldState := ObjectState blockedPluginEnv State.init, oldType := .eType_Loading,
    stateChange := (UpdateObjectParameters blockedPluginEnv State.init false).2,
    fallbackType := .eFallbackAlternate }

/-- The sample page with `<applet>` holding one significant child that is not
a `<param>`. -/
def appletWithChildEnv : Env :=
  { sampleEnv with
    element := { sampleElement with tag := .applet, children := [⟨false, true⟩] } }

/-- The sample page with `<object>` holding one significant child that is not
a `<param>`. -/
def objectWithChildEnv : Env :=
  { sampleEnv with element := { sampleElement with children := [⟨false, true⟩] } }

/-- The sample page with a script that calls `CloseChannel` again from inside
every call that leaves the object. -/
def closingAgainEnv : Env :=
  { sampleEnv with reenter := fun _ s => CloseChannel sampleEnv s }

/-- The page `streamedPluginEnv` with a plugin host whose spawn call fails and
leaves a partially created instance owner behind. -/
def spawnFailsEnv : Env :=
  { streamedPluginEnv with spawnOk := false, spawnFailureLeavesOwner := true }

/-- The state that `OnStartRequest` of the channel leaves on the page
`spawnFailsEnv`: its `LoadObject` has tried to spawn the plugin. -/
def spawnFailed : State :=
  (OnStartRequest spawnFailsEnv streamedPluginWaiting (some 0)).1

/-- The state that `OnStartRequest` of the channel leaves on the page
`streamedPluginEnv`: the plugin runs, with its instance owner and the stream
listener on the channel. -/
def streamedPluginRunning : State :=
  (OnStartRequest streamedPluginEnv streamedPluginWaiting (some 0)).1

/-- The page `imageObjectEnv` in a static document (a print or print-preview
clone). -/
def staticDocumentEnv : Env :=
  { imageObjectEnv with isStaticDocument := true }

/-- The play-gate environment `samplePlayEnv` on a page whose top-level
principal is the system principal. -/
def systemPlayEnv (st : PluginState) (bl : BlocklistState) (perm : PermissionAction) :
    PlayEnv :=
  { samplePlayEnv st bl perm with topIsSystemPrincipal := true }

/-- The sample page with `<object typemustmatch type="application/x-java-vm">`. -/
def javaMustMatchEnv : Env :=
  { sampleEnv with
    element := { sampleElement with typeAttr := "application/x-java-vm", typemustmatch := true } }

/-- A channel that reports the Java type. -/
def javaChannel : Channel :=
  { id := 0, contentType := some "application/x-java-vm",
    finalURI := some (.simple "http://x/a.class" (some "http") none), documentURIFlag := false }

/-- The sample page with `<object typemustmatch type="image/png"
data="http://x/a.png">`. -/
def imageMustMatchEnv : Env :=
  { sampleEnv with
    element := { sampleElement with typeAttr := "image/png", data := "http://x/a.png",
                                    typemustmatch := true } }

/-- A channel that reports its type with capitals, `Image/PNG`. -/
def capitalsChannel : Channel :=
  { imageChannel with contentType := some "Image/PNG" }

/-- The plugin state `samplePluginState`, activated, on the page
`pluginObjectEnv` after a first load: the parameters are those of the page. -/
def activatedPlugin : State :=
  (LoadObject pluginObjectEnv State.init true false none).1

/-- The locals of a forced `LoadObject(true, true)` on `activatedPlugin`: the
resolver reports no change. -/
def activatedPluginCtx : LoadCtx :=
  { aNotify := true, aForceLoad := true, aLoadingChannel := none,
    oldState := ObjectState pluginObjectEnv activatedPlugin, oldType := .eType_Plugin,
    stateChange := eParamNoChange, fallbackType := .eFallbackAlternate }

/-- The page `pluginObjectEnv` with a plugin that has been disabled and
blocklisted since, on a site whose stored permission is Deny. -/
def deniedPluginEnv : Env :=
  { pluginObjectEnv with play := samplePlayEnv .STATE_DISABLED .STATE_BLOCKED .DENY_ACTION }

/-! ## Runs without nested entries: what every block leaves alone -/

/-- A quiet environment returns from every site with the state it got. -/
theorem Env.quiet.eq {env : Env} (hq : env.quiet) (site : Site) (s : State) :
    env.reenter site s = s :=
  hq site s

@[simp] theorem params_mk (a1 : ObjectType) (a2 : FallbackType) (a3 a4 a5 a6 a7 a8 a9 a10 : Bool)
    (a11 a12 : String) (a13 a14 a15 : Option URI) (a16 : Option Channel)
    (a17 : Option Listener) (a18 a19 a20 a21 : Option Nat) (a22 : Nat) (a23 : List Effect) :
    (State.mk a1 a2 a3 a4 a5 a6 a7 a8 a9 a10 a11 a12 a13 a14 a15 a16 a17 a18 a19 a20 a21 a22
      a23).params = ⟨a15, a12, a14, a13, a11, a9, a7⟩ :=
  rfl

@[simp] theorem params_eta (s : State) :
    (⟨s.mBaseURI, s.mOriginalContentType, s.mOriginalURI, s.mURI, s.mContentType, s.mIsLoading,
      s.mPlayPreviewCanceled⟩ : Params) = s.params :=
  rfl

@[simp] theorem params_emit (s : State) (e : Effect) : (s.emit e).params = s.params :=
  rfl

@[simp] theorem params_ite (c : Prop) [Decidable c] (a b : State) :
    (if c then a else b).params = if c then a.params else b.params :=
  apply_ite _ _ _ _

@[simp] theorem fst_ite {α β : Type} (c : Prop) [Decidable c] (a b : α × β) :
    (if c then a else b).1 = if c then a.1 else b.1 :=
  apply_ite _ _ _ _

@[simp] theorem opens_mk (a1 : ObjectType) (a2 : FallbackType) (a3 a4 a5 a6 a7 a8 a9 a10 : Bool)
    (a11 a12 : String) (a13 a14 a15 : Option URI) (a16 : Option Channel)
    (a17 : Option Listener) (a18 a19 a20 a21 : Option Nat) (a22 : Nat) (a23 : List Effect) :
    (State.mk a1 a2 a3 a4 a5 a6 a7 a8 a9 a10 a11 a12 a13 a14 a15 a16 a17 a18 a19 a20 a21 a22
      a23).opens = a23.countP Effect.isChannelOpen :=
  rfl

@[simp] theorem opens_eta (s : State) : s.log.countP Effect.isChannelOpen = s.opens :=
  rfl

@[simp] theorem opens_emit (s : State) (e : Effect) :
    (s.emit e).opens = s.opens + if e.isChannelOpen then 1 else 0 := by
  unfold State.opens State.emit
  cases h : e.isChannelOpen <;> simp [List.countP_append, List.countP_cons, h]

@[simp] theorem opens_ite (c : Prop) [Decidable c] (a b : State) :
    (if c then a else b).opens = if c then a.opens else b.opens :=
  apply_ite _ _ _ _

@[simp] theorem NotifyStateChanged_params {env : Env} (hq : env.quiet) (s : State)
    (ot : ObjectType) (os : EventStates) (sync notify : Bool) (site : Site) :
    (NotifyStateChanged env s ot os sync notify site).params = s.params := by
  unfold NotifyStateChanged
  simp [hq.eq]

@[simp] theorem NotifyStateChanged_opens {env : Env} (hq : env.quiet) (s : State)
    (ot : ObjectType) (os : EventStates) (sync notify : Bool) (site : Site) :
    (NotifyStateChanged env s ot os sync notify site).opens = s.opens := by
  unfold NotifyStateChanged
  simp [hq.eq, Effect.isChannelOpen]

@[simp] theorem CloseChannel_params {env : Env} (hq : env.quiet) (s : State) :
    (CloseChannel env s).params = s.params := by
  unfold CloseChannel
  simp only [hq.eq]
  split
  · rfl
  · split <;> simp

@[simp] theorem CloseChannel_opens {env : Env} (hq : env.quiet) (s : State) :
    (CloseChannel env s).opens = s.opens := by
  unfold CloseChannel
  simp only [hq.eq]
  split
  · rfl
  · split <;> simp [Effect.isChannelOpen]

@[simp] theorem OpenChannel_params (env : Env) (s : State) :
    (OpenChannel env s).1.params = s.params := by
  unfold OpenChannel
  dsimp only
  split
  · simp
  · simp

@[simp] theorem DoStopPlugin_params {env : Env} (hq : env.quiet) (s : State) (o : Nat)
    (d f : Bool) : (DoStopPlugin env s o d f).params = s.params := by
  unfold DoStopPlugin
  simp [hq.eq]

@[simp] theorem DoStopPlugin_opens {env : Env} (hq : env.quiet) (s : State) (o : Nat)
    (d f : Bool) : (DoStopPlugin env s o d f).opens = s.opens := by
  unfold DoStopPlugin
  simp [hq.eq, Effect.isChannelOpen]

@[simp] theorem StopPluginInstance_params {env : Env} (hq : env.quiet) (s : State) :
    (StopPluginInstance env s).params = s.params := by
  unfold StopPluginInstance
  dsimp only
  split_ifs <;> (try split) <;> simp [hq]

@[simp] theorem StopPluginInstance_opens {env : Env} (hq : env.quiet) (s : State) :
    (StopPluginInstance env s).opens = s.opens := by
  unfold StopPluginInstance
  dsimp only
  split_ifs <;> (try split) <;> simp [hq, Effect.isChannelOpen]

@[simp] theorem destroyFrameLoader_params (s : State) :
    (destroyFrameLoader s).params = s.params := by
  unfold destroyFrameLoader
  split <;> simp

@[simp] theorem destroyFrameLoader_opens (s : State) :
    (destroyFrameLoader s).opens = s.opens := by
  unfold destroyFrameLoader
  split <;> simp [Effect.isChannelOpen]

@[simp] theorem UnloadObject_params {env : Env} (hq : env.quiet) (s : State) :
    (UnloadObject env s false).params = s.params := by
  unfold UnloadObject
  simp [hq]

@[simp] theorem UnloadObject_opens {env : Env} (hq : env.quiet) (s : State) :
    (UnloadObject env s false).opens = s.opens := by
  unfold UnloadObject
  simp [hq, Effect.isChannelOpen]

@[simp] theorem LoadFallback_params {env : Env} (hq : env.quiet) (s : State) (ty : FallbackType)
    (notify : Bool) : (LoadFallback env s ty notify).params = s.params := by
  unfold LoadFallback
  simp [hq]

@[simp] theorem LoadFallback_opens {env : Env} (hq : env.quiet) (s : State) (ty : FallbackType)
    (notify : Bool) : (LoadFallback env s ty notify).opens = s.opens := by
  unfold LoadFallback
  simp [hq]

@[simp] theorem CheckJavaCodebase_params {env : Env} (hq : env.quiet) (s : State) :
    (CheckJavaCodebase env s).1.params = s.params := by
  unfold CheckJavaCodebase
  simp [hq.eq]

@[simp] theorem CheckJavaCodebase_opens {env : Env} (hq : env.quiet) (s : State) :
    (CheckJavaCodebase env s).1.opens = s.opens := by
  unfold CheckJavaCodebase
  simp [hq.eq, Effect.isChannelOpen]

@[simp] theorem CheckLoadPolicy_params {env : Env} (hq : env.quiet) (s : State)
    (cp : ContentPolicy) : (CheckLoadPolicy env s cp).1.params = s.params := by
  unfold CheckLoadPolicy
  split
  · rfl
  · split <;> simp [hq.eq]

@[simp] theorem CheckLoadPolicy_opens {env : Env} (hq : env.quiet) (s : State)
    (cp : ContentPolicy) : (CheckLoadPolicy env s cp).1.opens = s.opens := by
  unfold CheckLoadPolicy
  split
  · rfl
  · split <;> simp [hq.eq, Effect.isChannelOpen]

@[simp] theorem CheckProcessPolicy_params {env : Env} (hq : env.quiet) (s : State)
    (cp : ContentPolicy) : (CheckProcessPolicy env s cp).1.params = s.params := by
  unfold CheckProcessPolicy
  split
  · split <;> simp [hq.eq]
  · rfl

@[simp] theorem CheckProcessPolicy_opens {env : Env} (hq : env.quiet) (s : State)
    (cp : ContentPolicy) : (CheckProcessPolicy env s cp).1.opens = s.opens := by
  unfold CheckProcessPolicy
  split
  · split <;> simp [hq.eq, Effect.isChannelOpen]
  · rfl

@[simp] theorem MakePluginListener_params (env : Env) (s : State) :
    (MakePluginListener env s).1.params = s.params := by
  unfold MakePluginListener
  split <;> simp

@[simp] theorem MakePluginListener_opens (env : Env) (s : State) :
    (MakePluginListener env s).1.opens = s.opens := by
  unfold MakePluginListener
  split <;> simp

@[simp] theorem AsyncStartPluginInstance_params (env : Env) (s : State) :
    (AsyncStartPluginInstance env s).1.params = s.params := by
  unfold AsyncStartPluginInstance
  simp

@[simp] theorem AsyncStartPluginInstance_opens (env : Env) (s : State) :
    (AsyncStartPluginInstance env s).1.opens = s.opens := by
  unfold AsyncStartPluginInstance
  simp [Effect.isChannelOpen]

@[simp] theorem killNewOwner_params (env : Env) (s : State) (o : Option Nat) :
    (killNewOwner env s o).params = s.params := by
  unfold killNewOwner
  split <;> simp

@[simp] theorem wireNewOwner_params (env : Env) (s : State) (l : Bool) (o : Nat) :
    (wireNewOwner env s l o).params = s.params := by
  unfold wireNewOwner
  simp

@[simp] theorem InstantiatePluginInstance_body_params {env : Env} (hq : env.quiet) (s : State)
    (l : Bool) : (InstantiatePluginInstance_body env s l).1.params = s.params := by
  unfold InstantiatePluginInstance_body
  simp [hq.eq]

@[simp] theorem finalListenerOnStart_params {env : Env} (hq : env.quiet) (s : State)
    (r : Option Nat) : (finalListenerOnStart env s r).1.params = s.params := by
  unfold finalListenerOnStart
  split <;> simp [hq.eq]

@[simp] theorem finalListenerOnStart_opens {env : Env} (hq : env.quiet) (s : State)
    (r : Option Nat) : (finalListenerOnStart env s r).1.opens = s.opens := by
  unfold finalListenerOnStart
  split <;> simp [hq.eq, Effect.isChannelOpen]

@[simp] theorem InstantiatePluginInstance_params {env : Env} (hq : env.quiet) (s : State)
    (l : Bool) : (InstantiatePluginInstance env s l).1.params = s.params := by
  unfold InstantiatePluginInstance
  simp [hq]

@[simp] theorem LoadObject_failure_params {env : Env} (hq : env.quiet) (s : State)
    (ctx : LoadCtx) (rv : nsresult) : (LoadObject_failure env s ctx rv).params = s.params := by
  unfold LoadObject_failure
  simp [hq]

@[simp] theorem LoadObject_deferred_params {env : Env} (hq : env.quiet) (s : State)
    (ctx : LoadCtx) (d : Bool) (fl : Option Listener) :
    (LoadObject_deferred env s ctx d fl).params = s.params := by
  unfold LoadObject_deferred
  simp [hq]

@[simp] theorem LoadObject_notify_params {env : Env} (hq : env.quiet) (s : State)
    (ctx : LoadCtx) (rv : nsresult) (fl : Option Listener) (d : Bool) :
    (LoadObject_notify env s ctx rv fl d).params = s.params := by
  unfold LoadObject_notify
  simp [hq]

@[simp] theorem LoadObject_document_params {env : Env} (hq : env.quiet) (s : State)
    (ctx : LoadCtx) : (LoadObject_document env s ctx).params = s.params := by
  unfold LoadObject_document
  split <;> simp [hq]

@[simp] theorem LoadObject_dispatch_params {env : Env} (hq : env.quiet) (s : State)
    (ctx : LoadCtx) : (LoadObject_dispatch env s ctx).params = s.params := by
  unfold LoadObject_dispatch
  split
  · split <;> simp [hq]
  · simp [hq]
  · simp [hq]
  · simp [hq]
  · simp [hq]

@[simp] theorem LoadObject_sanity_params {env : Env} (hq : env.quiet) (s : State)
    (ctx : LoadCtx) : (LoadObject_sanity env s ctx).params = s.params := by
  unfold LoadObject_sanity
  simp [hq]

@[simp] theorem LoadObject_played_params (env : Env) (s : State) :
    (LoadObject_played env s).params = s.params := by
  unfold LoadObject_played
  simp

@[simp] theorem LoadObject_play_params {env : Env} (hq : env.quiet) (s : State)
    (ctx : LoadCtx) : (LoadObject_play env s ctx).params = s.params := by
  unfold LoadObject_play
  simp [hq]

@[simp] theorem LoadObject_gate_params {env : Env} (hq : env.quiet) (s : State)
    (ctx : LoadCtx) : (LoadObject_gate env s ctx).params = s.params := by
  unfold LoadObject_gate
  simp [hq]

@[simp] theorem LoadObject_policy_params {env : Env} (hq : env.quiet) (s : State) :
    (LoadObject_policy env s).1.params = s.params := by
  unfold LoadObject_policy
  simp [hq]

@[simp] theorem LoadObject_policy_opens {env : Env} (hq : env.quiet) (s : State) :
    (LoadObject_policy env s).1.opens = s.opens := by
  unfold LoadObject_policy
  simp [hq]

@[simp] theorem LoadObject_security_params {env : Env} (hq : env.quiet) (s : State)
    (ctx : LoadCtx) : (LoadObject_security env s ctx).params = s.params := by
  unfold LoadObject_security
  simp [hq]

/-! ## Theorems: the play gate -/

/-- C1, as stated, fails: a plugin type that is globally disabled and whose
blocklist state is Blocked, on a site with stored permission Allow, is refused
with reason Disabled, not Blocklisted. -/
theorem ShouldPlay_blocked_allow_disabled_counterexample :
    (samplePlayEnv .STATE_DISABLED .STATE_BLOCKED .ALLOW_ACTION).blocklistStateForType
        samplePluginState.mContentType = some .STATE_BLOCKED
    ∧ (samplePlayEnv .STATE_DISABLED .STATE_BLOCKED .ALLOW_ACTION).testPermissionFromPrincipal
        "plugin:test" = some .ALLOW_ACTION
    ∧ ShouldPlay (samplePlayEnv .STATE_DISABLED .STATE_BLOCKED .ALLOW_ACTION) samplePluginState
        .eFallbackAlternate false = ⟨false, .eFallbackDisabled, []⟩
    ∧ (ShouldPlay (samplePlayEnv .STATE_DISABLED .STATE_BLOCKED .ALLOW_ACTION) samplePluginState
        .eFallbackAlternate false).reason ≠ .eFallbackBlocklisted := by
  decide

/-- C1, amended: for a plugin kind (or `aIgnoreCurrentType`), with no
ignore-click-to-play preview in force and a plugin type that is not globally
disabled, a blocklist state Blocked makes `ShouldPlay` return false with reason
Blocklisted whatever the permission manager would answer (Allow included); the
permission manager is not called. -/
theorem ShouldPlay_blocked_not_overridable (pe : PlayEnv) (s : State) (aReason : FallbackType)
    (aIgnoreCurrentType : Bool) (st : PluginState)
    (hkind : aIgnoreCurrentType = true ∨ s.mType = .eType_Plugin)
    (hpreview : ¬ (pe.playPreviewInfo s.mContentType = some true ∧ s.mPlayPreviewCanceled = false))
    (henabled : pe.stateForType s.mContentType = some st)
    (hst : st ≠ .STATE_DISABLED)
    (hblocked : pe.blocklistStateForType s.mContentType = some .STATE_BLOCKED) :
    ShouldPlay pe s aReason aIgnoreCurrentType = ⟨false, .eFallbackBlocklisted, []⟩ := by
  have h1 : (Option.isSome (pe.playPreviewInfo s.mContentType)
      && !s.mPlayPreviewCanceled && (pe.playPreviewInfo s.mContentType).getD false) = false := by
    cases hp : pe.playPreviewInfo s.mContentType with
    | none => simp
    | some b =>
      cases b with
      | false => simp
      | true =>
        cases hc : s.mPlayPreviewCanceled with
        | true => simp
        | false => exact absurd ⟨hp, hc⟩ hpreview
  have h2 : (!aIgnoreCurrentType && decide (s.mType ≠ .eType_Plugin)) = false := by
    rcases hkind with h | h
    · simp [h]
    · simp [h]
  unfold ShouldPlay
  simp only [h1, h2, henabled, hblocked, Option.getD_some]
  simp [hst]

/-- Witness for C1 amended: an enabled plugin, Blocked, permission Allow. -/
theorem ShouldPlay_blocked_not_overridable_witness :
    ShouldPlay (samplePlayEnv .STATE_ENABLED .STATE_BLOCKED .ALLOW_ACTION) samplePluginState
      .eFallbackAlternate false = ⟨false, .eFallbackBlocklisted, []⟩ :=
  ShouldPlay_blocked_not_overridable _ _ _ _ .STATE_ENABLED (Or.inr rfl) (by decide) rfl
    (by decide) rfl

/-- C10: for a plugin kind (or `aIgnoreCurrentType`), with no
ignore-click-to-play preview in force, a globally disabled plugin type makes
`ShouldPlay` return false with reason Disabled for every blocklist state and
every stored permission, and the permission manager is not called. -/
theorem ShouldPlay_disabled_not_overridable (pe : PlayEnv) (s : State) (aReason : FallbackType)
    (aIgnoreCurrentType : Bool)
    (hkind : aIgnoreCurrentType = true ∨ s.mType = .eType_Plugin)
    (hpreview : ¬ (pe.playPreviewInfo s.mContentType = some true ∧ s.mPlayPreviewCanceled = false))
    (hdisabled : (pe.stateForType s.mContentType).getD .STATE_DISABLED = .STATE_DISABLED) :
    ShouldPlay pe s aReason aIgnoreCurrentType = ⟨false, .eFallbackDisabled, []⟩ := by
  have h1 : (Option.isSome (pe.playPreviewInfo s.mContentType)
      && !s.mPlayPreviewCanceled && (pe.playPreviewInfo s.mContentType).getD false) = false := by
    cases hp : pe.playPreviewInfo s.mContentType with
    | none => simp
    | some b =>
      cases b with
      | false => simp
      | true =>
        cases hc : s.mPlayPreviewCanceled with
        | true => simp
        | false => exact absurd ⟨hp, hc⟩ hpreview
  have h2 : (!aIgnoreCurrentType && decide (s.mType ≠ .eType_Plugin)) = false := by
    rcases hkind with h | h
    · simp [h]
    · simp [h]
  unfold ShouldPlay
  simp only [h1, h2, hdisabled]
  simp

/-- Witness for C10: a disabled plugin on a site with permission Allow. -/
theorem ShouldPlay_disabled_not_overridable_witness :
    ShouldPlay (samplePlayEnv .STATE_DISABLED .STATE_NOT_BLOCKED .ALLOW_ACTION) samplePluginState
      .eFallbackAlternate false = ⟨false, .eFallbackDisabled, []⟩ :=
  ShouldPlay_disabled_not_overridable _ _ _ _ (Or.inr rfl) (by decide) rfl

/-! ## Theorems: the type resolver -/

/-- `GetTypeOfContent` never answers `eType_Loading`. -/
theorem GetTypeOfContent_ne_loading (env : Env) (m : String) :
    GetTypeOfContent env m ≠ .eType_Loading := by
  unfold GetTypeOfContent
  dsimp only
  split_ifs <;> simp

/-- The block "Determine final type" follows the amended precedence. -/
theorem determineFinalType_kind (env : Env) (stateInvalid newChannel : Bool) (newMime : String)
    (newURI : Option URI) :
    (determineFinalType env stateInvalid newChannel newMime newURI).1 =
      amendedFinalKind stateInvalid newChannel (GetTypeOfContent env newMime)
        (decide (GetTypeOfContent env newMime = .eType_Plugin))
        env.caps.eAllowPluginSkipChannel newURI.isSome := by
  unfold determineFinalType amendedFinalKind
  cases stateInvalid <;> cases newChannel <;> cases newURI <;>
    cases env.caps.eAllowPluginSkipChannel <;>
    by_cases h : GetTypeOfContent env newMime = .eType_Plugin <;> simp [h]

/-- C9, as stated, fails: for `<object type="application/x-test">` without a
URI and without the skip-channel capability the resolver computes
ExternalModule, where the precedence of the claim gives Null. -/
theorem UpdateObjectParameters_specFinalKind_counterexample :
    (channelInformed pluginObjectEnv State.init (resolved pluginObjectEnv false)).stateInvalid
        = false
    ∧ (channelInformed pluginObjectEnv State.init (resolved pluginObjectEnv false)).newChannel
        = false
    ∧ GetTypeOfContent pluginObjectEnv
        (channelInformed pluginObjectEnv State.init (resolved pluginObjectEnv false)).newMime
        = .eType_Plugin
    ∧ pluginObjectEnv.caps.eAllowPluginSkipChannel = false
    ∧ (channelInformed pluginObjectEnv State.init (resolved pluginObjectEnv false)).newURI = none
    ∧ (UpdateObjectParameters pluginObjectEnv State.init false).1.mType = .eType_Plugin
    ∧ specFinalKind false false .eType_Plugin true false false = .eType_Null := by
  decide

/-- C9, amended: for every combination of the locals `stateInvalid`,
`newChannel`, `newMime` and `newURI` and of the capability
`eAllowPluginSkipChannel`, the kind that the block "Determine final type" of
`UpdateObjectParameters` computes is Null for an invalid state; else the kind of
the channel-informed type when a channel was loaded for this pass; else
ExternalModule when the type hint is a plugin type and the skip-channel
capability is set or no URI is present; else Loading when a URI is present;
else Null. It is the kind of the claim's precedence in every combination but
one: a valid state, no channel loaded for this pass, a plugin type hint, no
skip-channel capability and no URI. -/
theorem determineFinalType_precedence (env : Env) (stateInvalid newChannel : Bool)
    (newMime : String) (newURI : Option URI) :
    (determineFinalType env stateInvalid newChannel newMime newURI).1 =
      amendedFinalKind stateInvalid newChannel (GetTypeOfContent env newMime)
        (decide (GetTypeOfContent env newMime = .eType_Plugin))
        env.caps.eAllowPluginSkipChannel newURI.isSome
    ∧ ((determineFinalType env stateInvalid newChannel newMime newURI).1 =
        specFinalKind stateInvalid newChannel (GetTypeOfContent env newMime)
          (decide (GetTypeOfContent env newMime = .eType_Plugin))
          env.caps.eAllowPluginSkipChannel newURI.isSome
      ∨ (stateInvalid = false ∧ newChannel = false
          ∧ GetTypeOfContent env newMime = .eType_Plugin
          ∧ env.caps.eAllowPluginSkipChannel = false ∧ newURI = none)) := by
  refine ⟨determineFinalType_kind env stateInvalid newChannel newMime newURI, ?_⟩
  unfold determineFinalType specFinalKind
  cases stateInvalid <;> cases newChannel <;> cases newURI <;>
    cases env.caps.eAllowPluginSkipChannel <;>
    by_cases h : GetTypeOfContent env newMime = .eType_Plugin <;> simp [h]

/-- Unless a channel of an earlier load is still in use, the kind that
`UpdateObjectParameters` stores in `mType` is the kind that the block
"Determine final type" computes. -/
theorem UpdateObjectParameters_final_kind (env : Env) (s : State) (aJavaURI : Bool)
    (hchan : (channelInformed env s (resolved env aJavaURI)).useChannel = true →
      (channelInformed env s (resolved env aJavaURI)).newChannel = true) :
    (UpdateObjectParameters env s aJavaURI).1.mType =
      amendedFinalKind (channelInformed env s (resolved env aJavaURI)).stateInvalid
        (channelInformed env s (resolved env aJavaURI)).newChannel
        (GetTypeOfContent env (channelInformed env s (resolved env aJavaURI)).newMime)
        (decide (GetTypeOfContent env
          (channelInformed env s (resolved env aJavaURI)).newMime = .eType_Plugin))
        env.caps.eAllowPluginSkipChannel
        (channelInformed env s (resolved env aJavaURI)).newURI.isSome := by
  rw [← determineFinalType_kind]
  unfold UpdateObjectParameters updateFromResolved
  generalize channelInformed env s (resolved env aJavaURI) = ci at hchan ⊢
  have hne : (determineFinalType env ci.stateInvalid ci.newChannel ci.newMime ci.newURI).1
      ≠ .eType_Loading ∨ ci.useChannel = false := by
    cases hu : ci.useChannel with
    | false => exact Or.inr rfl
    | true =>
      left
      have hn := hchan hu
      unfold determineFinalType
      rw [hn]
      cases ci.stateInvalid with
      | true => simp
      | false => simpa using GetTypeOfContent_ne_loading env ci.newMime
  cases hu : ci.useChannel with
  | false => simp [hu]
  | true =>
    have hn := hchan hu
    rcases hne with hne | hne
    · rw [hn] at hne
      simp [hu, hn, hne]
    · rw [hu] at hne; cases hne

/-- The `<object>` with a plugin type and no URI, as an instance. -/
theorem UpdateObjectParameters_final_kind_witness :
    (UpdateObjectParameters pluginObjectEnv State.init false).1.mType =
      amendedFinalKind
        (channelInformed pluginObjectEnv State.init (resolved pluginObjectEnv false)).stateInvalid
        (channelInformed pluginObjectEnv State.init (resolved pluginObjectEnv false)).newChannel
        (GetTypeOfContent pluginObjectEnv
          (channelInformed pluginObjectEnv State.init (resolved pluginObjectEnv false)).newMime)
        (decide (GetTypeOfContent pluginObjectEnv
          (channelInformed pluginObjectEnv State.init
            (resolved pluginObjectEnv false)).newMime = .eType_Plugin))
        pluginObjectEnv.caps.eAllowPluginSkipChannel
        (channelInformed pluginObjectEnv State.init
          (resolved pluginObjectEnv false)).newURI.isSome :=
  UpdateObjectParameters_final_kind pluginObjectEnv State.init false (by decide)

theorem determineFinalType_newChannel_ne_loading (env : Env) (si : Bool) (m : String)
    (u : Option URI) : (determineFinalType env si true m u).1 ≠ .eType_Loading := by
  unfold determineFinalType
  cases si with
  | true => simp
  | false =>
    have := GetTypeOfContent_ne_loading env m
    simpa using this

theorem UpdateObjectParameters_mBaseURI (env : Env) (s : State) (j : Bool) :
    (UpdateObjectParameters env s j).1.mBaseURI = (resolved env j).newBaseURI := by
  unfold UpdateObjectParameters updateFromResolved URIEquals
  dsimp only
  split_ifs with h
  · rfl
  · simpa using h

/-- A pass of `UpdateObjectParameters` that reports no change leaves the
state as it was, but for `mBaseURI`, which is set to the resolved base. -/
theorem UpdateObjectParameters_noChange (env : Env) (s : State) (j : Bool)
    (hno : (UpdateObjectParameters env s j).2.any = false)
    (hbase : s.mBaseURI = (resolved env j).newBaseURI) :
    (UpdateObjectParameters env s j).1 = s := by
  unfold UpdateObjectParameters at hno ⊢
  generalize resolved env j = r at hno hbase ⊢
  have hnl := fun si m u => determineFinalType_newChannel_ne_loading env si m u
  unfold updateFromResolved channelInformed at hno ⊢
  rcases s with ⟨a1, a2, a3, a4, a5, a6, a7, a8, a9, a10, a11, a12, a13, a14, a15, a16, a17,
    a18, a19, a20, a21, a22, a23⟩
  simp only [ParameterUpdateFlags.any, URIEquals] at hno hbase ⊢
  subst hbase
  by_cases h1 : a12 = r.newMime <;> by_cases h2 : a14 = r.newURI <;> cases a3 <;>
    by_cases h3 : a1 = .eType_Loading <;> cases a16 <;>
    by_cases h4 : (determineFinalType env r.stateInvalid false r.newMime r.newURI).1
      = .eType_Loading <;>
    simp [h1, h2, h3, h4, hnl] at hno ⊢
  all_goals tauto

theorem LoadObject_channel_params {env : Env} (hq : env.quiet) (s : State) (ctx : LoadCtx) :
    (match LoadObject_channel env s ctx with
      | .returned t => t.params
      | .goesOn t => t.params) = s.params := by
  unfold LoadObject_channel
  simp only []
  split_ifs <;> simp [hq]

@[simp] theorem LoadObject_unload_params {env : Env} (hq : env.quiet) (s : State)
    (ctx : LoadCtx) : (LoadObject_unload env s ctx).params = s.params := by
  have h := LoadObject_channel_params hq s ctx
  unfold LoadObject_unload
  split <;> rename_i t ht <;> rw [ht] at h <;> simp [hq] at h ⊢ <;> exact h

theorem LoadObject_entry_mBaseURI (env : Env) (s : State) (n f : Bool) (c : Option Nat)
    (hdoc : env.inActiveDocument = true)
    (himg : (env.isBeingUsedAsImage || env.isLoadedAsData) = false) :
    (LoadObject_entry env s n f c).1.mBaseURI = (resolved env false).newBaseURI := by
  unfold LoadObject_entry
  simp only [hdoc, himg, Bool.not_true, Bool.false_eq_true, if_false]
  split_ifs <;> simp [UpdateObjectParameters_mBaseURI]

/-- After a call of `LoadObject` that got as far as the resolver, `mBaseURI` is
the resolved base URI. -/
theorem LoadObject_mBaseURI {env : Env} (hq : env.quiet) (s : State) (n f : Bool)
    (c : Option Nat) (hdoc : env.inActiveDocument = true)
    (himg : (env.isBeingUsedAsImage || env.isLoadedAsData) = false) :
    (LoadObject env s n f c).1.mBaseURI = (resolved env false).newBaseURI := by
  have he := LoadObject_entry_mBaseURI env s n f c hdoc himg
  unfold LoadObject
  rcases h : LoadObject_entry env s n f c with ⟨s₁, _ | ctx⟩
  · rw [h] at he
    simpa [hdoc] using he
  · rw [h] at he
    have hp := congrArg Params.mBaseURI
      (LoadObject_unload_params hq { s₁ with mIsLoading := true } ctx)
    simp [hdoc]
    exact hp.trans he

/-- C2, as stated, fails: the element of a full-page plugin document is left by
`LoadObject` with a running instance fed by the document's channel, the
channel marked as loaded, while the attributes alone resolve to `eType_Plugin`;
a second `LoadObject` with the same attributes and answers and no forced reload
finds that the plugin would load without a channel, stops the instance, cancels
the channel and posts a new instantiation. -/
theorem LoadObject_twice_counterexample :
    pluginDocumentLoaded.mType = .eType_Plugin
    ∧ pluginDocumentLoaded.mChannelLoaded = true
    ∧ (determineFinalType pluginDocumentEnv (resolved pluginDocumentEnv false).stateInvalid false
        (resolved pluginDocumentEnv false).newMime (resolved pluginDocumentEnv false).newURI).1
        = .eType_Plugin
    ∧ pluginDocumentLoaded.mInstanceOwner = some 0
    ∧ pluginDocumentLoaded.channelId = some 7
    ∧ (UpdateObjectParameters pluginDocumentEnv pluginDocumentLoaded false).2
        = ⟨true, false, false⟩
    ∧ (LoadObject pluginDocumentEnv pluginDocumentLoaded true false none).1.mInstanceOwner = none
    ∧ (LoadObject pluginDocumentEnv pluginDocumentLoaded true false none).1.mChannel = none
    ∧ (LoadObject pluginDocumentEnv pluginDocumentLoaded true false none).1.mPendingInstantiateEvent
        = some 1
    ∧ Effect.channelCancel 7
        ∈ (LoadObject pluginDocumentEnv pluginDocumentLoaded true false none).1.log := by
  decide

/-- Where the resolver, run again on the state that a call of `LoadObject` has
left, reports no change, a further `LoadObject` without forced reload leaves
the state exactly as it is, the log included. -/
theorem LoadObject_twice_noChange {env : Env} (hq : env.quiet) (s : State)
    (aNotify aForceLoad : Bool) (aLoadingChannel : Option Nat) (aNotify₂ : Bool)
    (aLoadingChannel₂ : Option Nat)
    (hno : (UpdateObjectParameters env
      (LoadObject env s aNotify aForceLoad aLoadingChannel).1 false).2.any = false) :
    (LoadObject env (LoadObject env s aNotify aForceLoad aLoadingChannel).1 aNotify₂ false
      aLoadingChannel₂).1 = (LoadObject env s aNotify aForceLoad aLoadingChannel).1 := by
  by_cases hdoc : env.inActiveDocument = true
  · by_cases himg : (env.isBeingUsedAsImage || env.isLoadedAsData) = false
    · have hb := LoadObject_mBaseURI hq s aNotify aForceLoad aLoadingChannel hdoc himg
      generalize (LoadObject env s aNotify aForceLoad aLoadingChannel).1 = s₁ at hno hb ⊢
      have hu := UpdateObjectParameters_noChange env s₁ false hno hb
      unfold LoadObject LoadObject_entry
      simp [hdoc, himg, hno, hu]
    · have h1 : ∀ t n f c, LoadObject env t n f c = (t, .NS_OK) := by
        intro t n f c
        unfold LoadObject LoadObject_entry
        simp only [hdoc, Bool.not_true, Bool.false_eq_true, if_false]
        simp only [Bool.not_eq_false] at himg
        simp [himg]
      rw [h1, h1]
  · have h1 : ∀ t n f c, LoadObject env t n f c = (t, .NS_ERROR_UNEXPECTED) := by
      intro t n f c
      unfold LoadObject
      simp [hdoc]
    rw [h1, h1]

/-! ## Theorems: view-source -/

theorem viewSourceInChain_blocks (u : URI) (h : viewSourceInChain u = true) :
    blocksViewSource u = true := by
  induction u with
  | simple _ _ _ => simp [viewSourceInChain] at h
  | nested _ scheme _ inner ih =>
    simp only [viewSourceInChain, Bool.or_eq_true, decide_eq_true_eq] at h
    simp only [blocksViewSource, Bool.or_eq_true, decide_eq_true_eq]
    rcases h with h | h
    · exact Or.inl (Or.inr h)
    · exact Or.inr (ih h)

@[simp] theorem NotifyStateChanged_mType {env : Env} (hq : env.quiet) (s : State)
    (ot : ObjectType) (os : EventStates) (sync notify : Bool) (site : Site) :
    (NotifyStateChanged env s ot os sync notify site).mType = s.mType := by
  unfold NotifyStateChanged
  simp only [hq.eq]
  split_ifs <;> rfl

@[simp] theorem CloseChannel_mType {env : Env} (hq : env.quiet) (s : State) :
    (CloseChannel env s).mType = s.mType := by
  unfold CloseChannel
  simp only [hq.eq]
  split
  · rfl
  · split <;> rfl

@[simp] theorem LoadFallback_mType {env : Env} (hq : env.quiet) (s : State)
    (ty : FallbackType) (notify : Bool) :
    (LoadFallback env s ty notify).mType = .eType_Null := by
  unfold LoadFallback
  simp only []
  split_ifs <;> simp [hq]

theorem LoadObject_failure_ok (env : Env) (s : State) (ctx : LoadCtx) :
    LoadObject_failure env s ctx .NS_OK = s := by
  simp [LoadObject_failure, nsresult.failed]

theorem LoadObject_notify_null {env : Env} (hq : env.quiet) (s : State) (ctx : LoadCtx)
    (h : s.mType = .eType_Null) :
    (LoadObject_notify env s ctx .NS_OK none false).mType = .eType_Null
    ∧ (LoadObject_notify env s ctx .NS_OK none false).opens = s.opens := by
  unfold LoadObject_notify
  simp [hq, h, LoadObject_deferred, LoadObject_failure_ok, nsresult.failed]

theorem ShouldPlay_permission_count (p : Effect → Bool)
    (hp₁ : ∀ k, p (.testPermission k) = false)
    (hp₂ : ∀ k a b, p (.updateExpireTime k a b) = false)
    (pe : PlayEnv) (ct : String) (r : FallbackType)
    (st : PluginState) (bl : BlocklistState) :
    (ShouldPlay_permission pe ct r st bl).effects.countP p = 0 := by
  unfold ShouldPlay_permission
  cases pe.hasWindow <;> cases pe.getTopOk <;> cases pe.getTopDocumentOk <;>
    cases pe.permissionManagerOk <;> cases pe.topIsSystemPrincipal <;>
    simp only [Bool.not_true, Bool.not_false, Bool.false_eq_true, if_true, if_false] <;>
    try rfl
  · cases pe.permissionStringForType ct with
    | none => rfl
    | some key =>
      simp only []
      cases pe.testPermissionFromPrincipal key with
      | none => simp [hp₁]
      | some perm =>
        cases perm <;> cases st <;> simp only [] <;> split_ifs <;>
          simp [hp₁, hp₂]
  · cases st <;> simp only [] <;> split_ifs <;> rfl

/-- The calls that `ShouldPlay` makes are calls of the permission manager. -/
theorem ShouldPlay_effects_count (p : Effect → Bool)
    (hp₁ : ∀ k, p (.testPermission k) = false)
    (hp₂ : ∀ k a b, p (.updateExpireTime k a b) = false)
    (pe : PlayEnv) (s : State) (r : FallbackType) (i : Bool) :
    (ShouldPlay pe s r i).effects.countP p = 0 := by
  unfold ShouldPlay
  simp only []
  split_ifs <;> first
    | rfl
    | exact ShouldPlay_permission_count p hp₁ hp₂ _ _ _ _ _

theorem ShouldPlay_effects_opens (pe : PlayEnv) (s : State) (r : FallbackType) (i : Bool) :
    (ShouldPlay pe s r i).effects.countP Effect.isChannelOpen = 0 :=
  ShouldPlay_effects_count _ (fun _ => rfl) (fun _ _ _ => rfl) pe s r i

theorem LoadObject_dispatch_null (env : Env) (s : State) (ctx : LoadCtx)
    (h : s.mType = .eType_Null) :
    LoadObject_dispatch env s ctx = LoadObject_notify env s ctx .NS_OK none false := by
  unfold LoadObject_dispatch
  rw [h]

theorem LoadObject_null_end {env : Env} (hq : env.quiet) (s : State) (ctx : LoadCtx)
    (h : s.mType = .eType_Null) :
    (LoadObject_dispatch env s ctx).mType = .eType_Null
    ∧ (LoadObject_dispatch env s ctx).opens = s.opens := by
  rw [LoadObject_dispatch_null env s ctx h]
  exact LoadObject_notify_null hq s ctx h

theorem LoadObject_sanity_null {env : Env} (hq : env.quiet) (s : State) (ctx : LoadCtx)
    (h : s.mType = .eType_Null) :
    (LoadObject_sanity env s ctx).mType = .eType_Null
    ∧ (LoadObject_sanity env s ctx).opens = s.opens := by
  unfold LoadObject_sanity
  split_ifs
  · exact ⟨h, rfl⟩
  · exact ⟨h, rfl⟩
  · exact LoadObject_null_end hq s ctx h

theorem LoadObject_played_null (env : Env) (s : State) (h : s.mType = .eType_Null) :
    (LoadObject_played env s).mType = .eType_Null
    ∧ (LoadObject_played env s).opens = s.opens := by
  have hplay := ShouldPlay_effects_opens env.play s .eFallbackAlternate false
  unfold LoadObject_played
  generalize ShouldPlay env.play s .eFallbackAlternate false = p at hplay ⊢
  rcases p with ⟨play, reason, effects⟩
  simp only at hplay
  simp only [h]
  cases hact : s.mActivated <;> cases play <;>
    simp only [decide_True, Bool.not_true, Bool.not_false, Bool.true_and, Bool.false_and,
      Bool.true_or, Bool.false_eq_true, if_true, if_false, decide_False, Bool.and_false,
      reduceCtorEq, h, hact] <;>
    first
      | exact ⟨h, rfl⟩
      | exact ⟨trivial, by simp only [State.opens, List.countP_append, hplay, Nat.add_zero]⟩

theorem LoadObject_play_null {env : Env} (hq : env.quiet) (s : State) (ctx : LoadCtx)
    (h : s.mType = .eType_Null) :
    (LoadObject_play env s ctx).mType = .eType_Null
    ∧ (LoadObject_play env s ctx).opens = s.opens := by
  unfold LoadObject_play
  have h₁ := LoadObject_played_null env s h
  have h₂ := LoadObject_sanity_null hq _ (LoadObject_playedCtx env s ctx) h₁.1
  exact ⟨h₂.1, h₂.2.trans h₁.2⟩

theorem LoadObject_gate_viewSource {env : Env} (hq : env.quiet) (s : State) (ctx : LoadCtx)
    (u : URI) (hu : s.mURI = some u) (hb : blocksViewSource u = true) :
    (LoadObject_gate env s ctx).mType = .eType_Null
    ∧ (LoadObject_gate env s ctx).opens = s.opens := by
  unfold LoadObject_gate
  by_cases ht : s.mType = .eType_Null
  · simp only [ht, hu, hb, ne_eq, not_true_eq_false, decide_False, Bool.false_and,
      Bool.false_eq_true, if_false]
    exact LoadObject_play_null hq s ctx ht
  · simp only [ht, hu, hb, ne_eq, not_false_eq_true, decide_True, Bool.and_self, if_true]
    exact LoadObject_play_null hq _ ctx rfl

theorem binaryChannelType_opens (ty : String) (c : Channel) :
    (binaryChannelType ty c).2.2.2.countP Effect.isChannelOpen = 0 := by
  unfold binaryChannelType
  split_ifs <;> simp [Effect.isChannelOpen]

theorem resolveWithChannel_opens (env : Env) (r : Resolved) (c : Channel) :
    (resolveWithChannel env r c).log.countP Effect.isChannelOpen = 0 := by
  unfold resolveWithChannel
  simp only []
  split_ifs <;>
    simp only [List.countP_append, binaryChannelType_opens, List.countP_cons, List.countP_nil,
      Effect.isChannelOpen, Bool.false_eq_true, if_false]

theorem channelInformed_opens (env : Env) (s : State) (r : Resolved) :
    (channelInformed env s r).log.countP Effect.isChannelOpen = s.opens := by
  unfold channelInformed
  simp only []
  split_ifs
  · split
    · simp [List.countP_append, resolveWithChannel_opens]
    · simp
  · simp

@[simp] theorem UpdateObjectParameters_opens (env : Env) (s : State) (j : Bool) :
    (UpdateObjectParameters env s j).1.opens = s.opens := by
  unfold UpdateObjectParameters updateFromResolved
  simp [channelInformed_opens]

theorem LoadObject_gate_viewSource_of {env : Env} (hq : env.quiet) (s t : State)
    (ctx : LoadCtx) (u : URI) (hu : s.mURI = some u) (hb : blocksViewSource u = true)
    (hp : t.params = s.params) (ho : t.opens = s.opens) :
    (LoadObject_gate env t ctx).mType = .eType_Null
    ∧ (LoadObject_gate env t ctx).opens = s.opens := by
  have htu : t.mURI = some u := (congrArg Params.mURI hp).trans hu
  have h := LoadObject_gate_viewSource hq t ctx u htu hb
  exact ⟨h.1, h.2.trans ho⟩

theorem LoadObject_security_viewSource {env : Env} (hq : env.quiet) (s : State)
    (ctx : LoadCtx) (u : URI) (hu : s.mURI = some u) (hb : blocksViewSource u = true)
    (hl : s.mIsLoading = true) :
    (LoadObject_security env s ctx).mType = .eType_Null
    ∧ (LoadObject_security env s ctx).opens = s.opens := by
  have hpl : (LoadObject_policy env s).1.mIsLoading = true :=
    (congrArg Params.mIsLoading (LoadObject_policy_params hq s)).trans hl
  have hN : ∀ c : LoadCtx,
      (LoadObject_gate env { (LoadObject_policy env s).1 with mType := .eType_Null } c).mType
        = .eType_Null
      ∧ (LoadObject_gate env { (LoadObject_policy env s).1 with mType := .eType_Null } c).opens
        = s.opens :=
    fun c => LoadObject_gate_viewSource_of hq s _ c u hu hb (by simp [hq]) (by simp [hq])
  have hP := LoadObject_gate_viewSource_of hq s _ ctx u hu hb
    (LoadObject_policy_params hq s) (LoadObject_policy_opens hq s)
  unfold LoadObject_security
  by_cases h1 : s.mType = .eType_Null
  · rw [if_neg (not_not.mpr h1)]
    exact LoadObject_gate_viewSource hq s ctx u hu hb
  · rw [if_pos h1]
    simp only []
    rw [if_neg (by simp [hpl])]
    by_cases h2 : (!(LoadObject_policy env s).2.1) = true
    · rw [if_pos h2]
      exact hN _
    · rw [if_neg h2]
      exact hP

theorem LoadObject_channel_opens {env : Env} (hq : env.quiet) (s : State) (ctx : LoadCtx) :
    (match LoadObject_channel env s ctx with
      | .returned t => t.opens
      | .goesOn t => t.opens) = s.opens := by
  unfold LoadObject_channel
  simp only []
  split_ifs <;> simp [hq]

theorem LoadObject_entry_opens {env : Env} (hq : env.quiet) (s : State) (n f : Bool)
    (c : Option Nat) : (LoadObject_entry env s n f c).1.opens = s.opens := by
  unfold LoadObject_entry
  simp only []
  split_ifs <;> simp [hq]

/-- C3. View-source rejection: in a run without nested entries, when a call of
`LoadObject` gets as far as its security checks and the URI the resolver left in
`mURI` has the scheme view-source, or is a nested URI with a view-source URI
somewhere in its chain of inner URIs, the call ends with `mType` equal to
`eType_Null`, whatever type the resolver had chosen, and the log holds no more
opened channels than before the call. -/
theorem LoadObject_viewSource_rejected {env : Env} (hq : env.quiet) (s s₁ t : State)
    (ctx : LoadCtx) (aNotify aForceLoad : Bool) (aLoadingChannel : Option Nat) (u : URI)
    (hentry : LoadObject_entry env s aNotify aForceLoad aLoadingChannel = (s₁, some ctx))
    (hchan : LoadObject_channel env { s₁ with mIsLoading := true } ctx = .goesOn t)
    (huri : s₁.mURI = some u) (hvs : viewSourceInChain u = true) :
    (LoadObject env s aNotify aForceLoad aLoadingChannel).1.mType = .eType_Null
    ∧ (LoadObject env s aNotify aForceLoad aLoadingChannel).1.opens = s.opens
    ∧ (LoadObject env s aNotify aForceLoad aLoadingChannel).2 = .NS_OK := by
  have hb := viewSourceInChain_blocks u hvs
  have hdoc : env.inActiveDocument = true := by
    by_contra hd
    simp only [Bool.not_eq_true] at hd
    simp [LoadObject_entry, hd] at hentry
  have he := LoadObject_entry_opens hq s aNotify aForceLoad aLoadingChannel
  rw [hentry] at he
  have hcp := LoadObject_channel_params hq { s₁ with mIsLoading := true } ctx
  have hco := LoadObject_channel_opens hq { s₁ with mIsLoading := true } ctx
  rw [hchan] at hcp hco
  simp only [params_mk, opens_mk] at hcp hco
  have htu : t.mURI = some u := (congrArg Params.mURI hcp).trans huri
  have htl : t.mIsLoading = true := congrArg Params.mIsLoading hcp
  have hsec := LoadObject_security_viewSource hq t ctx u htu hb htl
  have hto : t.opens = s.opens := by
    rw [hco]
    simpa using he
  unfold LoadObject
  simp only [hdoc, hentry, Bool.not_true, Bool.false_eq_true, if_false, LoadObject_unload, hchan]
  exact ⟨hsec.1, by simpa using hsec.2.trans hto⟩

theorem LoadObject_viewSource_rejected_witness :
    (LoadObject viewSourceEnv State.init true false none).1.mType = .eType_Null
    ∧ (LoadObject viewSourceEnv State.init true false none).1.opens = State.init.opens
    ∧ (LoadObject viewSourceEnv State.init true false none).2 = .NS_OK :=
  LoadObject_viewSource_rejected (fun _ _ => rfl) State.init
    (LoadObject_entry viewSourceEnv State.init true false none).1
    (LoadObject_channel viewSourceEnv
      { (LoadObject_entry viewSourceEnv State.init true false none).1 with mIsLoading := true }
      viewSourceCtx).state
    viewSourceCtx true false none viewSourceURI (by decide) (by decide) (by decide) (by decide)

/-! ## The channel of an earlier load -/

@[simp] theorem policyChecks_mk (a1 : ObjectType) (a2 : FallbackType)
    (a3 a4 a5 a6 a7 a8 a9 a10 : Bool)
    (a11 a12 : String) (a13 a14 a15 : Option URI) (a16 : Option Channel)
    (a17 : Option Listener) (a18 a19 a20 a21 : Option Nat) (a22 : Nat) (a23 : List Effect) :
    (State.mk a1 a2 a3 a4 a5 a6 a7 a8 a9 a10 a11 a12 a13 a14 a15 a16 a17 a18 a19 a20 a21 a22
      a23).policyChecks = a23.countP Effect.isPolicyCheck :=
  rfl

@[simp] theorem policyChecks_eta (s : State) :
    s.log.countP Effect.isPolicyCheck = s.policyChecks :=
  rfl

@[simp] theorem policyChecks_emit (s : State) (e : Effect) :
    (s.emit e).policyChecks = s.policyChecks + if e.isPolicyCheck then 1 else 0 := by
  unfold State.policyChecks State.emit
  cases h : e.isPolicyCheck <;> simp [List.countP_append, List.countP_cons, h]

@[simp] theorem policyChecks_ite (c : Prop) [Decidable c] (a b : State) :
    (if c then a else b).policyChecks = if c then a.policyChecks else b.policyChecks :=
  apply_ite _ _ _ _

@[simp] theorem CloseChannel_policyChecks {env : Env} (hq : env.quiet) (s : State) :
    (CloseChannel env s).policyChecks = s.policyChecks := by
  unfold CloseChannel
  simp only [hq.eq]
  split
  · rfl
  · split <;> simp [Effect.isPolicyCheck]

@[simp] theorem DoStopPlugin_policyChecks {env : Env} (hq : env.quiet) (s : State) (o : Nat)
    (d f : Bool) : (DoStopPlugin env s o d f).policyChecks = s.policyChecks := by
  unfold DoStopPlugin
  simp [hq.eq, Effect.isPolicyCheck]

@[simp] theorem StopPluginInstance_policyChecks {env : Env} (hq : env.quiet) (s : State) :
    (StopPluginInstance env s).policyChecks = s.policyChecks := by
  unfold StopPluginInstance
  dsimp only
  split_ifs <;> (try split) <;> simp [hq, Effect.isPolicyCheck]

@[simp] theorem destroyFrameLoader_policyChecks (s : State) :
    (destroyFrameLoader s).policyChecks = s.policyChecks := by
  unfold destroyFrameLoader
  split <;> simp [Effect.isPolicyCheck]

@[simp] theorem UnloadObject_policyChecks {env : Env} (hq : env.quiet) (s : State) :
    (UnloadObject env s false).policyChecks = s.policyChecks := by
  unfold UnloadObject
  simp [hq, Effect.isPolicyCheck]

theorem binaryChannelType_policyChecks (ty : String) (c : Channel) :
    (binaryChannelType ty c).2.2.2.countP Effect.isPolicyCheck = 0 := by
  unfold binaryChannelType
  split_ifs <;> simp [Effect.isPolicyCheck]

theorem resolveWithChannel_policyChecks (env : Env) (r : Resolved) (c : Channel) :
    (resolveWithChannel env r c).log.countP Effect.isPolicyCheck = 0 := by
  unfold resolveWithChannel
  simp only []
  split_ifs <;>
    simp only [List.countP_append, binaryChannelType_policyChecks, List.countP_cons,
      List.countP_nil, Effect.isPolicyCheck, Bool.false_eq_true, if_false]

theorem channelInformed_policyChecks (env : Env) (s : State) (r : Resolved) :
    (channelInformed env s r).log.countP Effect.isPolicyCheck = s.policyChecks := by
  unfold channelInformed
  simp only []
  split_ifs
  · split
    · simp [List.countP_append, resolveWithChannel_policyChecks]
    · simp
  · simp

@[simp] theorem UpdateObjectParameters_policyChecks (env : Env) (s : State) (j : Bool) :
    (UpdateObjectParameters env s j).1.policyChecks = s.policyChecks := by
  unfold UpdateObjectParameters updateFromResolved
  simp [channelInformed_policyChecks]

@[simp] theorem cancelsDue_mk (a1 : ObjectType) (a2 : FallbackType)
    (a3 a4 a5 a6 a7 a8 a9 a10 : Bool)
    (a11 a12 : String) (a13 a14 a15 : Option URI) (a16 : Option Channel)
    (a17 : Option Listener) (a18 a19 a20 a21 : Option Nat) (a22 : Nat) (a23 : List Effect)
    (id : Nat) :
    (State.mk a1 a2 a3 a4 a5 a6 a7 a8 a9 a10 a11 a12 a13 a14 a15 a16 a17 a18 a19 a20 a21 a22
      a23).cancelsDue id = cancelsDueOf a23 a16 id :=
  rfl

@[simp] theorem cancelsDue_eta (s : State) (id : Nat) :
    cancelsDueOf s.log s.mChannel id = s.cancelsDue id :=
  rfl

@[simp] theorem cancelsDue_emit (s : State) (e : Effect) (id : Nat) :
    (s.emit e).cancelsDue id = s.cancelsDue id + if e = .channelCancel id then 1 else 0 := by
  simp only [State.cancelsDue, cancelsDueOf, State.emit, List.countP_append, List.countP_cons,
    List.countP_nil]
  split_ifs <;> simp_all

@[simp] theorem cancelsDue_ite (c : Prop) [Decidable c] (a b : State) (id : Nat) :
    (if c then a else b).cancelsDue id = if c then a.cancelsDue id else b.cancelsDue id :=
  apply_ite (fun s => State.cancelsDue s id) _ _ _

@[simp] theorem CloseChannel_cancelsDue {env : Env} (hq : env.quiet) (s : State) (id : Nat) :
    (CloseChannel env s).cancelsDue id = s.cancelsDue id := by
  unfold CloseChannel
  simp only [hq.eq]
  split
  · rfl
  · rename_i g hg
    have hs : s.cancelsDue id
        = cancelsDueOf s.log none id + if g.id = id then 1 else 0 := by
      simp only [State.cancelsDue, cancelsDueOf, hg]
      simp
    rw [hs]
    split <;> simp

@[simp] theorem CloseChannel_mChannel {env : Env} (hq : env.quiet) (s : State) :
    (CloseChannel env s).mChannel = none := by
  unfold CloseChannel
  simp only [hq.eq]
  split
  · assumption
  · split <;> rfl

@[simp] theorem CloseChannel_cancelsDue_log {env : Env} (hq : env.quiet) (s : State)
    (id : Nat) : cancelsDueOf (CloseChannel env s).log none id = s.cancelsDue id := by
  have h := CloseChannel_cancelsDue hq s id
  unfold State.cancelsDue at h
  rw [CloseChannel_mChannel hq s] at h
  exact h

@[simp] theorem DoStopPlugin_cancelsDue {env : Env} (hq : env.quiet) (s : State) (o : Nat)
    (d f : Bool) (id : Nat) : (DoStopPlugin env s o d f).cancelsDue id = s.cancelsDue id := by
  unfold DoStopPlugin
  simp [hq.eq]

@[simp] theorem StopPluginInstance_cancelsDue {env : Env} (hq : env.quiet) (s : State)
    (id : Nat) : (StopPluginInstance env s).cancelsDue id = s.cancelsDue id := by
  unfold StopPluginInstance
  dsimp only
  split_ifs <;> (try split) <;> simp [hq]

@[simp] theorem destroyFrameLoader_cancelsDue (s : State) (id : Nat) :
    (destroyFrameLoader s).cancelsDue id = s.cancelsDue id := by
  unfold destroyFrameLoader
  split <;> simp

@[simp] theorem UnloadObject_cancelsDue {env : Env} (hq : env.quiet) (s : State) (id : Nat) :
    (UnloadObject env s false).cancelsDue id = s.cancelsDue id := by
  unfold UnloadObject
  simp [hq]

theorem binaryChannelType_cancels (ty : String) (c : Channel) (id : Nat) :
    (binaryChannelType ty c).2.2.2.countP (fun e => decide (e = .channelCancel id)) = 0
    ∧ (binaryChannelType ty c).2.2.1.id = c.id := by
  unfold binaryChannelType
  split_ifs <;> simp

theorem resolveWithChannel_cancels (env : Env) (r : Resolved) (c : Channel) (id : Nat) :
    (resolveWithChannel env r c).log.countP (fun e => decide (e = .channelCancel id)) = 0
    ∧ (resolveWithChannel env r c).chan.id = c.id := by
  have hb := fun ty => binaryChannelType_cancels ty c id
  unfold resolveWithChannel
  simp only []
  split_ifs
  · exact ⟨by rw [List.countP_append, (hb _).1]; rfl, (hb _).2⟩
  · exact hb _
  · exact hb _

theorem channelInformed_cancelsDue (env : Env) (s : State) (r : Resolved) (id : Nat) :
    cancelsDueOf (channelInformed env s r).log (channelInformed env s r).mChannel id
      = s.cancelsDue id := by
  unfold channelInformed
  simp only []
  split_ifs
  · split
    · rename_i g hg
      have h := resolveWithChannel_cancels env r g id
      simp only [State.cancelsDue, cancelsDueOf, hg, List.countP_append, h.1, Option.map_some',
        h.2, Nat.add_zero]
    · rename_i hg
      simp only [State.cancelsDue, cancelsDueOf, hg]
  · rfl

@[simp] theorem UpdateObjectParameters_cancelsDue (env : Env) (s : State) (j : Bool)
    (id : Nat) : (UpdateObjectParameters env s j).1.cancelsDue id = s.cancelsDue id := by
  unfold UpdateObjectParameters updateFromResolved
  simp [channelInformed_cancelsDue]

theorem LoadObject_entry_counts {env : Env} (hq : env.quiet) (s : State) (n f : Bool)
    (c : Option Nat) (id : Nat) :
    (LoadObject_entry env s n f c).1.cancelsDue id = s.cancelsDue id
    ∧ (LoadObject_entry env s n f c).1.policyChecks = s.policyChecks := by
  unfold LoadObject_entry
  simp only []
  split_ifs <;> simp [hq]

theorem channelInformed_changed (env : Env) (s : State) (r : Resolved)
    (hu : URIEquals s.mOriginalURI r.newURI = false) :
    (channelInformed env s r).channelChanged = true
    ∧ (channelInformed env s r).useChannel = false
    ∧ (channelInformed env s r).newChannel = false := by
  unfold channelInformed
  simp [hu]

theorem UpdateObjectParameters_channelChanged (env : Env) (s : State)
    (hu : URIEquals s.mOriginalURI (resolved env false).newURI = false) :
    (UpdateObjectParameters env s false).2.eParamChannelChanged = true := by
  obtain ⟨h₁, h₂, h₃⟩ := channelInformed_changed env s (resolved env false) hu
  unfold UpdateObjectParameters updateFromResolved
  simp [h₁, h₂, h₃]

theorem LoadObject_entry_channelChanged {env : Env} (hq : env.quiet) (s : State) (n f : Bool)
    (c : Option Nat) (hdoc : env.inActiveDocument = true)
    (himg : (env.isBeingUsedAsImage || env.isLoadedAsData) = false)
    (hu : URIEquals s.mOriginalURI (resolved env false).newURI = false) :
    ∃ ctx, (LoadObject_entry env s n f c).2 = some ctx
      ∧ ctx.stateChange.eParamChannelChanged = true := by
  have h₀ := UpdateObjectParameters_channelChanged env s hu
  have h₁ := UpdateObjectParameters_channelChanged env
    { CloseChannel env s with mChannelLoaded := false }
    (by
      have hp := congrArg Params.mOriginalURI (CloseChannel_params hq s)
      simp only [State.params] at hp
      simpa [hp] using hu)
  unfold LoadObject_entry
  simp only [hdoc, himg, Bool.not_true, Bool.false_eq_true, if_false]
  by_cases hf : (f && s.mChannelLoaded) = true
  · simp only [hf, if_true, ParameterUpdateFlags.any, h₁, Bool.true_or, Bool.not_true,
      Bool.false_and, Bool.false_eq_true, if_false]
    exact ⟨_, rfl, h₁⟩
  · simp only [hf, if_false, ParameterUpdateFlags.any, h₀, Bool.true_or, Bool.not_true,
      Bool.false_and, Bool.false_eq_true, if_false]
    exact ⟨_, rfl, h₀⟩

theorem LoadObject_channel_changed {env : Env} (hq : env.quiet) (s : State) (ctx : LoadCtx)
    (hl : s.mIsLoading = true) (hc : ctx.stateChange.eParamChannelChanged = true) :
    LoadObject_channel env s ctx
      = .goesOn { CloseChannel env (UnloadObject env s false) with mChannelLoaded := false } := by
  have hl₁ : (UnloadObject env s false).mIsLoading = true :=
    (congrArg Params.mIsLoading (UnloadObject_params hq s)).trans hl
  unfold LoadObject_channel
  simp only [hl₁, hc, Bool.not_true, Bool.false_eq_true, if_false, if_true]

/-- C4. In a run without nested entries, in an active document that is not an
image or data document: when `mChannel` holds a channel of an earlier load and
the URI that the attributes now resolve to differs from the `mOriginalURI` of
that load, `LoadObject` reaches its security checks in a state that has dropped
the channel (`mChannel` null, `mChannelLoaded` false) after exactly one more
`Cancel` on it, with no policy call made and no channel opened before that
point; this holds whatever MIME type is resolved. -/
theorem LoadObject_uri_changed_closes_channel {env : Env} (hq : env.quiet) (s : State)
    (c : Channel) (aNotify aForceLoad : Bool) (aLoadingChannel : Option Nat)
    (hdoc : env.inActiveDocument = true)
    (himg : (env.isBeingUsedAsImage || env.isLoadedAsData) = false)
    (hchan : s.mChannel = some c)
    (huri : URIEquals s.mOriginalURI (resolved env false).newURI = false) :
    ∃ (s₁ : State) (ctx : LoadCtx) (t : State),
      LoadObject_entry env s aNotify aForceLoad aLoadingChannel = (s₁, some ctx)
      ∧ LoadObject_channel env { s₁ with mIsLoading := true } ctx = .goesOn t
      ∧ t.mChannel = none ∧ t.mChannelLoaded = false
      ∧ t.cancels c.id = s.cancels c.id + 1
      ∧ t.policyChecks = s.policyChecks ∧ t.opens = s.opens
      ∧ LoadObject env s aNotify aForceLoad aLoadingChannel
          = ({ LoadObject_security env t ctx with mIsLoading := false }, .NS_OK) := by
  obtain ⟨ctx, hctx, hflag⟩ :=
    LoadObject_entry_channelChanged hq s aNotify aForceLoad aLoadingChannel hdoc himg huri
  obtain ⟨hdue, hpol⟩ :=
    LoadObject_entry_counts hq s aNotify aForceLoad aLoadingChannel c.id
  have hop := LoadObject_entry_opens hq s aNotify aForceLoad aLoadingChannel
  rcases he : LoadObject_entry env s aNotify aForceLoad aLoadingChannel with ⟨s₁, o⟩
  rw [he] at hctx hdue hpol hop
  simp only at hctx hdue hpol hop
  subst hctx
  have hch := LoadObject_channel_changed hq { s₁ with mIsLoading := true } ctx rfl hflag
  have hsdue : s.cancelsDue c.id = s.cancels c.id + 1 := by
    simp [State.cancelsDue, cancelsDueOf, State.cancels, hchan]
  refine ⟨s₁, ctx, _, rfl, hch, ?_, rfl, ?_, ?_, ?_, ?_⟩
  · exact CloseChannel_mChannel hq _
  · have h : ({ CloseChannel env (UnloadObject env { s₁ with mIsLoading := true } false)
        with mChannelLoaded := false } : State).cancelsDue c.id = s₁.cancelsDue c.id := by
      simp [hq]
    rw [hdue, hsdue] at h
    rw [← h]
    simp [State.cancelsDue, cancelsDueOf, State.cancels, CloseChannel_mChannel hq]
  · rw [← hpol]
    simp [hq]
  · rw [← hop]
    simp [hq]
  · unfold LoadObject
    simp only [hdoc, he, Bool.not_true, Bool.false_eq_true, if_false, LoadObject_unload, hch]

theorem LoadObject_uri_changed_closes_channel_witness :
    ∃ (s₁ : State) (ctx : LoadCtx) (t : State),
      LoadObject_entry movedImageEnv imageLoading true false none = (s₁, some ctx)
      ∧ LoadObject_channel movedImageEnv { s₁ with mIsLoading := true } ctx = .goesOn t
      ∧ t.mChannel = none ∧ t.mChannelLoaded = false
      ∧ t.cancels imageChannel.id = imageLoading.cancels imageChannel.id + 1
      ∧ t.policyChecks = imageLoading.policyChecks ∧ t.opens = imageLoading.opens
      ∧ LoadObject movedImageEnv imageLoading true false none
          = ({ LoadObject_security movedImageEnv t ctx with mIsLoading := false }, .NS_OK) :=
  LoadObject_uri_changed_closes_channel (fun _ _ => rfl) imageLoading imageChannel true false
    none (by decide) (by decide) (by decide) (by decide)

/-! ## The first load of a plugin without a URI -/

/-- What the attributes of an element with a plugin type, no URI attribute
and no classid that is looked at resolve to. For an `<applet>` the type is the
Java type, whatever the type attribute says. -/
theorem resolved_plugin_no_uri (env : Env) (T : String)
    (htag : env.element.tag = .applet → env.javaMIME = T)
    (htype : env.element.typeAttr = T) (hT : T ≠ "")
    (hkind : GetTypeOfContent env T = .eType_Plugin)
    (hclassid : env.caps.eSupportClassID = false ∨ env.element.classid = "")
    (hdata : env.element.data = "") (hsrc : env.element.src = "") :
    (resolved env false).newMime = T ∧ (resolved env false).newURI = none
    ∧ (resolved env false).stateInvalid = false := by
  have h : (resolveAttributes env false).newMime = T ∧ (resolveAttributes env false).newURI = none
      ∧ (resolveAttributes env false).stateInvalid = false
      ∧ (resolveAttributes env false).recurse = false := by
    unfold resolveAttributes
    by_cases ha : env.element.tag = .applet
    · rcases hclassid with hc | hc <;>
        simp [ha, htag ha, htype, hT, hkind, hc, hdata, hsrc, uriAttribute]
    · rcases hclassid with hc | hc <;>
        simp [ha, htype, hT, hkind, hc, hdata, hsrc, uriAttribute]
  unfold resolved
  simp [h.2.2.2, h.1, h.2.1, h.2.2.1]

theorem UpdateObjectParameters_init_plugin (env : Env) (T : String)
    (hT : T ≠ "") (hkind : GetTypeOfContent env T = .eType_Plugin)
    (hmime : (resolved env false).newMime = T) (huri : (resolved env false).newURI = none)
    (hvalid : (resolved env false).stateInvalid = false) :
    UpdateObjectParameters env State.init false
      = ({ State.init with
            mType := .eType_Plugin, mContentType := T, mOriginalContentType := T,
            mBaseURI := (resolved env false).newBaseURI }, ⟨true, true, true⟩) := by
  have hT' : ¬ ("" = T) := fun h => hT h.symm
  unfold UpdateObjectParameters updateFromResolved channelInformed determineFinalType
  generalize resolved env false = r at hmime huri hvalid
  rcases r with ⟨m, ta, u, b, j, si, rc⟩
  simp only at hmime huri hvalid
  subst hmime huri hvalid
  cases b <;> simp [State.init, URIEquals, hkind, hT, hT']

/-- An enabled plugin type that is not on the blocklist plays on a page with a
window and a permission manager, when the top document is chrome or the stored
permission is unknown or Allow. -/
theorem ShouldPlay_plays (pe : PlayEnv) (s : State) (aReason : FallbackType)
    (hkind : s.mType = .eType_Plugin)
    (hpreview : pe.playPreviewInfo s.mContentType = none)
    (henabled : pe.stateForType s.mContentType = some .STATE_ENABLED)
    (hblock : (pe.blocklistStateForType s.mContentType).getD .STATE_NOT_BLOCKED
      = .STATE_NOT_BLOCKED)
    (hwin : pe.hasWindow = true) (htop : pe.getTopOk = true)
    (htopdoc : pe.getTopDocumentOk = true) (hpm : pe.permissionManagerOk = true)
    (hperm : pe.topIsSystemPrincipal = true
      ∨ ∃ key, pe.permissionStringForType s.mContentType = some key
          ∧ (pe.testPermissionFromPrincipal key = some .UNKNOWN_ACTION
            ∨ pe.testPermissionFromPrincipal key = some .ALLOW_ACTION)) :
    (ShouldPlay pe s aReason false).play = true := by
  unfold ShouldPlay
  simp only [hpreview, hkind, henabled, hblock, Option.isSome_none, Bool.false_and,
    Bool.false_eq_true, if_false, Option.getD_some, reduceCtorEq, Bool.not_false, Bool.true_and,
    ne_eq, not_true_eq_false, decide_False]
  unfold ShouldPlay_permission
  simp only [hwin, htop, htopdoc, hpm, Bool.not_true, Bool.false_eq_true, if_false, reduceCtorEq,
    or_self]
  rcases hperm with hsys | ⟨key, hkey, hunk | hallow⟩
  · simp [hsys]
  · cases pe.topIsSystemPrincipal <;> simp [hkey, hunk]
  · cases pe.topIsSystemPrincipal <;> simp [hkey, hallow]

theorem LoadObject_entry_init_plugin (env : Env) (T : String) (n f : Bool) (c : Option Nat)
    (hdoc : env.inActiveDocument = true)
    (himg : (env.isBeingUsedAsImage || env.isLoadedAsData) = false)
    (hT : T ≠ "") (hkind : GetTypeOfContent env T = .eType_Plugin)
    (hmime : (resolved env false).newMime = T) (huri : (resolved env false).newURI = none)
    (hvalid : (resolved env false).stateInvalid = false) :
    LoadObject_entry env State.init n f c
      = ({ State.init with
            mType := .eType_Plugin, mContentType := T, mOriginalContentType := T,
            mBaseURI := (resolved env false).newBaseURI },
          some ⟨n, f, c, ObjectState env State.init, .eType_Loading, ⟨true, true, true⟩,
            .eFallbackAlternate⟩) := by
  have hu := UpdateObjectParameters_init_plugin env T hT hkind hmime huri hvalid
  have hs : (if (f && State.init.mChannelLoaded) = true then
      { CloseChannel env State.init with mChannelLoaded := false } else State.init)
      = State.init := by
    simp [State.init]
  unfold LoadObject_entry
  simp only [hdoc, himg, Bool.not_true, Bool.false_eq_true, if_false, hs, hu]
  simp [ParameterUpdateFlags.any, State.init]

theorem LoadObject_channel_init_plugin (env : Env) (T : String)
    (b : Option URI) (ctx : LoadCtx) :
    LoadObject_channel env
      { State.init with
        mType := .eType_Plugin, mContentType := T, mOriginalContentType := T,
        mBaseURI := b, mIsLoading := true } ctx
      = .goesOn { State.init with
          mType := .eType_Plugin, mContentType := T, mOriginalContentType := T,
          mBaseURI := b, mIsLoading := true,
          log := [.cancelImageRequests, .teardownProtoChain] } := by
  unfold LoadObject_channel UnloadObject destroyFrameLoader StopPluginInstance
  simp [State.init, State.emit, CloseChannel, State.channelId]

theorem LoadObject_gate_init_plugin {env : Env} (hq : env.quiet) (T : String)
    (b : Option URI) (L : List Effect) (ctx : LoadCtx)
    (hstatic : env.isStaticDocument = false) (himg : env.isBeingUsedAsImage = false)
    (hdispatch : env.dispatchOk = true)
    (hplay : ∀ s : State, s.mType = .eType_Plugin → s.mContentType = T →
      (ShouldPlay env.play s .eFallbackAlternate false).play = true) :
    ∃ L' : List Effect,
      LoadObject_gate env
        { State.init with
          mType := .eType_Plugin, mContentType := T, mOriginalContentType := T,
          mBaseURI := b, mIsLoading := true, log := L } ctx
        = { State.init with
            mType := .eType_Plugin, mContentType := T, mOriginalContentType := T,
            mBaseURI := b, mIsLoading := true, mActivated := true,
            mPendingInstantiateEvent := some 0, nextId := 1, log := L ++ L' }
      ∧ L'.countP Effect.isPostInstantiate = 1 ∧ L'.countP Effect.isChannelOpen = 0
      ∧ L'.countP Effect.isSpawn = 0 := by
  have hp := hplay { State.init with
          mType := .eType_Plugin, mContentType := T, mOriginalContentType := T,
          mBaseURI := b, mIsLoading := true, log := L } rfl rfl
  have he₁ := ShouldPlay_effects_count Effect.isPostInstantiate (fun _ => rfl) (fun _ _ _ => rfl)
    env.play { State.init with
          mType := .eType_Plugin, mContentType := T, mOriginalContentType := T,
          mBaseURI := b, mIsLoading := true, log := L } .eFallbackAlternate false
  have he₂ := ShouldPlay_effects_count Effect.isChannelOpen (fun _ => rfl) (fun _ _ _ => rfl)
    env.play { State.init with
          mType := .eType_Plugin, mContentType := T, mOriginalContentType := T,
          mBaseURI := b, mIsLoading := true, log := L } .eFallbackAlternate false
  have he₃ := ShouldPlay_effects_count Effect.isSpawn (fun _ => rfl) (fun _ _ _ => rfl)
    env.play { State.init with
          mType := .eType_Plugin, mContentType := T, mOriginalContentType := T,
          mBaseURI := b, mIsLoading := true, log := L } .eFallbackAlternate false
  unfold LoadObject_gate LoadObject_play LoadObject_played LoadObject_playedCtx
  simp only [State.init] at hp he₁ he₂ he₃ ⊢
  generalize ShouldPlay env.play _ .eFallbackAlternate false = p at hp he₁ he₂ he₃ ⊢
  rcases p with ⟨play, reason, effects⟩
  simp only at hp he₁ he₂ he₃
  subst hp
  simp [LoadObject_sanity, LoadObject_dispatch, AsyncStartPluginInstance, hstatic, himg,
    hdispatch, LoadObject_notify, nsresult.failed, NotifyStateChanged, hq.eq, State.emit,
    LoadObject_deferred, LoadObject_failure, -List.countP_eq_zero]
  split_ifs <;> refine ⟨_, rfl, ?_, ?_, ?_⟩ <;>
    simp [List.countP_append, List.countP_cons, he₁, he₂, he₃, Effect.isPostInstantiate,
      Effect.isChannelOpen, Effect.isSpawn, -List.countP_eq_zero]

theorem LoadObject_policy_init_plugin {env : Env} (hq : env.quiet) (T : String)
    (b : Option URI) (L : List Effect)
    (hjava : env.isJavaMIMEType T = true →
      env.checkLoadURIWithPrincipal b = true ∧ env.principalGetURIOk = true
      ∧ (env.uriIsLocalFile b && env.strictFileOriginPolicy
          && !env.relaxStrictFileOriginPolicy b) = false)
    (hprocess : env.contentProcessPolicy .eType_Plugin b T = some .ACCEPT) :
    ∃ L' : List Effect,
      LoadObject_policy env
        { State.init with
          mType := .eType_Plugin, mContentType := T, mOriginalContentType := T,
          mBaseURI := b, mIsLoading := true, log := L }
        = ({ State.init with
            mType := .eType_Plugin, mContentType := T, mOriginalContentType := T,
            mBaseURI := b, mIsLoading := true, log := L ++ L' }, true, .ACCEPT)
      ∧ L'.countP Effect.isPostInstantiate = 0 ∧ L'.countP Effect.isChannelOpen = 0
      ∧ L'.countP Effect.isSpawn = 0 := by
  unfold LoadObject_policy
  by_cases hj : env.isJavaMIMEType T = true
  · obtain ⟨h₁, h₂, h₃⟩ := hjava hj
    refine ⟨[.checkJavaCodebase, .checkProcessPolicy .eType_Plugin], ?_, rfl, rfl, rfl⟩
    simp only [Bool.and_eq_false_imp, Bool.and_eq_true, Bool.not_eq_eq_eq_not, Bool.not_true,
      and_imp] at h₃
    simp [State.init, hj, CheckJavaCodebase, CheckProcessPolicy, hq.eq, State.emit, h₁, h₂,
      hprocess]
    intro ha hb
    exact h₃ ha hb
  · refine ⟨[.checkProcessPolicy .eType_Plugin], ?_, rfl, rfl, rfl⟩
    simp [State.init, hj, CheckProcessPolicy, hq.eq, State.emit, hprocess]

theorem LoadObject_security_init_plugin {env : Env} (hq : env.quiet) (T : String)
    (b : Option URI) (L : List Effect) (ctx : LoadCtx)
    (hstatic : env.isStaticDocument = false) (himg : env.isBeingUsedAsImage = false)
    (hdispatch : env.dispatchOk = true)
    (hplay : ∀ s : State, s.mType = .eType_Plugin → s.mContentType = T →
      (ShouldPlay env.play s .eFallbackAlternate false).play = true)
    (hjava : env.isJavaMIMEType T = true →
      env.checkLoadURIWithPrincipal b = true ∧ env.principalGetURIOk = true
      ∧ (env.uriIsLocalFile b && env.strictFileOriginPolicy
          && !env.relaxStrictFileOriginPolicy b) = false)
    (hprocess : env.contentProcessPolicy .eType_Plugin b T = some .ACCEPT) :
    ∃ L' : List Effect,
      LoadObject_security env
        { State.init with
          mType := .eType_Plugin, mContentType := T, mOriginalContentType := T,
          mBaseURI := b, mIsLoading := true, log := L } ctx
        = { State.init with
            mType := .eType_Plugin, mContentType := T, mOriginalContentType := T,
            mBaseURI := b, mIsLoading := true, mActivated := true,
            mPendingInstantiateEvent := some 0, nextId := 1, log := L ++ L' }
      ∧ L'.countP Effect.isPostInstantiate = 1 ∧ L'.countP Effect.isChannelOpen = 0
      ∧ L'.countP Effect.isSpawn = 0 := by
  obtain ⟨L₁, hpol, h₁, h₂, h₃⟩ := LoadObject_policy_init_plugin hq T b L hjava hprocess
  obtain ⟨L₂, hgate, g₁, g₂, g₃⟩ :=
    LoadObject_gate_init_plugin hq T b (L ++ L₁) ctx hstatic himg hdispatch hplay
  refine ⟨L₁ ++ L₂, ?_, ?_, ?_, ?_⟩
  · unfold LoadObject_security
    rw [if_pos (by simp [State.init])]
    simp only [hpol, Bool.not_true, Bool.false_eq_true, if_false]
    rw [hgate, List.append_assoc]
  · rw [List.countP_append, h₁, g₁]
  · rw [List.countP_append, h₂, g₂]
  · rw [List.countP_append, h₃, g₃]

/-- C7, amended. In a run without nested entries, for an element whose type
attribute names a plugin type (for an `<applet>` the Java type), with neither
`data` nor `src` and with no classid attribute that is looked at, the plugin
enabled and not on the blocklist, no play preview registered, the stored
permission unknown or Allow (or a chrome top document), in an active document
that is not an image, data or static document, and with the policy checks
accepting: the first `LoadObject` ends with `eType_Plugin`, no channel
(`mChannel` null, `mChannelLoaded` false, no channel opened), `mActivated` set,
no instance spawned, and exactly one instantiation event posted and pending. -/
theorem LoadObject_plugin_without_uri {env : Env} (hq : env.quiet) (T : String)
    (aNotify aForceLoad : Bool) (aLoadingChannel : Option Nat)
    (hdoc : env.inActiveDocument = true)
    (himg : (env.isBeingUsedAsImage || env.isLoadedAsData) = false)
    (hstatic : env.isStaticDocument = false)
    (htag : env.element.tag = .applet → env.javaMIME = T)
    (htype : env.element.typeAttr = T) (hT : T ≠ "")
    (hkind : GetTypeOfContent env T = .eType_Plugin)
    (hclassid : env.caps.eSupportClassID = false ∨ env.element.classid = "")
    (hdata : env.element.data = "") (hsrc : env.element.src = "")
    (hjava : env.isJavaMIMEType T = true → ∀ b,
      env.checkLoadURIWithPrincipal b = true ∧ env.principalGetURIOk = true
      ∧ (env.uriIsLocalFile b && env.strictFileOriginPolicy
          && !env.relaxStrictFileOriginPolicy b) = false)
    (hprocess : ∀ b, env.contentProcessPolicy .eType_Plugin b T = some .ACCEPT)
    (hpreview : env.play.playPreviewInfo T = none)
    (henabled : env.play.stateForType T = some .STATE_ENABLED)
    (hblock : (env.play.blocklistStateForType T).getD .STATE_NOT_BLOCKED = .STATE_NOT_BLOCKED)
    (hwin : env.play.hasWindow = true) (htop : env.play.getTopOk = true)
    (htopdoc : env.play.getTopDocumentOk = true) (hpm : env.play.permissionManagerOk = true)
    (hperm : env.play.topIsSystemPrincipal = true
      ∨ ∃ key, env.play.permissionStringForType T = some key
          ∧ (env.play.testPermissionFromPrincipal key = some .UNKNOWN_ACTION
            ∨ env.play.testPermissionFromPrincipal key = some .ALLOW_ACTION))
    (hdispatch : env.dispatchOk = true) :
    (LoadObject env State.init aNotify aForceLoad aLoadingChannel).2 = .NS_OK
    ∧ (LoadObject env State.init aNotify aForceLoad aLoadingChannel).1.mType = .eType_Plugin
    ∧ (LoadObject env State.init aNotify aForceLoad aLoadingChannel).1.mChannel = none
    ∧ (LoadObject env State.init aNotify aForceLoad aLoadingChannel).1.mChannelLoaded = false
    ∧ (LoadObject env State.init aNotify aForceLoad aLoadingChannel).1.mActivated = true
    ∧ (LoadObject env State.init aNotify aForceLoad aLoadingChannel).1.mInstanceOwner = none
    ∧ (LoadObject env State.init aNotify aForceLoad aLoadingChannel).1.mPendingInstantiateEvent
        = some 0
    ∧ (LoadObject env State.init aNotify aForceLoad aLoadingChannel).1.log.countP
        Effect.isPostInstantiate = 1
    ∧ (LoadObject env State.init aNotify aForceLoad aLoadingChannel).1.log.countP
        Effect.isChannelOpen = 0
    ∧ (LoadObject env State.init aNotify aForceLoad aLoadingChannel).1.log.countP
        Effect.isSpawn = 0 := by
  obtain ⟨hmime, huri, hvalid⟩ :=
    resolved_plugin_no_uri env T htag htype hT hkind hclassid hdata hsrc
  have himg₁ : env.isBeingUsedAsImage = false := by
    cases h : env.isBeingUsedAsImage
    · rfl
    · simp [h] at himg
  have hplay : ∀ s : State, s.mType = .eType_Plugin → s.mContentType = T →
      (ShouldPlay env.play s .eFallbackAlternate false).play = true := by
    intro s hs hc
    exact ShouldPlay_plays env.play s .eFallbackAlternate hs (hc ▸ hpreview) (hc ▸ henabled)
      (hc ▸ hblock) hwin htop htopdoc hpm (hc ▸ hperm)
  have hentry := LoadObject_entry_init_plugin env T aNotify aForceLoad aLoadingChannel hdoc himg
    hT hkind hmime huri hvalid
  obtain ⟨L, hsec, h₁, h₂, h₃⟩ := LoadObject_security_init_plugin hq T
    (resolved env false).newBaseURI [.cancelImageRequests, .teardownProtoChain]
    ⟨aNotify, aForceLoad, aLoadingChannel, ObjectState env State.init, .eType_Loading,
      ⟨true, true, true⟩, .eFallbackAlternate⟩
    hstatic himg₁ hdispatch hplay (fun hj => hjava hj _) (hprocess _)
  have hall : LoadObject env State.init aNotify aForceLoad aLoadingChannel
      = ({ State.init with
            mType := .eType_Plugin, mContentType := T, mOriginalContentType := T,
            mBaseURI := (resolved env false).newBaseURI, mActivated := true,
            mPendingInstantiateEvent := some 0, nextId := 1,
            log := [.cancelImageRequests, .teardownProtoChain] ++ L }, .NS_OK) := by
    unfold LoadObject
    simp only [hdoc, hentry, Bool.not_true, Bool.false_eq_true, if_false, LoadObject_unload]
    have hch := LoadObject_channel_init_plugin env T (resolved env false).newBaseURI
      ⟨aNotify, aForceLoad, aLoadingChannel, ObjectState env State.init, .eType_Loading,
        ⟨true, true, true⟩, .eFallbackAlternate⟩
    simp only [State.init] at hch hsec ⊢
    rw [hch]
    simp only [hsec]
  rw [hall]
  refine ⟨rfl, rfl, rfl, rfl, rfl, rfl, rfl, ?_, ?_, ?_⟩
  · simp [List.countP_cons, h₁, Effect.isPostInstantiate, -List.countP_eq_zero]
  · simp [List.countP_cons, h₂, Effect.isChannelOpen, -List.countP_eq_zero]
  · simp [List.countP_cons, h₃, Effect.isSpawn, -List.countP_eq_zero]

/-- C7, as stated, fails: an `<object>` with classid support whose type
attribute names an enabled plugin type, with no URI attribute but with a classid
that is not a `java:` one, on a page where every check accepts, is refused: the
first `LoadObject` ends with `eType_Null`, nothing activated and no
instantiation event posted. -/
theorem LoadObject_plugin_classid_counterexample :
    classidObjectEnv.element.typeAttr = "application/x-test"
    ∧ GetTypeOfContent classidObjectEnv "application/x-test" = .eType_Plugin
    ∧ classidObjectEnv.element.data = "" ∧ classidObjectEnv.element.src = ""
    ∧ classidObjectEnv.play.stateForType "application/x-test" = some .STATE_ENABLED
    ∧ classidObjectEnv.play.blocklistStateForType "application/x-test"
        = some .STATE_NOT_BLOCKED
    ∧ classidObjectEnv.play.testPermissionFromPrincipal "plugin:test" = some .UNKNOWN_ACTION
    ∧ classidObjectEnv.play.playPreviewInfo "application/x-test" = none
    ∧ classidObjectEnv.inActiveDocument = true
    ∧ (LoadObject classidObjectEnv State.init true false none).1.mType = .eType_Null
    ∧ (LoadObject classidObjectEnv State.init true false none).1.mActivated = false
    ∧ (LoadObject classidObjectEnv State.init true false none).1.mPendingInstantiateEvent = none
    ∧ (LoadObject classidObjectEnv State.init true false none).1.log.countP
        Effect.isPostInstantiate = 0 := by
  decide

theorem LoadObject_plugin_without_uri_witness :
    (LoadObject pluginObjectEnv State.init true false none).2 = .NS_OK
    ∧ (LoadObject pluginObjectEnv State.init true false none).1.mType = .eType_Plugin
    ∧ (LoadObject pluginObjectEnv State.init true false none).1.mChannel = none
    ∧ (LoadObject pluginObjectEnv State.init true false none).1.mChannelLoaded = false
    ∧ (LoadObject pluginObjectEnv State.init true false none).1.mActivated = true
    ∧ (LoadObject pluginObjectEnv State.init true false none).1.mInstanceOwner = none
    ∧ (LoadObject pluginObjectEnv State.init true false none).1.mPendingInstantiateEvent
        = some 0
    ∧ (LoadObject pluginObjectEnv State.init true false none).1.log.countP
        Effect.isPostInstantiate = 1
    ∧ (LoadObject pluginObjectEnv State.init true false none).1.log.countP
        Effect.isChannelOpen = 0
    ∧ (LoadObject pluginObjectEnv State.init true false none).1.log.countP
        Effect.isSpawn = 0 :=
  LoadObject_plugin_without_uri (fun _ _ => rfl) "application/x-test" true false none
    (by decide) (by decide) (by decide) (by decide) (by decide) (by decide) (by decide)
    (Or.inr (by decide)) (by decide) (by decide) (fun h => absurd h (by decide))
    (fun _ => rfl) (by decide) (by decide) (by decide) (by decide) (by decide) (by decide)
    (by decide) (Or.inr ⟨"plugin:test", by decide, Or.inl (by decide)⟩) (by decide)

/-! ## The load of an image -/

/-- What the attributes of an `<object>` or `<embed>` with the type
`image/png` and a URI attribute that resolves to `u` resolve to. -/
theorem resolved_image (env : Env) (u : URI)
    (htag : env.element.tag ≠ .applet) (htype : env.element.typeAttr = "image/png")
    (hnj : env.isJavaMIMEType "image/png" = false)
    (hkind : GetTypeOfContent env "image/png" = .eType_Image)
    (hclassid : env.caps.eSupportClassID = false ∨ env.element.classid = "")
    (hattr : uriAttribute env false ≠ "")
    (huri : env.newURI (uriAttribute env false) (resolveCodebase env false) = some u)
    (hext : env.caps.eAllowPluginSkipChannel = false
      ∨ IsPluginEnabledByExtension env (some u) = none) :
    resolved env false
      = ⟨"image/png", "image/png", some u, resolveCodebase env false, false, false, false⟩ := by
  have h : resolveAttributes env false
      = ⟨"image/png", "image/png", some u, resolveCodebase env false, false, false, false⟩ := by
    unfold resolveAttributes
    rcases hclassid with hc | hc <;> rcases hext with he | he <;>
      simp [htag, htype, hnj, hkind, hc, hattr, huri, he]
  unfold resolved
  simp [h]

theorem UpdateObjectParameters_init_image (env : Env) (u : URI) (B : Option URI)
    (hkind : GetTypeOfContent env "image/png" = .eType_Image)
    (hres : resolved env false = ⟨"image/png", "image/png", some u, B, false, false, false⟩) :
    UpdateObjectParameters env State.init false
      = ({ State.init with
            mOriginalContentType := "image/png", mOriginalURI := some u, mURI := some u,
            mBaseURI := B }, ⟨true, true, false⟩) := by
  unfold UpdateObjectParameters updateFromResolved channelInformed determineFinalType
  rw [hres]
  cases B <;> simp [State.init, URIEquals, hkind]

theorem LoadObject_entry_init_image (env : Env) (u : URI) (B : Option URI) (n f : Bool)
    (c : Option Nat)
    (hdoc : env.inActiveDocument = true)
    (himg : (env.isBeingUsedAsImage || env.isLoadedAsData) = false)
    (hkind : GetTypeOfContent env "image/png" = .eType_Image)
    (hres : resolved env false = ⟨"image/png", "image/png", some u, B, false, false, false⟩) :
    LoadObject_entry env State.init n f c
      = ({ State.init with
            mOriginalContentType := "image/png", mOriginalURI := some u, mURI := some u,
            mBaseURI := B },
          some ⟨n, f, c, ObjectState env State.init, .eType_Loading, ⟨true, true, false⟩,
            .eFallbackAlternate⟩) := by
  have hu := UpdateObjectParameters_init_image env u B hkind hres
  have hs : (if (f && State.init.mChannelLoaded) = true then
      { CloseChannel env State.init with mChannelLoaded := false } else State.init)
      = State.init := by
    simp [State.init]
  unfold LoadObject_entry
  simp only [hdoc, himg, Bool.not_true, Bool.false_eq_true, if_false, hs, hu]
  simp [ParameterUpdateFlags.any, State.init]

theorem LoadObject_channel_init_image (env : Env) (u : URI) (B : Option URI) (ctx : LoadCtx) :
    LoadObject_channel env
      { State.init with
        mOriginalContentType := "image/png", mOriginalURI := some u, mURI := some u,
        mBaseURI := B, mIsLoading := true } ctx
      = .goesOn { State.init with
          mOriginalContentType := "image/png", mOriginalURI := some u, mURI := some u,
          mBaseURI := B, mIsLoading := true,
          log := [.cancelImageRequests, .teardownProtoChain] } := by
  unfold LoadObject_channel UnloadObject destroyFrameLoader StopPluginInstance
  simp [State.init, State.emit, CloseChannel, State.channelId]

theorem CheckJavaCodebase_accepts {env : Env} (hq : env.quiet) (s : State)
    (h : env.checkLoadURIWithPrincipal s.mBaseURI = true ∧ env.principalGetURIOk = true
      ∧ (env.uriIsLocalFile s.mBaseURI && env.strictFileOriginPolicy
          && !env.relaxStrictFileOriginPolicy s.mBaseURI) = false) :
    CheckJavaCodebase env s = (s.emit .checkJavaCodebase, true) := by
  obtain ⟨h₁, h₂, h₃⟩ := h
  unfold CheckJavaCodebase
  simp only [hq.eq, h₁, h₂, h₃, Bool.not_true, Bool.false_eq_true, if_false]

theorem LoadObject_policy_init_image {env : Env} (hq : env.quiet) (u : URI)
    (B : Option URI) (L : List Effect)
    (hjava : env.isJavaMIMEType "" = true →
      env.checkLoadURIWithPrincipal B = true ∧ env.principalGetURIOk = true
      ∧ (env.uriIsLocalFile B && env.strictFileOriginPolicy
          && !env.relaxStrictFileOriginPolicy B) = false)
    (hload : env.contentLoadPolicy u "" = some .ACCEPT) :
    ∃ L' : List Effect,
      LoadObject_policy env
        { State.init with
          mOriginalContentType := "image/png", mOriginalURI := some u, mURI := some u,
          mBaseURI := B, mIsLoading := true, log := L }
        = ({ State.init with
            mOriginalContentType := "image/png", mOriginalURI := some u, mURI := some u,
            mBaseURI := B, mIsLoading := true, log := L ++ L' }, true, .ACCEPT)
      ∧ L'.countP Effect.isPostInstantiate = 0 ∧ L'.countP Effect.isChannelOpen = 0
      ∧ L'.countP Effect.isSpawn = 0 ∧ L'.countP Effect.isListenerOnStart = 0 := by
  unfold LoadObject_policy
  by_cases hj : env.isJavaMIMEType "" = true
  · refine ⟨[.checkJavaCodebase, .checkLoadPolicy], ?_, rfl, rfl, rfl, rfl⟩
    simp only [State.init, hj, if_true]
    rw [CheckJavaCodebase_accepts hq _ (hjava hj)]
    simp [CheckLoadPolicy, hq.eq, State.emit, hload]
  · refine ⟨[.checkLoadPolicy], ?_, rfl, rfl, rfl, rfl⟩
    simp [State.init, hj, CheckLoadPolicy, hq.eq, State.emit, hload]

theorem LoadObject_gate_init_image {env : Env} (hq : env.quiet) (u fu : URI)
    (B : Option URI) (L : List Effect) (ctx : LoadCtx)
    (hvs : blocksViewSource u = false)
    (hcan : CanHandleURI env u = true) (hprin : env.checkLoadURIWithPrincipal (some u) = true)
    (hcsp : env.getCspOk = true) (hnew : env.newChannelOk u = true)
    (hopen : env.asyncOpenOk u = true)
    (hct : env.channelContentType u = some "image/png")
    (hfu : env.channelFinalURI u = some fu) :
    ∃ L' : List Effect,
      LoadObject_gate env
        { State.init with
          mOriginalContentType := "image/png", mOriginalURI := some u, mURI := some u,
          mBaseURI := B, mIsLoading := true, log := L } ctx
        = { State.init with
            mOriginalContentType := "image/png", mOriginalURI := some u, mURI := some u,
            mBaseURI := B, mIsLoading := true,
            mChannel := some ⟨0, some "image/png", some fu, false⟩, nextId := 1,
            log := L ++ L' }
      ∧ L'.countP Effect.isPostInstantiate = 0 ∧ L'.countP Effect.isChannelOpen = 1
      ∧ L'.countP Effect.isSpawn = 0 ∧ L'.countP Effect.isListenerOnStart = 0 := by
  unfold LoadObject_gate LoadObject_play LoadObject_played LoadObject_playedCtx
  simp [State.init, hvs, LoadObject_sanity, LoadObject_dispatch, OpenChannel, hcan, hprin, hcsp,
    hnew, hopen, hct, hfu, LoadObject_notify, nsresult.failed, NotifyStateChanged, hq.eq,
    State.emit, LoadObject_deferred, LoadObject_failure, -List.countP_eq_zero]
  split_ifs <;> refine ⟨_, rfl, ?_, ?_, ?_, ?_⟩ <;>
    simp [List.countP_append, List.countP_cons, Effect.isPostInstantiate,
      Effect.isChannelOpen, Effect.isSpawn, Effect.isListenerOnStart, -List.countP_eq_zero]

/-- The first `LoadObject` on an image element: the state waits for the
channel it has opened. -/
theorem LoadObject_init_image {env : Env} (hq : env.quiet) (u fu : URI) (B : Option URI)
    (n f : Bool) (c : Option Nat)
    (hdoc : env.inActiveDocument = true)
    (himg : (env.isBeingUsedAsImage || env.isLoadedAsData) = false)
    (hkind : GetTypeOfContent env "image/png" = .eType_Image)
    (hres : resolved env false = ⟨"image/png", "image/png", some u, B, false, false, false⟩)
    (hjava : env.isJavaMIMEType "" = true →
      env.checkLoadURIWithPrincipal B = true ∧ env.principalGetURIOk = true
      ∧ (env.uriIsLocalFile B && env.strictFileOriginPolicy
          && !env.relaxStrictFileOriginPolicy B) = false)
    (hload : env.contentLoadPolicy u "" = some .ACCEPT)
    (hvs : blocksViewSource u = false)
    (hcan : CanHandleURI env u = true) (hprin : env.checkLoadURIWithPrincipal (some u) = true)
    (hcsp : env.getCspOk = true) (hnew : env.newChannelOk u = true)
    (hopen : env.asyncOpenOk u = true)
    (hct : env.channelContentType u = some "image/png")
    (hfu : env.channelFinalURI u = some fu) :
    ∃ L : List Effect,
      LoadObject env State.init n f c
        = ({ State.init with
            mOriginalContentType := "image/png", mOriginalURI := some u, mURI := some u,
            mBaseURI := B, mChannel := some ⟨0, some "image/png", some fu, false⟩, nextId := 1,
            log := L }, .NS_OK)
      ∧ L.countP Effect.isPostInstantiate = 0 ∧ L.countP Effect.isChannelOpen = 1
      ∧ L.countP Effect.isSpawn = 0 ∧ L.countP Effect.isListenerOnStart = 0 := by
  have hentry := LoadObject_entry_init_image env u B n f c hdoc himg hkind hres
  have hch := LoadObject_channel_init_image env u B
    ⟨n, f, c, ObjectState env State.init, .eType_Loading, ⟨true, true, false⟩,
      .eFallbackAlternate⟩
  obtain ⟨L₁, hpol, h₁, h₂, h₃, h₄⟩ := LoadObject_policy_init_image hq u B
    [.cancelImageRequests, .teardownProtoChain] hjava hload
  obtain ⟨L₂, hgate, g₁, g₂, g₃, g₄⟩ := LoadObject_gate_init_image hq u fu B
    ([.cancelImageRequests, .teardownProtoChain] ++ L₁)
    ⟨n, f, c, ObjectState env State.init, .eType_Loading, ⟨true, true, false⟩,
      .eFallbackAlternate⟩ hvs hcan hprin hcsp hnew hopen hct hfu
  refine ⟨[.cancelImageRequests, .teardownProtoChain] ++ L₁ ++ L₂, ?_, ?_, ?_, ?_, ?_⟩
  · unfold LoadObject
    simp only [hdoc, hentry, Bool.not_true, Bool.false_eq_true, if_false, LoadObject_unload]
    simp only [State.init] at hch hpol hgate ⊢
    rw [hch]
    simp only [LoadObject_security]
    rw [if_pos (by simp)]
    simp only [hpol, Bool.not_true, Bool.false_eq_true, if_false]
    rw [hgate]
  · simp [List.countP_append, List.countP_cons, h₁, g₁, Effect.isPostInstantiate,
      -List.countP_eq_zero]
  · simp [List.countP_append, List.countP_cons, h₂, g₂, Effect.isChannelOpen,
      -List.countP_eq_zero]
  · simp [List.countP_append, List.countP_cons, h₃, g₃, Effect.isSpawn, -List.countP_eq_zero]
  · simp [List.countP_append, List.countP_cons, h₄, g₄, Effect.isListenerOnStart,
      -List.countP_eq_zero]

theorem UpdateObjectParameters_image_channel (env : Env) (u fu : URI) (B : Option URI)
    (L : List Effect)
    (hkind : GetTypeOfContent env "image/png" = .eType_Image)
    (hnj : env.isJavaMIMEType "image/png" = false)
    (hres : resolved env false = ⟨"image/png", "image/png", some u, B, false, false, false⟩)
    (hext : env.caps.eAllowPluginSkipChannel = false
      ∨ IsPluginEnabledByExtension env (some fu) = none) :
    UpdateObjectParameters env
      { State.init with
        mOriginalContentType := "image/png", mOriginalURI := some u, mURI := some u,
        mBaseURI := B, mChannel := some ⟨0, some "image/png", some fu, false⟩, nextId := 1,
        mChannelLoaded := true, log := L } false
      = ({ State.init with
          mType := .eType_Image, mContentType := "image/png",
          mOriginalContentType := "image/png", mOriginalURI := some u, mURI := some fu,
          mBaseURI := B, mChannel := some ⟨0, some "image/png", some fu, false⟩, nextId := 1,
          mChannelLoaded := true, log := L },
        ⟨false, true, true⟩) := by
  have hl : asciiLower "image/png" = "image/png" := by decide
  have hg : ("image/png" = APPLICATION_GUESS_FROM_EXT) = False := by decide
  have ho : ("image/png" = APPLICATION_OCTET_STREAM) = False := by decide
  have hb : ("image/png" = BINARY_OCTET_STREAM) = False := by decide
  unfold UpdateObjectParameters updateFromResolved channelInformed resolveWithChannel
    binaryChannelType overrideChannelType determineFinalType
  rw [hres]
  rcases hext with he | he <;>
    simp [State.init, URIEquals, hkind, hnj, hl, hg, ho, hb, he] <;>
    exact fun h => h.symm

theorem LoadObject_entry_image_channel (env : Env) (u fu : URI) (B : Option URI)
    (L : List Effect)
    (hdoc : env.inActiveDocument = true)
    (himg : (env.isBeingUsedAsImage || env.isLoadedAsData) = false)
    (hkind : GetTypeOfContent env "image/png" = .eType_Image)
    (hnj : env.isJavaMIMEType "image/png" = false)
    (hres : resolved env false = ⟨"image/png", "image/png", some u, B, false, false, false⟩)
    (hext : env.caps.eAllowPluginSkipChannel = false
      ∨ IsPluginEnabledByExtension env (some fu) = none) :
    LoadObject_entry env
      { State.init with
        mOriginalContentType := "image/png", mOriginalURI := some u, mURI := some u,
        mBaseURI := B, mChannel := some ⟨0, some "image/png", some fu, false⟩, nextId := 1,
        mChannelLoaded := true, log := L } true false (some 0)
      = ({ State.init with
          mType := .eType_Image, mContentType := "image/png",
          mOriginalContentType := "image/png", mOriginalURI := some u, mURI := some fu,
          mBaseURI := B, mChannel := some ⟨0, some "image/png", some fu, false⟩, nextId := 1,
          mChannelLoaded := true, log := L },
        some ⟨true, false, some 0, { EventStates.empty with loading := true }, .eType_Loading,
          ⟨false, true, true⟩, .eFallbackAlternate⟩) := by
  have hu := UpdateObjectParameters_image_channel env u fu B L hkind hnj hres hext
  unfold LoadObject_entry
  simp only [hdoc, himg, Bool.not_true, Bool.false_eq_true, if_false, Bool.false_and, hu]
  simp [ParameterUpdateFlags.any, State.init, ObjectState]

theorem LoadObject_unload_image_channel {env : Env} (hq : env.quiet) (u fu : URI)
    (B : Option URI) (L : List Effect)
    (hnj : env.isJavaMIMEType "image/png" = false)
    (hproc : env.contentProcessPolicy .eType_Image (some fu) "image/png" = some .ACCEPT)
    (hvs : blocksViewSource fu = false)
    (himgok : env.loadImageWithChannelOk = true)
    (hls : env.listenerOnStartOk (.image 0) = true) :
    ∃ L' : List Effect,
      LoadObject_unload env
        { State.init with
          mType := .eType_Image, mContentType := "image/png",
          mOriginalContentType := "image/png", mOriginalURI := some u, mURI := some fu,
          mBaseURI := B, mChannel := some ⟨0, some "image/png", some fu, false⟩, nextId := 1,
          mChannelLoaded := true, mIsLoading := true, log := L }
        ⟨true, false, some 0, { EventStates.empty with loading := true }, .eType_Loading,
          ⟨false, true, true⟩, .eFallbackAlternate⟩
        = { State.init with
            mType := .eType_Image, mContentType := "image/png",
            mOriginalContentType := "image/png", mOriginalURI := some u, mURI := some fu,
            mBaseURI := B, mChannel := some ⟨0, some "image/png", some fu, false⟩, nextId := 1,
            mChannelLoaded := true, mIsLoading := true, mFinalListener := some (.image 0),
            log := L ++ L' }
      ∧ L'.countP Effect.isPostInstantiate = 0 ∧ L'.countP Effect.isChannelOpen = 0
      ∧ L'.countP Effect.isSpawn = 0
      ∧ L'.countP (fun e => decide (e = .listenerOnStart (.image 0) (some 0))) = 1
      ∧ L'.countP Effect.isListenerOnStart = 1 := by
  unfold LoadObject_unload LoadObject_channel UnloadObject destroyFrameLoader StopPluginInstance
  simp [State.init, State.emit, CloseChannel, State.channelId, LoadObject_security,
    LoadObject_policy, hnj, CheckProcessPolicy, hq.eq, hproc,
    LoadObject_gate, LoadObject_play, LoadObject_played, LoadObject_playedCtx, hvs,
    LoadObject_sanity, LoadObject_dispatch, himgok, LoadObject_notify, nsresult.failed,
    NotifyStateChanged, LoadObject_deferred, finalListenerOnStart, hls, LoadObject_failure,
    -List.countP_eq_zero]
  split_ifs <;>
    simp [State.emit, LoadObject_deferred, finalListenerOnStart, hls, LoadObject_failure, hq.eq,
      nsresult.failed, State.channelId, -List.countP_eq_zero] <;>
    first
      | contradiction
      | simp [List.countP_append, List.countP_cons, Effect.isPostInstantiate,
          Effect.isChannelOpen, Effect.isSpawn, Effect.isListenerOnStart, -List.countP_eq_zero]

/-- C8, amended. In a run without nested entries, for an `<object>` or
`<embed>` element with the type attribute `image/png`, a URI attribute that
resolves, image support, the policy checks accepting and the channel succeeding
and reporting the type `image/png` (no classid that is looked at, no
view-source URI, no plugin registered for the file extension of the URI where
the skip-channel capability is set): the first `LoadObject` leaves
`eType_Loading` with exactly one channel opened and nothing else attached; the
`OnStartRequest` of that channel resolves `eType_Image`, sets the image
listener as `mFinalListener` and delivers exactly one `OnStartRequest`, the one
to that listener; no instance is spawned and no instantiation event is posted
in either step, and no second channel is opened. -/
theorem LoadObject_image_scenario {env : Env} (hq : env.quiet) (u fu : URI)
    (aNotify aForceLoad : Bool)
    (hdoc : env.inActiveDocument = true)
    (himg : (env.isBeingUsedAsImage || env.isLoadedAsData) = false)
    (htag : env.element.tag ≠ .applet) (htype : env.element.typeAttr = "image/png")
    (hnj : env.isJavaMIMEType "image/png" = false)
    (hkind : GetTypeOfContent env "image/png" = .eType_Image)
    (hclassid : env.caps.eSupportClassID = false ∨ env.element.classid = "")
    (hattr : uriAttribute env false ≠ "")
    (huri : env.newURI (uriAttribute env false) (resolveCodebase env false) = some u)
    (hext : env.caps.eAllowPluginSkipChannel = false
      ∨ (IsPluginEnabledByExtension env (some u) = none
        ∧ IsPluginEnabledByExtension env (some fu) = none))
    (hjava : env.isJavaMIMEType "" = true → ∀ b,
      env.checkLoadURIWithPrincipal b = true ∧ env.principalGetURIOk = true
      ∧ (env.uriIsLocalFile b && env.strictFileOriginPolicy
          && !env.relaxStrictFileOriginPolicy b) = false)
    (hload : env.contentLoadPolicy u "" = some .ACCEPT)
    (hproc : env.contentProcessPolicy .eType_Image (some fu) "image/png" = some .ACCEPT)
    (hvs : blocksViewSource u = false) (hvs₂ : blocksViewSource fu = false)
    (hcan : CanHandleURI env u = true) (hprin : env.checkLoadURIWithPrincipal (some u) = true)
    (hcsp : env.getCspOk = true) (hnew : env.newChannelOk u = true)
    (hopen : env.asyncOpenOk u = true)
    (hct : env.channelContentType u = some "image/png")
    (hfu : env.channelFinalURI u = some fu)
    (hreq : env.requestSuccessful 0 = true) (hcu : (env.channelGetURI 0).isSome = true)
    (himgok : env.loadImageWithChannelOk = true)
    (hls : env.listenerOnStartOk (.image 0) = true) :
    ∃ s₁ s₂ : State,
      LoadObject env State.init aNotify aForceLoad none = (s₁, .NS_OK)
      ∧ s₁.mType = .eType_Loading ∧ s₁.channelId = some 0 ∧ s₁.opens = 1
      ∧ s₁.mFinalListener = none ∧ s₁.mInstanceOwner = none
      ∧ s₁.mPendingInstantiateEvent = none
      ∧ OnStartRequest env s₁ (some 0) = (s₂, .NS_OK)
      ∧ s₂.mType = .eType_Image ∧ s₂.mFinalListener = some (.image 0)
      ∧ s₂.log.countP (fun e => decide (e = .listenerOnStart (.image 0) (some 0))) = 1
      ∧ s₂.log.countP Effect.isListenerOnStart = 1
      ∧ s₂.opens = 1 ∧ s₂.mInstanceOwner = none ∧ s₂.mPendingInstantiateEvent = none
      ∧ s₂.log.countP Effect.isPostInstantiate = 0 ∧ s₂.log.countP Effect.isSpawn = 0 := by
  have hext₁ : env.caps.eAllowPluginSkipChannel = false
      ∨ IsPluginEnabledByExtension env (some u) = none := hext.imp id And.left
  have hext₂ : env.caps.eAllowPluginSkipChannel = false
      ∨ IsPluginEnabledByExtension env (some fu) = none := hext.imp id And.right
  have hres := resolved_image env u htag htype hnj hkind hclassid hattr huri hext₁
  obtain ⟨L₁, hfirst, a₁, a₂, a₃, a₄⟩ := LoadObject_init_image hq u fu
    (resolveCodebase env false) aNotify aForceLoad none hdoc himg hkind hres
    (fun hj => hjava hj _) hload hvs hcan hprin hcsp hnew hopen hct hfu
  have hentry := LoadObject_entry_image_channel env u fu (resolveCodebase env false) L₁ hdoc himg
    hkind hnj hres hext₂
  obtain ⟨L₂, hun, b₁, b₂, b₃, b₄, b₅⟩ := LoadObject_unload_image_channel hq u fu
    (resolveCodebase env false) L₁ hnj hproc hvs₂ himgok hls
  have hsecond : OnStartRequest env
      { State.init with
        mOriginalContentType := "image/png", mOriginalURI := some u, mURI := some u,
        mBaseURI := resolveCodebase env false,
        mChannel := some ⟨0, some "image/png", some fu, false⟩, nextId := 1, log := L₁ }
      (some 0)
      = ({ State.init with
            mType := .eType_Image, mContentType := "image/png",
            mOriginalContentType := "image/png", mOriginalURI := some u, mURI := some fu,
            mBaseURI := resolveCodebase env false,
            mChannel := some ⟨0, some "image/png", some fu, false⟩, nextId := 1,
            mChannelLoaded := true, mFinalListener := some (.image 0),
            log := L₁ ++ L₂ }, .NS_OK) := by
    have hcu' : ¬ env.channelGetURI 0 = none := by
      intro h
      simp [h] at hcu
    unfold OnStartRequest
    simp only [State.init] at hentry hun ⊢
    simp only [State.channelId, Option.map_some', ne_eq, not_true_eq_false, decide_False,
      Option.isNone_some, Bool.or_self, Bool.false_eq_true, if_false, reduceCtorEq, hreq,
      if_true, Option.isNone_iff_eq_none, hcu']
    unfold LoadObject
    simp only [hdoc, Bool.not_true, Bool.false_eq_true, if_false, hentry, hun]
  refine ⟨_, _, hfirst, rfl, rfl, ?_, rfl, rfl, rfl, hsecond, rfl, rfl, ?_, ?_, ?_, rfl, rfl,
    ?_, ?_⟩
  · simpa [State.opens] using a₂
  · have hle : L₁.countP (fun e => decide (e = Effect.listenerOnStart (.image 0) (some 0)))
        ≤ L₁.countP Effect.isListenerOnStart :=
      List.countP_mono_left (fun x _ hx => by
        simp only [decide_eq_true_eq] at hx
        subst hx
        rfl)
    rw [a₄] at hle
    simp only [List.countP_append, b₄]
    omega
  · simp [List.countP_append, a₄, b₅, -List.countP_eq_zero]
  · simp [State.opens, List.countP_append, a₂, b₂, -List.countP_eq_zero]
  · simp [List.countP_append, a₁, b₁, -List.countP_eq_zero]
  · simp [List.countP_append, a₃, b₃, -List.countP_eq_zero]

/-- C8, as stated, fails: for `<object type="image/png" data="http://x/a.png">`
with image support, every check accepting and the channel succeeding, a server
that answers `text/html` makes the `OnStartRequest` of the channel resolve
`eType_Document`, not `eType_Image`: the channel's type goes before the type
attribute, and the final listener is the document loader's, not the image's. -/
theorem OnStartRequest_image_hint_counterexample :
    htmlBehindImageEnv.element.typeAttr = "image/png"
    ∧ GetTypeOfContent htmlBehindImageEnv "image/png" = .eType_Image
    ∧ (resolved htmlBehindImageEnv false).newURI
        = some (.simple "http://x/a.png" (some "http") none)
    ∧ (LoadObject htmlBehindImageEnv State.init true false none).2 = .NS_OK
    ∧ (LoadObject htmlBehindImageEnv State.init true false none).1.mType = .eType_Loading
    ∧ (LoadObject htmlBehindImageEnv State.init true false none).1.opens = 1
    ∧ (OnStartRequest htmlBehindImageEnv
        (LoadObject htmlBehindImageEnv State.init true false none).1 (some 0)).2 = .NS_OK
    ∧ (OnStartRequest htmlBehindImageEnv
        (LoadObject htmlBehindImageEnv State.init true false none).1 (some 0)).1.mType
        = .eType_Document
    ∧ (OnStartRequest htmlBehindImageEnv
        (LoadObject htmlBehindImageEnv State.init true false none).1 (some 0)).1.mFinalListener
        = some (.document 0) := by
  decide

theorem LoadObject_image_scenario_witness :
    ∃ s₁ s₂ : State,
      LoadObject imageObjectEnv State.init true false none = (s₁, .NS_OK)
      ∧ s₁.mType = .eType_Loading ∧ s₁.channelId = some 0 ∧ s₁.opens = 1
      ∧ s₁.mFinalListener = none ∧ s₁.mInstanceOwner = none
      ∧ s₁.mPendingInstantiateEvent = none
      ∧ OnStartRequest imageObjectEnv s₁ (some 0) = (s₂, .NS_OK)
      ∧ s₂.mType = .eType_Image ∧ s₂.mFinalListener = some (.image 0)
      ∧ s₂.log.countP (fun e => decide (e = .listenerOnStart (.image 0) (some 0))) = 1
      ∧ s₂.log.countP Effect.isListenerOnStart = 1
      ∧ s₂.opens = 1 ∧ s₂.mInstanceOwner = none ∧ s₂.mPendingInstantiateEvent = none
      ∧ s₂.log.countP Effect.isPostInstantiate = 0 ∧ s₂.log.countP Effect.isSpawn = 0 :=
  LoadObject_image_scenario (fun _ _ => rfl) (.simple "http://x/a.png" (some "http") none)
    (.simple "http://x/a.png" (some "http") none) true false
    (by decide) (by decide) (by decide) (by decide) (by decide) (by decide)
    (Or.inl (by decide)) (by decide) (by decide) (Or.inl (by decide))
    (fun h => absurd h (by decide)) (by decide) (by decide) (by decide) (by decide)
    (by decide) (by decide) (by decide) (by decide) (by decide) (by decide) (by decide)
    (by decide) (by decide) (by decide) (by decide)

/-! ## What is loaded into a state -/

@[simp] theorem res_mk (a1 : ObjectType) (a2 : FallbackType) (a3 a4 a5 a6 a7 a8 a9 a10 : Bool)
    (a11 a12 : String) (a13 a14 a15 : Option URI) (a16 : Option Channel)
    (a17 : Option Listener) (a18 a19 a20 a21 : Option Nat) (a22 : Nat) (a23 : List Effect) :
    (State.mk a1 a2 a3 a4 a5 a6 a7 a8 a9 a10 a11 a12 a13 a14 a15 a16 a17 a18 a19 a20 a21 a22
      a23).res = ⟨a1, a18, a19⟩ :=
  rfl

@[simp] theorem res_emit (s : State) (e : Effect) : (s.emit e).res = s.res :=
  rfl

@[simp] theorem res_ite (c : Prop) [Decidable c] (a b : State) :
    (if c then a else b).res = if c then a.res else b.res :=
  apply_ite _ _ _ _

@[simp] theorem res_eta (r : Res) : (⟨r.ty, r.fl, r.io⟩ : Res) = r :=
  rfl

theorem mType_res (s : State) : s.mType = s.res.ty := rfl

theorem mFrameLoader_res (s : State) : s.mFrameLoader = s.res.fl := rfl

theorem mInstanceOwner_res (s : State) : s.mInstanceOwner = s.res.io := rfl

@[simp] theorem NotifyStateChanged_res {env : Env} (hq : env.quiet) (s : State)
    (ot : ObjectType) (os : EventStates) (sync notify : Bool) (site : Site) :
    (NotifyStateChanged env s ot os sync notify site).res = s.res := by
  unfold NotifyStateChanged
  simp [hq.eq]

@[simp] theorem CloseChannel_res {env : Env} (hq : env.quiet) (s : State) :
    (CloseChannel env s).res = s.res := by
  unfold CloseChannel
  simp only [hq.eq]
  split
  · rfl
  · split <;> rfl

@[simp] theorem OpenChannel_res (env : Env) (s : State) :
    (OpenChannel env s).1.res = s.res := by
  unfold OpenChannel
  dsimp only
  split
  · rfl
  · split_ifs <;> rfl

@[simp] theorem DoStopPlugin_res {env : Env} (hq : env.quiet) (s : State) (o : Nat)
    (d f : Bool) : (DoStopPlugin env s o d f).res = s.res := by
  unfold DoStopPlugin
  simp only [hq.eq]
  split_ifs <;> rfl

theorem StopPluginInstance_tail_res {env : Env} (hq : env.quiet) (s s₂ : State)
    (hr : s₂.res = s.res) :
    (match s₂.mInstanceOwner with
      | none => s₂
      | some owner =>
        DoStopPlugin env { s₂.emit (.ownerSetFrame owner false) with mInstanceOwner := none } owner
          (env.xpWin && env.ownerHasInstance
            && decide (env.instanceMIMEType = some "audio/x-pn-realaudio-plugin")) false).res
      = { s.res with io := none } := by
  split
  · rename_i hn
    rw [← hr]
    simp only [mInstanceOwner_res] at hn
    rw [← hn]
  · rw [DoStopPlugin_res hq, ← hr]
    rfl

@[simp] theorem StopPluginInstance_res {env : Env} (hq : env.quiet) (s : State) :
    (StopPluginInstance env s).res = { s.res with io := none } := by
  unfold StopPluginInstance
  dsimp only
  by_cases h : s.mInstanceOwner.isNone = true
  · rw [if_pos h]
    simp only [Option.isNone_iff_eq_none, mInstanceOwner_res] at h
    rw [← h]
    rfl
  · rw [if_neg h]
    by_cases hc : s.mChannel.isSome = true
    · rw [if_pos hc]
      exact StopPluginInstance_tail_res hq s _ (by rw [CloseChannel_res hq]; rfl)
    · rw [if_neg hc]
      exact StopPluginInstance_tail_res hq s _ rfl

@[simp] theorem destroyFrameLoader_res (s : State) :
    (destroyFrameLoader s).res = { s.res with fl := none } := by
  unfold destroyFrameLoader
  split
  · rfl
  · rename_i h
    simp only [mFrameLoader_res] at h
    rw [← h]

@[simp] theorem UnloadObject_res {env : Env} (hq : env.quiet) (s : State) (r : Bool) :
    (UnloadObject env s r).res
      = ⟨if r then .eType_Loading else s.res.ty, none, none⟩ := by
  unfold UnloadObject
  rw [StopPluginInstance_res hq]
  cases r <;> simp [hq, mType_res, mFrameLoader_res, mInstanceOwner_res]

@[simp] theorem LoadFallback_res {env : Env} (hq : env.quiet) (s : State) (ty : FallbackType)
    (notify : Bool) :
    (LoadFallback env s ty notify).res = { s.res with ty := .eType_Null } := by
  unfold LoadFallback
  simp [hq, mType_res, mFrameLoader_res, mInstanceOwner_res]

@[simp] theorem CheckJavaCodebase_res {env : Env} (hq : env.quiet) (s : State) :
    (CheckJavaCodebase env s).1.res = s.res := by
  unfold CheckJavaCodebase
  simp [hq.eq]

@[simp] theorem CheckLoadPolicy_res {env : Env} (hq : env.quiet) (s : State)
    (cp : ContentPolicy) : (CheckLoadPolicy env s cp).1.res = s.res := by
  unfold CheckLoadPolicy
  split
  · rfl
  · split <;> simp [hq.eq]

@[simp] theorem CheckProcessPolicy_res {env : Env} (hq : env.quiet) (s : State)
    (cp : ContentPolicy) : (CheckProcessPolicy env s cp).1.res = s.res := by
  unfold CheckProcessPolicy
  split
  · split <;> simp [hq.eq]
  · rfl

@[simp] theorem MakePluginListener_res (env : Env) (s : State) :
    (MakePluginListener env s).1.res = s.res := by
  unfold MakePluginListener
  split
  · rfl
  · split_ifs <;> rfl

@[simp] theorem AsyncStartPluginInstance_res (env : Env) (s : State) :
    (AsyncStartPluginInstance env s).1.res = s.res := by
  unfold AsyncStartPluginInstance
  split_ifs <;> rfl

@[simp] theorem finalListenerOnStart_res {env : Env} (hq : env.quiet) (s : State)
    (r : Option Nat) : (finalListenerOnStart env s r).1.res = s.res := by
  unfold finalListenerOnStart
  split <;> simp [hq.eq]

@[simp] theorem killNewOwner_res (env : Env) (s : State) (o : Option Nat) :
    (killNewOwner env s o).res = s.res := by
  unfold killNewOwner
  split
  · simp
  · rfl

@[simp] theorem wireNewOwner_res (env : Env) (s : State) (b : Bool) (o : Nat) :
    (wireNewOwner env s b o).res = { s.res with io := some o } := by
  unfold wireNewOwner
  simp [mType_res, mFrameLoader_res, mInstanceOwner_res]

/-! ## At most one of instance owner and frame loader -/

theorem Res.ok_of_bare (ty : ObjectType) : (⟨ty, none, none⟩ : Res).ok := by
  simp [Res.ok]

theorem InstantiatePluginInstance_body_res {env : Env} (hq : env.quiet) (s : State) (b : Bool) :
    (InstantiatePluginInstance_body env s b).1.res = s.res
    ∨ ∃ o, (InstantiatePluginInstance_body env s b).1.res = { s.res with io := some o } := by
  unfold InstantiatePluginInstance_body
  simp only [hq.eq]
  split_ifs <;>
    first
      | exact Or.inl rfl
      | exact Or.inl (by rw [killNewOwner_res]; rfl)
      | exact Or.inr ⟨_, by rw [wireNewOwner_res]; rfl⟩

theorem InstantiatePluginInstance_ok {env : Env} (hq : env.quiet) (s : State) (b : Bool)
    (h : s.res.ok) : (InstantiatePluginInstance env s b).1.res.ok := by
  unfold InstantiatePluginInstance
  split_ifs with hg
  · exact h
  · simp only [Bool.or_eq_true, decide_eq_true_eq, not_or, ne_eq, not_not,
      Bool.not_eq_true] at hg
    obtain ⟨⟨⟨hio, hty⟩, _⟩, _⟩ := hg
    have hres : ({ (InstantiatePluginInstance_body env { s with mInstantiating := true } b).1
        with mInstantiating := false } : State).res
        = (InstantiatePluginInstance_body env { s with mInstantiating := true } b).1.res := rfl
    simp only [hres]
    rcases InstantiatePluginInstance_body_res hq { s with mInstantiating := true } b
      with hr | ⟨o, hr⟩
    · rw [hr]
      exact h
    · rw [hr]
      refine ⟨fun _ => hty, ?_⟩
      intro hfl
      exact h.2 hfl

theorem LoadObject_failure_ok_res {env : Env} (hq : env.quiet) (s : State) (ctx : LoadCtx)
    (rv : nsresult) (h : s.res.ok) : (LoadObject_failure env s ctx rv).res.ok := by
  unfold LoadObject_failure
  simp only []
  split_ifs <;>
    (try simp only [UnloadObject_res hq, LoadFallback_res hq, CloseChannel_res hq]) <;>
    first
      | exact h
      | exact Res.ok_of_bare _

theorem LoadObject_deferred_ok {env : Env} (hq : env.quiet) (s : State) (ctx : LoadCtx)
    (spawn : Bool) (fl : Option Listener) (h : s.res.ok) :
    (LoadObject_deferred env s ctx spawn fl).res.ok := by
  have hi := InstantiatePluginInstance_ok hq s true h
  have hl : ({ s with mFinalListener := fl } : State).res.ok := h
  unfold LoadObject_deferred
  simp only []
  split_ifs <;>
    first
      | exact hi
      | exact h
      | (simp only [CloseChannel_res hq, finalListenerOnStart_res hq, MakePluginListener_res]
         exact hi)
      | (apply LoadObject_failure_ok_res hq
         try simp only [CloseChannel_res hq, finalListenerOnStart_res hq, MakePluginListener_res]
         first
          | exact hi
          | exact hl)

theorem Res.loaded_of_bare {r : Res} (h : r.bare) : r.loaded :=
  ⟨h.2, by simp [h.1]⟩

theorem Res.ok_of_loaded {r : Res} (h : r.loaded) : r.ok :=
  ⟨by simp [h.1], h.2⟩

theorem LoadObject_notify_ok {env : Env} (hq : env.quiet) (s : State) (ctx : LoadCtx)
    (rv : nsresult) (fl : Option Listener) (spawn : Bool) (h : s.res.loaded) :
    (LoadObject_notify env s ctx rv fl spawn).res.ok := by
  have hnull : ({ s.res with ty := .eType_Null } : Res).ok := ⟨by simp [h.1], fun _ => Or.inr rfl⟩
  have hnull₂ : ({ ({ s with mType := .eType_Null } : State).res with ty := .eType_Null } : Res).ok :=
    hnull
  have hok := Res.ok_of_loaded h
  unfold LoadObject_notify
  simp only []
  split_ifs <;>
    first
      | (simp only [NotifyStateChanged_res hq, LoadFallback_res hq, CloseChannel_res hq]
         first
          | exact hok
          | exact hnull
          | exact hnull₂)
      | (apply LoadObject_deferred_ok hq
         simp only [NotifyStateChanged_res hq, LoadFallback_res hq, CloseChannel_res hq]
         first
          | exact hok
          | exact hnull)

theorem LoadObject_document_ok {env : Env} (hq : env.quiet) (s : State) (ctx : LoadCtx)
    (h : s.res.bare) (hty : s.mType = .eType_Document) :
    (LoadObject_document env s ctx).res.ok := by
  have hio : s.mInstanceOwner = none := h.2
  have hB : ∀ t : State, t.mInstanceOwner = none → t.mType = .eType_Null → t.res.loaded :=
    fun t h₁ h₂ => ⟨h₁, fun _ => Or.inr h₂⟩
  have hC : ∀ t : State, t.mInstanceOwner = none → t.mType = .eType_Document → t.res.loaded :=
    fun t h₁ h₂ => ⟨h₁, fun _ => Or.inl h₂⟩
  unfold LoadObject_document
  split
  · exact LoadObject_notify_ok hq _ _ _ _ _ (hB _ hio rfl)
  · simp only []
    split_ifs <;>
      first
        | exact LoadObject_notify_ok hq _ _ _ _ _ (hB _ hio rfl)
        | exact LoadObject_notify_ok hq _ _ _ _ _ (hC _ hio hty)

theorem LoadObject_dispatch_ok {env : Env} (hq : env.quiet) (s : State) (ctx : LoadCtx)
    (h : s.res.bare) : (LoadObject_dispatch env s ctx).res.ok := by
  have hl : s.res.loaded := Res.loaded_of_bare h
  unfold LoadObject_dispatch
  split
  · split
    · exact LoadObject_notify_ok hq _ _ _ _ _ hl
    · simp only []
      split_ifs <;> exact LoadObject_notify_ok hq _ _ _ _ _ hl
  · simp only []
    split_ifs <;> apply LoadObject_notify_ok hq <;>
      simp only [CloseChannel_res hq, NotifyStateChanged_res hq, AsyncStartPluginInstance_res] <;>
      exact hl
  · rename_i hty
    exact LoadObject_document_ok hq s ctx h hty
  · apply LoadObject_notify_ok hq
    simp only [OpenChannel_res]
    exact hl
  · exact LoadObject_notify_ok hq _ _ _ _ _ hl

theorem LoadObject_sanity_ok {env : Env} (hq : env.quiet) (s : State) (ctx : LoadCtx)
    (h : s.res.bare) : (LoadObject_sanity env s ctx).res.ok := by
  have hok : s.res.ok := Res.ok_of_loaded (Res.loaded_of_bare h)
  unfold LoadObject_sanity
  split_ifs
  · exact hok
  · exact hok
  · exact LoadObject_dispatch_ok hq s ctx h

theorem LoadObject_played_bare (env : Env) (s : State) (h : s.res.bare) :
    (LoadObject_played env s).res.bare := by
  have h₁ : ∀ (ty : ObjectType) (a : Bool) (L : List Effect),
      ({ s with mType := ty, mActivated := a, log := L } : State).res.bare := fun _ _ _ => h
  unfold LoadObject_played
  simp only []
  split_ifs <;> exact h

theorem LoadObject_gate_ok {env : Env} (hq : env.quiet) (s : State) (ctx : LoadCtx)
    (h : s.res.bare) : (LoadObject_gate env s ctx).res.ok := by
  have h₁ : ({ s with mType := .eType_Null } : State).res.bare := h
  unfold LoadObject_gate LoadObject_play
  split_ifs
  · exact LoadObject_sanity_ok hq _ _ (LoadObject_played_bare env _ h₁)
  · exact LoadObject_sanity_ok hq _ _ (LoadObject_played_bare env _ h)

theorem LoadObject_policy_res {env : Env} (hq : env.quiet) (s : State) :
    (LoadObject_policy env s).1.res = s.res := by
  unfold LoadObject_policy
  simp only []
  split_ifs <;>
    simp only [CheckProcessPolicy_res hq, CheckLoadPolicy_res hq, CheckJavaCodebase_res hq]

theorem LoadObject_security_ok {env : Env} (hq : env.quiet) (s : State) (ctx : LoadCtx)
    (h : s.res.bare) : (LoadObject_security env s ctx).res.ok := by
  have hp : (LoadObject_policy env s).1.res.bare := by
    rw [LoadObject_policy_res hq]
    exact h
  have hp₁ : ({ (LoadObject_policy env s).1 with mType := .eType_Null } : State).res.bare := hp
  unfold LoadObject_security
  simp only []
  split_ifs
  · exact Res.ok_of_loaded (Res.loaded_of_bare hp)
  · exact LoadObject_gate_ok hq _ _ hp₁
  · exact LoadObject_gate_ok hq _ _ hp₁
  · exact LoadObject_gate_ok hq _ _ hp
  · exact LoadObject_gate_ok hq _ _ h

theorem LoadObject_unload_ok {env : Env} (hq : env.quiet) (s : State) (ctx : LoadCtx) :
    (LoadObject_unload env s ctx).res.ok := by
  have hb : (UnloadObject env s false).res.bare := by
    rw [UnloadObject_res hq]
    exact ⟨rfl, rfl⟩
  have hb₁ : ({ CloseChannel env (UnloadObject env s false) with mChannelLoaded := false }
      : State).res.bare := by
    have : ({ CloseChannel env (UnloadObject env s false) with mChannelLoaded := false }
      : State).res = (CloseChannel env (UnloadObject env s false)).res := rfl
    rw [this, CloseChannel_res hq]
    exact hb
  have hb₂ : (CloseChannel env (UnloadObject env s false)).res.bare := by
    rw [CloseChannel_res hq]
    exact hb
  have hok := Res.ok_of_loaded (Res.loaded_of_bare hb)
  unfold LoadObject_unload LoadObject_channel
  simp only []
  split_ifs <;>
    first
      | exact hok
      | exact LoadObject_security_ok hq _ _ hb₁
      | exact LoadObject_security_ok hq _ _ hb₂
      | exact LoadObject_security_ok hq _ _ hb

theorem UpdateObjectParameters_res (env : Env) (s : State) (j : Bool) :
    (UpdateObjectParameters env s j).1.res
      = { s.res with ty := (UpdateObjectParameters env s j).1.mType } := by
  unfold UpdateObjectParameters updateFromResolved
  rfl

theorem updateFromResolved_mType_noChange (env : Env) (s : State) (r : Resolved)
    (hno : (updateFromResolved env s r).2.any = false) :
    (updateFromResolved env s r).1.mType = s.mType := by
  unfold updateFromResolved at hno ⊢
  generalize channelInformed env s r = ci at hno ⊢
  rcases ci with ⟨cc, uc, nc, nm, nu, si, ch, lg⟩
  simp only at hno ⊢
  generalize determineFinalType env si nc nm nu = d at hno ⊢
  rcases d with ⟨t₀, m₁⟩
  cases uc <;> cases nc <;> by_cases hl : t₀ = .eType_Loading <;>
    simp [hl, ParameterUpdateFlags.any] at hno ⊢ <;>
    first
      | tauto
      | simp_all

theorem UpdateObjectParameters_mType_noChange (env : Env) (s : State) (j : Bool)
    (hno : (UpdateObjectParameters env s j).2.any = false) :
    (UpdateObjectParameters env s j).1.mType = s.mType :=
  updateFromResolved_mType_noChange env s _ hno

theorem LoadObject_entry_ok (env : Env) (s : State) (n f : Bool) (c : Option Nat)
    (h : s.res.ok) (hnone : (LoadObject_entry env s n f c).2 = none) :
    (LoadObject_entry env s n f c).1.res.ok := by
  unfold LoadObject_entry at hnone ⊢
  cases f
  · simp only [Bool.false_and, Bool.false_eq_true, if_false, Bool.not_false, Bool.and_true]
      at hnone ⊢
    split_ifs at hnone ⊢ with h₁ h₂ h₃
    · exact h
    · exact h
    · simp only [Bool.not_eq_true'] at h₃
      rw [UpdateObjectParameters_res, UpdateObjectParameters_mType_noChange env s false h₃]
      exact h
  · simp only [Bool.not_true, Bool.and_false, Bool.false_eq_true, if_false] at hnone ⊢
    split_ifs at hnone ⊢ <;> exact h

theorem LoadObject_ok {env : Env} (hq : env.quiet) (s : State) (n f : Bool) (c : Option Nat)
    (h : s.res.ok) : (LoadObject env s n f c).1.res.ok := by
  have he := LoadObject_entry_ok env s n f c h
  unfold LoadObject
  split_ifs
  · exact h
  · rcases hent : LoadObject_entry env s n f c with ⟨s₁, _ | ctx⟩
    · rw [hent] at he
      exact he rfl
    · exact LoadObject_unload_ok hq _ _

theorem InitializeFromChannel_ok (env : Env) (s : State) (ch : Channel) (h : s.res.ok) :
    (InitializeFromChannel env s ch).1.res.ok := by
  unfold InitializeFromChannel
  split_ifs with hg
  · exact h
  · simp only [Bool.or_eq_true, decide_eq_true_eq, ne_eq, not_or, not_not] at hg
    have hr := UpdateObjectParameters_res env s false
    have hty : s.res.ty = .eType_Loading := hg.1
    have hio : s.res.io = none := by
      cases hio : s.res.io with
      | none => rfl
      | some o =>
        have := h.1 (by simp [hio])
        rw [hty] at this
        cases this
    have hfl : s.res.fl = none := by
      cases hfl : s.res.fl with
      | none => rfl
      | some o =>
        have := h.2 (by simp [hfl])
        rw [hty] at this
        rcases this with h' | h' <;> cases h'
    have : ({ (UpdateObjectParameters env s false).1 with
        mType := .eType_Loading, mChannel := some ch } : State).res
        = ⟨.eType_Loading, (UpdateObjectParameters env s false).1.res.fl,
            (UpdateObjectParameters env s false).1.res.io⟩ := rfl
    simp only [this, hr, hfl, hio]
    exact Res.ok_of_bare _

theorem OnStartRequest_ok {env : Env} (hq : env.quiet) (s : State) (rq : Option Nat)
    (h : s.res.ok) : (OnStartRequest env s rq).1.res.ok := by
  unfold OnStartRequest
  simp only []
  split_ifs <;>
    first
      | exact h
      | (simp only [finalListenerOnStart_res hq, MakePluginListener_res]
         exact h)
      | exact LoadObject_ok hq _ _ _ _ h

theorem OnStopRequest_ok {env : Env} (hq : env.quiet) (s : State) (cc : Bool)
    (rq : Option Nat) (st : nsresult) (h : s.res.ok) :
    (OnStopRequest env s cc rq st).1.res.ok := by
  unfold OnStopRequest
  simp only []
  split_ifs
  · exact h
  · exact h
  · split
    · simp only [hq.eq]
      exact h
    · exact h

theorem AsyncOnChannelRedirect_ok (s : State) (o : Option Nat) (nw : Option Channel)
    (h : s.res.ok) : (AsyncOnChannelRedirect s o nw).1.res.ok := by
  unfold AsyncOnChannelRedirect
  split_ifs <;> exact h

theorem StopPluginInstance_ok {env : Env} (hq : env.quiet) (s : State) (h : s.res.ok) :
    (StopPluginInstance env s).res.ok := by
  rw [StopPluginInstance_res hq]
  exact ⟨by simp, h.2⟩

theorem PluginCrashed_ok {env : Env} (hq : env.quiet) (s : State) (a b c d : String)
    (e : Bool) : (PluginCrashed env s a b c d e).1.res.ok := by
  have hd : (PluginDestroyed s).1.res.io = none := by
    unfold PluginDestroyed
    rfl
  unfold PluginCrashed
  simp only []
  split_ifs <;> simp only [res_emit, LoadFallback_res hq] <;>
    exact ⟨by simp [← mInstanceOwner_res, hd, mInstanceOwner_res], fun _ => Or.inr rfl⟩

theorem UnloadObject_ok {env : Env} (hq : env.quiet) (s : State) (r : Bool) :
    (UnloadObject env s r).res.ok := by
  rw [UnloadObject_res hq]
  exact Res.ok_of_bare _

/-- In every reachable state an instance owner is held only with
`eType_Plugin`, a frame loader only with `eType_Document` or `eType_Null`. -/
theorem Reachable.res_ok {s : State} (h : Reachable s) : s.res.ok := by
  induction h with
  | init => exact Res.ok_of_bare _
  | loadObject env hq s n f c _ ih => exact LoadObject_ok hq s n f c ih
  | initializeFromChannel env s ch _ ih => exact InitializeFromChannel_ok env s ch ih
  | onStartRequest env hq s rq _ ih => exact OnStartRequest_ok hq s rq ih
  | onStopRequest env hq s cc rq st _ ih => exact OnStopRequest_ok hq s cc rq st ih
  | asyncOnChannelRedirect s o nw _ ih => exact AsyncOnChannelRedirect_ok s o nw ih
  | instantiatePluginInstance env hq s b _ ih => exact InstantiatePluginInstance_ok hq s b ih
  | stopPluginInstance env hq s _ ih => exact StopPluginInstance_ok hq s ih
  | pluginCrashed env hq s a b c d e _ _ => exact PluginCrashed_ok hq s a b c d e
  | unloadObject env hq s r _ _ => exact UnloadObject_ok hq s r

theorem documentLoaded_reachable : Reachable documentLoaded :=
  Reachable.onStartRequest documentObjectEnv (fun _ _ => rfl) _ (some 0)
    (Reachable.loadObject documentObjectEnv (fun _ _ => rfl) State.init true false none
      Reachable.init)

/-- C5, as stated, fails: after the first `LoadObject` and the `OnStartRequest`
of its channel, an `<object>` whose data is an HTML document holds a frame
loader and the channel that feeds it at the same time. -/
theorem Reachable_channel_with_frameLoader_counterexample :
    Reachable documentLoaded
    ∧ documentLoaded.mType = .eType_Document
    ∧ documentLoaded.channelId = some 0
    ∧ documentLoaded.mFrameLoader = some 1
    ∧ documentLoaded.mInstanceOwner = none :=
  ⟨documentLoaded_reachable, by decide, by decide, by decide, by decide⟩

/-- C5, amended: in every state reachable through the public operations, with
no nested entry, at most one of instance owner and frame loader is held (a
channel may be held along with either), an instance owner is held only with
`eType_Plugin`, and none is held with `eType_Null`. -/
theorem Reachable_at_most_one_loaded (s : State) (h : Reachable s) :
    ¬ (s.mInstanceOwner.isSome = true ∧ s.mFrameLoader.isSome = true)
    ∧ (s.mInstanceOwner.isSome = true → s.mType = .eType_Plugin)
    ∧ (s.mType = .eType_Null → s.mInstanceOwner = none) := by
  obtain ⟨hio, hfl⟩ := Reachable.res_ok h
  simp only [← mType_res, ← mInstanceOwner_res, ← mFrameLoader_res] at hio hfl
  refine ⟨?_, hio, ?_⟩
  · rintro ⟨h₁, h₂⟩
    have hp := hio h₁
    rcases hfl h₂ with h₃ | h₃ <;> rw [hp] at h₃ <;> cases h₃
  · intro hn
    cases ho : s.mInstanceOwner with
    | none => rfl
    | some o =>
      have hp := hio (by simp [ho])
      rw [hn] at hp
      cases hp

theorem Reachable_at_most_one_loaded_witness :
    ¬ (documentLoaded.mInstanceOwner.isSome = true ∧ documentLoaded.mFrameLoader.isSome = true)
    ∧ (documentLoaded.mInstanceOwner.isSome = true → documentLoaded.mType = .eType_Plugin)
    ∧ (documentLoaded.mType = .eType_Null → documentLoaded.mInstanceOwner = none) :=
  Reachable_at_most_one_loaded documentLoaded
    (Reachable.onStartRequest documentObjectEnv (fun _ _ => rfl) _ (some 0)
      (Reachable.loadObject documentObjectEnv (fun _ _ => rfl) State.init true false none
        Reachable.init))

/-- Where the URI loader refuses the channel of a document, `LoadObject` falls
back to `eType_Null` with the frame loader it has created still held; and a
crash of a plugin that is fed by a channel leaves `eType_Null` with the channel
still held. The assertions of `LoadObject` and `LoadFallback` say otherwise. -/
theorem Null_with_something_loaded :
    (OnStartRequest refusedDocumentEnv
      (LoadObject refusedDocumentEnv State.init true false none).1 (some 0)).1.mType
      = .eType_Null
    ∧ (OnStartRequest refusedDocumentEnv
      (LoadObject refusedDocumentEnv State.init true false none).1 (some 0)).1.mFrameLoader
      = some 1
    ∧ pluginDocumentLoaded.mType = .eType_Plugin
    ∧ (PluginCrashed pluginDocumentEnv pluginDocumentLoaded "" "" "" "" false).1.mType
      = .eType_Null
    ∧ (PluginCrashed pluginDocumentEnv pluginDocumentLoaded "" "" "" "" false).1.channelId
      = some 7 := by
  decide

/-! ## A nested load during the synchronous notification -/

/-- The sibling paths: after `UnloadObject`, after the policy checks and after
the final notification, `LoadObject` looks at `mIsLoading` and, where a nested
call has cleared it, returns with the state as the nested call left it. -/
theorem LoadObject_returns_when_superseded (env : Env) (s : State) (ctx : LoadCtx) :
    ((UnloadObject env s false).mIsLoading = false →
      LoadObject_unload env s ctx = UnloadObject env s false)
    ∧ (s.mType ≠ .eType_Null → (LoadObject_policy env s).1.mIsLoading = false →
      LoadObject_security env s ctx = (LoadObject_policy env s).1)
    ∧ (s.mType ≠ .eType_Null →
      (NotifyStateChanged env s ctx.oldType ctx.oldState false ctx.aNotify
        .notifyFinal).mIsLoading = false →
      ∀ (fl : Option Listener) (spawn : Bool),
        LoadObject_notify env s ctx .NS_OK fl spawn
          = NotifyStateChanged env s ctx.oldType ctx.oldState false ctx.aNotify
              .notifyFinal) := by
  refine ⟨?_, ?_, ?_⟩
  · intro h
    unfold LoadObject_unload LoadObject_channel
    simp [h]
  · intro hty h
    unfold LoadObject_security
    simp [hty, h]
  · intro hty h fl spawn
    unfold LoadObject_notify
    simp [hty, h, nsresult.failed]

/-- C6, the code at the failing input: a plugin loaded with a channel, and a
script that retargets the element from inside the synchronous state change of
the switch. The nested `LoadObject` runs to its end (no channel, `eType_Null`,
fallback Unsupported, `mIsLoading` cleared). The outer call does not look at
`mIsLoading` after that notification: it goes on to `LoadFallback` with its own
fallback type, which replaces Unsupported by Alternate, and to the final
`NotifyStateChanged`, which tells the document of one more state change, and
only then returns. -/
theorem LoadObject_superseded_at_sync_notification :
    LoadObject_entry reenteredPluginEnv { streamedPluginWaiting with mChannelLoaded := true }
        true false (some 0)
      = ((LoadObject_entry streamedPluginEnv
          { streamedPluginWaiting with mChannelLoaded := true } true false (some 0)).1,
        some streamedPluginCtx)
    ∧ streamedPluginAtSwitch.mType = .eType_Plugin
    ∧ streamedPluginAtSwitch.channelId = some 0
    ∧ streamedPluginAtSwitch.mIsLoading = true
    ∧ NotifyStateChanged reenteredPluginEnv streamedPluginAtSwitch .eType_Loading
        { EventStates.empty with loading := true } true true .notifySync = nestedLoaded
    ∧ nestedLoaded.mIsLoading = false
    ∧ nestedLoaded.mType = .eType_Null
    ∧ nestedLoaded.mFallbackType = .eFallbackUnsupported
    ∧ nestedLoaded.mChannel = none
    ∧ (OnStartRequest reenteredPluginEnv streamedPluginWaiting (some 0)).1
      = { LoadObject_dispatch reenteredPluginEnv streamedPluginAtSwitch streamedPluginCtx with
          mIsLoading := false }
    ∧ (OnStartRequest reenteredPluginEnv streamedPluginWaiting (some 0)).1.mFallbackType
      = .eFallbackAlternate
    ∧ (OnStartRequest reenteredPluginEnv streamedPluginWaiting (some 0)).1.log
      = nestedLoaded.log ++
        [.updateState,
         .contentStateChanged { EventStates.empty with typeUnsupported := true }]
    ∧ ((OnStartRequest reenteredPluginEnv streamedPluginWaiting (some 0)).1.log.drop
        nestedLoaded.log.length).countP Effect.isStateNotification = 1 := by
  decide

/-! ## Theorems: the play gate, from the blocklist to the defaults -/

/-- With no ignore-click-to-play preview in force, the first test of
`ShouldPlay` fails. -/
theorem ShouldPlay_no_override (pe : PlayEnv) (s : State)
    (hpreview : ¬ (pe.playPreviewInfo s.mContentType = some true ∧ s.mPlayPreviewCanceled = false)) :
    (Option.isSome (pe.playPreviewInfo s.mContentType)
      && !s.mPlayPreviewCanceled && (pe.playPreviewInfo s.mContentType).getD false) = false := by
  cases hp : pe.playPreviewInfo s.mContentType with
  | none => simp
  | some b =>
    cases b with
    | false => simp
    | true =>
      cases hc : s.mPlayPreviewCanceled with
      | true => simp
      | false => exact absurd ⟨hp, hc⟩ hpreview

/-- For a plugin kind that is neither globally disabled nor Blocked, with no
ignore-click-to-play preview in force, `ShouldPlay` comes to the permission of
the top-level page with the reason that the blocklist state and a registered
preview leave in `aReason`. -/
theorem ShouldPlay_to_permission (pe : PlayEnv) (s : State) (aReason : FallbackType)
    (aIgnoreCurrentType : Bool) (st : PluginState) (bl : BlocklistState)
    (hkind : aIgnoreCurrentType = true ∨ s.mType = .eType_Plugin)
    (hpreview : ¬ (pe.playPreviewInfo s.mContentType = some true ∧ s.mPlayPreviewCanceled = false))
    (henabled : (pe.stateForType s.mContentType).getD .STATE_DISABLED = st)
    (hst : st ≠ .STATE_DISABLED)
    (hblock : (pe.blocklistStateForType s.mContentType).getD .STATE_NOT_BLOCKED = bl)
    (hbl : bl ≠ .STATE_BLOCKED) :
    ShouldPlay pe s aReason aIgnoreCurrentType
      = ShouldPlay_permission pe s.mContentType
          (if bl = .STATE_VULNERABLE_UPDATE_AVAILABLE then .eFallbackVulnerableUpdatable
           else if bl = .STATE_VULNERABLE_NO_UPDATE then .eFallbackVulnerableNoUpdate
           else if (pe.playPreviewInfo s.mContentType).isSome = true
               ∧ s.mPlayPreviewCanceled = false then .eFallbackPlayPreview
           else .eFallbackClickToPlay) st bl := by
  have h1 := ShouldPlay_no_override pe s hpreview
  have h2 : (!aIgnoreCurrentType && decide (s.mType ≠ .eType_Plugin)) = false := by
    rcases hkind with h | h
    · simp [h]
    · simp [h]
  unfold ShouldPlay
  simp only [h1, h2, henabled, hblock]
  simp only [hst, hbl, Bool.false_eq_true, if_false]
  congr 1
  cases hp : pe.playPreviewInfo s.mContentType with
  | none => cases bl <;> simp
  | some b =>
    cases b with
    | true =>
      cases hc : s.mPlayPreviewCanceled with
      | true => cases bl <;> simp
      | false => exact absurd ⟨hp, hc⟩ hpreview
    | false =>
      cases hc : s.mPlayPreviewCanceled <;> cases bl <;> simp

/-- On a page with a window, whose top-level document and permission manager
can be reached and whose top-level principal is not the system principal, the
permission part of `ShouldPlay` follows the stored permission it reads. -/
theorem ShouldPlay_permission_read (pe : PlayEnv) (ct : String) (r : FallbackType)
    (st : PluginState) (bl : BlocklistState) (key : String) (perm : PermissionAction)
    (hwindow : pe.hasWindow = true) (htop : pe.getTopOk = true)
    (hdoc : pe.getTopDocumentOk = true) (hmanager : pe.permissionManagerOk = true)
    (hsystem : pe.topIsSystemPrincipal = false)
    (hkey : pe.permissionStringForType ct = some key)
    (hperm : pe.testPermissionFromPrincipal key = some perm) :
    ((ShouldPlay_permission pe ct r st bl).play, (ShouldPlay_permission pe ct r st bl).reason)
      = match perm with
        | .ALLOW_ACTION => (true, r)
        | .DENY_ACTION => (false, .eFallbackDisabled)
        | .PROMPT_ACTION => (false, r)
        | .OTHER_ACTION => (false, r)
        | .UNKNOWN_ACTION =>
          if bl = .STATE_VULNERABLE_UPDATE_AVAILABLE ∨ bl = .STATE_VULNERABLE_NO_UPDATE then
            (false, r)
          else (decide (st = .STATE_ENABLED), r) := by
  unfold ShouldPlay_permission
  simp only [hwindow, htop, hdoc, hmanager, hsystem, hkey, hperm, Bool.not_true, Bool.not_false,
    Bool.false_eq_true, if_true, if_false]
  cases perm <;> simp only []
  split_ifs <;> cases st <;> simp

/-- C11, as stated, fails: for an enabled plugin that is not blocklisted, on a
page of an ordinary site with stored permission Allow, a play preview registered
with ignore-click-to-play makes `ShouldPlay` return false with reason
PlayPreview. -/
theorem ShouldPlay_allow_preview_counterexample :
    samplePluginState.mType = .eType_Plugin
    ∧ (previewPlayEnv true .STATE_ENABLED .STATE_NOT_BLOCKED .ALLOW_ACTION).topIsSystemPrincipal
        = false
    ∧ (previewPlayEnv true .STATE_ENABLED .STATE_NOT_BLOCKED .ALLOW_ACTION).testPermissionFromPrincipal
        "plugin:test" = some .ALLOW_ACTION
    ∧ ShouldPlay (previewPlayEnv true .STATE_ENABLED .STATE_NOT_BLOCKED .ALLOW_ACTION)
        samplePluginState .eFallbackAlternate false = ⟨false, .eFallbackPlayPreview, []⟩ := by
  decide

/-- C11, amended: for a plugin kind (or `aIgnoreCurrentType`) that is neither
globally disabled nor Blocked, with no ignore-click-to-play preview in force, on
a page with a window whose top-level document and permission manager can be
reached and whose top-level principal is not the system principal, a stored
permission Allow makes `ShouldPlay` return true, whatever the blocklist state
(the two Vulnerable states included) and the enabled state (click-to-play
included), and a stored permission Deny makes it return false with reason
Disabled, an enabled plugin included. -/
theorem ShouldPlay_allow_deny_terminal (pe : PlayEnv) (s : State) (aReason : FallbackType)
    (aIgnoreCurrentType : Bool) (key : String) (perm : PermissionAction)
    (hkind : aIgnoreCurrentType = true ∨ s.mType = .eType_Plugin)
    (hpreview : ¬ (pe.playPreviewInfo s.mContentType = some true ∧ s.mPlayPreviewCanceled = false))
    (hst : (pe.stateForType s.mContentType).getD .STATE_DISABLED ≠ .STATE_DISABLED)
    (hbl : (pe.blocklistStateForType s.mContentType).getD .STATE_NOT_BLOCKED ≠ .STATE_BLOCKED)
    (hwindow : pe.hasWindow = true) (htop : pe.getTopOk = true)
    (hdoc : pe.getTopDocumentOk = true) (hmanager : pe.permissionManagerOk = true)
    (hsystem : pe.topIsSystemPrincipal = false)
    (hkey : pe.permissionStringForType s.mContentType = some key)
    (hperm : pe.testPermissionFromPrincipal key = some perm) :
    (perm = .ALLOW_ACTION → (ShouldPlay pe s aReason aIgnoreCurrentType).play = true)
    ∧ (perm = .DENY_ACTION →
        (ShouldPlay pe s aReason aIgnoreCurrentType).play = false
        ∧ (ShouldPlay pe s aReason aIgnoreCurrentType).reason = .eFallbackDisabled) := by
  rw [ShouldPlay_to_permission pe s aReason aIgnoreCurrentType _ _ hkind hpreview rfl hst rfl hbl]
  have h := ShouldPlay_permission_read pe s.mContentType
    (if (pe.blocklistStateForType s.mContentType).getD .STATE_NOT_BLOCKED
          = .STATE_VULNERABLE_UPDATE_AVAILABLE then .eFallbackVulnerableUpdatable
     else if (pe.blocklistStateForType s.mContentType).getD .STATE_NOT_BLOCKED
          = .STATE_VULNERABLE_NO_UPDATE then .eFallbackVulnerableNoUpdate
     else if (pe.playPreviewInfo s.mContentType).isSome = true
         ∧ s.mPlayPreviewCanceled = false then .eFallbackPlayPreview
     else .eFallbackClickToPlay)
    ((pe.stateForType s.mContentType).getD .STATE_DISABLED)
    ((pe.blocklistStateForType s.mContentType).getD .STATE_NOT_BLOCKED) key perm
    hwindow htop hdoc hmanager hsystem hkey hperm
  constructor
  · intro hp
    subst hp
    exact congrArg Prod.fst h
  · intro hp
    subst hp
    exact ⟨congrArg Prod.fst h, congrArg Prod.snd h⟩

/-- Witness for C11 amended: a click-to-play plugin with a Vulnerable
blocklist state on a site with stored permission Allow plays. -/
theorem ShouldPlay_allow_deny_terminal_witness :
    (ShouldPlay (samplePlayEnv .STATE_CLICKTOPLAY .STATE_VULNERABLE_NO_UPDATE .ALLOW_ACTION)
      samplePluginState .eFallbackAlternate false).play = true :=
  (ShouldPlay_allow_deny_terminal
    (samplePlayEnv .STATE_CLICKTOPLAY .STATE_VULNERABLE_NO_UPDATE .ALLOW_ACTION)
    samplePluginState .eFallbackAlternate false "plugin:test" .ALLOW_ACTION (Or.inr rfl)
    (by decide) (by decide) (by decide) rfl rfl rfl rfl rfl rfl rfl).1 rfl

/-- C12, as stated, fails: for an enabled plugin whose blocklist state is
Vulnerable with an update available, on a site with stored permission Prompt,
`ShouldPlay` returns false with reason VulnerableUpdatable, not ClickToPlay. -/
theorem ShouldPlay_prompt_vulnerable_counterexample :
    samplePluginState.mType = .eType_Plugin
    ∧ (samplePlayEnv .STATE_ENABLED .STATE_VULNERABLE_UPDATE_AVAILABLE
        .PROMPT_ACTION).testPermissionFromPrincipal "plugin:test" = some .PROMPT_ACTION
    ∧ (ShouldPlay (samplePlayEnv .STATE_ENABLED .STATE_VULNERABLE_UPDATE_AVAILABLE .PROMPT_ACTION)
        samplePluginState .eFallbackAlternate false).play = false
    ∧ (ShouldPlay (samplePlayEnv .STATE_ENABLED .STATE_VULNERABLE_UPDATE_AVAILABLE .PROMPT_ACTION)
        samplePluginState .eFallbackAlternate false).reason = .eFallbackVulnerableUpdatable
    ∧ (ShouldPlay (samplePlayEnv .STATE_ENABLED .STATE_VULNERABLE_UPDATE_AVAILABLE .PROMPT_ACTION)
        samplePluginState .eFallbackAlternate false).reason ≠ .eFallbackClickToPlay := by
  decide

/-- C12, amended: for a plugin kind (or `aIgnoreCurrentType`) that is neither
globally disabled nor Blocked, with no ignore-click-to-play preview in force, on
a page with a window whose top-level document and permission manager can be
reached and whose top-level principal is not the system principal, a stored
permission Prompt makes `ShouldPlay` return false, with the reason the blocklist
state has left: VulnerableUpdatable or VulnerableNoUpdate for the two Vulnerable
states, and otherwise PlayPreview when a play preview is registered and not
cancelled, ClickToPlay when none is. -/
theorem ShouldPlay_prompt_defers (pe : PlayEnv) (s : State) (aReason : FallbackType)
    (aIgnoreCurrentType : Bool) (bl : BlocklistState) (key : String)
    (hkind : aIgnoreCurrentType = true ∨ s.mType = .eType_Plugin)
    (hpreview : ¬ (pe.playPreviewInfo s.mContentType = some true ∧ s.mPlayPreviewCanceled = false))
    (hst : (pe.stateForType s.mContentType).getD .STATE_DISABLED ≠ .STATE_DISABLED)
    (hblock : (pe.blocklistStateForType s.mContentType).getD .STATE_NOT_BLOCKED = bl)
    (hbl : bl ≠ .STATE_BLOCKED)
    (hwindow : pe.hasWindow = true) (htop : pe.getTopOk = true)
    (hdoc : pe.getTopDocumentOk = true) (hmanager : pe.permissionManagerOk = true)
    (hsystem : pe.topIsSystemPrincipal = false)
    (hkey : pe.permissionStringForType s.mContentType = some key)
    (hperm : pe.testPermissionFromPrincipal key = some .PROMPT_ACTION) :
    (ShouldPlay pe s aReason aIgnoreCurrentType).play = false
    ∧ (ShouldPlay pe s aReason aIgnoreCurrentType).reason
        = (if bl = .STATE_VULNERABLE_UPDATE_AVAILABLE then .eFallbackVulnerableUpdatable
           else if bl = .STATE_VULNERABLE_NO_UPDATE then .eFallbackVulnerableNoUpdate
           else if (pe.playPreviewInfo s.mContentType).isSome = true
               ∧ s.mPlayPreviewCanceled = false then .eFallbackPlayPreview
           else .eFallbackClickToPlay) := by
  rw [ShouldPlay_to_permission pe s aReason aIgnoreCurrentType _ bl hkind hpreview rfl hst hblock
    hbl]
  have h := ShouldPlay_permission_read pe s.mContentType
    (if bl = .STATE_VULNERABLE_UPDATE_AVAILABLE then .eFallbackVulnerableUpdatable
     else if bl = .STATE_VULNERABLE_NO_UPDATE then .eFallbackVulnerableNoUpdate
     else if (pe.playPreviewInfo s.mContentType).isSome = true
         ∧ s.mPlayPreviewCanceled = false then .eFallbackPlayPreview
     else .eFallbackClickToPlay)
    ((pe.stateForType s.mContentType).getD .STATE_DISABLED) bl key .PROMPT_ACTION
    hwindow htop hdoc hmanager hsystem hkey hperm
  exact ⟨congrArg Prod.fst h, congrArg Prod.snd h⟩

/-- Witness for C12 amended: an enabled plugin that is not blocklisted, with
no preview registered, on a site with stored permission Prompt, is refused with
reason ClickToPlay. -/
theorem ShouldPlay_prompt_defers_witness :
    (ShouldPlay (samplePlayEnv .STATE_ENABLED .STATE_NOT_BLOCKED .PROMPT_ACTION)
      samplePluginState .eFallbackAlternate false).play = false
    ∧ (ShouldPlay (samplePlayEnv .STATE_ENABLED .STATE_NOT_BLOCKED .PROMPT_ACTION)
      samplePluginState .eFallbackAlternate false).reason = .eFallbackClickToPlay :=
  ShouldPlay_prompt_defers (samplePlayEnv .STATE_ENABLED .STATE_NOT_BLOCKED .PROMPT_ACTION)
    samplePluginState .eFallbackAlternate false .STATE_NOT_BLOCKED "plugin:test" (Or.inr rfl)
    (by decide) (by decide) rfl (by decide) rfl rfl rfl rfl rfl rfl rfl

/-- C13, as stated, fails: for an enabled plugin whose blocklist state is
Vulnerable with an update available, on a site with no stored permission
(Unknown), `ShouldPlay` returns false with reason VulnerableUpdatable, not
ClickToPlay. -/
theorem ShouldPlay_unknown_vulnerable_counterexample :
    samplePluginState.mType = .eType_Plugin
    ∧ (samplePlayEnv .STATE_ENABLED .STATE_VULNERABLE_UPDATE_AVAILABLE
        .UNKNOWN_ACTION).testPermissionFromPrincipal "plugin:test" = some .UNKNOWN_ACTION
    ∧ (ShouldPlay (samplePlayEnv .STATE_ENABLED .STATE_VULNERABLE_UPDATE_AVAILABLE .UNKNOWN_ACTION)
        samplePluginState .eFallbackAlternate false).play = false
    ∧ (ShouldPlay (samplePlayEnv .STATE_ENABLED .STATE_VULNERABLE_UPDATE_AVAILABLE .UNKNOWN_ACTION)
        samplePluginState .eFallbackAlternate false).reason = .eFallbackVulnerableUpdatable
    ∧ (ShouldPlay (samplePlayEnv .STATE_ENABLED .STATE_VULNERABLE_UPDATE_AVAILABLE .UNKNOWN_ACTION)
        samplePluginState .eFallbackAlternate false).reason ≠ .eFallbackClickToPlay := by
  decide

/-- C13, amended: for a plugin kind (or `aIgnoreCurrentType`) that is neither
globally disabled nor Blocked, with no ignore-click-to-play preview in force, on
a page with a window whose top-level document and permission manager can be
reached and whose top-level principal is not the system principal, with stored
permission Unknown: a blocklist state Vulnerable with an update available gives
false with reason VulnerableUpdatable, Vulnerable with no update gives false with
reason VulnerableNoUpdate; for every other blocklist state the enabled state
decides: Enabled gives true, click-to-play gives false, with reason PlayPreview
when a play preview is registered and not cancelled and ClickToPlay when none
is. -/
theorem ShouldPlay_unknown_defaults (pe : PlayEnv) (s : State) (aReason : FallbackType)
    (aIgnoreCurrentType : Bool) (st : PluginState) (bl : BlocklistState) (key : String)
    (hkind : aIgnoreCurrentType = true ∨ s.mType = .eType_Plugin)
    (hpreview : ¬ (pe.playPreviewInfo s.mContentType = some true ∧ s.mPlayPreviewCanceled = false))
    (henabled : (pe.stateForType s.mContentType).getD .STATE_DISABLED = st)
    (hst : st ≠ .STATE_DISABLED)
    (hblock : (pe.blocklistStateForType s.mContentType).getD .STATE_NOT_BLOCKED = bl)
    (hbl : bl ≠ .STATE_BLOCKED)
    (hwindow : pe.hasWindow = true) (htop : pe.getTopOk = true)
    (hdoc : pe.getTopDocumentOk = true) (hmanager : pe.permissionManagerOk = true)
    (hsystem : pe.topIsSystemPrincipal = false)
    (hkey : pe.permissionStringForType s.mContentType = some key)
    (hperm : pe.testPermissionFromPrincipal key = some .UNKNOWN_ACTION) :
    (bl = .STATE_VULNERABLE_UPDATE_AVAILABLE →
        (ShouldPlay pe s aReason aIgnoreCurrentType).play = false
        ∧ (ShouldPlay pe s aReason aIgnoreCurrentType).reason = .eFallbackVulnerableUpdatable)
    ∧ (bl = .STATE_VULNERABLE_NO_UPDATE →
        (ShouldPlay pe s aReason aIgnoreCurrentType).play = false
        ∧ (ShouldPlay pe s aReason aIgnoreCurrentType).reason = .eFallbackVulnerableNoUpdate)
    ∧ (bl ≠ .STATE_VULNERABLE_UPDATE_AVAILABLE → bl ≠ .STATE_VULNERABLE_NO_UPDATE →
        (st = .STATE_ENABLED → (ShouldPlay pe s aReason aIgnoreCurrentType).play = true)
        ∧ (st = .STATE_CLICKTOPLAY →
            (ShouldPlay pe s aReason aIgnoreCurrentType).play = false
            ∧ (ShouldPlay pe s aReason aIgnoreCurrentType).reason
                = (if (pe.playPreviewInfo s.mContentType).isSome = true
                      ∧ s.mPlayPreviewCanceled = false then .eFallbackPlayPreview
                   else .eFallbackClickToPlay))) := by
  rw [ShouldPlay_to_permission pe s aReason aIgnoreCurrentType st bl hkind hpreview henabled hst
    hblock hbl]
  have h := ShouldPlay_permission_read pe s.mContentType
    (if bl = .STATE_VULNERABLE_UPDATE_AVAILABLE then .eFallbackVulnerableUpdatable
     else if bl = .STATE_VULNERABLE_NO_UPDATE then .eFallbackVulnerableNoUpdate
     else if (pe.playPreviewInfo s.mContentType).isSome = true
         ∧ s.mPlayPreviewCanceled = false then .eFallbackPlayPreview
     else .eFallbackClickToPlay)
    st bl key .UNKNOWN_ACTION hwindow htop hdoc hmanager hsystem hkey hperm
  simp only [] at h
  refine ⟨?_, ?_, ?_⟩
  · intro hb
    subst hb
    simp only [true_or, if_true] at h
    exact ⟨congrArg Prod.fst h, congrArg Prod.snd h⟩
  · intro hb
    subst hb
    simp only [or_true, if_true, reduceCtorEq, if_false] at h
    exact ⟨congrArg Prod.fst h, congrArg Prod.snd h⟩
  · intro hb₁ hb₂
    simp only [hb₁, hb₂, or_self, if_false] at h ⊢
    refine ⟨?_, ?_⟩
    · intro he
      subst he
      exact congrArg Prod.fst h
    · intro he
      subst he
      exact ⟨congrArg Prod.fst h, congrArg Prod.snd h⟩

/-- Witness for C13 amended: with no stored permission an enabled plugin that
is not blocklisted plays. -/
theorem ShouldPlay_unknown_defaults_witness :
    (ShouldPlay (samplePlayEnv .STATE_ENABLED .STATE_NOT_BLOCKED .UNKNOWN_ACTION)
      samplePluginState .eFallbackAlternate false).play = true :=
  ((ShouldPlay_unknown_defaults (samplePlayEnv .STATE_ENABLED .STATE_NOT_BLOCKED .UNKNOWN_ACTION)
    samplePluginState .eFallbackAlternate false .STATE_ENABLED .STATE_NOT_BLOCKED "plugin:test"
    (Or.inr rfl) (by decide) rfl (by decide) rfl (by decide) rfl rfl rfl rfl rfl rfl rfl).2.2
    (by decide) (by decide)).1 rfl

/-- C14: when a play preview with ignore-click-to-play is registered for the
content type and the preview has not been cancelled, `ShouldPlay` returns false
with reason PlayPreview and makes no call on the permission manager, for every
current type (`aIgnoreCurrentType` or not), every value of `aReason` on entry
and every answer of the plugin host, the blocklist, the window and the
permission manager. -/
theorem ShouldPlay_preview_override_first (pe : PlayEnv) (s : State) (aReason : FallbackType)
    (aIgnoreCurrentType : Bool)
    (hpreview : pe.playPreviewInfo s.mContentType = some true)
    (hcancel : s.mPlayPreviewCanceled = false) :
    ShouldPlay pe s aReason aIgnoreCurrentType = ⟨false, .eFallbackPlayPreview, []⟩ := by
  unfold ShouldPlay
  simp [hpreview, hcancel]

/-- Witness for C14: an image kind, a disabled and Blocked plugin type and a
stored permission Allow, under a preview with ignore-click-to-play. -/
theorem ShouldPlay_preview_override_first_witness :
    ShouldPlay (previewPlayEnv true .STATE_DISABLED .STATE_BLOCKED .ALLOW_ACTION)
      { samplePluginState with mType := .eType_Image } .eFallbackAlternate false
      = ⟨false, .eFallbackPlayPreview, []⟩ :=
  ShouldPlay_preview_override_first _ _ _ _ rfl rfl

/-! ## Theorems: the expiry refresh -/

/-- Whenever `ShouldPlay` reads a stored permission, it asks the permission
manager once; it refreshes the expiry once, right after, when the answer is not
Unknown, and not at all when it is. -/
theorem ShouldPlay_refreshes_once (pe : PlayEnv) (ct : String) (r : FallbackType)
    (st : PluginState) (bl : BlocklistState) (key : String) (perm : PermissionAction)
    (hwindow : pe.hasWindow = true) (htop : pe.getTopOk = true)
    (hdoc : pe.getTopDocumentOk = true) (hmanager : pe.permissionManagerOk = true)
    (hsystem : pe.topIsSystemPrincipal = false)
    (hkey : pe.permissionStringForType ct = some key)
    (hperm : pe.testPermissionFromPrincipal key = some perm) :
    (ShouldPlay_permission pe ct r st bl).effects
      = if perm ≠ .UNKNOWN_ACTION then
          [.testPermission key,
           .updateExpireTime key (sessionExpiry (pe.now / 1000 % 2 ^ 64) pe.sSessionTimeoutMinutes)
             (persistentExpiry (pe.now / 1000 % 2 ^ 64) pe.sPersistentTimeoutDays)]
        else [.testPermission key] := by
  unfold ShouldPlay_permission
  simp only [hwindow, htop, hdoc, hmanager, hsystem, hkey, hperm, Bool.not_true, Bool.not_false,
    Bool.false_eq_true, if_true, if_false]
  cases perm <;> cases st <;> simp only [] <;> split_ifs <;> simp

/-- While the session window in milliseconds fits 32 bits (up to 71582
minutes) and the sum fits 64 bits, the session expiry of the source is the
exact timestamp. -/
theorem sessionExpiry_exact (nowms minutes : Nat) (hm : minutes ≤ 71582)
    (hnow : nowms + minutes * 60 * 1000 < 2 ^ 64) :
    sessionExpiry nowms minutes = specSessionExpiry nowms minutes := by
  unfold sessionExpiry specSessionExpiry
  have h1 : minutes % 2 ^ 32 = minutes := Nat.mod_eq_of_lt (by omega)
  have h2 : minutes * 60 * 1000 % 2 ^ 32 = minutes * 60 * 1000 := Nat.mod_eq_of_lt (by omega)
  rw [h1, h2, Nat.mod_eq_of_lt hnow]

/-- C15, the code at two failing inputs. With the default preferences (60
minutes, 90 days) and the clock at 1400000000000000 microseconds, `ShouldPlay`
reads the stored permission Allow and refreshes the expiry once, with the
session expiry 1400003600000, which is the exact timestamp, and the persistent
expiry 9176000000: the seconds of the clock plus the milliseconds of the window,
not the exact timestamp 1407776000000, and earlier than the session expiry
though the persistent window is the longer one. With the session preference at
71583 minutes the product wraps in 32 bits: the session expiry is 1400000012704,
not the exact timestamp 1404294980000. -/
theorem ShouldPlay_expiry_at_default_preferences :
    (ShouldPlay (clockPlayEnv 1400000000000000 60 90) samplePluginState .eFallbackAlternate
        false).effects
      = [.testPermission "plugin:test",
         .updateExpireTime "plugin:test" 1400003600000 9176000000]
    ∧ specSessionExpiry 1400000000000 60 = 1400003600000
    ∧ specPersistentExpiry 1400000000000 90 = 1407776000000
    ∧ persistentExpiry 1400000000000 90 < sessionExpiry 1400000000000 60
    ∧ (ShouldPlay (clockPlayEnv 1400000000000000 71583 90) samplePluginState .eFallbackAlternate
        false).effects
      = [.testPermission "plugin:test",
         .updateExpireTime "plugin:test" 1400000012704 9176000000]
    ∧ specSessionExpiry 1400000000000 71583 = 1404294980000 := by
  decide

/-! ## Theorems: fallback -/

@[simp] theorem NotifyStateChanged_mFallbackType {env : Env} (hq : env.quiet) (s : State)
    (ot : ObjectType) (os : EventStates) (sync notify : Bool) (site : Site) :
    (NotifyStateChanged env s ot os sync notify site).mFallbackType = s.mFallbackType := by
  unfold NotifyStateChanged
  simp only [hq.eq]
  split_ifs <;> rfl

/-- What `LoadFallback` stores: the block "Fixup mFallbackType" applied to the
requested reason. -/
theorem LoadFallback_mFallbackType {env : Env} (hq : env.quiet) (s : State)
    (aType : FallbackType) (aNotify : Bool) :
    (LoadFallback env s aType aNotify).mFallbackType
      = if env.element.isHTML = false ∨ s.mContentType = "" then .eFallbackAlternate
        else if env.element.tag = .object
            ∧ (aType = .eFallbackUnsupported ∨ aType = .eFallbackDisabled
                ∨ aType = .eFallbackBlocklisted)
            ∧ (∃ child ∈ env.element.children,
                child.isHTMLParam = false ∧ child.isSignificant = true) then
          .eFallbackAlternate
        else aType := by
  unfold LoadFallback
  simp only []
  have hnotify : ∀ (t : State) (ot : ObjectType) (os : EventStates),
      (if (!aNotify) = true then t
        else NotifyStateChanged env t ot os false true .notifyFallback).mFallbackType
        = t.mFallbackType := by
    intro t ot os
    split_ifs
    · rfl
    · exact NotifyStateChanged_mFallbackType hq _ _ _ _ _ _
  rw [hnotify]
  by_cases h1 : env.element.isHTML = false ∨ s.mContentType = ""
  · rw [if_pos h1]
    have h1' : (!env.element.isHTML || decide (s.mContentType = "")) = true := by
      rcases h1 with h | h
      · simp [h]
      · simp [h]
    simp [h1']
  · rw [if_neg h1]
    have h1' : (!env.element.isHTML || decide (s.mContentType = "")) = false := by
      simp only [not_or, Bool.not_eq_false] at h1
      simp [h1.1, h1.2]
    simp only [h1', Bool.false_eq_true, if_false, Bool.and_eq_true, Bool.or_eq_true,
      decide_eq_true_eq, List.any_eq_true, Bool.not_eq_true, Bool.not_eq_eq_eq_not, Bool.not_true]
    by_cases h2 : env.element.tag = .object
        ∧ (aType = .eFallbackUnsupported ∨ aType = .eFallbackDisabled
            ∨ aType = .eFallbackBlocklisted)
        ∧ (∃ child ∈ env.element.children,
            child.isHTMLParam = false ∧ child.isSignificant = true)
    · rw [if_pos h2, if_pos ⟨⟨h2.1, by tauto⟩, h2.2.2⟩]
    · rw [if_neg h2, if_neg (fun h => h2 ⟨h.1.1, by tauto, h.2⟩)]

/-- C17, as stated, fails: on an HTML `<embed>` element, which is not an
`<object>` element, with the content type `application/x-test`, `LoadFallback`
asked for ClickToPlay stores ClickToPlay, not Alternate. -/
theorem LoadFallback_embed_counterexample :
    pluginDocumentEnv.element.tag = .embed
    ∧ pluginDocumentEnv.element.tag ≠ .object
    ∧ samplePluginState.mContentType = "application/x-test"
    ∧ (LoadFallback pluginDocumentEnv samplePluginState .eFallbackClickToPlay false).mType
        = .eType_Null
    ∧ (LoadFallback pluginDocumentEnv samplePluginState .eFallbackClickToPlay false).mFallbackType
        = .eFallbackClickToPlay
    ∧ (LoadFallback pluginDocumentEnv samplePluginState .eFallbackClickToPlay false).mFallbackType
        ≠ .eFallbackAlternate := by
  decide

/-- C17, amended: in a run without nested entries `LoadFallback` always leaves
`mType` equal to `eType_Null`; what it stores is the requested reason or
Alternate; it stores a requested reason other than Alternate only when the
element is an HTML element (whatever its tag) and `mContentType` is not empty;
for every element that is not an HTML element, and for every element with an
empty `mContentType`, it stores Alternate whatever reason was requested. -/
theorem LoadFallback_normalises {env : Env} (hq : env.quiet) (s : State)
    (aType : FallbackType) (aNotify : Bool) :
    (LoadFallback env s aType aNotify).mType = .eType_Null
    ∧ ((LoadFallback env s aType aNotify).mFallbackType = aType
        ∨ (LoadFallback env s aType aNotify).mFallbackType = .eFallbackAlternate)
    ∧ ((LoadFallback env s aType aNotify).mFallbackType ≠ .eFallbackAlternate →
        env.element.isHTML = true ∧ s.mContentType ≠ "")
    ∧ (env.element.isHTML = false ∨ s.mContentType = "" →
        (LoadFallback env s aType aNotify).mFallbackType = .eFallbackAlternate) := by
  refine ⟨LoadFallback_mType hq s aType aNotify, ?_, ?_, ?_⟩
  · rw [LoadFallback_mFallbackType hq]
    split_ifs
    · exact Or.inr rfl
    · exact Or.inr rfl
    · exact Or.inl rfl
  · rw [LoadFallback_mFallbackType hq]
    intro h
    by_cases h1 : env.element.isHTML = false ∨ s.mContentType = ""
    · rw [if_pos h1] at h
      exact absurd rfl h
    · simp only [not_or, Bool.not_eq_false] at h1
      exact h1
  · intro h1
    rw [LoadFallback_mFallbackType hq, if_pos h1]

/-- Witness for C17 amended: on the `<embed>` element of the plugin document,
asked for ClickToPlay with a notification. -/
theorem LoadFallback_normalises_witness :
    (LoadFallback pluginDocumentEnv samplePluginState .eFallbackClickToPlay true).mType
        = .eType_Null
    ∧ ((LoadFallback pluginDocumentEnv samplePluginState .eFallbackClickToPlay true).mFallbackType
          = .eFallbackClickToPlay
        ∨ (LoadFallback pluginDocumentEnv samplePluginState .eFallbackClickToPlay
            true).mFallbackType = .eFallbackAlternate)
    ∧ ((LoadFallback pluginDocumentEnv samplePluginState .eFallbackClickToPlay true).mFallbackType
          ≠ .eFallbackAlternate →
        pluginDocumentEnv.element.isHTML = true ∧ samplePluginState.mContentType ≠ "")
    ∧ (pluginDocumentEnv.element.isHTML = false ∨ samplePluginState.mContentType = "" →
        (LoadFallback pluginDocumentEnv samplePluginState .eFallbackClickToPlay true).mFallbackType
          = .eFallbackAlternate) :=
  LoadFallback_normalises (fun _ _ => rfl) samplePluginState .eFallbackClickToPlay true

/-- C18, as stated, fails: on an HTML `<applet>` element with a significant
child that is not a `<param>` and the content type `application/x-test`,
`LoadFallback` asked for Unsupported stores Unsupported, not Alternate. -/
theorem LoadFallback_applet_child_counterexample :
    appletWithChildEnv.element.children = [⟨false, true⟩]
    ∧ appletWithChildEnv.element.isHTML = true
    ∧ samplePluginState.mContentType = "application/x-test"
    ∧ (LoadFallback appletWithChildEnv samplePluginState .eFallbackUnsupported false).mFallbackType
        = .eFallbackUnsupported
    ∧ (LoadFallback appletWithChildEnv samplePluginState .eFallbackUnsupported false).mFallbackType
        ≠ .eFallbackAlternate := by
  decide

/-- C18, amended: in a run without nested entries, for every element whose tag
is `object` and that has a significant child that is not a `<param>`,
`LoadFallback` asked for Unsupported, Disabled or Blocklisted stores Alternate;
for every other requested reason, and for every element whose tag is not
`object`, the children of the element do not change the stored reason. -/
theorem LoadFallback_prefers_children {env : Env} (hq : env.quiet) (s : State)
    (aType : FallbackType) (aNotify : Bool) :
    (env.element.tag = .object →
      (∃ child ∈ env.element.children, child.isHTMLParam = false ∧ child.isSignificant = true) →
      aType = .eFallbackUnsupported ∨ aType = .eFallbackDisabled
        ∨ aType = .eFallbackBlocklisted →
      (LoadFallback env s aType aNotify).mFallbackType = .eFallbackAlternate)
    ∧ ((aType ≠ .eFallbackUnsupported ∧ aType ≠ .eFallbackDisabled
          ∧ aType ≠ .eFallbackBlocklisted) ∨ env.element.tag ≠ .object →
      ∀ children : List Child,
        (LoadFallback { env with element := { env.element with children := children } } s aType
            aNotify).mFallbackType
          = (LoadFallback env s aType aNotify).mFallbackType) := by
  constructor
  · intro htag hchild hty
    rw [LoadFallback_mFallbackType hq]
    split_ifs with h1 h2
    · rfl
    · rfl
    · exact absurd ⟨htag, hty, hchild⟩ h2
  · intro h children
    have hq' : ({ env with element := { env.element with children := children } } : Env).quiet :=
      fun site t => hq site t
    rw [LoadFallback_mFallbackType hq, LoadFallback_mFallbackType hq']
    have h2 : ∀ cs : List Child, ¬ (env.element.tag = .object
        ∧ (aType = .eFallbackUnsupported ∨ aType = .eFallbackDisabled
            ∨ aType = .eFallbackBlocklisted)
        ∧ (∃ child ∈ cs, child.isHTMLParam = false ∧ child.isSignificant = true)) := by
      intro cs hc
      rcases h with h | h
      · rcases hc.2.1 with h' | h' | h'
        · exact h.1 h'
        · exact h.2.1 h'
        · exact h.2.2 h'
      · exact h hc.1
    simp only [h2 children, h2 env.element.children, if_false]

/-- Witness for C18 amended: an `<object>` element with a significant child,
asked for Blocklisted. -/
theorem LoadFallback_prefers_children_witness :
    (LoadFallback objectWithChildEnv samplePluginState .eFallbackBlocklisted true).mFallbackType
      = .eFallbackAlternate :=
  (LoadFallback_prefers_children (fun _ _ => rfl) samplePluginState .eFallbackBlocklisted
    true).1 rfl ⟨⟨false, true⟩, by decide, rfl, rfl⟩ (Or.inr (Or.inr rfl))

/-! ## Theorems: policy denial -/

/-- A state that differs from `s` by calls added to the log only. -/
theorem log_only_refl (s : State) : s = { s with log := s.log ++ [] } := by
  cases s
  simp

theorem log_only_trans {s a b : State} {L₁ L₂ : List Effect}
    (h₁ : a = { s with log := s.log ++ L₁ }) (h₂ : b = { a with log := a.log ++ L₂ }) :
    b = { s with log := s.log ++ (L₁ ++ L₂) } := by
  subst h₁
  subst h₂
  simp [List.append_assoc]

theorem CheckJavaCodebase_log {env : Env} (hq : env.quiet) (s : State) :
    ∃ L, (CheckJavaCodebase env s).1 = { s with log := s.log ++ L } :=
  ⟨[.checkJavaCodebase], by simp [CheckJavaCodebase, hq.eq, State.emit]⟩

theorem CheckLoadPolicy_log {env : Env} (hq : env.quiet) (s : State) (cp : ContentPolicy) :
    ∃ L, (CheckLoadPolicy env s cp).1 = { s with log := s.log ++ L } := by
  unfold CheckLoadPolicy
  split
  · exact ⟨[], log_only_refl s⟩
  · split
    · exact ⟨[.checkLoadPolicy], by simp [hq.eq, State.emit]⟩
    · exact ⟨[.checkLoadPolicy], by simp [hq.eq, State.emit]⟩

theorem CheckProcessPolicy_log {env : Env} (hq : env.quiet) (s : State) (cp : ContentPolicy) :
    ∃ L, (CheckProcessPolicy env s cp).1 = { s with log := s.log ++ L } := by
  unfold CheckProcessPolicy
  split
  · split
    · exact ⟨[.checkProcessPolicy s.mType], by simp [hq.eq, State.emit]⟩
    · exact ⟨[.checkProcessPolicy s.mType], by simp [hq.eq, State.emit]⟩
  · exact ⟨[], log_only_refl s⟩

/-- In a run without nested entries the three policy calls of `LoadObject`
leave the object as it is, but for the log. -/
theorem LoadObject_policy_log {env : Env} (hq : env.quiet) (s : State) :
    ∃ L, (LoadObject_policy env s).1 = { s with log := s.log ++ L } := by
  have hj : ∃ L, (if env.isJavaMIMEType s.mContentType = true then CheckJavaCodebase env s
      else (s, true)).1 = { s with log := s.log ++ L } := by
    split_ifs
    · exact CheckJavaCodebase_log hq s
    · exact ⟨[], log_only_refl s⟩
  unfold LoadObject_policy
  simp only []
  generalize (if env.isJavaMIMEType s.mContentType = true then CheckJavaCodebase env s
      else (s, true)) = j at hj ⊢
  obtain ⟨L₁, h₁⟩ := hj
  have hl : ∃ L, (if (j.2 && j.1.mURI.isSome && !j.1.mChannelLoaded) = true then
      CheckLoadPolicy env j.1 .ACCEPT else (j.1, j.2, .ACCEPT)).1
        = { s with log := s.log ++ L } := by
    split_ifs
    · obtain ⟨L₂, h₂⟩ := CheckLoadPolicy_log hq j.1 .ACCEPT
      exact ⟨_, log_only_trans h₁ h₂⟩
    · exact ⟨L₁, h₁⟩
  generalize (if (j.2 && j.1.mURI.isSome && !j.1.mChannelLoaded) = true then
      CheckLoadPolicy env j.1 .ACCEPT else (j.1, j.2, .ACCEPT)) = l at hl ⊢
  obtain ⟨L₂, h₂⟩ := hl
  split_ifs
  · obtain ⟨L₃, h₃⟩ := CheckProcessPolicy_log hq l.1 l.2.2
    exact ⟨_, log_only_trans h₂ h₃⟩
  · exact ⟨L₂, h₂⟩

/-- For a type other than `eType_Plugin`, `ShouldPlay(aReason, false)` refuses
under a preview with ignore-click-to-play and lets the load go on otherwise. -/
theorem ShouldPlay_not_plugin (pe : PlayEnv) (s : State) (r : FallbackType)
    (h : s.mType ≠ .eType_Plugin) :
    ShouldPlay pe s r false
      = if pe.playPreviewInfo s.mContentType = some true ∧ s.mPlayPreviewCanceled = false then
          ⟨false, .eFallbackPlayPreview, []⟩
        else ⟨true, r, []⟩ := by
  by_cases hp : pe.playPreviewInfo s.mContentType = some true ∧ s.mPlayPreviewCanceled = false
  · rw [if_pos hp]
    unfold ShouldPlay
    simp [hp.1, hp.2]
  · rw [if_neg hp]
    have h1 := ShouldPlay_no_override pe s hp
    unfold ShouldPlay
    simp only [h1]
    simp [h]

/-- With `eType_Null` the `ShouldPlay` gate of `LoadObject` leaves the object
as it is. -/
theorem LoadObject_played_of_null (env : Env) (s : State) (h : s.mType = .eType_Null) :
    LoadObject_played env s = s := by
  have hs := ShouldPlay_not_plugin env.play s .eFallbackAlternate (by rw [h]; decide)
  unfold LoadObject_played
  rw [hs]
  cases s
  simp only at h
  subst h
  simp only []
  split_ifs <;> simp_all

/-- With `eType_Null` the `ShouldPlay` gate replaces the fallback reason by
PlayPreview when the object is not activated and a preview with
ignore-click-to-play is in force, and leaves it otherwise. -/
theorem LoadObject_playedCtx_of_null (env : Env) (s : State) (ctx : LoadCtx)
    (h : s.mType = .eType_Null) :
    LoadObject_playedCtx env s ctx
      = if s.mActivated = false ∧ env.play.playPreviewInfo s.mContentType = some true
            ∧ s.mPlayPreviewCanceled = false then
          { ctx with fallbackType := .eFallbackPlayPreview }
        else ctx := by
  have hs := ShouldPlay_not_plugin env.play s .eFallbackAlternate (by rw [h]; decide)
  unfold LoadObject_playedCtx
  rw [hs]
  simp only [h]
  cases s.mActivated <;> split_ifs <;> simp_all

/-- With `eType_Null`, in a run without nested entries, the end of
`LoadObject` is `LoadFallback` with the fallback reason of the call. -/
theorem LoadObject_notify_fallback {env : Env} (hq : env.quiet) (s : State) (ctx : LoadCtx)
    (h : s.mType = .eType_Null) :
    (LoadObject_notify env s ctx .NS_OK none false).mType = .eType_Null
    ∧ (LoadObject_notify env s ctx .NS_OK none false).mFallbackType
        = (LoadFallback env s ctx.fallbackType false).mFallbackType := by
  have hc : (if s.mChannel.isSome = true then CloseChannel env s else s).mContentType
      = s.mContentType := by
    split_ifs
    · exact congrArg Params.mContentType (CloseChannel_params hq s)
    · rfl
  refine ⟨(LoadObject_notify_null hq s ctx h).1, ?_⟩
  rw [LoadFallback_mFallbackType hq s]
  unfold LoadObject_notify
  simp only [nsresult.failed, ne_eq, not_true_eq_false, decide_False, Bool.false_eq_true,
    if_false, h, if_true, decide_True, Bool.and_false, LoadObject_deferred, Option.isSome_none,
    LoadObject_failure, Bool.false_and, ite_self, Bool.not_true]
  rw [NotifyStateChanged_mFallbackType hq, LoadFallback_mFallbackType hq, hc]

theorem CloseChannel_pending {env : Env} (hq : env.quiet) (s : State) :
    (CloseChannel env s).mPendingInstantiateEvent = s.mPendingInstantiateEvent
    ∧ (CloseChannel env s).mPendingCheckPluginStopEvent = s.mPendingCheckPluginStopEvent := by
  unfold CloseChannel
  simp only [hq.eq]
  split
  · exact ⟨rfl, rfl⟩
  · split <;> exact ⟨rfl, rfl⟩

theorem DoStopPlugin_pending {env : Env} (hq : env.quiet) (s : State) (o : Nat) (d f : Bool) :
    (DoStopPlugin env s o d f).mPendingInstantiateEvent = s.mPendingInstantiateEvent
    ∧ (DoStopPlugin env s o d f).mPendingCheckPluginStopEvent
        = s.mPendingCheckPluginStopEvent := by
  unfold DoStopPlugin
  simp only [hq.eq]
  split_ifs <;> exact ⟨rfl, rfl⟩

/-- In a run without nested entries `StopPluginInstance` leaves no pending
event. -/
theorem StopPluginInstance_pending {env : Env} (hq : env.quiet) (s : State) :
    (StopPluginInstance env s).mPendingInstantiateEvent = none
    ∧ (StopPluginInstance env s).mPendingCheckPluginStopEvent = none := by
  have htail : ∀ s₂ : State, s₂.mPendingInstantiateEvent = none →
      s₂.mPendingCheckPluginStopEvent = none →
      (match s₂.mInstanceOwner with
        | none => s₂
        | some owner =>
          DoStopPlugin env { s₂.emit (.ownerSetFrame owner false) with mInstanceOwner := none }
            owner
            (env.xpWin && env.ownerHasInstance
              && decide (env.instanceMIMEType = some "audio/x-pn-realaudio-plugin"))
            false).mPendingInstantiateEvent = none
      ∧ (match s₂.mInstanceOwner with
        | none => s₂
        | some owner =>
          DoStopPlugin env { s₂.emit (.ownerSetFrame owner false) with mInstanceOwner := none }
            owner
            (env.xpWin && env.ownerHasInstance
              && decide (env.instanceMIMEType = some "audio/x-pn-realaudio-plugin"))
            false).mPendingCheckPluginStopEvent = none := by
    intro s₂ h₁ h₂
    split
    · exact ⟨h₁, h₂⟩
    · exact ⟨(DoStopPlugin_pending hq _ _ _ _).1.trans h₁,
        (DoStopPlugin_pending hq _ _ _ _).2.trans h₂⟩
  unfold StopPluginInstance
  dsimp only
  split_ifs
  · exact ⟨rfl, rfl⟩
  · exact htail _ ((CloseChannel_pending hq _).1.trans rfl) ((CloseChannel_pending hq _).2.trans rfl)
  · exact htail _ rfl rfl

/-- In a run without nested entries `UnloadObject` leaves no pending event. -/
theorem UnloadObject_pending {env : Env} (hq : env.quiet) (s : State) (r : Bool) :
    (UnloadObject env s r).mPendingInstantiateEvent = none
    ∧ (UnloadObject env s r).mPendingCheckPluginStopEvent = none := by
  unfold UnloadObject
  exact StopPluginInstance_pending hq _

/-- In a run without nested entries, where `LoadObject` goes on after the
block on the channel, nothing is loaded and no event is pending. -/
theorem LoadObject_channel_sane {env : Env} (hq : env.quiet) (s t : State) (ctx : LoadCtx)
    (h : LoadObject_channel env s ctx = .goesOn t) :
    t.mFrameLoader = none ∧ t.mInstanceOwner = none ∧ t.mPendingInstantiateEvent = none
    ∧ t.mPendingCheckPluginStopEvent = none := by
  have hu := UnloadObject_pending hq s false
  have hr : (UnloadObject env s false).res.bare := by
    rw [UnloadObject_res hq]
    exact ⟨rfl, rfl⟩
  have hc := CloseChannel_pending hq (UnloadObject env s false)
  have hcr : (CloseChannel env (UnloadObject env s false)).res.bare := by
    rw [CloseChannel_res hq]
    exact hr
  unfold LoadObject_channel at h
  simp only [] at h
  split_ifs at h
  · cases h
    exact ⟨hcr.1, hcr.2, hc.1.trans hu.1, hc.2.trans hu.2⟩
  · cases h
    exact ⟨hcr.1, hcr.2, hc.1.trans hu.1, hc.2.trans hu.2⟩
  · cases h
    exact ⟨hr.1, hr.2, hu.1, hu.2⟩

/-- In a run without nested entries, a denial by one of the three policy calls
of `LoadObject` ends with `eType_Null` and the reason that `LoadFallback` makes
of UserDisabled (rejection by type), Suppressed (any other rejection) or
PlayPreview (a preview with ignore-click-to-play on an object not activated). -/
theorem LoadObject_security_denied {env : Env} (hq : env.quiet) (t : State) (ctx : LoadCtx)
    (hkind : t.mType ≠ .eType_Null) (hload : t.mIsLoading = true)
    (hdeny : (LoadObject_policy env t).2.1 = false)
    (hfl : t.mFrameLoader = none) (hio : t.mInstanceOwner = none)
    (hpi : t.mPendingInstantiateEvent = none) (hpc : t.mPendingCheckPluginStopEvent = none)
    (hlistener : t.mFinalListener = none) :
    (LoadObject_security env t ctx).mType = .eType_Null
    ∧ (LoadObject_security env t ctx).mFallbackType
        = if env.element.isHTML = false ∨ t.mContentType = "" then .eFallbackAlternate
          else if t.mActivated = false ∧ env.play.playPreviewInfo t.mContentType = some true
              ∧ t.mPlayPreviewCanceled = false then .eFallbackPlayPreview
          else if (LoadObject_policy env t).2.2 = .REJECT_TYPE then .eFallbackUserDisabled
          else .eFallbackSuppressed := by
  obtain ⟨L, hL⟩ := LoadObject_policy_log hq t
  have hpl : (LoadObject_policy env t).1.mIsLoading = true := by
    rw [hL]
    exact hload
  unfold LoadObject_security
  rw [if_pos hkind]
  simp only []
  rw [if_neg (by simp [hpl]), if_pos (by simp [hdeny])]
  generalize (LoadObject_policy env t).2.2 = cp
  rw [hL]
  have hgate : ∀ c : LoadCtx,
      LoadObject_gate env { t with log := t.log ++ L, mType := .eType_Null } c
        = LoadObject_notify env { t with log := t.log ++ L, mType := .eType_Null }
            (if t.mActivated = false ∧ env.play.playPreviewInfo t.mContentType = some true
                ∧ t.mPlayPreviewCanceled = false then
              { c with fallbackType := .eFallbackPlayPreview }
            else c) .NS_OK none false := by
    intro c
    unfold LoadObject_gate LoadObject_play
    simp only [ne_eq, not_true_eq_false, decide_False, Bool.false_and, Bool.false_eq_true,
      if_false]
    rw [LoadObject_played_of_null env _ rfl, LoadObject_playedCtx_of_null env _ c rfl]
    unfold LoadObject_sanity
    simp only [hfl, hio, hpi, hpc, hlistener, Option.isSome_none, Bool.or_self,
      Bool.false_eq_true, if_false, ne_eq, not_true_eq_false, decide_False, Bool.false_and]
    exact LoadObject_dispatch_null env _ _ rfl
  rw [hgate]
  have hn := fun c => LoadObject_notify_fallback hq
    { t with log := t.log ++ L, mType := .eType_Null } c rfl
  refine ⟨(hn _).1, ?_⟩
  rw [(hn _).2, LoadFallback_mFallbackType hq]
  by_cases h1 : env.element.isHTML = false ∨ t.mContentType = ""
  · rw [if_pos h1, if_pos h1]
  · rw [if_neg h1, if_neg h1]
    split_ifs <;> simp_all

/-- C16, as stated, fails: on a page with `<object data="http://x/a">` (an HTML
object element without a `type`) whose load the content policy rejects, not by
type, the first `LoadObject` gets a denial from the load-policy check and ends
with `eType_Null` and the stored reason Alternate, not Suppressed: the type of
the object is still undetermined when the check denies. -/
theorem LoadObject_policy_denial_counterexample :
    LoadObject_entry blockedObjectEnv State.init true false none
      = ((LoadObject_entry blockedObjectEnv State.init true false none).1, some blockedObjectCtx)
    ∧ (LoadObject_policy blockedObjectEnv
        (LoadObject_channel blockedObjectEnv
          { (LoadObject_entry blockedObjectEnv State.init true false none).1 with
            mIsLoading := true } blockedObjectCtx).state).2 = (false, .REJECT_REQUEST)
    ∧ (LoadObject blockedObjectEnv State.init true false none).1.mType = .eType_Null
    ∧ (LoadObject blockedObjectEnv State.init true false none).1.mContentType = ""
    ∧ (LoadObject blockedObjectEnv State.init true false none).1.mFallbackType
        = .eFallbackAlternate
    ∧ (LoadObject blockedObjectEnv State.init true false none).1.mFallbackType
        ≠ .eFallbackSuppressed := by
  decide

/-- C16, amended: in a run without nested entries, when a call of `LoadObject`
comes to its security checks with no final listener attached and the Java
codebase check, the load-policy check or the process-policy check denies the
load, the call ends with `mType` equal to `eType_Null`, and the stored
`mFallbackType` is Alternate for an element that is not an HTML element or with
an empty `mContentType`; otherwise PlayPreview when the object is not activated
and a play preview with ignore-click-to-play is in force; otherwise UserDisabled
when the content policy rejected by type and Suppressed for every other
rejection. -/
theorem LoadObject_policy_denial {env : Env} (hq : env.quiet) (s s₁ t : State)
    (ctx : LoadCtx) (aNotify aForceLoad : Bool) (aLoadingChannel : Option Nat)
    (hentry : LoadObject_entry env s aNotify aForceLoad aLoadingChannel = (s₁, some ctx))
    (hchan : LoadObject_channel env { s₁ with mIsLoading := true } ctx = .goesOn t)
    (hkind : t.mType ≠ .eType_Null)
    (hdeny : (LoadObject_policy env t).2.1 = false)
    (hlistener : t.mFinalListener = none) :
    (LoadObject env s aNotify aForceLoad aLoadingChannel).1.mType = .eType_Null
    ∧ (LoadObject env s aNotify aForceLoad aLoadingChannel).1.mFallbackType
        = (if env.element.isHTML = false ∨ t.mContentType = "" then .eFallbackAlternate
           else if t.mActivated = false ∧ env.play.playPreviewInfo t.mContentType = some true
               ∧ t.mPlayPreviewCanceled = false then .eFallbackPlayPreview
           else if (LoadObject_policy env t).2.2 = .REJECT_TYPE then .eFallbackUserDisabled
           else .eFallbackSuppressed)
    ∧ (LoadObject env s aNotify aForceLoad aLoadingChannel).2 = .NS_OK := by
  have hdoc : env.inActiveDocument = true := by
    by_contra hd
    simp only [Bool.not_eq_true] at hd
    simp [LoadObject_entry, hd] at hentry
  have hcp := LoadObject_channel_params hq { s₁ with mIsLoading := true } ctx
  rw [hchan] at hcp
  simp only [params_mk] at hcp
  have htl : t.mIsLoading = true := congrArg Params.mIsLoading hcp
  have hsane := LoadObject_channel_sane hq _ t ctx hchan
  have hsec := LoadObject_security_denied hq t ctx hkind htl hdeny hsane.1 hsane.2.1
    hsane.2.2.1 hsane.2.2.2 hlistener
  unfold LoadObject
  simp only [hdoc, hentry, Bool.not_true, Bool.false_eq_true, if_false, LoadObject_unload, hchan]
  exact ⟨hsec.1, hsec.2, trivial⟩

/-- Witness for C16 amended: `<embed type="application/x-test" src="movie">`
with a content policy that rejects by type ends with UserDisabled. -/
theorem LoadObject_policy_denial_witness :
    (LoadObject blockedPluginEnv State.init true false none).1.mType = .eType_Null
    ∧ (LoadObject blockedPluginEnv State.init true false none).1.mFallbackType
        = .eFallbackUserDisabled :=
  have h := LoadObject_policy_denial (fun _ _ => rfl) State.init
    (LoadObject_entry blockedPluginEnv State.init true false none).1
    (LoadObject_channel blockedPluginEnv
      { (LoadObject_entry blockedPluginEnv State.init true false none).1 with mIsLoading := true }
      blockedPluginCtx).state
    blockedPluginCtx true false none (by decide) (by decide) (by decide) (by decide) (by decide)
  ⟨h.1, h.2.1.trans (by decide)⟩

/-! ## Theorems: the channel -/

/-- C19: `AsyncOnChannelRedirect(aOldChannel, aNewChannel)` returns `NS_OK`
if and only if a channel is tracked and `aOldChannel` is that channel; then
`aNewChannel` becomes the tracked channel and the verify callback is called
once, with `NS_OK`, and nothing else changes; otherwise the call returns
`NS_BINDING_ABORTED` and leaves every member, the log of calls included, as it
was. -/
theorem AsyncOnChannelRedirect_stale_protection (s : State) (aOldChannel : Option Nat)
    (aNewChannel : Option Channel) :
    ((AsyncOnChannelRedirect s aOldChannel aNewChannel).2 = .NS_OK
        ↔ ∃ c, s.mChannel = some c ∧ aOldChannel = some c.id)
    ∧ ((∃ c, s.mChannel = some c ∧ aOldChannel = some c.id) →
        (AsyncOnChannelRedirect s aOldChannel aNewChannel).1
          = { s with mChannel := aNewChannel,
                     log := s.log ++ [.redirectVerifyCallback .NS_OK] })
    ∧ (¬ (∃ c, s.mChannel = some c ∧ aOldChannel = some c.id) →
        AsyncOnChannelRedirect s aOldChannel aNewChannel = (s, .NS_BINDING_ABORTED)) := by
  unfold AsyncOnChannelRedirect State.channelId State.emit
  cases hc : s.mChannel with
  | none => simp
  | some c =>
    by_cases ho : aOldChannel = some c.id
    · simp [ho]
    · simp [ho]

/-- Witness for C19: the channel of the waiting plugin object is redirected;
a redirect of another channel is aborted. -/
theorem AsyncOnChannelRedirect_stale_protection_witness :
    (AsyncOnChannelRedirect streamedPluginWaiting (some 0) (some imageChannel)).2 = .NS_OK
    ∧ AsyncOnChannelRedirect streamedPluginWaiting (some 5) (some imageChannel)
        = (streamedPluginWaiting, .NS_BINDING_ABORTED) :=
  ⟨(AsyncOnChannelRedirect_stale_protection streamedPluginWaiting (some 0)
      (some imageChannel)).1.mpr (by decide),
   (AsyncOnChannelRedirect_stale_protection streamedPluginWaiting (some 5)
      (some imageChannel)).2.2 (by decide)⟩

/-- C20: without a tracked channel `CloseChannel` does nothing. With a tracked
channel it first clears `mChannel` and `mFinalListener`, then cancels the
channel (with `NS_BINDING_ABORTED`), then, when a final listener was attached,
delivers `OnStopRequest` with `NS_BINDING_ABORTED` to it: the state that the
first call out of the object sees has both members cleared. In a run without
nested entries the log grows by the cancel and, if and only if a final
listener was attached, by one stop notification, and no member but the two
changes. Whenever the call leaves no tracked channel, as it does in a run
without nested entries, a second `CloseChannel` changes nothing; and a nested
`CloseChannel` made from inside the two calls finds no channel, so that the
outcome is that of a run without nested entries. -/
theorem CloseChannel_clears_then_calls (env : Env) (s : State) :
    (s.mChannel = none → CloseChannel env s = s)
    ∧ (∀ c, s.mChannel = some c →
        CloseChannel env s
          = match s.mFinalListener with
            | none =>
              env.reenter .cancelChannel
                { s with mChannel := none, mFinalListener := none,
                         log := s.log ++ [.channelCancel c.id] }
            | some l =>
              env.reenter .listenerStop
                ((env.reenter .cancelChannel
                    { s with mChannel := none, mFinalListener := none,
                             log := s.log ++ [.channelCancel c.id] }).emit
                  (.listenerOnStop l c.id .NS_BINDING_ABORTED)))
    ∧ (env.quiet → ∀ c, s.mChannel = some c →
        CloseChannel env s
          = { s with mChannel := none, mFinalListener := none,
                     log := s.log ++ .channelCancel c.id ::
                       (match s.mFinalListener with
                        | some l => [.listenerOnStop l c.id .NS_BINDING_ABORTED]
                        | none => []) })
    ∧ ((CloseChannel env s).mChannel = none →
        CloseChannel env (CloseChannel env s) = CloseChannel env s)
    ∧ (env.quiet → (CloseChannel env s).mChannel = none)
    ∧ (∀ env₀ : Env, env₀.quiet → (∀ site t, env.reenter site t = CloseChannel env₀ t) →
        CloseChannel env s = CloseChannel env₀ s) := by
  refine ⟨?_, ?_, ?_, ?_, ?_, ?_⟩
  · intro h
    unfold CloseChannel
    rw [h]
  · intro c h
    unfold CloseChannel State.emit
    rw [h]
    cases s.mFinalListener <;> rfl
  · intro hq c h
    unfold CloseChannel State.emit
    rw [h]
    simp only [hq.eq]
    cases s.mFinalListener <;> simp
  · intro hn
    generalize CloseChannel env s = u at hn
    unfold CloseChannel
    rw [hn]
  · intro hq
    unfold CloseChannel
    simp only [hq.eq]
    split
    · assumption
    · split <;> rfl
  · intro env₀ hq₀ henv
    have hnone : ∀ t : State, t.mChannel = none → CloseChannel env₀ t = t := by
      intro t ht
      unfold CloseChannel
      rw [ht]
    unfold CloseChannel
    cases s.mChannel with
    | none => rfl
    | some c =>
      simp only [henv, hq₀.eq]
      rw [hnone _ rfl]
      cases s.mFinalListener with
      | none => rfl
      | some l =>
        simp only []
        rw [hnone _ rfl]

/-- Witness for C20: on the loaded document object, with its channel and
final listener, a script that calls `CloseChannel` again from inside every call
gets what a run without nested entries gets. -/
theorem CloseChannel_clears_then_calls_witness :
    CloseChannel closingAgainEnv documentLoaded = CloseChannel sampleEnv documentLoaded :=
  (CloseChannel_clears_then_calls closingAgainEnv documentLoaded).2.2.2.2.2 sampleEnv
    (fun _ _ => rfl) (fun _ _ => rfl)

/-! ## Theorems: the entry guard and the callers from script -/

/-- C24, as stated, fails: in a static document the first `LoadObject` on
`<object type="image/png" data="http://x/a.png">` is not a no-op: it resolves
the parameters, asks the load policy, opens the channel and notifies. -/
theorem LoadObject_static_document_counterexample :
    staticDocumentEnv.isStaticDocument = true
    ∧ (LoadObject staticDocumentEnv State.init true false none).1 ≠ State.init
    ∧ (LoadObject staticDocumentEnv State.init true false none).1.mChannel.isSome = true
    ∧ (LoadObject staticDocumentEnv State.init true false none).1.log
        = [.cancelImageRequests, .teardownProtoChain, .checkLoadPolicy, .channelOpen 0,
           .updateState] := by
  decide

/-- C24, amended: `LoadObject` returns the object as it is, with no call
made (no channel opened or closed, no notification), whenever the element is not
in an active document, or the document is being used as an image or was loaded
as data; it answers `NS_ERROR_UNEXPECTED` in the first case and `NS_OK` in the
other two. This holds whatever nested entries the environment would make. -/
theorem LoadObject_entry_guard (env : Env) (s : State) (aNotify aForceLoad : Bool)
    (aLoadingChannel : Option Nat)
    (h : env.inActiveDocument = false ∨ env.isBeingUsedAsImage = true
      ∨ env.isLoadedAsData = true) :
    LoadObject env s aNotify aForceLoad aLoadingChannel
      = (s, if env.inActiveDocument = false then .NS_ERROR_UNEXPECTED else .NS_OK) := by
  unfold LoadObject LoadObject_entry
  cases hd : env.inActiveDocument with
  | false => simp
  | true =>
    have h' : (env.isBeingUsedAsImage || env.isLoadedAsData) = true := by
      rcases h with h | h | h
      · rw [hd] at h
        cases h
      · simp [h]
      · simp [h]
    simp [h']

/-- Witness for C24 amended: the page `imageObjectEnv` loaded as data. -/
theorem LoadObject_entry_guard_witness :
    LoadObject { imageObjectEnv with isLoadedAsData := true } State.init true false none
      = (State.init, .NS_OK) :=
  LoadObject_entry_guard { imageObjectEnv with isLoadedAsData := true } State.init true false
    none (Or.inr (Or.inr rfl))

/-- C28: `PlayPlugin` called by a caller that is not chrome returns `NS_OK`
and leaves every member as it was, the log of calls included (no load is
started); `CancelPlayPreview` called by such a caller returns
`NS_ERROR_NOT_AVAILABLE` and leaves every member as it was. -/
theorem PlayPlugin_unprivileged (env : Env) (s : State)
    (atLeastClickToPlay : FallbackType → Bool) :
    PlayPlugin env s false atLeastClickToPlay = (s, .NS_OK)
    ∧ CancelPlayPreview env s false = (s, .NS_ERROR_NOT_AVAILABLE) := by
  constructor
  · unfold PlayPlugin
    rfl
  · unfold CancelPlayPreview
    rfl

/-- A chrome caller of `PlayPlugin` is not refused: on an object that is not
in a fallback state, `PlayPlugin` sets `mActivated`. -/
theorem PlayPlugin_chrome_activates (env : Env) (s : State)
    (atLeastClickToPlay : FallbackType → Bool) (h : s.mType ≠ .eType_Null) :
    (PlayPlugin env s true atLeastClickToPlay).1.mActivated = true := by
  unfold PlayPlugin
  cases ha : s.mActivated <;> simp [h, ha]

/-! ## Theorems: deferred tasks -/

/-- C23: an asynchronous-instantiate task or a check-stop task that runs
while the object tracks another task of its kind, or none, returns `NS_OK` and
leaves every member as it was, the log of calls included (no instance is
started or stopped). In a run without nested entries `StopPluginInstance` and
`UnloadObject` leave no task tracked, so that every task is stale after them.
`AsyncStartPluginInstance` returns `NS_OK` without posting a task and without
any other change while a task is pending or an instance owner exists. -/
theorem stale_tasks_are_noops (env : Env) (s : State) (task : Nat) (hasFrame : Bool) :
    (s.mPendingInstantiateEvent ≠ some task →
      nsAsyncInstantiateEvent.Run env s task = (s, .NS_OK))
    ∧ (s.mPendingCheckPluginStopEvent ≠ some task →
      CheckPluginStopEvent.Run env s task hasFrame = (s, .NS_OK))
    ∧ (env.quiet →
      nsAsyncInstantiateEvent.Run env (StopPluginInstance env s) task
        = (StopPluginInstance env s, .NS_OK)
      ∧ CheckPluginStopEvent.Run env (StopPluginInstance env s) task hasFrame
        = (StopPluginInstance env s, .NS_OK))
    ∧ (env.quiet → ∀ aResetState : Bool,
      nsAsyncInstantiateEvent.Run env (UnloadObject env s aResetState) task
        = (UnloadObject env s aResetState, .NS_OK)
      ∧ CheckPluginStopEvent.Run env (UnloadObject env s aResetState) task hasFrame
        = (UnloadObject env s aResetState, .NS_OK))
    ∧ (s.mPendingInstantiateEvent.isSome = true ∨ s.mInstanceOwner.isSome = true →
      AsyncStartPluginInstance env s = (s, .NS_OK)) := by
  have h1 : ∀ t : State, t.mPendingInstantiateEvent ≠ some task →
      nsAsyncInstantiateEvent.Run env t task = (t, .NS_OK) := by
    intro t h
    unfold nsAsyncInstantiateEvent.Run
    rw [if_pos h]
  have h2 : ∀ t : State, t.mPendingCheckPluginStopEvent ≠ some task →
      CheckPluginStopEvent.Run env t task hasFrame = (t, .NS_OK) := by
    intro t h
    unfold CheckPluginStopEvent.Run
    rw [if_pos h]
  refine ⟨h1 s, h2 s, ?_, ?_, ?_⟩
  · intro hq
    have hp := StopPluginInstance_pending hq s
    exact ⟨h1 _ (by rw [hp.1]; exact fun h => nomatch h),
      h2 _ (by rw [hp.2]; exact fun h => nomatch h)⟩
  · intro hq r
    have hp := UnloadObject_pending hq s r
    exact ⟨h1 _ (by rw [hp.1]; exact fun h => nomatch h),
      h2 _ (by rw [hp.2]; exact fun h => nomatch h)⟩
  · intro h
    unfold AsyncStartPluginInstance
    have h' : (s.mInstanceOwner.isSome || s.mPendingInstantiateEvent.isSome) = true := by
      rcases h with h | h
      · simp [h]
      · simp [h]
    rw [if_pos h']

/-- Witness for C23: on the plugin page without a URI the first `LoadObject`
posts the task 0; the task 5 is stale and changes nothing, and a second
`AsyncStartPluginInstance` posts nothing. -/
theorem stale_tasks_are_noops_witness :
    activatedPlugin.mPendingInstantiateEvent = some 0
    ∧ nsAsyncInstantiateEvent.Run pluginObjectEnv activatedPlugin 5 = (activatedPlugin, .NS_OK)
    ∧ AsyncStartPluginInstance pluginObjectEnv activatedPlugin = (activatedPlugin, .NS_OK) :=
  ⟨by decide,
   (stale_tasks_are_noops pluginObjectEnv activatedPlugin 5 true).1 (by decide),
   (stale_tasks_are_noops pluginObjectEnv activatedPlugin 5 true).2.2.2.2 (Or.inl (by decide))⟩

/-- The task that the object tracks is not a no-op: on the plugin page the
task 0 spawns the plugin. -/
theorem tracked_task_runs :
    (nsAsyncInstantiateEvent.Run pluginObjectEnv activatedPlugin 0).1.mInstanceOwner.isSome = true
    ∧ (nsAsyncInstantiateEvent.Run pluginObjectEnv activatedPlugin 0).1.mPendingInstantiateEvent
        = none := by
  decide

/-! ## Theorems: the system principal -/

/-- On a page whose top-level document is reached and has the system
principal, the permission part of `ShouldPlay` makes no call on the permission
manager and follows the blocklist state and the enabled state. -/
theorem ShouldPlay_permission_system (pe : PlayEnv) (ct : String) (r : FallbackType)
    (st : PluginState) (bl : BlocklistState)
    (hwindow : pe.hasWindow = true) (htop : pe.getTopOk = true)
    (hdoc : pe.getTopDocumentOk = true) (hsystem : pe.topIsSystemPrincipal = true) :
    ShouldPlay_permission pe ct r st bl
      = ⟨pe.permissionManagerOk
          && !(decide (bl = .STATE_VULNERABLE_UPDATE_AVAILABLE)
                || decide (bl = .STATE_VULNERABLE_NO_UPDATE))
          && decide (st = .STATE_ENABLED), r, []⟩ := by
  unfold ShouldPlay_permission
  simp only [hwindow, htop, hdoc, hsystem, Bool.not_true, Bool.false_eq_true, if_false]
  cases pe.permissionManagerOk <;> cases st <;> cases bl <;> simp

/-- C30: on a page whose top-level document is reached and has the system
principal, two runs of `ShouldPlay` on the same object with the same arguments
give the same boolean, the same reason and the same (empty) list of calls on
the permission manager as soon as they agree on the play preview registered for
the content type, on the enabled state, on the blocklist state and on the
availability of the permission manager service; they may differ in every answer
of the permission store, in the permission key, in the clock and in the two
expiry preferences. -/
theorem ShouldPlay_system_principal (pe₁ pe₂ : PlayEnv) (s : State) (aReason : FallbackType)
    (aIgnoreCurrentType : Bool)
    (hwindow₁ : pe₁.hasWindow = true) (htop₁ : pe₁.getTopOk = true)
    (hdoc₁ : pe₁.getTopDocumentOk = true) (hsystem₁ : pe₁.topIsSystemPrincipal = true)
    (hwindow₂ : pe₂.hasWindow = true) (htop₂ : pe₂.getTopOk = true)
    (hdoc₂ : pe₂.getTopDocumentOk = true) (hsystem₂ : pe₂.topIsSystemPrincipal = true)
    (hmanager : pe₁.permissionManagerOk = pe₂.permissionManagerOk)
    (hpreview : pe₁.playPreviewInfo s.mContentType = pe₂.playPreviewInfo s.mContentType)
    (hstate : pe₁.stateForType s.mContentType = pe₂.stateForType s.mContentType)
    (hblock : pe₁.blocklistStateForType s.mContentType
      = pe₂.blocklistStateForType s.mContentType) :
    ShouldPlay pe₁ s aReason aIgnoreCurrentType = ShouldPlay pe₂ s aReason aIgnoreCurrentType
    ∧ (ShouldPlay pe₁ s aReason aIgnoreCurrentType).effects = [] := by
  have h₁ := fun r st bl => ShouldPlay_permission_system pe₁ s.mContentType r st bl hwindow₁ htop₁
    hdoc₁ hsystem₁
  have h₂ := fun r st bl => ShouldPlay_permission_system pe₂ s.mContentType r st bl hwindow₂ htop₂
    hdoc₂ hsystem₂
  constructor
  · unfold ShouldPlay
    simp only [h₁, h₂, hmanager, hpreview, hstate, hblock]
  · unfold ShouldPlay
    simp only [h₁]
    split_ifs <;> rfl

/-- Witness for C30: an enabled plugin on a system-principal page; the store
answers Deny in one run and Allow in the other. -/
theorem ShouldPlay_system_principal_witness :
    ShouldPlay (systemPlayEnv .STATE_ENABLED .STATE_NOT_BLOCKED .DENY_ACTION) samplePluginState
        .eFallbackAlternate false
      = ShouldPlay (systemPlayEnv .STATE_ENABLED .STATE_NOT_BLOCKED .ALLOW_ACTION)
          samplePluginState .eFallbackAlternate false
    ∧ (ShouldPlay (systemPlayEnv .STATE_ENABLED .STATE_NOT_BLOCKED .DENY_ACTION)
        samplePluginState .eFallbackAlternate false).effects = [] :=
  ShouldPlay_system_principal _ _ samplePluginState .eFallbackAlternate false rfl rfl rfl rfl rfl
    rfl rfl rfl rfl rfl rfl rfl

/-- On an ordinary page the same two runs differ: the store is read. -/
theorem ShouldPlay_ordinary_page_reads_store :
    (ShouldPlay (samplePlayEnv .STATE_ENABLED .STATE_NOT_BLOCKED .DENY_ACTION) samplePluginState
        .eFallbackAlternate false).play = false
    ∧ (ShouldPlay (samplePlayEnv .STATE_ENABLED .STATE_NOT_BLOCKED .ALLOW_ACTION)
        samplePluginState .eFallbackAlternate false).play = true
    ∧ (ShouldPlay (systemPlayEnv .STATE_ENABLED .STATE_NOT_BLOCKED .DENY_ACTION)
        samplePluginState .eFallbackAlternate false).play = true := by
  decide

/-! ## Theorems: a crashed plugin -/

/-- In a run without nested entries `NotifyStateChanged` adds to the log
nothing but `UpdateState` and notifications of the document. -/
theorem NotifyStateChanged_log {env : Env} (hq : env.quiet) (s : State) (ot : ObjectType)
    (os : EventStates) (sync notify : Bool) (site : Site) (log₀ : List Effect)
    (h₀ : s.log = log₀) :
    ∃ L, (NotifyStateChanged env s ot os sync notify site).log = log₀ ++ L
      ∧ ∀ e ∈ L, e = .updateState ∨ e = .flushFrames ∨ e.isStateNotification = true := by
  subst h₀
  unfold NotifyStateChanged
  simp only [hq.eq, State.emit]
  split_ifs <;>
    simp only [List.append_assoc, List.singleton_append, List.cons_append, List.nil_append] <;>
    refine ⟨_, rfl, ?_⟩ <;>
    simp [Effect.isStateNotification]

/-- In a run without nested entries `LoadFallback` adds to the log nothing
but `UpdateState` and notifications of the document. -/
theorem LoadFallback_log {env : Env} (hq : env.quiet) (s : State) (ty : FallbackType)
    (notify : Bool) :
    ∃ L, (LoadFallback env s ty notify).log = s.log ++ L
      ∧ ∀ e ∈ L, e = .updateState ∨ e = .flushFrames ∨ e.isStateNotification = true := by
  unfold LoadFallback
  simp only []
  by_cases hn : (!notify) = true
  · rw [if_pos hn]
    exact ⟨[], by simp, by simp⟩
  · rw [if_neg hn]
    exact NotifyStateChanged_log hq _ _ _ _ _ _ s.log rfl

/-- With an instance owner, `PluginDestroyed` tears down the prototype chain,
destroys the owner and forgets it. -/
theorem PluginDestroyed_owner (s : State) (owner : Nat) (h : s.mInstanceOwner = some owner) :
    (PluginDestroyed s).1
      = { s with mInstanceOwner := none,
                 log := s.log ++ [.teardownProtoChain, .ownerDestroy owner] } := by
  unfold PluginDestroyed
  simp [State.emit, h]

/-- C22, as stated, fails. The running plugin of the page `streamedPluginEnv`
crashes while the dispatch to the current thread fails: `PluginCrashed` only
warns, and no crash event is queued. The same plugin on an element that is not
an HTML element: `LoadFallback` replaces the reason, and the fallback type is
Alternate, not Crashed. -/
theorem PluginCrashed_dispatch_failure_counterexample :
    streamedPluginRunning.mType = .eType_Plugin
    ∧ streamedPluginRunning.mInstanceOwner = some 1
    ∧ (PluginCrashed { streamedPluginEnv with dispatchOk := false } streamedPluginRunning "Test"
        "libtest.so" "pd" "bd" true).1.log.countP Effect.isCrashEvent = 0
    ∧ (PluginCrashed { streamedPluginEnv with dispatchOk := false } streamedPluginRunning "Test"
        "libtest.so" "pd" "bd" true).2 = .NS_OK
    ∧ (PluginCrashed
        { streamedPluginEnv with element := { streamedPluginEnv.element with isHTML := false } }
        streamedPluginRunning "Test" "libtest.so" "pd" "bd" true).1.mFallbackType
        = .eFallbackAlternate := by
  decide

/-- In a run without nested entries, on an object with an instance owner,
`PluginCrashed` destroys and detaches the instance owner and leaves `mType`
equal to `eType_Null`; `mFallbackType` is Crashed when the element is an HTML
element and the content type is not empty, and Alternate otherwise; when the
dispatch to the current thread succeeds, one crash event is queued, the last
call made, with the plugin dump id, the browser dump id, the name and file name
of the plugin and the flag given, and when the dispatch fails none is queued;
the method returns `NS_OK` in either case. -/
theorem PluginCrashed_effect {env : Env} (hq : env.quiet) (s : State) (owner : Nat)
    (pluginName pluginFilename pluginDumpID browserDumpID : String)
    (submittedCrashReport : Bool)
    (hinstance : s.mInstanceOwner = some owner) :
    (PluginCrashed env s pluginName pluginFilename pluginDumpID browserDumpID
        submittedCrashReport).1.mInstanceOwner = none
    ∧ (PluginCrashed env s pluginName pluginFilename pluginDumpID browserDumpID
        submittedCrashReport).1.mType = .eType_Null
    ∧ (PluginCrashed env s pluginName pluginFilename pluginDumpID browserDumpID
        submittedCrashReport).1.mFallbackType
        = (if env.element.isHTML = true ∧ s.mContentType ≠ "" then .eFallbackCrashed
           else .eFallbackAlternate)
    ∧ (PluginCrashed env s pluginName pluginFilename pluginDumpID browserDumpID
        submittedCrashReport).1.log.countP Effect.isCrashEvent
        = s.log.countP Effect.isCrashEvent + (if env.dispatchOk = true then 1 else 0)
    ∧ (env.dispatchOk = true →
        (PluginCrashed env s pluginName pluginFilename pluginDumpID browserDumpID
          submittedCrashReport).1.log.getLast?
          = some (.postPluginCrashedEvent pluginDumpID browserDumpID pluginName pluginFilename
              submittedCrashReport))
    ∧ (PluginCrashed env s pluginName pluginFilename pluginDumpID browserDumpID
        submittedCrashReport).1.log.countP (fun e => decide (e = .ownerDestroy owner))
        = s.log.countP (fun e => decide (e = .ownerDestroy owner)) + 1
    ∧ (PluginCrashed env s pluginName pluginFilename pluginDumpID browserDumpID
        submittedCrashReport).2 = .NS_OK := by
  have hpd := PluginDestroyed_owner s owner hinstance
  have hfb : (LoadFallback env (PluginDestroyed s).1 .eFallbackCrashed true).mFallbackType
      = (if env.element.isHTML = true ∧ s.mContentType ≠ "" then .eFallbackCrashed
         else .eFallbackAlternate) := by
    rw [LoadFallback_mFallbackType hq, hpd]
    by_cases hh : env.element.isHTML = true ∧ s.mContentType ≠ ""
    · rw [if_pos hh, if_neg (by simp [hh.1, hh.2]), if_neg (by simp)]
    · rw [if_neg hh, if_pos]
      rw [not_and_or] at hh
      rcases hh with hh | hh
      · left
        simpa using hh
      · right
        simpa using hh
  have hio : (LoadFallback env (PluginDestroyed s).1 .eFallbackCrashed true).mInstanceOwner
      = none := by
    have h' := congrArg Res.io (LoadFallback_res hq (PluginDestroyed s).1 .eFallbackCrashed true)
    rw [hpd] at h' ⊢
    exact h'
  obtain ⟨L, hL, hLe⟩ := LoadFallback_log hq (PluginDestroyed s).1 .eFallbackCrashed true
  have hLc : L.countP Effect.isCrashEvent = 0 := by
    rw [List.countP_eq_zero]
    intro e he
    rcases hLe e he with h | h | h
    · subst h
      simp [Effect.isCrashEvent]
    · subst h
      simp [Effect.isCrashEvent]
    · cases e <;> simp_all [Effect.isCrashEvent, Effect.isStateNotification]
  have hLo : L.countP (fun e => decide (e = .ownerDestroy owner)) = 0 := by
    rw [List.countP_eq_zero]
    intro e he
    rcases hLe e he with h | h | h
    · subst h
      simp
    · subst h
      simp
    · cases e <;> simp_all [Effect.isStateNotification]
  have hlog : (PluginDestroyed s).1.log = s.log ++ [.teardownProtoChain, .ownerDestroy owner] := by
    rw [hpd]
  rw [hlog] at hL
  unfold PluginCrashed
  by_cases hd : env.dispatchOk = true
  · simp only [hd, if_true]
    refine ⟨hio, LoadFallback_mType hq _ _ _, hfb, ?_, ?_, ?_, trivial⟩
    · simp only [State.emit, hL, List.countP_append, hLc]
      simp [Effect.isCrashEvent]
    · intro _
      simp [State.emit]
    · simp only [State.emit, hL, List.countP_append, hLo]
      simp
  · have hd' : env.dispatchOk = false := by simpa using hd
    simp only [hd', Bool.false_eq_true, if_false]
    refine ⟨hio, LoadFallback_mType hq _ _ _, hfb, ?_, ?_, ?_, trivial⟩
    · simp only [hL, List.countP_append, hLc]
      simp [Effect.isCrashEvent]
    · intro h
      cases h
    · simp only [hL, List.countP_append, hLo]
      simp

/-! ## Runs without nested entries: what leaves `mActivated` alone -/

@[simp] theorem mActivated_emit (s : State) (e : Effect) : (s.emit e).mActivated = s.mActivated :=
  rfl

@[simp] theorem mActivated_ite (c : Prop) [Decidable c] (a b : State) :
    (if c then a else b).mActivated = if c then a.mActivated else b.mActivated :=
  apply_ite _ _ _ _

@[simp] theorem NotifyStateChanged_mActivated {env : Env} (hq : env.quiet) (s : State)
    (ot : ObjectType) (os : EventStates) (sync notify : Bool) (site : Site) :
    (NotifyStateChanged env s ot os sync notify site).mActivated = s.mActivated := by
  unfold NotifyStateChanged
  simp [hq.eq]

@[simp] theorem CloseChannel_mActivated {env : Env} (hq : env.quiet) (s : State) :
    (CloseChannel env s).mActivated = s.mActivated := by
  unfold CloseChannel
  simp only [hq.eq]
  split
  · rfl
  · split <;> rfl

@[simp] theorem OpenChannel_mActivated (env : Env) (s : State) :
    (OpenChannel env s).1.mActivated = s.mActivated := by
  unfold OpenChannel
  dsimp only
  split
  · rfl
  · split_ifs <;> rfl

@[simp] theorem DoStopPlugin_mActivated {env : Env} (hq : env.quiet) (s : State) (o : Nat)
    (d f : Bool) : (DoStopPlugin env s o d f).mActivated = s.mActivated := by
  unfold DoStopPlugin
  simp only [hq.eq]
  split_ifs <;> rfl

@[simp] theorem StopPluginInstance_mActivated {env : Env} (hq : env.quiet) (s : State) :
    (StopPluginInstance env s).mActivated = s.mActivated := by
  unfold StopPluginInstance
  dsimp only
  split_ifs <;> (try split) <;> simp [hq]

@[simp] theorem destroyFrameLoader_mActivated (s : State) :
    (destroyFrameLoader s).mActivated = s.mActivated := by
  unfold destroyFrameLoader
  split <;> rfl

@[simp] theorem UnloadObject_mActivated {env : Env} (hq : env.quiet) (s : State) (r : Bool) :
    (UnloadObject env s r).mActivated = s.mActivated := by
  unfold UnloadObject
  cases r <;> simp [hq]

@[simp] theorem LoadFallback_mActivated {env : Env} (hq : env.quiet) (s : State)
    (ty : FallbackType) (notify : Bool) :
    (LoadFallback env s ty notify).mActivated = s.mActivated := by
  unfold LoadFallback
  simp [hq]

@[simp] theorem LoadObject_policy_mActivated {env : Env} (hq : env.quiet) (s : State) :
    (LoadObject_policy env s).1.mActivated = s.mActivated := by
  obtain ⟨L, hL⟩ := LoadObject_policy_log hq s
  rw [hL]

@[simp] theorem MakePluginListener_mActivated (env : Env) (s : State) :
    (MakePluginListener env s).1.mActivated = s.mActivated := by
  unfold MakePluginListener
  split
  · rfl
  · split_ifs <;> rfl

@[simp] theorem AsyncStartPluginInstance_mActivated (env : Env) (s : State) :
    (AsyncStartPluginInstance env s).1.mActivated = s.mActivated := by
  unfold AsyncStartPluginInstance
  split_ifs <;> rfl

@[simp] theorem killNewOwner_mActivated (env : Env) (s : State) (o : Option Nat) :
    (killNewOwner env s o).mActivated = s.mActivated := by
  unfold killNewOwner
  split
  · simp
  · rfl

@[simp] theorem wireNewOwner_mActivated (env : Env) (s : State) (l : Bool) (o : Nat) :
    (wireNewOwner env s l o).mActivated = s.mActivated := by
  unfold wireNewOwner
  simp

@[simp] theorem InstantiatePluginInstance_body_mActivated {env : Env} (hq : env.quiet)
    (s : State) (l : Bool) :
    (InstantiatePluginInstance_body env s l).1.mActivated = s.mActivated := by
  unfold InstantiatePluginInstance_body
  simp only [hq.eq]
  split_ifs <;> simp

@[simp] theorem InstantiatePluginInstance_mActivated {env : Env} (hq : env.quiet) (s : State)
    (l : Bool) : (InstantiatePluginInstance env s l).1.mActivated = s.mActivated := by
  unfold InstantiatePluginInstance
  split_ifs
  · rfl
  · exact InstantiatePluginInstance_body_mActivated hq _ l

@[simp] theorem finalListenerOnStart_mActivated {env : Env} (hq : env.quiet) (s : State)
    (r : Option Nat) : (finalListenerOnStart env s r).1.mActivated = s.mActivated := by
  unfold finalListenerOnStart
  split <;> simp [hq.eq]

@[simp] theorem LoadObject_failure_mActivated {env : Env} (hq : env.quiet) (s : State)
    (ctx : LoadCtx) (rv : nsresult) :
    (LoadObject_failure env s ctx rv).mActivated = s.mActivated := by
  unfold LoadObject_failure
  simp [hq]

@[simp] theorem LoadObject_deferred_mActivated {env : Env} (hq : env.quiet) (s : State)
    (ctx : LoadCtx) (d : Bool) (fl : Option Listener) :
    (LoadObject_deferred env s ctx d fl).mActivated = s.mActivated := by
  unfold LoadObject_deferred
  simp [hq]

@[simp] theorem LoadObject_notify_mActivated {env : Env} (hq : env.quiet) (s : State)
    (ctx : LoadCtx) (rv : nsresult) (fl : Option Listener) (d : Bool) :
    (LoadObject_notify env s ctx rv fl d).mActivated = s.mActivated := by
  unfold LoadObject_notify
  simp [hq]

@[simp] theorem LoadObject_document_mActivated {env : Env} (hq : env.quiet) (s : State)
    (ctx : LoadCtx) : (LoadObject_document env s ctx).mActivated = s.mActivated := by
  unfold LoadObject_document
  split <;> simp [hq]

@[simp] theorem LoadObject_dispatch_mActivated {env : Env} (hq : env.quiet) (s : State)
    (ctx : LoadCtx) : (LoadObject_dispatch env s ctx).mActivated = s.mActivated := by
  unfold LoadObject_dispatch
  split
  · split <;> simp [hq]
  · simp [hq]
  · simp [hq]
  · simp [hq]
  · simp [hq]

@[simp] theorem LoadObject_sanity_mActivated {env : Env} (hq : env.quiet) (s : State)
    (ctx : LoadCtx) : (LoadObject_sanity env s ctx).mActivated = s.mActivated := by
  unfold LoadObject_sanity
  simp [hq]

@[simp] theorem UpdateObjectParameters_mActivated (env : Env) (s : State) (j : Bool) :
    (UpdateObjectParameters env s j).1.mActivated = s.mActivated := by
  unfold UpdateObjectParameters updateFromResolved
  rfl

/-! ## Theorems: activation -/

/-- What the `ShouldPlay` gate of `LoadObject` does to `mActivated`: it sets
the flag for a plugin that is not activated and that `ShouldPlay` lets play, and
leaves it otherwise. -/
theorem LoadObject_played_mActivated (env : Env) (t : State) :
    (LoadObject_played env t).mActivated
      = (t.mActivated
          || (decide (t.mType = .eType_Plugin)
              && (ShouldPlay env.play t .eFallbackAlternate false).play)) := by
  unfold LoadObject_played
  generalize ShouldPlay env.play t .eFallbackAlternate false = p
  rcases p with ⟨play, reason, effects⟩
  cases ha : t.mActivated <;> cases play <;> cases ht : t.mType <;> simp [ha, ht]

/-- The `ShouldPlay` gate leaves the content type alone. -/
theorem LoadObject_played_mContentType (env : Env) (t : State) :
    (LoadObject_played env t).mContentType = t.mContentType :=
  congrArg Params.mContentType (LoadObject_played_params env t)

/-- In a run without nested entries, `LoadObject` from the `ShouldPlay` gate
on: the flag at the end is the flag that the gate leaves. -/
theorem LoadObject_play_mActivated {env : Env} (hq : env.quiet) (t : State) (ctx : LoadCtx) :
    (LoadObject_play env t ctx).mActivated
      = (t.mActivated
          || (decide (t.mType = .eType_Plugin)
              && (ShouldPlay env.play t .eFallbackAlternate false).play)) := by
  unfold LoadObject_play
  rw [LoadObject_sanity_mActivated hq, LoadObject_played_mActivated]

/-- In a run without nested entries, from the view-source block on, an
activated object stays activated, and an object that was not activated is
activated at the end only if `ShouldPlay` let a plugin of its content type
play. -/
theorem LoadObject_gate_mActivated {env : Env} (hq : env.quiet) (t : State) (ctx : LoadCtx) :
    (t.mActivated = true → (LoadObject_gate env t ctx).mActivated = true)
    ∧ (t.mActivated = false → (LoadObject_gate env t ctx).mActivated = true →
        ∃ u : State, u.mType = .eType_Plugin ∧ u.mActivated = false
          ∧ u.mContentType = t.mContentType
          ∧ (ShouldPlay env.play u .eFallbackAlternate false).play = true) := by
  unfold LoadObject_gate
  split_ifs
  · rw [LoadObject_play_mActivated hq]
    constructor
    · intro h
      simp [h]
    · intro h h'
      simp [h] at h'
  · rw [LoadObject_play_mActivated hq]
    constructor
    · intro h
      simp [h]
    · intro h h'
      simp only [h, Bool.false_or, Bool.and_eq_true, decide_eq_true_eq] at h'
      exact ⟨t, h'.1, h, rfl, h'.2⟩

/-- The same from the security checks on. -/
theorem LoadObject_security_mActivated {env : Env} (hq : env.quiet) (t : State)
    (ctx : LoadCtx) :
    (t.mActivated = true → (LoadObject_security env t ctx).mActivated = true)
    ∧ (t.mActivated = false → (LoadObject_security env t ctx).mActivated = true →
        ∃ u : State, u.mType = .eType_Plugin ∧ u.mActivated = false
          ∧ u.mContentType = t.mContentType
          ∧ (ShouldPlay env.play u .eFallbackAlternate false).play = true) := by
  obtain ⟨L, hL⟩ := LoadObject_policy_log hq t
  have hg₁ := fun c => LoadObject_gate_mActivated hq
    { (LoadObject_policy env t).1 with mType := .eType_Null } c
  have hg₂ := LoadObject_gate_mActivated hq (LoadObject_policy env t).1 ctx
  have hg₃ := LoadObject_gate_mActivated hq t ctx
  have hpa : (LoadObject_policy env t).1.mActivated = t.mActivated :=
    LoadObject_policy_mActivated hq t
  have hpc : (LoadObject_policy env t).1.mContentType = t.mContentType := by
    rw [hL]
  have hA : (t.mActivated = true → (LoadObject_policy env t).1.mActivated = true)
      ∧ (t.mActivated = false → (LoadObject_policy env t).1.mActivated = true →
          ∃ u : State, u.mType = .eType_Plugin ∧ u.mActivated = false
            ∧ u.mContentType = t.mContentType
            ∧ (ShouldPlay env.play u .eFallbackAlternate false).play = true) := by
    constructor
    · intro h
      exact hpa.trans h
    · intro h h'
      rw [hpa, h] at h'
      cases h'
  have hB : ∀ c : LoadCtx,
      (t.mActivated = true →
        (LoadObject_gate env { (LoadObject_policy env t).1 with mType := .eType_Null }
          c).mActivated = true)
      ∧ (t.mActivated = false →
        (LoadObject_gate env { (LoadObject_policy env t).1 with mType := .eType_Null }
          c).mActivated = true →
          ∃ u : State, u.mType = .eType_Plugin ∧ u.mActivated = false
            ∧ u.mContentType = t.mContentType
            ∧ (ShouldPlay env.play u .eFallbackAlternate false).play = true) := by
    intro c
    constructor
    · intro h
      exact (hg₁ c).1 (hpa.trans h)
    · intro h h'
      obtain ⟨u, h1, h2, h3, h4⟩ := (hg₁ c).2 (hpa.trans h) h'
      exact ⟨u, h1, h2, h3.trans hpc, h4⟩
  have hC : (t.mActivated = true →
        (LoadObject_gate env (LoadObject_policy env t).1 ctx).mActivated = true)
      ∧ (t.mActivated = false →
        (LoadObject_gate env (LoadObject_policy env t).1 ctx).mActivated = true →
          ∃ u : State, u.mType = .eType_Plugin ∧ u.mActivated = false
            ∧ u.mContentType = t.mContentType
            ∧ (ShouldPlay env.play u .eFallbackAlternate false).play = true) := by
    constructor
    · intro h
      exact hg₂.1 (hpa.trans h)
    · intro h h'
      obtain ⟨u, h1, h2, h3, h4⟩ := hg₂.2 (hpa.trans h) h'
      exact ⟨u, h1, h2, h3.trans hpc, h4⟩
  unfold LoadObject_security
  simp only []
  split_ifs
  · exact hA
  · exact hB _
  · exact hB _
  · exact hC
  · exact hg₃

/-- In a run without nested entries the blocks of `LoadObject` before the
security checks leave `mActivated` and the content type alone. -/
theorem LoadObject_channel_mActivated {env : Env} (hq : env.quiet) (s : State) (ctx : LoadCtx) :
    (LoadObject_channel env s ctx).state.mActivated = s.mActivated := by
  unfold LoadObject_channel
  simp only []
  split_ifs <;> simp [Outcome.state, hq]

/-- The same for the whole of `LoadObject` after `mIsLoading` is set. -/
theorem LoadObject_unload_mActivated {env : Env} (hq : env.quiet) (s : State) (ctx : LoadCtx) :
    (s.mActivated = true → (LoadObject_unload env s ctx).mActivated = true)
    ∧ (s.mActivated = false → (LoadObject_unload env s ctx).mActivated = true →
        ∃ u : State, u.mType = .eType_Plugin ∧ u.mActivated = false
          ∧ u.mContentType = s.mContentType
          ∧ (ShouldPlay env.play u .eFallbackAlternate false).play = true) := by
  have hc := LoadObject_channel_mActivated hq s ctx
  have hp := LoadObject_channel_params hq s ctx
  unfold LoadObject_unload
  split
  · rename_i t ht
    rw [ht] at hc
    simp only [Outcome.state] at hc
    exact ⟨fun h => hc.trans h, fun h h' => by rw [hc, h] at h'; cases h'⟩
  · rename_i t ht
    rw [ht] at hc hp
    simp only [Outcome.state] at hc hp
    have hct : t.mContentType = s.mContentType := congrArg Params.mContentType hp
    have hs := LoadObject_security_mActivated hq t ctx
    constructor
    · intro h
      exact hs.1 (hc.trans h)
    · intro h h'
      obtain ⟨u, h1, h2, h3, h4⟩ := hs.2 (hc.trans h) h'
      exact ⟨u, h1, h2, h3.trans hct, h4⟩

/-- In a run without nested entries, the first part of `LoadObject` clears
`mActivated` exactly when it was set and the resolver reports a changed content
type. -/
theorem LoadObject_entry_mActivated {env : Env} (hq : env.quiet) (s s₁ : State)
    (ctx : LoadCtx) (n f : Bool) (c : Option Nat)
    (hentry : LoadObject_entry env s n f c = (s₁, some ctx)) :
    s₁.mActivated = (s.mActivated && !ctx.stateChange.eParamContentTypeChanged) := by
  have key : ∀ s₀ : State, s₀.mActivated = s.mActivated →
      ∀ u : State × ParameterUpdateFlags, UpdateObjectParameters env s₀ false = u →
      (if (u.1.mActivated && u.2.eParamContentTypeChanged) = true then
          { u.1 with mActivated := false }
        else u.1).mActivated = (s.mActivated && !u.2.eParamContentTypeChanged) := by
    intro s₀ h0 u hu
    have hua : u.1.mActivated = s.mActivated := by
      rw [← hu, UpdateObjectParameters_mActivated, h0]
    cases h1 : s.mActivated <;> cases h2 : u.2.eParamContentTypeChanged <;> simp [hua, h1, h2]
  have h0 : (if (f && s.mChannelLoaded) = true then
      { CloseChannel env s with mChannelLoaded := false } else s).mActivated = s.mActivated := by
    split_ifs
    · exact CloseChannel_mActivated hq s
    · rfl
  unfold LoadObject_entry at hentry
  simp only [] at hentry
  by_cases hd : (!env.inActiveDocument) = true
  · rw [if_pos hd] at hentry
    cases hentry
  rw [if_neg hd] at hentry
  by_cases hi : (env.isBeingUsedAsImage || env.isLoadedAsData) = true
  · rw [if_pos hi] at hentry
    cases hentry
  rw [if_neg hi] at hentry
  generalize hs₀ : (if (f && s.mChannelLoaded) = true then
      { CloseChannel env s with mChannelLoaded := false } else s) = s₀ at hentry h0
  generalize hu : UpdateObjectParameters env s₀ false = u at hentry
  by_cases hnc : (!u.2.any && !f) = true
  · rw [if_pos hnc] at hentry
    cases hentry
  rw [if_neg hnc] at hentry
  simp only [Prod.mk.injEq, Option.some.injEq] at hentry
  obtain ⟨h1, h2⟩ := hentry
  subst h1
  subst h2
  exact key s₀ h0 u hu

/-- C25: in a run without nested entries, in a call of `LoadObject` that
gets past the no-change return: `mActivated` after the first part is the old
flag unless the resolver reports a changed content type, in which case it is
cleared (cleared if and only if it was set and the content type changed); the
`ShouldPlay` gate sets the flag for a plugin that is not activated and that
`ShouldPlay` lets play, and leaves it in every other case; so an object that was
activated and whose content type is unchanged is activated at the end of the
call, and an object whose flag was clear or has been cleared is activated at the
end only if the gate has met a plugin of the resolved content type that
`ShouldPlay` lets play. -/
theorem LoadObject_activation_sticky {env : Env} (hq : env.quiet) (s s₁ : State)
    (ctx : LoadCtx) (aNotify aForceLoad : Bool) (aLoadingChannel : Option Nat)
    (hentry : LoadObject_entry env s aNotify aForceLoad aLoadingChannel = (s₁, some ctx)) :
    s₁.mActivated = (s.mActivated && !ctx.stateChange.eParamContentTypeChanged)
    ∧ (∀ t : State,
        (LoadObject_played env t).mActivated
          = (t.mActivated
              || (decide (t.mType = .eType_Plugin)
                  && (ShouldPlay env.play t .eFallbackAlternate false).play)))
    ∧ (s.mActivated = true → ctx.stateChange.eParamContentTypeChanged = false →
        (LoadObject env s aNotify aForceLoad aLoadingChannel).1.mActivated = true)
    ∧ (s.mActivated = false ∨ ctx.stateChange.eParamContentTypeChanged = true →
        (LoadObject env s aNotify aForceLoad aLoadingChannel).1.mActivated = true →
        ∃ u : State, u.mType = .eType_Plugin ∧ u.mActivated = false
          ∧ u.mContentType = s₁.mContentType
          ∧ (ShouldPlay env.play u .eFallbackAlternate false).play = true) := by
  have hdoc : env.inActiveDocument = true := by
    by_contra hd
    simp only [Bool.not_eq_true] at hd
    simp [LoadObject_entry, hd] at hentry
  have ha := LoadObject_entry_mActivated hq s s₁ ctx aNotify aForceLoad aLoadingChannel hentry
  have hu := LoadObject_unload_mActivated hq { s₁ with mIsLoading := true } ctx
  have hfinal : (LoadObject env s aNotify aForceLoad aLoadingChannel).1.mActivated
      = (LoadObject_unload env { s₁ with mIsLoading := true } ctx).mActivated := by
    unfold LoadObject
    simp only [hdoc, hentry, Bool.not_true, Bool.false_eq_true, if_false]
  refine ⟨ha, LoadObject_played_mActivated env, ?_, ?_⟩
  · intro h1 h2
    rw [hfinal]
    apply hu.1
    show s₁.mActivated = true
    rw [ha, h1, h2]
    rfl
  · intro h1 h2
    rw [hfinal] at h2
    apply hu.2 _ h2
    show s₁.mActivated = false
    rw [ha]
    rcases h1 with h1 | h1
    · rw [h1]
      rfl
    · rw [h1]
      simp

/-- Witness for C25: a forced `LoadObject` on the activated plugin of the
page `pluginObjectEnv`, the plugin having been disabled since: the content type
is unchanged and the object stays activated. -/
theorem LoadObject_activation_sticky_witness :
    (LoadObject deniedPluginEnv activatedPlugin true true none).1.mActivated = true :=
  (LoadObject_activation_sticky (fun _ _ => rfl) activatedPlugin
    (LoadObject_entry deniedPluginEnv activatedPlugin true true none).1 activatedPluginCtx true
    true none (by decide)).2.2.1 (by decide) (by decide)

/-- The same plugin with the flag cleared goes through the gate again and is
refused. -/
theorem LoadObject_not_activated_is_gated :
    (LoadObject deniedPluginEnv { activatedPlugin with mActivated := false } true true
        none).1.mActivated = false
    ∧ (LoadObject deniedPluginEnv { activatedPlugin with mActivated := false } true true
        none).1.mType = .eType_Null
    ∧ (LoadObject deniedPluginEnv { activatedPlugin with mActivated := false } true true
        none).1.mFallbackType = .eFallbackDisabled := by
  decide

/-! ## The blocks of `LoadObject` that do not read the play gate's services -/

theorem ObjectState_play (env : Env) (pe : PlayEnv) (s : State) :
    ObjectState { env with play := pe } s = ObjectState env s :=
  id rfl

theorem NotifyStateChanged_play (env : Env) (pe : PlayEnv) (s : State) (ot : ObjectType)
    (os : EventStates) (sync notify : Bool) (site : Site) :
    NotifyStateChanged { env with play := pe } s ot os sync notify site
      = NotifyStateChanged env s ot os sync notify site :=
  id rfl

theorem CloseChannel_play (env : Env) (pe : PlayEnv) (s : State) :
    CloseChannel { env with play := pe } s = CloseChannel env s :=
  id rfl

theorem OpenChannel_play (env : Env) (pe : PlayEnv) (s : State) :
    OpenChannel { env with play := pe } s = OpenChannel env s :=
  id rfl

theorem StopPluginInstance_play (env : Env) (pe : PlayEnv) (s : State) :
    StopPluginInstance { env with play := pe } s = StopPluginInstance env s :=
  id rfl

theorem UnloadObject_play (env : Env) (pe : PlayEnv) (s : State) (r : Bool) :
    UnloadObject { env with play := pe } s r = UnloadObject env s r :=
  id rfl

theorem LoadFallback_play (env : Env) (pe : PlayEnv) (s : State) (ty : FallbackType)
    (notify : Bool) :
    LoadFallback { env with play := pe } s ty notify = LoadFallback env s ty notify :=
  id rfl

theorem MakePluginListener_play (env : Env) (pe : PlayEnv) (s : State) :
    MakePluginListener { env with play := pe } s = MakePluginListener env s :=
  id rfl

theorem AsyncStartPluginInstance_play (env : Env) (pe : PlayEnv) (s : State) :
    AsyncStartPluginInstance { env with play := pe } s = AsyncStartPluginInstance env s :=
  id rfl

theorem InstantiatePluginInstance_play (env : Env) (pe : PlayEnv) (s : State) (l : Bool) :
    InstantiatePluginInstance { env with play := pe } s l = InstantiatePluginInstance env s l :=
  id rfl

theorem finalListenerOnStart_play (env : Env) (pe : PlayEnv) (s : State) (r : Option Nat) :
    finalListenerOnStart { env with play := pe } s r = finalListenerOnStart env s r :=
  id rfl

theorem LoadObject_failure_play (env : Env) (pe : PlayEnv) (s : State) (ctx : LoadCtx)
    (rv : nsresult) :
    LoadObject_failure { env with play := pe } s ctx rv = LoadObject_failure env s ctx rv :=
  id rfl

theorem LoadObject_deferred_play (env : Env) (pe : PlayEnv) (s : State) (ctx : LoadCtx)
    (d : Bool) (fl : Option Listener) :
    LoadObject_deferred { env with play := pe } s ctx d fl = LoadObject_deferred env s ctx d fl := by
  unfold LoadObject_deferred
  simp only [InstantiatePluginInstance_play, MakePluginListener_play, finalListenerOnStart_play,
    CloseChannel_play, LoadObject_failure_play]

theorem LoadObject_notify_play (env : Env) (pe : PlayEnv) (s : State) (ctx : LoadCtx)
    (rv : nsresult) (fl : Option Listener) (d : Bool) :
    LoadObject_notify { env with play := pe } s ctx rv fl d = LoadObject_notify env s ctx rv fl d := by
  unfold LoadObject_notify
  simp only [LoadFallback_play, CloseChannel_play, NotifyStateChanged_play,
    LoadObject_deferred_play]

theorem LoadObject_document_play (env : Env) (pe : PlayEnv) (s : State) (ctx : LoadCtx) :
    LoadObject_document { env with play := pe } s ctx = LoadObject_document env s ctx := by
  unfold LoadObject_document
  simp only [LoadObject_notify_play]

theorem LoadObject_dispatch_play (env : Env) (pe : PlayEnv) (s : State) (ctx : LoadCtx) :
    LoadObject_dispatch { env with play := pe } s ctx = LoadObject_dispatch env s ctx := by
  unfold LoadObject_dispatch
  simp only [LoadObject_notify_play, LoadObject_document_play, NotifyStateChanged_play,
    CloseChannel_play, AsyncStartPluginInstance_play, OpenChannel_play, ObjectState_play]

theorem LoadObject_sanity_play (env : Env) (pe : PlayEnv) (s : State) (ctx : LoadCtx) :
    LoadObject_sanity { env with play := pe } s ctx = LoadObject_sanity env s ctx := by
  unfold LoadObject_sanity
  simp only [LoadObject_dispatch_play]

theorem LoadObject_policy_play (env : Env) (pe : PlayEnv) (s : State) :
    LoadObject_policy { env with play := pe } s = LoadObject_policy env s :=
  id rfl

theorem LoadObject_channel_play (env : Env) (pe : PlayEnv) (s : State) (ctx : LoadCtx) :
    LoadObject_channel { env with play := pe } s ctx = LoadObject_channel env s ctx :=
  id rfl

theorem LoadObject_entry_play (env : Env) (pe : PlayEnv) (s : State) (n f : Bool)
    (c : Option Nat) :
    LoadObject_entry { env with play := pe } s n f c = LoadObject_entry env s n f c :=
  id rfl

/-! ## Theorems: an activated object and the play gate -/

/-- The `ShouldPlay` gate of `LoadObject` on an activated object: the
condition fails at `!mActivated`, `ShouldPlay` is not called, and neither the
state nor the `fallbackType` local changes. -/
theorem LoadObject_played_activated (env : Env) (t : State) (ctx : LoadCtx)
    (h : t.mActivated = true) :
    LoadObject_played env t = t ∧ LoadObject_playedCtx env t ctx = ctx := by
  unfold LoadObject_played LoadObject_playedCtx
  simp [h]

theorem LoadObject_play_activated (env : Env) (pe : PlayEnv) (t : State) (ctx : LoadCtx)
    (h : t.mActivated = true) :
    LoadObject_play { env with play := pe } t ctx = LoadObject_play env t ctx := by
  unfold LoadObject_play
  rw [(LoadObject_played_activated { env with play := pe } t ctx h).1,
    (LoadObject_played_activated { env with play := pe } t ctx h).2,
    (LoadObject_played_activated env t ctx h).1, (LoadObject_played_activated env t ctx h).2,
    LoadObject_sanity_play]

theorem LoadObject_gate_activated (env : Env) (pe : PlayEnv) (t : State) (ctx : LoadCtx)
    (h : t.mActivated = true) :
    LoadObject_gate { env with play := pe } t ctx = LoadObject_gate env t ctx := by
  unfold LoadObject_gate
  rw [LoadObject_play_activated env pe t ctx h,
    LoadObject_play_activated env pe { t with mType := .eType_Null } ctx h]

theorem LoadObject_security_activated {env : Env} (hq : env.quiet) (pe : PlayEnv) (t : State)
    (ctx : LoadCtx) (h : t.mActivated = true) :
    LoadObject_security { env with play := pe } t ctx = LoadObject_security env t ctx := by
  have hp : (LoadObject_policy env t).1.mActivated = true :=
    (LoadObject_policy_mActivated hq t).trans h
  unfold LoadObject_security
  simp only [LoadObject_policy_play]
  rw [LoadObject_gate_activated env pe t ctx h,
    LoadObject_gate_activated env pe (LoadObject_policy env t).1 ctx hp]
  have hn : ∀ c : LoadCtx,
      LoadObject_gate { env with play := pe }
          { (LoadObject_policy env t).1 with mType := .eType_Null } c
        = LoadObject_gate env { (LoadObject_policy env t).1 with mType := .eType_Null } c :=
    fun c => LoadObject_gate_activated env pe _ c hp
  simp only [hn]

theorem LoadObject_unload_activated {env : Env} (hq : env.quiet) (pe : PlayEnv) (s : State)
    (ctx : LoadCtx) (h : s.mActivated = true) :
    LoadObject_unload { env with play := pe } s ctx = LoadObject_unload env s ctx := by
  have hc := LoadObject_channel_mActivated hq s ctx
  unfold LoadObject_unload
  rw [LoadObject_channel_play]
  split
  · rfl
  · rename_i t ht
    rw [ht] at hc
    exact LoadObject_security_activated hq pe t ctx (hc.trans h)

/-- C27: in a run without nested entries, `LoadObject` on an activated
object whose resolved content type is unchanged: replacing the services that
`ShouldPlay` consults (the enabled state, the blocklist state, the stored
permission and every other answer of the play environment) by any others
leaves the whole result of the call the same, the type and the fallback type in
particular; and on the activated state the gate is the identity, its condition
failing before the call of `ShouldPlay`. -/
theorem LoadObject_activated_skips_gate {env : Env} (hq : env.quiet) (pe : PlayEnv)
    (s s₁ : State) (ctx : LoadCtx) (aNotify aForceLoad : Bool) (aLoadingChannel : Option Nat)
    (hactivated : s.mActivated = true)
    (hentry : LoadObject_entry env s aNotify aForceLoad aLoadingChannel = (s₁, some ctx))
    (hsame : ctx.stateChange.eParamContentTypeChanged = false) :
    LoadObject { env with play := pe } s aNotify aForceLoad aLoadingChannel
        = LoadObject env s aNotify aForceLoad aLoadingChannel
    ∧ (LoadObject { env with play := pe } s aNotify aForceLoad aLoadingChannel).1.mType
        = (LoadObject env s aNotify aForceLoad aLoadingChannel).1.mType
    ∧ (LoadObject { env with play := pe } s aNotify aForceLoad aLoadingChannel).1.mFallbackType
        = (LoadObject env s aNotify aForceLoad aLoadingChannel).1.mFallbackType
    ∧ s₁.mActivated = true
    ∧ ∀ t : State, t.mActivated = true →
        LoadObject_played { env with play := pe } t = t
        ∧ LoadObject_playedCtx { env with play := pe } t ctx = ctx
        ∧ LoadObject_play { env with play := pe } t ctx = LoadObject_sanity env t ctx := by
  have ha : s₁.mActivated = true := by
    rw [LoadObject_entry_mActivated hq s s₁ ctx aNotify aForceLoad aLoadingChannel hentry,
      hactivated, hsame]
    rfl
  have hrun : LoadObject { env with play := pe } s aNotify aForceLoad aLoadingChannel
      = LoadObject env s aNotify aForceLoad aLoadingChannel := by
    unfold LoadObject
    rw [LoadObject_entry_play, hentry]
    simp only []
    rw [LoadObject_unload_activated hq pe { s₁ with mIsLoading := true } ctx ha]
  refine ⟨hrun, by rw [hrun], by rw [hrun], ha, ?_⟩
  intro t ht
  refine ⟨(LoadObject_played_activated _ t ctx ht).1, (LoadObject_played_activated _ t ctx ht).2,
    ?_⟩
  unfold LoadObject_play
  rw [(LoadObject_played_activated _ t ctx ht).1, (LoadObject_played_activated _ t ctx ht).2,
    LoadObject_sanity_play]

/-- Witness for C27: the activated plugin of the page `pluginObjectEnv`,
loaded again with the plugin disabled, blocklisted and denied by the permission
store, and loaded again with the services as they were. -/
theorem LoadObject_activated_skips_gate_witness :
    LoadObject deniedPluginEnv activatedPlugin true true none
      = LoadObject pluginObjectEnv activatedPlugin true true none :=
  (LoadObject_activated_skips_gate (fun _ _ => rfl)
    (samplePlayEnv .STATE_DISABLED .STATE_BLOCKED .DENY_ACTION) activatedPlugin
    (LoadObject_entry pluginObjectEnv activatedPlugin true true none).1 activatedPluginCtx true
    true none (by decide) (by decide) (by decide)).1

/-- The same page and services, the object not activated: the gate decides,
and the two runs end in different types. -/
theorem LoadObject_not_activated_depends_on_gate :
    (LoadObject deniedPluginEnv { activatedPlugin with mActivated := false } true true
        none).1.mType = .eType_Null
    ∧ (LoadObject pluginObjectEnv { activatedPlugin with mActivated := false } true true
        none).1.mType = .eType_Plugin := by
  decide

/-! ## Theorems: the channel-type override of the resolver -/

/-- Marking the binary types leaves the final URI of the channel alone. -/
theorem binaryChannelType_finalURI (ty : String) (chan : Channel) :
    (binaryChannelType ty chan).2.2.1.finalURI = chan.finalURI := by
  unfold binaryChannelType
  split_ifs <;> rfl

/-- The channel type that the resolver works with, and the binary mark: a
guessed type counts as `application/octet-stream`, and the binary types are the
guessed type and the two octet-stream types. -/
theorem binaryChannelType_spec (ty : String) (chan : Channel) :
    (binaryChannelType ty chan).1
        = (if ty = APPLICATION_GUESS_FROM_EXT then APPLICATION_OCTET_STREAM else ty)
    ∧ (binaryChannelType ty chan).2.1
        = decide (ty = APPLICATION_GUESS_FROM_EXT ∨ ty = APPLICATION_OCTET_STREAM
            ∨ ty = BINARY_OCTET_STREAM) := by
  unfold binaryChannelType
  split_ifs with h1 h2 <;> simp_all

/-- The block "Determine final type" for a new channel: an invalid state
gives `eType_Null` with an empty content type, a valid one the kind of the
chosen content type. -/
theorem determineFinalType_chosen (env : Env) (c : ChannelResolved) :
    determineFinalType env c.stateInvalid true c.newMime c.newURI
      = (match c.chosen with
         | none => (.eType_Null, "")
         | some m => (GetTypeOfContent env m, m)) := by
  unfold determineFinalType ChannelResolved.chosen
  cases c.stateInvalid <;> simp

/-- C26: for a channel newly loaded for this pass that reports a content
type and a final URI, the attributes having been resolved without error, the
resolver chooses the content type by these rules in order: (1) with
`typemustmatch` the state is invalid unless the type attribute, lower-cased,
equals the channel's type, and on a match the channel type is used as in (5);
(2) a plugin type hint replaces the channel type; (3) with
`eAllowPluginSkipChannel` a plugin found by the extension of the final URI
replaces it; (4) for a binary channel type a hint that is neither Null nor
Document replaces it, else a plugin found by extension replaces it; (5) the
channel type is used, and a Java channel type makes the state invalid. An
invalid state resolves to `eType_Null` with an empty content type, a valid one
to the kind of the chosen type. -/
theorem resolveWithChannel_priority (env : Env) (r : Resolved) (chan : Channel) (ty : String)
    (hvalid : r.stateInvalid = false) (htype : chan.contentType = some ty)
    (huri : chan.finalURI.isSome = true) :
    (resolveWithChannel env r chan).chosen
        = amendedChannelType env.element.typemustmatch r.typeAttr
            (binaryChannelType ty chan).1 (binaryChannelType ty chan).2.1 r.newMime
            (if r.newMime = "" then .eType_Null else GetTypeOfContent env r.newMime)
            env.caps.eAllowPluginSkipChannel (IsPluginEnabledByExtension env chan.finalURI)
            env.isJavaMIMEType
    ∧ determineFinalType env (resolveWithChannel env r chan).stateInvalid true
          (resolveWithChannel env r chan).newMime (resolveWithChannel env r chan).newURI
        = (match (resolveWithChannel env r chan).chosen with
           | none => (.eType_Null, "")
           | some m => (GetTypeOfContent env m, m)) := by
  refine ⟨?_, determineFinalType_chosen env _⟩
  have hf := binaryChannelType_finalURI ty chan
  have hnone : chan.finalURI.isNone = false := by
    cases h : chan.finalURI
    · rw [h] at huri
      cases huri
    · rfl
  unfold resolveWithChannel
  simp only [htype, hf, hvalid, hnone, Bool.or_false]
  generalize binaryChannelType ty chan = b
  rcases b with ⟨cty, bin, chan₁, lg⟩
  unfold overrideChannelType amendedChannelType ChannelResolved.chosen
  simp only [decide_eq_true_eq]
  generalize (if r.newMime = "" then ObjectType.eType_Null else GetTypeOfContent env r.newMime)
    = hint
  generalize IsPluginEnabledByExtension env chan.finalURI = ext
  cases env.element.typemustmatch <;> cases env.caps.eAllowPluginSkipChannel <;> cases bin
    <;> cases ext <;> cases hint <;> cases hj : env.isJavaMIMEType cty
    <;> simp [hj] <;> split_ifs <;> simp_all

/-- Witness for C26: on the page `streamedPluginEnv` a channel that reports
`application/octet-stream`: the plugin type hint replaces the channel type. -/
theorem resolveWithChannel_priority_witness :
    (resolveWithChannel streamedPluginEnv (resolved streamedPluginEnv false)
        { imageChannel with contentType := some "application/octet-stream" }).chosen
      = some "application/x-test" :=
  (resolveWithChannel_priority streamedPluginEnv (resolved streamedPluginEnv false)
    { imageChannel with contentType := some "application/octet-stream" }
    "application/octet-stream" (by decide) rfl (by decide)).1.trans (by decide)

/-- Counterexample to C26 as worded, in its first rule. On the page with
`<object typemustmatch type="image/png">` a channel that reports `Image/PNG`
equals the type attribute case-insensitively, and the rule as worded uses the
channel type; the resolver compares the lower-cased attribute with the channel
type as it is and leaves the state invalid: on the waiting object,
`UpdateObjectParameters` gives `eType_Null` with an empty content type, where
the channel that reports `image/png` gives `eType_Image`. On the page with
`<object typemustmatch type="application/x-java-vm">` a channel that reports
the Java type matches, and the rule as worded uses the channel type; the
resolver leaves the state invalid. -/
theorem resolveWithChannel_typemustmatch_counterexample :
    (resolveWithChannel imageMustMatchEnv (resolved imageMustMatchEnv false)
        capitalsChannel).chosen = none
    ∧ specChannelType imageMustMatchEnv.element.typemustmatch
        (resolved imageMustMatchEnv false).typeAttr
        (binaryChannelType "Image/PNG" capitalsChannel).1
        (binaryChannelType "Image/PNG" capitalsChannel).2.1
        (resolved imageMustMatchEnv false).newMime
        (GetTypeOfContent imageMustMatchEnv (resolved imageMustMatchEnv false).newMime)
        imageMustMatchEnv.caps.eAllowPluginSkipChannel
        (IsPluginEnabledByExtension imageMustMatchEnv capitalsChannel.finalURI)
        imageMustMatchEnv.isJavaMIMEType = some "Image/PNG"
    ∧ (let waiting : State :=
        { (LoadObject imageMustMatchEnv State.init true false none).1 with
          mChannelLoaded := true }
       ((UpdateObjectParameters imageMustMatchEnv
            { waiting with mChannel := some capitalsChannel } false).1.mType = .eType_Null
        ∧ (UpdateObjectParameters imageMustMatchEnv
            { waiting with mChannel := some capitalsChannel } false).1.mContentType = ""
        ∧ waiting.mChannel = some imageChannel
        ∧ (UpdateObjectParameters imageMustMatchEnv waiting false).1.mType = .eType_Image
        ∧ (UpdateObjectParameters imageMustMatchEnv waiting false).1.mContentType
            = "image/png"))
    ∧ (resolveWithChannel javaMustMatchEnv (resolved javaMustMatchEnv false)
        javaChannel).chosen = none
    ∧ specChannelType javaMustMatchEnv.element.typemustmatch
        (resolved javaMustMatchEnv false).typeAttr
        (binaryChannelType "application/x-java-vm" javaChannel).1
        (binaryChannelType "application/x-java-vm" javaChannel).2.1
        (resolved javaMustMatchEnv false).newMime
        (GetTypeOfContent javaMustMatchEnv (resolved javaMustMatchEnv false).newMime)
        javaMustMatchEnv.caps.eAllowPluginSkipChannel
        (IsPluginEnabledByExtension javaMustMatchEnv javaChannel.finalURI)
        javaMustMatchEnv.isJavaMIMEType = some "application/x-java-vm" := by
  decide

/-- Without `typemustmatch` the rules as worded and the rules of the resolver
are the same. -/
theorem specChannelType_without_typemustmatch (typeAttr channelType : String) (binary : Bool)
    (hint : String) (hintKind : ObjectType) (skipChannel : Bool)
    (moduleByExtension : Option String) (isJava : String → Bool) :
    specChannelType false typeAttr channelType binary hint hintKind skipChannel
        moduleByExtension isJava
      = amendedChannelType false typeAttr channelType binary hint hintKind skipChannel
          moduleByExtension isJava :=
  rfl

/-- With `typemustmatch`, a channel type in lower case that is not a Java
type: the rule as worded and the rule of the resolver are the same. -/
theorem specChannelType_lower_case (typeAttr channelType : String) (binary : Bool)
    (hint : String) (hintKind : ObjectType) (skipChannel : Bool)
    (moduleByExtension : Option String) (isJava : String → Bool)
    (hlower : asciiLower channelType = channelType) (hjava : isJava channelType = false) :
    specChannelType true typeAttr channelType binary hint hintKind skipChannel
        moduleByExtension isJava
      = amendedChannelType true typeAttr channelType binary hint hintKind skipChannel
          moduleByExtension isJava := by
  unfold specChannelType amendedChannelType
  simp [hlower, hjava]

/-! ## Theorems: a failing spawn -/

/-- With a document at hand, `InstantiatePluginInstance` answers `NS_OK`
whether the spawn call of the plugin host succeeds or fails: the failure of the
spawn is not handed to the caller. -/
theorem InstantiatePluginInstance_spawn_failure (env : Env) (s : State) (aIsLoading : Bool)
    (hdoc : env.hasCurrentDoc = true) (hactive : env.inActiveDocument = true) :
    (InstantiatePluginInstance env s aIsLoading).2 = .NS_OK := by
  unfold InstantiatePluginInstance InstantiatePluginInstance_body
  simp only [hdoc, hactive]
  split_ifs <;> first | rfl | simp_all

/-- In a run without nested entries, `InstantiatePluginInstance` with a
failing spawn leaves the type and leaves no instance owner attached. -/
theorem InstantiatePluginInstance_spawn_failure_state {env : Env} (hq : env.quiet) (s : State)
    (aIsLoading : Bool) (hspawn : env.spawnOk = false) :
    (InstantiatePluginInstance env s aIsLoading).1.mType = s.mType
    ∧ (InstantiatePluginInstance env s aIsLoading).1.mInstanceOwner = s.mInstanceOwner := by
  unfold InstantiatePluginInstance
  split_ifs
  · exact ⟨rfl, rfl⟩
  · unfold InstantiatePluginInstance_body killNewOwner
    simp only [hq.eq, hspawn, Bool.not_false, Bool.or_true, if_true, Bool.false_or]
    cases env.spawnFailureLeavesOwner <;> split_ifs <;> simp [State.emit]

/-- C21, the code at the failing input: on the page `spawnFailsEnv` the
`OnStartRequest` of the channel runs `LoadObject(true, false, channel)`, which
resolves the plugin and calls the spawn of the plugin host; the spawn fails and
leaves a partially created instance owner. The owner is detached from its
frame, its instance stopped and the owner destroyed, and no instance owner is
attached; but the call answers `NS_OK` and the object stays at `eType_Plugin`
with the fallback type it had, the channel still open and no final listener on
it, instead of `eType_Null`. -/
theorem LoadObject_spawn_failure_stays_plugin :
    spawnFailed
        = (LoadObject spawnFailsEnv { streamedPluginWaiting with mChannelLoaded := true } true
            false (some 0)).1
    ∧ spawnFailsEnv.spawnOk = false
    ∧ spawnFailed.log.countP Effect.isSpawn = 1
    ∧ spawnFailed.mInstanceOwner = none
    ∧ spawnFailed.log.drop (spawnFailed.log.length - 3)
        = [.ownerSetFrame 1 false, .stopPluginInstance 1, .ownerDestroy 1]
    ∧ (OnStartRequest spawnFailsEnv streamedPluginWaiting (some 0)).2 = .NS_OK
    ∧ spawnFailed.mType = .eType_Plugin
    ∧ spawnFailed.mType ≠ .eType_Null
    ∧ spawnFailed.mChannel.isSome = true
    ∧ spawnFailed.mFinalListener = none
    ∧ spawnFailed.mIsLoading = false := by
  decide

/-- The same page with a spawn that succeeds: the plugin runs with its
instance owner and the stream listener on the channel. -/
theorem LoadObject_spawn_success_runs :
    streamedPluginRunning.mType = .eType_Plugin
    ∧ streamedPluginRunning.mInstanceOwner = some 1
    ∧ streamedPluginRunning.mFinalListener = some (.pluginStream 1) := by
  decide

/-! ## Theorems: the full unload -/

/-- In a run without nested entries `CloseChannel` leaves no channel, and
leaves `mChannelLoaded`, `mInstantiating` and the instance owner alone. -/
theorem CloseChannel_channel {env : Env} (hq : env.quiet) (s : State) :
    (CloseChannel env s).mChannel = none
    ∧ (CloseChannel env s).mChannelLoaded = s.mChannelLoaded
    ∧ (CloseChannel env s).mInstantiating = s.mInstantiating
    ∧ (CloseChannel env s).mInstanceOwner = s.mInstanceOwner := by
  unfold CloseChannel
  simp only [hq.eq]
  split
  · rename_i h
    exact ⟨h, rfl, rfl, rfl⟩
  · split <;> exact ⟨rfl, rfl, rfl, rfl⟩

theorem DoStopPlugin_channel {env : Env} (hq : env.quiet) (s : State) (o : Nat) (d f : Bool) :
    (DoStopPlugin env s o d f).mChannel = s.mChannel
    ∧ (DoStopPlugin env s o d f).mChannelLoaded = s.mChannelLoaded
    ∧ (DoStopPlugin env s o d f).mInstantiating = s.mInstantiating := by
  unfold DoStopPlugin
  simp only [hq.eq]
  split_ifs <;> exact ⟨rfl, rfl, rfl⟩

theorem destroyFrameLoader_channel (s : State) :
    (destroyFrameLoader s).mChannel = s.mChannel
    ∧ (destroyFrameLoader s).mChannelLoaded = s.mChannelLoaded
    ∧ (destroyFrameLoader s).mType = s.mType
    ∧ (destroyFrameLoader s).mInstanceOwner = s.mInstanceOwner := by
  unfold destroyFrameLoader
  split <;> exact ⟨rfl, rfl, rfl, rfl⟩

/-- In a run without nested entries `StopPluginInstance` clears
`mInstantiating` and leaves `mChannelLoaded`; it closes the channel when there
is an instance owner, and returns before it looks at the channel when there is
none. -/
theorem StopPluginInstance_channel {env : Env} (hq : env.quiet) (s : State) :
    (StopPluginInstance env s).mChannelLoaded = s.mChannelLoaded
    ∧ (StopPluginInstance env s).mInstantiating = false
    ∧ (s.mInstanceOwner = none → (StopPluginInstance env s).mChannel = s.mChannel)
    ∧ (s.mInstanceOwner ≠ none → (StopPluginInstance env s).mChannel = none) := by
  have htail : ∀ s₂ : State, s₂.mChannelLoaded = s.mChannelLoaded → s₂.mInstantiating = false →
      s₂.mChannel = none →
      (match s₂.mInstanceOwner with
        | none => s₂
        | some owner =>
          DoStopPlugin env { s₂.emit (.ownerSetFrame owner false) with mInstanceOwner := none }
            owner
            (env.xpWin && env.ownerHasInstance
              && decide (env.instanceMIMEType = some "audio/x-pn-realaudio-plugin"))
            false).mChannelLoaded = s.mChannelLoaded
      ∧ (match s₂.mInstanceOwner with
        | none => s₂
        | some owner =>
          DoStopPlugin env { s₂.emit (.ownerSetFrame owner false) with mInstanceOwner := none }
            owner
            (env.xpWin && env.ownerHasInstance
              && decide (env.instanceMIMEType = some "audio/x-pn-realaudio-plugin"))
            false).mInstantiating = false
      ∧ (match s₂.mInstanceOwner with
        | none => s₂
        | some owner =>
          DoStopPlugin env { s₂.emit (.ownerSetFrame owner false) with mInstanceOwner := none }
            owner
            (env.xpWin && env.ownerHasInstance
              && decide (env.instanceMIMEType = some "audio/x-pn-realaudio-plugin"))
            false).mChannel = none := by
    intro s₂ h₁ h₂ h₃
    split
    · exact ⟨h₁, h₂, h₃⟩
    · exact ⟨(DoStopPlugin_channel hq _ _ _ _).2.1.trans h₁,
        (DoStopPlugin_channel hq _ _ _ _).2.2.trans h₂,
        (DoStopPlugin_channel hq _ _ _ _).1.trans h₃⟩
  unfold StopPluginInstance
  dsimp only
  by_cases h : s.mInstanceOwner.isNone = true
  · rw [if_pos h]
    simp only [Option.isNone_iff_eq_none] at h
    exact ⟨rfl, rfl, fun _ => rfl, fun hn => absurd h hn⟩
  · rw [if_neg h]
    simp only [Option.isNone_iff_eq_none] at h
    by_cases hc : s.mChannel.isSome = true
    · rw [if_pos hc]
      obtain ⟨t₁, t₂, t₃⟩ := htail
        (CloseChannel env { s with mPendingInstantiateEvent := none,
                                   mPendingCheckPluginStopEvent := none,
                                   mInstantiating := false })
        (CloseChannel_channel hq _).2.1 (CloseChannel_channel hq _).2.2.1
        (CloseChannel_channel hq _).1
      exact ⟨t₁, t₂, fun hn => absurd hn h, fun _ => t₃⟩
    · rw [if_neg hc]
      have hcn : s.mChannel = none := by
        cases hch : s.mChannel
        · rfl
        · rw [hch] at hc
          exact absurd rfl hc
      obtain ⟨t₁, t₂, t₃⟩ := htail
        { s with mPendingInstantiateEvent := none, mPendingCheckPluginStopEvent := none,
                 mInstantiating := false } rfl rfl hcn
      exact ⟨t₁, t₂, fun hn => absurd hn h, fun _ => t₃⟩

/-- The end of `UnloadObject(true)` after the resetting assignments, in a
run without nested entries: the channel that the first part leaves is kept when
there is no instance owner, and closed when there is one. -/
theorem UnloadObject_tail_channel {env : Env} (hq : env.quiet) (x : State) :
    (x.mInstanceOwner = none →
      (StopPluginInstance env
        (if ({ { x with mChannelLoaded := false, mType := .eType_Loading, mURI := none,
                        mOriginalURI := none, mBaseURI := none, mContentType := "",
                        mOriginalContentType := "" } with
                mInstantiating := false, mScriptRequested := false } : State).mInstanceOwner.isNone
          then
            { ({ { x with mChannelLoaded := false, mType := .eType_Loading, mURI := none,
                          mOriginalURI := none, mBaseURI := none, mContentType := "",
                          mOriginalContentType := "" } with
                  mInstantiating := false, mScriptRequested := false } : State).emit
                .teardownProtoChain with mIsStopping := false }
          else
            { { x with mChannelLoaded := false, mType := .eType_Loading, mURI := none,
                       mOriginalURI := none, mBaseURI := none, mContentType := "",
                       mOriginalContentType := "" } with
              mInstantiating := false, mScriptRequested := false })).mChannel = x.mChannel)
    ∧ (x.mInstanceOwner ≠ none →
      (StopPluginInstance env
        (if ({ { x with mChannelLoaded := false, mType := .eType_Loading, mURI := none,
                        mOriginalURI := none, mBaseURI := none, mContentType := "",
                        mOriginalContentType := "" } with
                mInstantiating := false, mScriptRequested := false } : State).mInstanceOwner.isNone
          then
            { ({ { x with mChannelLoaded := false, mType := .eType_Loading, mURI := none,
                          mOriginalURI := none, mBaseURI := none, mContentType := "",
                          mOriginalContentType := "" } with
                  mInstantiating := false, mScriptRequested := false } : State).emit
                .teardownProtoChain with mIsStopping := false }
          else
            { { x with mChannelLoaded := false, mType := .eType_Loading, mURI := none,
                       mOriginalURI := none, mBaseURI := none, mContentType := "",
                       mOriginalContentType := "" } with
              mInstantiating := false, mScriptRequested := false })).mChannel = none) := by
  constructor
  · intro h
    rw [(StopPluginInstance_channel hq _).2.2.1]
    · split_ifs <;> rfl
    · split_ifs <;> exact h
  · intro h
    apply (StopPluginInstance_channel hq _).2.2.2
    split_ifs <;> exact h

/-- In a run without nested entries `UnloadObject(true)` clears the resolved
parameters. -/
theorem UnloadObject_reset_params {env : Env} (hq : env.quiet) (s : State) :
    (UnloadObject env s true).params
      = ⟨none, "", none, none, "", s.mIsLoading, s.mPlayPreviewCanceled⟩ := by
  unfold UnloadObject
  rw [StopPluginInstance_params hq]
  have h := CloseChannel_params hq (destroyFrameLoader (s.emit .cancelImageRequests))
  have h₁ := congrArg Params.mIsLoading h
  have h₂ := congrArg Params.mPlayPreviewCanceled h
  have d := destroyFrameLoader_params (s.emit .cancelImageRequests)
  have d₁ := congrArg Params.mIsLoading d
  have d₂ := congrArg Params.mPlayPreviewCanceled d
  simp only [State.params, State.emit] at h₁ h₂ d₁ d₂
  simp only [if_true]
  split_ifs <;> simp [State.params, State.emit, h₁, h₂, d₁, d₂]

/-- In a run without nested entries, `UnloadObject(true)` resets every field
that the full unload is to reset, from every state; the channel is closed and
dropped unless the object was a plugin without an instance owner, in which case
the channel stays as it was. -/
theorem UnloadObject_reset {env : Env} (hq : env.quiet) (s : State) :
    (UnloadObject env s true).mType = .eType_Loading
    ∧ (UnloadObject env s true).mChannelLoaded = false
    ∧ (UnloadObject env s true).mInstanceOwner = none
    ∧ (UnloadObject env s true).mFrameLoader = none
    ∧ (UnloadObject env s true).mPendingInstantiateEvent = none
    ∧ (UnloadObject env s true).mPendingCheckPluginStopEvent = none
    ∧ (UnloadObject env s true).mURI = none
    ∧ (UnloadObject env s true).mOriginalURI = none
    ∧ (UnloadObject env s true).mBaseURI = none
    ∧ (UnloadObject env s true).mContentType = ""
    ∧ (UnloadObject env s true).mOriginalContentType = ""
    ∧ (UnloadObject env s true).mInstantiating = false
    ∧ ((s.mType = .eType_Plugin ∧ s.mInstanceOwner = none) ∨
        (UnloadObject env s true).mChannel = none)
    ∧ (s.mType = .eType_Plugin → s.mInstanceOwner = none →
        (UnloadObject env s true).mChannel = s.mChannel) := by
  have hr := UnloadObject_res hq s true
  have hp := UnloadObject_reset_params hq s
  have hpe := UnloadObject_pending hq s true
  have d := destroyFrameLoader_channel (s.emit .cancelImageRequests)
  have c := CloseChannel_channel hq (destroyFrameLoader (s.emit .cancelImageRequests))
  refine ⟨congrArg Res.ty hr, ?_, congrArg Res.io hr, congrArg Res.fl hr, hpe.1, hpe.2,
    congrArg Params.mURI hp, congrArg Params.mOriginalURI hp, congrArg Params.mBaseURI hp,
    congrArg Params.mContentType hp, congrArg Params.mOriginalContentType hp, ?_, ?_, ?_⟩
  · unfold UnloadObject
    rw [(StopPluginInstance_channel hq _).1]
    simp only [if_true]
    split_ifs <;> rfl
  · unfold UnloadObject
    exact (StopPluginInstance_channel hq _).2.1
  · by_cases hty : s.mType = .eType_Plugin
    · by_cases hown : s.mInstanceOwner = none
      · exact Or.inl ⟨hty, hown⟩
      · right
        refine (UnloadObject_tail_channel hq _).2 ?_
        rw [if_neg (fun h => h (d.2.2.1.trans hty)), d.2.2.2]
        exact hown
    · right
      have hty₂ : (destroyFrameLoader (s.emit .cancelImageRequests)).mType ≠ .eType_Plugin :=
        fun h => hty (d.2.2.1.symm.trans h)
      by_cases hown : s.mInstanceOwner = none
      · refine ((UnloadObject_tail_channel hq _).1 ?_).trans ?_
        · rw [if_pos hty₂, c.2.2.2, d.2.2.2]
          exact hown
        · rw [if_pos hty₂]
          exact c.1
      · refine (UnloadObject_tail_channel hq _).2 ?_
        rw [if_pos hty₂, c.2.2.2, d.2.2.2]
        exact hown
  · intro hty hown
    refine ((UnloadObject_tail_channel hq _).1 ?_).trans ?_
    · rw [if_neg (fun h => h (d.2.2.1.trans hty)), d.2.2.2]
      exact hown
    · rw [if_neg (fun h => h (d.2.2.1.trans hty))]
      exact d.1

/-- C29, the code at the failing input: the plugin of the page
`spawnFailsEnv` after the failed spawn is at `eType_Plugin` with an open channel
and no instance owner. `UnloadObject(true)` skips `CloseChannel` for a plugin,
leaving the channel to `StopPluginInstance`, which returns before it looks at
the channel when there is no instance owner: the type is reset to
`eType_Loading` and `mChannelLoaded` cleared, but the channel is still tracked
and has not been cancelled. -/
theorem UnloadObject_plugin_keeps_channel :
    spawnFailed.mType = .eType_Plugin
    ∧ spawnFailed.mInstanceOwner = none
    ∧ spawnFailed.mChannel.isSome = true
    ∧ (UnloadObject spawnFailsEnv spawnFailed true).mType = .eType_Loading
    ∧ (UnloadObject spawnFailsEnv spawnFailed true).mChannelLoaded = false
    ∧ (UnloadObject spawnFailsEnv spawnFailed true).mChannel = spawnFailed.mChannel
    ∧ (UnloadObject spawnFailsEnv spawnFailed true).mChannel ≠ none
    ∧ (UnloadObject spawnFailsEnv spawnFailed true).cancels 0 = spawnFailed.cancels 0
    ∧ (UnloadObject spawnFailsEnv spawnFailed true).cancels 0 = 0 := by
  decide

/-- The same object at any other type: `UnloadObject(true)` cancels the
channel and drops it. -/
theorem UnloadObject_other_type_closes_channel :
    (UnloadObject spawnFailsEnv { spawnFailed with mType := .eType_Image } true).mChannel = none
    ∧ (UnloadObject spawnFailsEnv { spawnFailed with mType := .eType_Image } true).cancels 0
        = 1 := by
  decide

/-! ## The resolver on the state that a load has left -/

/-- An element resolved as Java has no URI: the block "URI" reads no attribute
for Java. -/
theorem resolveAttributes_java_no_uri (env : Env) (j : Bool) :
    (resolveAttributes env j).isJava = true → (resolveAttributes env j).newURI = none := by
  unfold resolveAttributes
  simp only []
  by_cases h1 : (j || decide (env.element.tag = Tag.applet)) = true <;>
    by_cases h2 : decide (env.element.typeAttr ≠ "") = true <;>
    by_cases h3 : (env.caps.eSupportClassID && decide (env.element.classid ≠ "")) = true <;>
    by_cases h4 : ("java:".toList.isPrefixOf env.element.classid.toList
        && env.pluginExistsForType env.javaMIME) = true <;>
    cases hj : env.isJavaMIMEType env.element.typeAttr <;>
    simp only [h1, h2, h3, h4, hj, if_true, if_false, uriAttribute, Bool.false_eq_true,
      ne_eq, not_true_eq_false, decide_False, Bool.and_false, Bool.false_and] <;>
    (try split_ifs) <;> (try split) <;> simp

theorem resolved_java_no_uri (env : Env) (j : Bool) :
    (resolved env j).isJava = true → (resolved env j).newURI = none := by
  unfold resolved
  simp only []
  split_ifs
  · exact resolveAttributes_java_no_uri env true
  · exact resolveAttributes_java_no_uri env j

/-- The block "Determine final type" without a channel gives `eType_Loading`
only for an element with a URI. -/
theorem determineFinalType_loading_uri (env : Env) (si : Bool) (m : String) (u : Option URI)
    (h : (determineFinalType env si false m u).1 = .eType_Loading) : u.isSome = true := by
  unfold determineFinalType at h
  cases si <;> cases hu : u.isSome <;> simp [hu] at h ⊢
  split_ifs at h

/-- What a pass of the resolver stores, whatever it finds: the original
content type and URI and the base URI are the resolved ones, and
`mChannelLoaded` is left as it was. -/
theorem updateFromResolved_stores (env : Env) (s : State) (r : Resolved) :
    (updateFromResolved env s r).1.mOriginalContentType = r.newMime
    ∧ (updateFromResolved env s r).1.mOriginalURI = r.newURI
    ∧ (updateFromResolved env s r).1.mBaseURI = r.newBaseURI
    ∧ (updateFromResolved env s r).1.mChannelLoaded = s.mChannelLoaded := by
  unfold updateFromResolved URIEquals
  refine ⟨rfl, rfl, ?_, rfl⟩
  dsimp only
  split_ifs with h
  · rfl
  · simpa using h

set_option maxHeartbeats 2000000 in
/-- What a pass of the resolver leaves, for attributes that give no URI to
Java. Where the pass reports changed channel parameters, or no channel is
loaded, the type, the URI and (for a type other than `eType_Loading`) the
content type are those that the attributes resolve to without a channel; where
a channel is loaded and the pass reports no change of the channel parameters,
the type is not `eType_Loading`. -/
theorem updateFromResolved_leaves (env : Env) (s : State) (r : Resolved)
    (hjava : r.isJava = true → r.newURI = none) :
    ((s.mChannelLoaded = false ∨ (updateFromResolved env s r).2.eParamChannelChanged = true) →
      (updateFromResolved env s r).1.mType
          = (determineFinalType env r.stateInvalid false r.newMime r.newURI).1
      ∧ (updateFromResolved env s r).1.mURI = r.newURI
      ∧ ((determineFinalType env r.stateInvalid false r.newMime r.newURI).1 ≠ .eType_Loading →
          (updateFromResolved env s r).1.mContentType
            = (determineFinalType env r.stateInvalid false r.newMime r.newURI).2))
    ∧ (s.mChannelLoaded = true →
        (updateFromResolved env s r).2.eParamChannelChanged = false →
        (updateFromResolved env s r).1.mType ≠ .eType_Loading) := by
  have hnl := fun si m u => determineFinalType_newChannel_ne_loading env si m u
  have hlu := determineFinalType_loading_uri env r.stateInvalid r.newMime r.newURI
  unfold updateFromResolved channelInformed
  rcases s with ⟨a1, a2, a3, a4, a5, a6, a7, a8, a9, a10, a11, a12, a13, a14, a15, a16, a17,
    a18, a19, a20, a21, a22, a23⟩
  simp only [URIEquals]
  generalize hd : determineFinalType env r.stateInvalid false r.newMime r.newURI = d at hlu ⊢
  rcases d with ⟨t₀, m₀⟩
  simp only at hlu
  have hj : t₀ = .eType_Loading → r.isJava = false := by
    intro h
    have h1 := hlu h
    cases hjv : r.isJava
    · rfl
    · rw [hjava hjv] at h1
      cases h1
  by_cases h1 : a12 = r.newMime <;> by_cases h2 : a14 = r.newURI <;> cases a3 <;>
    by_cases h3 : a1 = .eType_Loading <;> cases a16 <;>
    by_cases h4 : t₀ = .eType_Loading <;>
    simp [h1, h2, h3, h4, hnl, hd, hj] <;>
    tauto

set_option maxHeartbeats 2000000 in
/-- A further pass of the resolver on a state that holds the resolved
original parameters and base URI. Without a loaded channel, and with the URI
and content type that the attributes resolve to, the pass sets the type that
the attributes resolve to and reports a changed state exactly when that type is
new; with a loaded channel and a type other than `eType_Loading` it changes and
reports nothing when the attributes alone would load a channel, and reports
changed channel parameters otherwise. -/
theorem updateFromResolved_again (env : Env) (s : State) (r : Resolved)
    (h1 : s.mOriginalContentType = r.newMime) (h2 : s.mOriginalURI = r.newURI)
    (h3 : s.mBaseURI = r.newBaseURI) :
    (s.mChannelLoaded = false → s.mURI = r.newURI →
      ((determineFinalType env r.stateInvalid false r.newMime r.newURI).1 ≠ .eType_Loading →
        s.mContentType = (determineFinalType env r.stateInvalid false r.newMime r.newURI).2) →
      updateFromResolved env s r
        = ({ s with mType := (determineFinalType env r.stateInvalid false r.newMime r.newURI).1 },
           ⟨false,
            decide ((determineFinalType env r.stateInvalid false r.newMime r.newURI).1 ≠ s.mType),
            false⟩))
    ∧ (s.mChannelLoaded = true → s.mType ≠ .eType_Loading →
        (determineFinalType env r.stateInvalid false r.newMime r.newURI).1 = .eType_Loading →
        updateFromResolved env s r = (s, ⟨false, false, false⟩))
    ∧ (s.mChannelLoaded = true → s.mType ≠ .eType_Loading →
        (determineFinalType env r.stateInvalid false r.newMime r.newURI).1 ≠ .eType_Loading →
        (updateFromResolved env s r).2.eParamChannelChanged = true) := by
  unfold updateFromResolved channelInformed
  rcases s with ⟨a1, a2, a3, a4, a5, a6, a7, a8, a9, a10, a11, a12, a13, a14, a15, a16, a17,
    a18, a19, a20, a21, a22, a23⟩
  simp only [URIEquals] at h1 h2 h3 ⊢
  subst h1 h2 h3
  generalize hd : determineFinalType env r.stateInvalid false r.newMime r.newURI = d
  rcases d with ⟨t₀, m₀⟩
  cases a3 <;> by_cases h3 : a1 = .eType_Loading <;>
    by_cases h4 : t₀ = .eType_Loading <;>
    simp [h3, h4, hd] <;>
    intros <;> simp_all

/-! ## Runs without nested entries: what leaves `mChannelLoaded` alone -/

@[simp] theorem mChannelLoaded_emit (s : State) (e : Effect) : (s.emit e).mChannelLoaded = s.mChannelLoaded :=
  rfl

@[simp] theorem mChannelLoaded_ite (c : Prop) [Decidable c] (a b : State) :
    (if c then a else b).mChannelLoaded = if c then a.mChannelLoaded else b.mChannelLoaded :=
  apply_ite _ _ _ _

@[simp] theorem NotifyStateChanged_mChannelLoaded {env : Env} (hq : env.quiet) (s : State)
    (ot : ObjectType) (os : EventStates) (sync notify : Bool) (site : Site) :
    (NotifyStateChanged env s ot os sync notify site).mChannelLoaded = s.mChannelLoaded := by
  unfold NotifyStateChanged
  simp [hq.eq]

@[simp] theorem CloseChannel_mChannelLoaded {env : Env} (hq : env.quiet) (s : State) :
    (CloseChannel env s).mChannelLoaded = s.mChannelLoaded := by
  unfold CloseChannel
  simp only [hq.eq]
  split
  · rfl
  · split <;> rfl

@[simp] theorem OpenChannel_mChannelLoaded (env : Env) (s : State) :
    (OpenChannel env s).1.mChannelLoaded = s.mChannelLoaded := by
  unfold OpenChannel
  dsimp only
  split
  · rfl
  · split_ifs <;> rfl

@[simp] theorem DoStopPlugin_mChannelLoaded {env : Env} (hq : env.quiet) (s : State) (o : Nat)
    (d f : Bool) : (DoStopPlugin env s o d f).mChannelLoaded = s.mChannelLoaded := by
  unfold DoStopPlugin
  simp only [hq.eq]
  split_ifs <;> rfl

@[simp] theorem StopPluginInstance_mChannelLoaded {env : Env} (hq : env.quiet) (s : State) :
    (StopPluginInstance env s).mChannelLoaded = s.mChannelLoaded := by
  unfold StopPluginInstance
  dsimp only
  split_ifs <;> (try split) <;> simp [hq]

@[simp] theorem destroyFrameLoader_mChannelLoaded (s : State) :
    (destroyFrameLoader s).mChannelLoaded = s.mChannelLoaded := by
  unfold destroyFrameLoader
  split <;> rfl

@[simp] theorem UnloadObject_mChannelLoaded {env : Env} (hq : env.quiet) (s : State) :
    (UnloadObject env s false).mChannelLoaded = s.mChannelLoaded := by
  unfold UnloadObject
  simp [hq]

@[simp] theorem LoadFallback_mChannelLoaded {env : Env} (hq : env.quiet) (s : State)
    (ty : FallbackType) (notify : Bool) :
    (LoadFallback env s ty notify).mChannelLoaded = s.mChannelLoaded := by
  unfold LoadFallback
  simp [hq]

@[simp] theorem LoadObject_policy_mChannelLoaded {env : Env} (hq : env.quiet) (s : State) :
    (LoadObject_policy env s).1.mChannelLoaded = s.mChannelLoaded := by
  obtain ⟨L, hL⟩ := LoadObject_policy_log hq s
  rw [hL]

@[simp] theorem MakePluginListener_mChannelLoaded (env : Env) (s : State) :
    (MakePluginListener env s).1.mChannelLoaded = s.mChannelLoaded := by
  unfold MakePluginListener
  split
  · rfl
  · split_ifs <;> rfl

@[simp] theorem AsyncStartPluginInstance_mChannelLoaded (env : Env) (s : State) :
    (AsyncStartPluginInstance env s).1.mChannelLoaded = s.mChannelLoaded := by
  unfold AsyncStartPluginInstance
  split_ifs <;> rfl

@[simp] theorem killNewOwner_mChannelLoaded (env : Env) (s : State) (o : Option Nat) :
    (killNewOwner env s o).mChannelLoaded = s.mChannelLoaded := by
  unfold killNewOwner
  split
  · simp
  · rfl

@[simp] theorem wireNewOwner_mChannelLoaded (env : Env) (s : State) (l : Bool) (o : Nat) :
    (wireNewOwner env s l o).mChannelLoaded = s.mChannelLoaded := by
  unfold wireNewOwner
  simp

@[simp] theorem InstantiatePluginInstance_body_mChannelLoaded {env : Env} (hq : env.quiet)
    (s : State) (l : Bool) :
    (InstantiatePluginInstance_body env s l).1.mChannelLoaded = s.mChannelLoaded := by
  unfold InstantiatePluginInstance_body
  simp only [hq.eq]
  split_ifs <;> simp

@[simp] theorem InstantiatePluginInstance_mChannelLoaded {env : Env} (hq : env.quiet) (s : State)
    (l : Bool) : (InstantiatePluginInstance env s l).1.mChannelLoaded = s.mChannelLoaded := by
  unfold InstantiatePluginInstance
  split_ifs
  · rfl
  · exact InstantiatePluginInstance_body_mChannelLoaded hq _ l

@[simp] theorem finalListenerOnStart_mChannelLoaded {env : Env} (hq : env.quiet) (s : State)
    (r : Option Nat) : (finalListenerOnStart env s r).1.mChannelLoaded = s.mChannelLoaded := by
  unfold finalListenerOnStart
  split <;> simp [hq.eq]

@[simp] theorem LoadObject_failure_mChannelLoaded {env : Env} (hq : env.quiet) (s : State)
    (ctx : LoadCtx) (rv : nsresult) :
    (LoadObject_failure env s ctx rv).mChannelLoaded = s.mChannelLoaded := by
  unfold LoadObject_failure
  simp [hq]

@[simp] theorem LoadObject_deferred_mChannelLoaded {env : Env} (hq : env.quiet) (s : State)
    (ctx : LoadCtx) (d : Bool) (fl : Option Listener) :
    (LoadObject_deferred env s ctx d fl).mChannelLoaded = s.mChannelLoaded := by
  unfold LoadObject_deferred
  simp [hq]

@[simp] theorem LoadObject_notify_mChannelLoaded {env : Env} (hq : env.quiet) (s : State)
    (ctx : LoadCtx) (rv : nsresult) (fl : Option Listener) (d : Bool) :
    (LoadObject_notify env s ctx rv fl d).mChannelLoaded = s.mChannelLoaded := by
  unfold LoadObject_notify
  simp [hq]

@[simp] theorem LoadObject_document_mChannelLoaded {env : Env} (hq : env.quiet) (s : State)
    (ctx : LoadCtx) : (LoadObject_document env s ctx).mChannelLoaded = s.mChannelLoaded := by
  unfold LoadObject_document
  split <;> simp [hq]

@[simp] theorem LoadObject_dispatch_mChannelLoaded {env : Env} (hq : env.quiet) (s : State)
    (ctx : LoadCtx) : (LoadObject_dispatch env s ctx).mChannelLoaded = s.mChannelLoaded := by
  unfold LoadObject_dispatch
  split
  · split <;> simp [hq]
  · simp [hq]
  · simp [hq]
  · simp [hq]
  · simp [hq]

@[simp] theorem LoadObject_sanity_mChannelLoaded {env : Env} (hq : env.quiet) (s : State)
    (ctx : LoadCtx) : (LoadObject_sanity env s ctx).mChannelLoaded = s.mChannelLoaded := by
  unfold LoadObject_sanity
  simp [hq]

@[simp] theorem UpdateObjectParameters_mChannelLoaded (env : Env) (s : State) (j : Bool) :
    (UpdateObjectParameters env s j).1.mChannelLoaded = s.mChannelLoaded := by
  unfold UpdateObjectParameters updateFromResolved
  rfl

/-! ## Runs without nested entries: the type after a block is the type before it or `eType_Null` -/

theorem mType_or_trans {a b c : ObjectType} (h₁ : b = a ∨ b = .eType_Null)
    (h₂ : c = b ∨ c = .eType_Null) : c = a ∨ c = .eType_Null := by
  rcases h₂ with h₂ | h₂
  · rw [h₂]
    exact h₁
  · exact Or.inr h₂

theorem mType_or_of_null {b c : ObjectType} (h₁ : b = .eType_Null)
    (h₂ : c = b ∨ c = .eType_Null) (a : ObjectType) : c = a ∨ c = .eType_Null := by
  rcases h₂ with h₂ | h₂
  · exact Or.inr (h₂.trans h₁)
  · exact Or.inr h₂

theorem InstantiatePluginInstance_mType {env : Env} (hq : env.quiet) (s : State) (l : Bool) :
    (InstantiatePluginInstance env s l).1.mType = s.mType := by
  unfold InstantiatePluginInstance
  split_ifs
  · rfl
  · rcases InstantiatePluginInstance_body_res hq { s with mInstantiating := true } l
      with hr | ⟨o, hr⟩
    · exact congrArg Res.ty hr
    · exact congrArg Res.ty hr

theorem LoadObject_failure_mType {env : Env} (hq : env.quiet) (s : State) (ctx : LoadCtx)
    (rv : nsresult) :
    (LoadObject_failure env s ctx rv).mType = s.mType
    ∨ (LoadObject_failure env s ctx rv).mType = .eType_Null := by
  unfold LoadObject_failure
  simp only []
  split_ifs
  · right
    exact congrArg Res.ty (UnloadObject_res hq _ false)
  · right
    exact LoadFallback_mType hq _ _ _
  · left
    rfl

theorem LoadObject_deferred_mType {env : Env} (hq : env.quiet) (s : State) (ctx : LoadCtx)
    (d : Bool) (fl : Option Listener) :
    (LoadObject_deferred env s ctx d fl).mType = s.mType
    ∨ (LoadObject_deferred env s ctx d fl).mType = .eType_Null := by
  have hi := InstantiatePluginInstance_mType hq s true
  have hm : ∀ t : State, (MakePluginListener env t).1.mType = t.mType :=
    fun t => congrArg Res.ty (MakePluginListener_res env t)
  have hf : ∀ (t : State) (r : Option Nat), (finalListenerOnStart env t r).1.mType = t.mType :=
    fun t r => congrArg Res.ty (finalListenerOnStart_res hq t r)
  unfold LoadObject_deferred
  simp only []
  split_ifs <;>
    first
      | exact Or.inl hi
      | exact LoadObject_failure_mType hq _ _ _
      | (left
         simp only [CloseChannel_mType hq, hf, hm, hi])
      | (refine mType_or_trans (Or.inl ?_) (LoadObject_failure_mType hq _ _ _)
         simp only [CloseChannel_mType hq, hf, hm, hi])

theorem LoadObject_notify_mType {env : Env} (hq : env.quiet) (s : State) (ctx : LoadCtx)
    (rv : nsresult) (fl : Option Listener) (d : Bool) :
    (LoadObject_notify env s ctx rv fl d).mType = s.mType
    ∨ (LoadObject_notify env s ctx rv fl d).mType = .eType_Null := by
  unfold LoadObject_notify
  simp only []
  have key : ∀ t : State, t.mType = s.mType ∨ t.mType = .eType_Null →
      ∀ (b : Bool) (l : Option Listener),
      (if (!(NotifyStateChanged env t ctx.oldType ctx.oldState false ctx.aNotify
              .notifyFinal).mIsLoading) = true then
          NotifyStateChanged env t ctx.oldType ctx.oldState false ctx.aNotify .notifyFinal
        else
          LoadObject_deferred env
            (NotifyStateChanged env t ctx.oldType ctx.oldState false ctx.aNotify .notifyFinal)
            ctx b l).mType = s.mType
      ∨ (if (!(NotifyStateChanged env t ctx.oldType ctx.oldState false ctx.aNotify
              .notifyFinal).mIsLoading) = true then
          NotifyStateChanged env t ctx.oldType ctx.oldState false ctx.aNotify .notifyFinal
        else
          LoadObject_deferred env
            (NotifyStateChanged env t ctx.oldType ctx.oldState false ctx.aNotify .notifyFinal)
            ctx b l).mType = .eType_Null := by
    intro t ht b l
    have hn := NotifyStateChanged_mType hq t ctx.oldType ctx.oldState false ctx.aNotify
      .notifyFinal
    split_ifs
    · rw [hn]
      exact ht
    · exact mType_or_trans (by rw [hn]; exact ht) (LoadObject_deferred_mType hq _ _ _ _)
  apply key
  split_ifs <;>
    first
      | exact Or.inr (LoadFallback_mType hq _ _ _)
      | exact Or.inl rfl
      | exact Or.inr rfl

theorem LoadObject_document_mType {env : Env} (hq : env.quiet) (s : State) (ctx : LoadCtx) :
    (LoadObject_document env s ctx).mType = s.mType
    ∨ (LoadObject_document env s ctx).mType = .eType_Null := by
  unfold LoadObject_document
  split
  · exact mType_or_of_null rfl (LoadObject_notify_mType hq _ _ _ _ _) _
  · simp only []
    split_ifs <;>
      first
        | exact mType_or_of_null rfl (LoadObject_notify_mType hq _ _ _ _ _) _
        | exact LoadObject_notify_mType hq _ _ _ _ _

theorem LoadObject_dispatch_mType {env : Env} (hq : env.quiet) (s : State) (ctx : LoadCtx) :
    (LoadObject_dispatch env s ctx).mType = s.mType
    ∨ (LoadObject_dispatch env s ctx).mType = .eType_Null := by
  unfold LoadObject_dispatch
  split
  · split
    · exact LoadObject_notify_mType hq _ _ _ _ _
    · simp only []
      split_ifs <;> exact LoadObject_notify_mType hq _ _ _ _ _
  · simp only []
    split_ifs
    · refine mType_or_trans (Or.inl ?_) (LoadObject_notify_mType hq _ _ _ _ _)
      rw [CloseChannel_mType hq, NotifyStateChanged_mType hq]
    · refine mType_or_trans (Or.inl ?_) (LoadObject_notify_mType hq _ _ _ _ _)
      rw [NotifyStateChanged_mType hq]
    · refine mType_or_trans (Or.inl ?_) (LoadObject_notify_mType hq _ _ _ _ _)
      exact congrArg Res.ty (AsyncStartPluginInstance_res env s)
  · exact LoadObject_document_mType hq s ctx
  · refine mType_or_trans (Or.inl ?_) (LoadObject_notify_mType hq _ _ _ _ _)
    exact congrArg Res.ty (OpenChannel_res env s)
  · exact LoadObject_notify_mType hq _ _ _ _ _

theorem LoadObject_sanity_mType {env : Env} (hq : env.quiet) (s : State) (ctx : LoadCtx) :
    (LoadObject_sanity env s ctx).mType = s.mType
    ∨ (LoadObject_sanity env s ctx).mType = .eType_Null := by
  unfold LoadObject_sanity
  split_ifs
  · exact Or.inl rfl
  · exact Or.inl rfl
  · exact LoadObject_dispatch_mType hq s ctx

/-! ## Runs without nested entries: the fallback at the end of `LoadObject`, written out -/

theorem ObjectState_congr (env : Env) (s t : State) (h₁ : s.mType = t.mType)
    (h₂ : s.mFallbackType = t.mFallbackType) : ObjectState env s = ObjectState env t := by
  unfold ObjectState
  rw [h₁, h₂]

/-- What `NotifyStateChanged` leaves is its state with calls added to the log;
with the old type and the old state being those of the state, the one call is
`UpdateState`. -/
theorem NotifyStateChanged_form {env : Env} (hq : env.quiet) (s : State) (ot : ObjectType)
    (os : EventStates) (sync notify : Bool) (site : Site) :
    ∃ L, NotifyStateChanged env s ot os sync notify site = { s with log := s.log ++ L }
      ∧ L.countP Effect.isChannelOpen = 0
      ∧ (ot = s.mType → os = ObjectState env s → L = [.updateState]) := by
  have ho : ObjectState env (s.emit .updateState) = ObjectState env s := rfl
  unfold NotifyStateChanged
  simp only [hq.eq, ho]
  split_ifs with h1 h2 h3 h4 h5 h6
  · exact ⟨[.updateState], rfl, rfl, fun _ _ => rfl⟩
  · exact ⟨[.updateState], rfl, rfl, fun _ _ => rfl⟩
  · refine ⟨[.updateState, .contentStateChanged (EventStates.xor os (ObjectState env s)),
      .flushFrames], ?_, rfl, fun _ h => absurd h.symm h3⟩
    simp [State.emit]
  · refine ⟨[.updateState, .contentStateChanged (EventStates.xor os (ObjectState env s))],
      ?_, rfl, fun _ h => absurd h.symm h3⟩
    simp [State.emit]
  · refine ⟨[.updateState, .recreateFrames], ?_, rfl, fun h _ => absurd h h5⟩
    simp [State.emit]
  · exact ⟨[.updateState], rfl, rfl, fun _ _ => rfl⟩
  · exact ⟨[.updateState], rfl, rfl, fun _ _ => rfl⟩

theorem LoadFallback_form (env : Env) (s : State) (ty : FallbackType) :
    LoadFallback env s ty false
      = { s with mType := .eType_Null,
                 mFallbackType := (LoadFallback env s ty false).mFallbackType } := by
  unfold LoadFallback
  simp

theorem LoadFallback_mFallbackType_congr {env : Env} (hq : env.quiet) (s t : State)
    (ty : FallbackType) (n m : Bool) (h : s.mContentType = t.mContentType) :
    (LoadFallback env s ty n).mFallbackType = (LoadFallback env t ty m).mFallbackType := by
  rw [LoadFallback_mFallbackType hq, LoadFallback_mFallbackType hq, h]

theorem CloseChannel_form {env : Env} (hq : env.quiet) (s : State) (c : Channel)
    (hc : s.mChannel = some c) (hl : s.mFinalListener = none) :
    CloseChannel env s = { s with mChannel := none, log := s.log ++ [.channelCancel c.id] } := by
  cases s
  simp only at hc hl
  subst hc
  subst hl
  simp [CloseChannel, hq.eq, State.emit]

theorem CloseChannel_none (env : Env) (s : State) (hc : s.mChannel = none) :
    CloseChannel env s = s := by
  unfold CloseChannel
  rw [hc]

/-- The fallback at the end of `LoadObject` on a state without a final
listener: the channel is closed, the type is `eType_Null`, the fallback type
is the one `LoadFallback` makes of the reason, and the final notification is
made. -/
theorem LoadObject_fall_form {env : Env} (hq : env.quiet) (v : State) (ft : FallbackType)
    (ot : ObjectType) (os : EventStates) (n : Bool) (hl : v.mFinalListener = none) :
    ∃ L, NotifyStateChanged env
          (LoadFallback env (if v.mChannel.isSome = true then CloseChannel env v else v) ft false)
          ot os false n .notifyFinal
        = { v with mType := .eType_Null,
                   mFallbackType := (LoadFallback env v ft false).mFallbackType,
                   mChannel := none, log := v.log ++ L }
      ∧ L.countP Effect.isChannelOpen = 0
      ∧ (v.mChannel = none → ot = .eType_Null →
          os = ObjectState env
            { v with mType := .eType_Null,
                     mFallbackType := (LoadFallback env v ft false).mFallbackType } →
          L = [.updateState]) := by
  cases hc : v.mChannel with
  | none =>
    simp only [Option.isSome_none, Bool.false_eq_true, if_false]
    obtain ⟨L, h, ho, hu⟩ := NotifyStateChanged_form hq (LoadFallback env v ft false) ot os false n
      .notifyFinal
    refine ⟨L, ?_, ho, fun _ h1 h2 => hu ?_ ?_⟩
    · rw [h, LoadFallback_form]
      cases v
      simp only at hc
      subst hc
      rfl
    · rw [h1, LoadFallback_form]
    · rw [h2]
      rw [LoadFallback_form env v ft]
      exact ObjectState_congr _ _ _ rfl rfl
  | some c =>
    simp only [Option.isSome_some, if_true]
    have hcc := CloseChannel_form hq v c hc hl
    obtain ⟨L, h, ho, -⟩ := NotifyStateChanged_form hq
      (LoadFallback env (CloseChannel env v) ft false) ot os false n .notifyFinal
    have hf : (LoadFallback env (CloseChannel env v) ft false).mFallbackType
        = (LoadFallback env v ft false).mFallbackType :=
      LoadFallback_mFallbackType_congr hq _ _ _ _ _
        (congrArg Params.mContentType (CloseChannel_params hq v))
    refine ⟨.channelCancel c.id :: L, ?_, ?_, fun h1 => ?_⟩
    · rw [h, LoadFallback_form, hf, hcc]
      simp
    · simpa [List.countP_cons, Effect.isChannelOpen] using ho
    · cases h1

theorem AsyncStartPluginInstance_failed (env : Env) (s : State)
    (h : (AsyncStartPluginInstance env s).2.failed = true) :
    (AsyncStartPluginInstance env s).1 = s := by
  unfold AsyncStartPluginInstance at h ⊢
  split_ifs at h ⊢ <;> first | rfl | (simp [nsresult.failed] at h)

theorem AsyncStartPluginInstance_code_congr (env : Env) (s t : State)
    (h₁ : s.mInstanceOwner = t.mInstanceOwner)
    (h₂ : s.mPendingInstantiateEvent = t.mPendingInstantiateEvent) :
    (AsyncStartPluginInstance env s).2 = (AsyncStartPluginInstance env t).2 := by
  unfold AsyncStartPluginInstance
  rw [h₁, h₂]
  split_ifs <;> rfl

theorem OpenChannel_failed (env : Env) (s : State)
    (h : (OpenChannel env s).2.failed = true) :
    (OpenChannel env s).1 = { s with mChannel := none } := by
  unfold OpenChannel at h ⊢
  simp only [] at h ⊢
  split at h
  · rename_i hu
    simp only [hu]
  · rename_i u hu
    simp only [hu]
    simp only [hu] at h
    split_ifs at h ⊢ <;> first | rfl | (simp [nsresult.failed] at h)

theorem OpenChannel_code_congr (env : Env) (s t : State) (h : s.mURI = t.mURI) :
    (OpenChannel env s).2 = (OpenChannel env t).2 := by
  unfold OpenChannel
  simp only [h]
  split
  · rfl
  · split_ifs <;> rfl

/-- With a failure code or `eType_Null`, and no plugin to spawn, the end of
`LoadObject` is the fallback and the final notification. -/
theorem LoadObject_notify_fall {env : Env} (hq : env.quiet) (v : State) (ctx : LoadCtx)
    (rv : nsresult) (hl : v.mIsLoading = true) (hfin : v.mFinalListener = none)
    (h : rv.failed = true ∨ v.mType = .eType_Null) :
    ∃ L, LoadObject_notify env v ctx rv none false
        = { v with mType := .eType_Null,
                   mFallbackType := (LoadFallback env v ctx.fallbackType false).mFallbackType,
                   mChannel := none, log := v.log ++ L }
      ∧ L.countP Effect.isChannelOpen = 0
      ∧ (v.mChannel = none → ctx.oldType = .eType_Null →
          ctx.oldState = ObjectState env
            { v with mType := .eType_Null,
                     mFallbackType := (LoadFallback env v ctx.fallbackType false).mFallbackType } →
          L = [.updateState]) := by
  have hs₁ : (if rv.failed = true then { v with mType := .eType_Null } else v)
      = { v with mType := .eType_Null } := by
    split_ifs with hr
    · rfl
    · rcases h with h | h
      · exact absurd h hr
      · cases v
        simp only at h
        subst h
        rfl
  have hf : (LoadFallback env { v with mType := .eType_Null } ctx.fallbackType false).mFallbackType
      = (LoadFallback env v ctx.fallbackType false).mFallbackType :=
    LoadFallback_mFallbackType_congr hq _ _ _ _ _ rfl
  obtain ⟨L, hL, ho, hu⟩ := LoadObject_fall_form hq { v with mType := .eType_Null }
    ctx.fallbackType ctx.oldType ctx.oldState ctx.aNotify hfin
  rw [hf] at hL hu
  refine ⟨L, ?_, ho, hu⟩
  rw [← hL]
  unfold LoadObject_notify
  simp only [hs₁, if_true, decide_True, Bool.not_true, Bool.and_false, LoadObject_deferred,
    Bool.false_eq_true, if_false, Option.isSome_none, LoadObject_failure_ok, ite_self]

/-- With a success code, a type other than `eType_Null` and neither a plugin
to spawn nor a final listener, the end of `LoadObject` is the final
notification. -/
theorem LoadObject_notify_keep (env : Env) (v : State) (ctx : LoadCtx)
    (rv : nsresult) (h₁ : rv.failed = false) (h₂ : v.mType ≠ .eType_Null) :
    LoadObject_notify env v ctx rv none false
      = NotifyStateChanged env v ctx.oldType ctx.oldState false ctx.aNotify .notifyFinal := by
  unfold LoadObject_notify
  simp only [h₁, h₂, Bool.false_eq_true, if_false, decide_False, Bool.not_false, Bool.and_true,
    LoadObject_deferred, Option.isSome_none, LoadObject_failure_ok, ite_self]

/-- The switch of `LoadObject` on a state with nothing loaded, no pending event,
no final listener and no channel, where the type or the result code says
fallback: the fallback is stored, and run again on what it left (whatever the
stopping flag and the log) it stores the same again and notifies nothing. -/
theorem LoadObject_notify_replay {env : Env} (hq : env.quiet) (v : State) (ctx : LoadCtx)
    (rv : nsresult) (hl : v.mIsLoading = true) (hfin : v.mFinalListener = none)
    (h : rv.failed = true ∨ v.mType = .eType_Null) :
    ∃ f l, LoadObject_notify env v ctx rv none false
        = { v with mType := .eType_Null, mFallbackType := f, mChannel := none, log := l }
      ∧ ∀ (b : Bool) (K : List Effect) (ctx' : LoadCtx) (t : ObjectType) (rv' : nsresult),
          ctx'.fallbackType = ctx.fallbackType → ctx'.oldType = .eType_Null →
          ctx'.oldState = ObjectState env { v with mType := .eType_Null, mFallbackType := f } →
          (rv'.failed = true ∨ t = .eType_Null) →
          ∃ L', LoadObject_notify env
                { v with mType := t, mFallbackType := f, mChannel := none, mIsStopping := b,
                         log := K } ctx' rv' none false
              = { v with mType := .eType_Null, mFallbackType := f, mChannel := none,
                         mIsStopping := b, log := K ++ L' }
            ∧ L'.countP Effect.isStateNotification = 0 ∧ L'.countP Effect.isChannelOpen = 0 := by
  obtain ⟨L, hL, -, -⟩ := LoadObject_notify_fall hq v ctx rv hl hfin h
  refine ⟨_, _, hL, ?_⟩
  intro b K ctx' t rv' h₁ h₂ h₃ h₄
  obtain ⟨L', hL', -, hu⟩ := LoadObject_notify_fall hq
    { v with mType := t, mFallbackType := (LoadFallback env v ctx.fallbackType false).mFallbackType,
             mChannel := none, mIsStopping := b, log := K } ctx' rv' hl hfin h₄
  have hf : (LoadFallback env
      { v with mType := t,
               mFallbackType := (LoadFallback env v ctx.fallbackType false).mFallbackType,
               mChannel := none, mIsStopping := b, log := K } ctx'.fallbackType false).mFallbackType
      = (LoadFallback env v ctx.fallbackType false).mFallbackType := by
    rw [h₁]
    exact LoadFallback_mFallbackType_congr hq _ _ _ _ _ rfl
  rw [hf] at hL' hu
  have hL₂ := hu rfl h₂ (h₃.trans (ObjectState_congr _ _ _ rfl rfl))
  subst hL₂
  exact ⟨[.updateState], hL', rfl, rfl⟩

theorem LoadObject_sanity_pass (env : Env) (w : State) (ctx : LoadCtx)
    (hfl : w.mFrameLoader = none) (hio : w.mInstanceOwner = none)
    (hp₁ : w.mPendingInstantiateEvent = none) (hp₂ : w.mPendingCheckPluginStopEvent = none)
    (hfin : w.mFinalListener = none)
    (hch : w.mType = .eType_Null ∨ w.mChannel.isSome = w.mChannelLoaded) :
    LoadObject_sanity env w ctx = LoadObject_dispatch env w ctx := by
  unfold LoadObject_sanity
  rw [if_neg (by simp [hfl, hio, hp₁, hp₂, hfin]), if_neg]
  rcases hch with h | h
  · simp [h]
  · simp [h]

/-- The sanity checks and the switch of `LoadObject` on a state with nothing
loaded, no pending event and no loaded channel, of a type other than
`eType_Image` and `eType_Document`, where they end with `eType_Null`: but for
the type, the fallback type, the channel and the log the state is left as it
is; and `LoadObject` coming to its sanity checks again with what they left
(whatever the stopping flag and the log), with the same fallback reason and the
old type and state being those left, leaves the same again, notifies nothing
and opens no channel. -/
theorem LoadObject_sanity_replay {env : Env} (hq : env.quiet) (w : State) (ctx : LoadCtx)
    (hl : w.mIsLoading = true) (hfl : w.mFrameLoader = none) (hio : w.mInstanceOwner = none)
    (hp₁ : w.mPendingInstantiateEvent = none) (hp₂ : w.mPendingCheckPluginStopEvent = none)
    (hcl : w.mChannelLoaded = false)
    (hty : w.mType ≠ .eType_Image ∧ w.mType ≠ .eType_Document)
    (hX : (LoadObject_sanity env w ctx).mType = .eType_Null) :
    ∃ f c l, LoadObject_sanity env w ctx
        = { w with mType := .eType_Null, mFallbackType := f, mChannel := c, log := l }
      ∧ (c = none ∨ c = w.mChannel)
      ∧ ∀ (b : Bool) (K : List Effect) (ctx' : LoadCtx),
          ctx'.fallbackType = ctx.fallbackType → ctx'.oldType = .eType_Null →
          ctx'.oldState = ObjectState env { w with mType := .eType_Null, mFallbackType := f } →
          ∃ L', LoadObject_sanity env
                { w with mFallbackType := f, mChannel := c, mIsStopping := b, log := K } ctx'
              = { w with mType := .eType_Null, mFallbackType := f, mChannel := c, mIsStopping := b,
                         log := K ++ L' }
            ∧ L'.countP Effect.isStateNotification = 0 ∧ L'.countP Effect.isChannelOpen = 0 := by
  rcases Option.eq_none_or_eq_some w.mFinalListener with hfin | ⟨l₀, hfin⟩
  swap
  · have hs : ∀ (x : State) (c : LoadCtx), x.mFinalListener = some l₀ →
        LoadObject_sanity env x c = x := by
      intro x c hx
      unfold LoadObject_sanity
      simp [hx]
    rw [hs w ctx hfin] at hX ⊢
    refine ⟨w.mFallbackType, w.mChannel, w.log, ?_, Or.inr rfl, ?_⟩
    · cases w
      simp only at hX
      subst hX
      rfl
    · intro b K ctx' _ _ _
      refine ⟨[], ?_, rfl, rfl⟩
      rw [hs { w with mFallbackType := w.mFallbackType, mChannel := w.mChannel, mIsStopping := b,
                      log := K } ctx' hfin]
      cases w
      simp only at hX
      subst hX
      simp
  by_cases ht : w.mType = .eType_Null
  · -- the type is `eType_Null` before the switch
    rw [LoadObject_sanity_pass env w ctx hfl hio hp₁ hp₂ hfin (Or.inl ht),
      LoadObject_dispatch_null env w ctx ht] at hX ⊢
    obtain ⟨f, l, hform, hre⟩ := LoadObject_notify_replay hq w ctx .NS_OK hl hfin (Or.inr ht)
    refine ⟨f, none, l, hform, Or.inl rfl, ?_⟩
    intro b K ctx' h₁ h₂ h₃
    obtain ⟨L', hL', hc⟩ := hre b K ctx' w.mType .NS_OK h₁ h₂ h₃ (Or.inr ht)
    refine ⟨L', ?_, hc⟩
    rw [← hL', LoadObject_sanity_pass env
        { w with mFallbackType := f, mChannel := none, mIsStopping := b, log := K } ctx' hfl hio
        hp₁ hp₂ hfin (Or.inl ht),
      LoadObject_dispatch_null env
        { w with mFallbackType := f, mChannel := none, mIsStopping := b, log := K } ctx' ht]
  rcases Option.eq_none_or_eq_some w.mChannel with hch | ⟨ch, hch⟩
  swap
  · -- a channel that is not loaded: the second sanity check returns
    exfalso
    apply ht
    have hs : LoadObject_sanity env w ctx = w := by
      unfold LoadObject_sanity
      simp [hfl, hio, hp₁, hp₂, hfin, ht, hch, hcl]
    rw [hs] at hX
    exact hX
  have hpass : ∀ (x : State) (c : LoadCtx), x.mFrameLoader = none →
      x.mInstanceOwner = none → x.mPendingInstantiateEvent = none →
      x.mPendingCheckPluginStopEvent = none → x.mFinalListener = none →
      x.mChannel = none → x.mChannelLoaded = false →
      LoadObject_sanity env x c = LoadObject_dispatch env x c := by
    intro x c a1 a2 a3 a4 a5 a6 a7
    exact LoadObject_sanity_pass env x c a1 a2 a3 a4 a5 (Or.inr (by simp [a6, a7]))
  rw [hpass w ctx hfl hio hp₁ hp₂ hfin hch hcl] at hX ⊢
  have hk : w.mType = .eType_Plugin ∨ w.mType = .eType_Loading := by
    cases h : w.mType <;> simp_all
  rcases hk with hk | hk
  · have hd : ∀ (x : State) (c : LoadCtx), x.mType = .eType_Plugin → x.mChannel = none →
        LoadObject_dispatch env x c
          = LoadObject_notify env (AsyncStartPluginInstance env x).1 c
              (AsyncStartPluginInstance env x).2 none false := by
      intro x c a1 a2
      unfold LoadObject_dispatch
      simp [a1, a2]
    rw [hd w ctx hk hch] at hX ⊢
    rcases Bool.eq_false_or_eq_true (AsyncStartPluginInstance env w).2.failed with hr | hr
    swap
    · exfalso
      have hne : (AsyncStartPluginInstance env w).1.mType ≠ .eType_Null := by
        rw [show (AsyncStartPluginInstance env w).1.mType = w.mType from
          congrArg Res.ty (AsyncStartPluginInstance_res env w)]
        exact ht
      rw [LoadObject_notify_keep env _ ctx _ hr hne, NotifyStateChanged_mType hq] at hX
      exact hne hX
    rw [AsyncStartPluginInstance_failed env w hr]
    obtain ⟨f, l, hform, hre⟩ := LoadObject_notify_replay hq w ctx
      (AsyncStartPluginInstance env w).2 hl hfin (Or.inl hr)
    refine ⟨f, none, l, hform, Or.inl rfl, ?_⟩
    intro b K ctx' h₁ h₂ h₃
    have hcode : (AsyncStartPluginInstance env
        { w with mFallbackType := f, mChannel := none, mIsStopping := b, log := K }).2
        = (AsyncStartPluginInstance env w).2 :=
      AsyncStartPluginInstance_code_congr env _ _ rfl rfl
    obtain ⟨L', hL', hc⟩ := hre b K ctx' w.mType (AsyncStartPluginInstance env w).2
      h₁ h₂ h₃ (Or.inl hr)
    refine ⟨L', ?_, hc⟩
    rw [← hL', hpass { w with mFallbackType := f, mChannel := none, mIsStopping := b, log := K }
        ctx' hfl hio hp₁ hp₂ hfin rfl hcl,
      hd { w with mFallbackType := f, mChannel := none, mIsStopping := b, log := K } ctx' hk rfl,
      AsyncStartPluginInstance_failed env
        { w with mFallbackType := f, mChannel := none, mIsStopping := b, log := K }
        (by rw [hcode]; exact hr), hcode]
  · have hd : ∀ (x : State) (c : LoadCtx), x.mType = .eType_Loading →
        LoadObject_dispatch env x c
          = LoadObject_notify env (OpenChannel env x).1 c (OpenChannel env x).2 none
              false := by
      intro x c a1
      unfold LoadObject_dispatch
      simp [a1]
    rw [hd w ctx hk] at hX ⊢
    rcases Bool.eq_false_or_eq_true (OpenChannel env w).2.failed with hr | hr
    swap
    · exfalso
      have hne : (OpenChannel env w).1.mType ≠ .eType_Null := by
        rw [show (OpenChannel env w).1.mType = w.mType from
          congrArg Res.ty (OpenChannel_res env w)]
        exact ht
      rw [LoadObject_notify_keep env _ ctx _ hr hne, NotifyStateChanged_mType hq] at hX
      exact hne hX
    rw [OpenChannel_failed env w hr]
    obtain ⟨f, l, hform, hre⟩ := LoadObject_notify_replay hq
      { w with mChannel := none } ctx (OpenChannel env w).2 hl hfin (Or.inl hr)
    refine ⟨f, none, l, hform, Or.inl rfl, ?_⟩
    intro b K ctx' h₁ h₂ h₃
    have hcode : (OpenChannel env
        { w with mFallbackType := f, mChannel := none, mIsStopping := b, log := K }).2
        = (OpenChannel env w).2 :=
      OpenChannel_code_congr env _ _ rfl
    obtain ⟨L', hL', hc⟩ := hre b K ctx' w.mType (OpenChannel env w).2
      h₁ h₂ h₃ (Or.inl hr)
    refine ⟨L', ?_, hc⟩
    rw [← hL', hpass { w with mFallbackType := f, mChannel := none, mIsStopping := b, log := K }
        ctx' hfl hio hp₁ hp₂ hfin rfl hcl,
      hd { w with mFallbackType := f, mChannel := none, mIsStopping := b, log := K } ctx' hk,
      OpenChannel_failed env
        { w with mFallbackType := f, mChannel := none, mIsStopping := b, log := K }
        (by rw [hcode]; exact hr), hcode]

/-! ## Runs without nested entries: `LoadObject` again on what it left -/

/-- The `ShouldPlay` gate and the activation line of `LoadObject` write the
type, `mActivated` and the log only; on the same state with the activation
flag they left (whatever the fallback type, the channel, the stopping flag and
the log) they leave the same type, flag and fallback reason, and make calls of
the permission manager only. -/
theorem LoadObject_played_replay (env : Env) (y : State) (ctx : LoadCtx) :
    ∃ t a l fp, LoadObject_played env y = { y with mType := t, mActivated := a, log := l }
      ∧ LoadObject_playedCtx env y ctx = { ctx with fallbackType := fp }
      ∧ (t = y.mType ∨ t = .eType_Null)
      ∧ ∀ (f : FallbackType) (c : Option Channel) (b : Bool) (K : List Effect) (ctx' : LoadCtx),
          ctx'.fallbackType = ctx.fallbackType →
          ∃ Lp, LoadObject_played env
                { y with mFallbackType := f, mActivated := a, mChannel := c, mIsStopping := b,
                         log := K }
              = { y with mType := t, mFallbackType := f, mActivated := a, mChannel := c,
                         mIsStopping := b, log := K ++ Lp }
            ∧ LoadObject_playedCtx env
                { y with mFallbackType := f, mActivated := a, mChannel := c, mIsStopping := b,
                         log := K } ctx'
              = { ctx' with fallbackType := fp }
            ∧ Lp.countP Effect.isStateNotification = 0 ∧ Lp.countP Effect.isChannelOpen = 0 := by
  have hc₁ := ShouldPlay_effects_count Effect.isStateNotification (fun _ => rfl)
    (fun _ _ _ => rfl) env.play y .eFallbackAlternate false
  have hc₂ := ShouldPlay_effects_count Effect.isChannelOpen (fun _ => rfl)
    (fun _ _ _ => rfl) env.play y .eFallbackAlternate false
  have hsp : ∀ (f : FallbackType) (a : Bool) (c : Option Channel) (b : Bool) (K : List Effect),
      ShouldPlay env.play
        { y with mFallbackType := f, mActivated := a, mChannel := c, mIsStopping := b, log := K }
        .eFallbackAlternate false
      = ShouldPlay env.play y .eFallbackAlternate false := fun _ _ _ _ _ => rfl
  unfold LoadObject_played LoadObject_playedCtx
  simp only [hsp]
  generalize ShouldPlay env.play y .eFallbackAlternate false = p at hc₁ hc₂ ⊢
  rcases p with ⟨play, reason, eff⟩
  simp only at hc₁ hc₂
  rcases ctx with ⟨c1, c2, c3, c4, c5, c6, c7⟩
  rcases y with ⟨ty, a2, a3, a4, a5, act, a7, a8, a9, a10, a11, a12, a13, a14, a15, a16, a17, a18,
    a19, a20, a21, a22, lg⟩
  cases act <;> cases play <;> cases ty <;>
    simp only [decide_True, decide_False, Bool.not_true, Bool.not_false, Bool.true_and,
      Bool.false_and, Bool.true_or, Bool.false_or, Bool.or_false, Bool.or_true, Bool.and_true,
      Bool.and_false, Bool.false_eq_true, if_true, if_false, reduceCtorEq, Bool.or_self,
      Bool.and_self] <;>
    refine ⟨_, _, _, _, rfl, rfl, by simp, ?_⟩ <;>
    intro f c b K ctx' hctx <;>
    rcases ctx' with ⟨d1, d2, d3, d4, d5, d6, d7⟩ <;>
    simp only at hctx <;>
    subst hctx <;>
    first
      | (refine ⟨eff, ?_, ?_, hc₁, hc₂⟩ <;> simp <;> done)
      | (refine ⟨[], ?_, ?_, rfl, rfl⟩ <;> simp)

/-- `LoadObject` from the `ShouldPlay` gate on, on a state with nothing
loaded, no pending event and no loaded channel, of a type other than
`eType_Image` and `eType_Document`, where it ends with `eType_Null`: the same
again on what it left. -/
theorem LoadObject_play_replay {env : Env} (hq : env.quiet) (y : State) (ctx : LoadCtx)
    (hl : y.mIsLoading = true) (hfl : y.mFrameLoader = none) (hio : y.mInstanceOwner = none)
    (hp₁ : y.mPendingInstantiateEvent = none) (hp₂ : y.mPendingCheckPluginStopEvent = none)
    (hcl : y.mChannelLoaded = false)
    (hty : y.mType ≠ .eType_Image ∧ y.mType ≠ .eType_Document)
    (hX : (LoadObject_play env y ctx).mType = .eType_Null) :
    ∃ f a c l, LoadObject_play env y ctx
        = { y with mType := .eType_Null, mFallbackType := f, mActivated := a, mChannel := c,
                   log := l }
      ∧ (c = none ∨ c = y.mChannel)
      ∧ ∀ (b : Bool) (K : List Effect) (ctx' : LoadCtx),
          ctx'.fallbackType = ctx.fallbackType → ctx'.oldType = .eType_Null →
          ctx'.oldState = ObjectState env { y with mType := .eType_Null, mFallbackType := f } →
          ∃ L', LoadObject_play env
                { y with mFallbackType := f, mActivated := a, mChannel := c, mIsStopping := b,
                         log := K } ctx'
              = { y with mType := .eType_Null, mFallbackType := f, mActivated := a, mChannel := c,
                         mIsStopping := b, log := K ++ L' }
            ∧ L'.countP Effect.isStateNotification = 0 ∧ L'.countP Effect.isChannelOpen = 0 := by
  obtain ⟨t, a, lw, fp, hw, hcw, ht, hre⟩ := LoadObject_played_replay env y ctx
  unfold LoadObject_play at hX ⊢
  rw [hw, hcw] at hX
  have hty' : t ≠ .eType_Image ∧ t ≠ .eType_Document := by
    rcases ht with h | h
    · rw [h]
      exact hty
    · rw [h]
      exact ⟨by decide, by decide⟩
  obtain ⟨f, c, l, hform, hc, hre₂⟩ := LoadObject_sanity_replay hq
    { y with mType := t, mActivated := a, log := lw } { ctx with fallbackType := fp }
    hl hfl hio hp₁ hp₂ hcl hty' hX
  refine ⟨f, a, c, l, ?_, hc, ?_⟩
  · rw [hw, hcw]
    exact hform
  · intro b K ctx' h₁ h₂ h₃
    obtain ⟨Lp, hp, hpc, hn₁, ho₁⟩ := hre f c b K ctx' h₁
    rw [hp, hpc]
    obtain ⟨L', hL', hn₂, ho₂⟩ := hre₂ b (K ++ Lp) { ctx' with fallbackType := fp } rfl h₂
      (h₃.trans (ObjectState_congr _ _ _ rfl rfl))
    refine ⟨Lp ++ L', ?_, ?_, ?_⟩
    · rw [← List.append_assoc]
      exact hL'
    · rw [List.countP_append, hn₁, hn₂]
    · rw [List.countP_append, ho₁, ho₂]

theorem LoadObject_gate_blocked (env : Env) (y : State) (ctx : LoadCtx)
    (h : (decide (y.mType ≠ .eType_Null)
      && (match y.mURI with
          | some uri => blocksViewSource uri
          | none => false)) = true) :
    LoadObject_gate env y ctx = LoadObject_play env { y with mType := .eType_Null } ctx := by
  unfold LoadObject_gate
  exact if_pos h

theorem LoadObject_gate_open (env : Env) (y : State) (ctx : LoadCtx)
    (h : ¬ (decide (y.mType ≠ .eType_Null)
      && (match y.mURI with
          | some uri => blocksViewSource uri
          | none => false)) = true) :
    LoadObject_gate env y ctx = LoadObject_play env y ctx := by
  unfold LoadObject_gate
  exact if_neg h

/-- `LoadObject` from the view-source block on, on a state with nothing
loaded, no pending event and no loaded channel, of a type other than
`eType_Image` and `eType_Document`, where it ends with `eType_Null`: the same
again on what it left. -/
theorem LoadObject_gate_replay {env : Env} (hq : env.quiet) (y : State) (ctx : LoadCtx)
    (hl : y.mIsLoading = true) (hfl : y.mFrameLoader = none) (hio : y.mInstanceOwner = none)
    (hp₁ : y.mPendingInstantiateEvent = none) (hp₂ : y.mPendingCheckPluginStopEvent = none)
    (hcl : y.mChannelLoaded = false)
    (hty : y.mType ≠ .eType_Image ∧ y.mType ≠ .eType_Document)
    (hX : (LoadObject_gate env y ctx).mType = .eType_Null) :
    ∃ f a c l, LoadObject_gate env y ctx
        = { y with mType := .eType_Null, mFallbackType := f, mActivated := a, mChannel := c,
                   log := l }
      ∧ (c = none ∨ c = y.mChannel)
      ∧ ∀ (b : Bool) (K : List Effect) (ctx' : LoadCtx),
          ctx'.fallbackType = ctx.fallbackType → ctx'.oldType = .eType_Null →
          ctx'.oldState = ObjectState env { y with mType := .eType_Null, mFallbackType := f } →
          ∃ L', LoadObject_gate env
                { y with mFallbackType := f, mActivated := a, mChannel := c, mIsStopping := b,
                         log := K } ctx'
              = { y with mType := .eType_Null, mFallbackType := f, mActivated := a, mChannel := c,
                         mIsStopping := b, log := K ++ L' }
            ∧ L'.countP Effect.isStateNotification = 0 ∧ L'.countP Effect.isChannelOpen = 0 := by
  by_cases hv : (decide (y.mType ≠ .eType_Null)
      && (match y.mURI with
          | some uri => blocksViewSource uri
          | none => false)) = true
  · rw [LoadObject_gate_blocked env y ctx hv] at hX ⊢
    obtain ⟨f, a, c, l, hform, hc, hre⟩ := LoadObject_play_replay hq
      { y with mType := .eType_Null } ctx hl hfl hio hp₁ hp₂ hcl ⟨by simp, by simp⟩ hX
    refine ⟨f, a, c, l, hform, hc, ?_⟩
    intro b K ctx' h₁ h₂ h₃
    obtain ⟨L', hL', hn⟩ := hre b K ctx' h₁ h₂ h₃
    refine ⟨L', ?_, hn⟩
    rw [LoadObject_gate_blocked env
      { y with mFallbackType := f, mActivated := a, mChannel := c, mIsStopping := b, log := K }
      ctx' hv]
    exact hL'
  · rw [LoadObject_gate_open env y ctx hv] at hX ⊢
    obtain ⟨f, a, c, l, hform, hc, hre⟩ := LoadObject_play_replay hq y ctx hl hfl hio hp₁ hp₂
      hcl hty hX
    refine ⟨f, a, c, l, hform, hc, ?_⟩
    intro b K ctx' h₁ h₂ h₃
    obtain ⟨L', hL', hn⟩ := hre b K ctx' h₁ h₂ h₃
    refine ⟨L', ?_, hn⟩
    rw [LoadObject_gate_open env
      { y with mFallbackType := f, mActivated := a, mChannel := c, mIsStopping := b, log := K }
      ctx' hv]
    exact hL'

/-! ## Runs without nested entries: the policy calls again -/

theorem CheckJavaCodebase_replay {env : Env} (hq : env.quiet) (y : State) (f : FallbackType)
    (a : Bool) (c : Option Channel) (b : Bool) (K : List Effect) :
    CheckJavaCodebase env
        { y with mFallbackType := f, mActivated := a, mChannel := c, mIsStopping := b, log := K }
      = ({ y with mFallbackType := f, mActivated := a, mChannel := c, mIsStopping := b,
                  log := K ++ [.checkJavaCodebase] }, (CheckJavaCodebase env y).2)
    ∧ (CheckJavaCodebase env y).1 = { y with log := y.log ++ [.checkJavaCodebase] } := by
  unfold CheckJavaCodebase
  simp only [hq.eq]
  exact ⟨rfl, rfl⟩

theorem CheckLoadPolicy_replay {env : Env} (hq : env.quiet) (y : State) (cp : ContentPolicy)
    (f : FallbackType) (a : Bool) (c : Option Channel) (b : Bool) (K : List Effect) :
    ∃ L, CheckLoadPolicy env
          { y with mFallbackType := f, mActivated := a, mChannel := c, mIsStopping := b, log := K }
          cp
        = ({ y with mFallbackType := f, mActivated := a, mChannel := c, mIsStopping := b,
                    log := K ++ L }, (CheckLoadPolicy env y cp).2)
      ∧ (CheckLoadPolicy env y cp).1 = { y with log := y.log ++ L }
      ∧ L.countP Effect.isStateNotification = 0 ∧ L.countP Effect.isChannelOpen = 0 := by
  rcases y with ⟨a1, a2, a3, a4, a5, a6, a7, a8, a9, a10, a11, a12, a13, a14, a15, a16, a17,
    a18, a19, a20, a21, a22, a23⟩
  unfold CheckLoadPolicy
  simp only [hq.eq]
  cases a13 with
  | none => exact ⟨[], by simp, by simp, rfl, rfl⟩
  | some u =>
    simp only []
    cases env.contentLoadPolicy u a11 with
    | none => exact ⟨[.checkLoadPolicy], rfl, rfl, rfl, rfl⟩
    | some d => exact ⟨[.checkLoadPolicy], rfl, rfl, rfl, rfl⟩

theorem CheckProcessPolicy_replay {env : Env} (hq : env.quiet) (y : State) (cp : ContentPolicy)
    (f : FallbackType) (a : Bool) (c : Option Channel) (b : Bool) (K : List Effect) :
    ∃ L, CheckProcessPolicy env
          { y with mFallbackType := f, mActivated := a, mChannel := c, mIsStopping := b, log := K }
          cp
        = ({ y with mFallbackType := f, mActivated := a, mChannel := c, mIsStopping := b,
                    log := K ++ L }, (CheckProcessPolicy env y cp).2)
      ∧ (CheckProcessPolicy env y cp).1 = { y with log := y.log ++ L }
      ∧ L.countP Effect.isStateNotification = 0 ∧ L.countP Effect.isChannelOpen = 0 := by
  rcases y with ⟨a1, a2, a3, a4, a5, a6, a7, a8, a9, a10, a11, a12, a13, a14, a15, a16, a17,
    a18, a19, a20, a21, a22, a23⟩
  unfold CheckProcessPolicy
  simp only [hq.eq]
  by_cases ht : a1 = .eType_Image ∨ a1 = .eType_Document ∨ a1 = .eType_Plugin
  · simp only [ht, if_true]
    cases env.contentProcessPolicy a1 (if a13.isSome = true then a13 else a15) a11 with
    | none => exact ⟨[.checkProcessPolicy a1], rfl, rfl, rfl, rfl⟩
    | some d => exact ⟨[.checkProcessPolicy a1], rfl, rfl, rfl, rfl⟩
  · simp only [ht, if_false]
    exact ⟨[], by simp, by simp, rfl, rfl⟩

/-- The three policy calls of `LoadObject` on the same state with another
fallback type, activation flag, channel, stopping flag and log: the same
verdict, the same calls, and nothing else written. -/
theorem LoadObject_policy_replay {env : Env} (hq : env.quiet) (y : State) (f : FallbackType)
    (a : Bool) (c : Option Channel) (b : Bool) (K : List Effect) :
    ∃ L, LoadObject_policy env
          { y with mFallbackType := f, mActivated := a, mChannel := c, mIsStopping := b, log := K }
        = ({ y with mFallbackType := f, mActivated := a, mChannel := c, mIsStopping := b,
                    log := K ++ L }, (LoadObject_policy env y).2)
      ∧ (LoadObject_policy env y).1 = { y with log := y.log ++ L }
      ∧ L.countP Effect.isStateNotification = 0 ∧ L.countP Effect.isChannelOpen = 0 := by
  -- the Java codebase check
  have hJ : ∃ L v, (if env.isJavaMIMEType y.mContentType = true then
          CheckJavaCodebase env
            { y with mFallbackType := f, mActivated := a, mChannel := c, mIsStopping := b,
                     log := K }
        else
          ({ y with mFallbackType := f, mActivated := a, mChannel := c, mIsStopping := b,
                    log := K }, true))
        = ({ y with mFallbackType := f, mActivated := a, mChannel := c, mIsStopping := b,
                    log := K ++ L }, v)
      ∧ (if env.isJavaMIMEType y.mContentType = true then CheckJavaCodebase env y else (y, true))
        = ({ y with log := y.log ++ L }, v)
      ∧ L.countP Effect.isStateNotification = 0 ∧ L.countP Effect.isChannelOpen = 0 := by
    have h := CheckJavaCodebase_replay hq y f a c b K
    split_ifs
    · exact ⟨[.checkJavaCodebase], _, h.1, Prod.ext h.2 rfl, rfl, rfl⟩
    · refine ⟨[], true, ?_, ?_, rfl, rfl⟩
      · simp
      · simp
  obtain ⟨Lj, vj, hj₂, hj₁, hjn, hjo⟩ := hJ
  unfold LoadObject_policy
  simp only []
  rw [hj₂, hj₁]
  simp only []
  -- the load policy
  have hL : ∃ L v, (if (vj && y.mURI.isSome && !y.mChannelLoaded) = true then
          CheckLoadPolicy env
            { y with mFallbackType := f, mActivated := a, mChannel := c, mIsStopping := b,
                     log := K ++ Lj } .ACCEPT
        else
          ({ y with mFallbackType := f, mActivated := a, mChannel := c, mIsStopping := b,
                    log := K ++ Lj }, vj, .ACCEPT))
        = ({ y with mFallbackType := f, mActivated := a, mChannel := c, mIsStopping := b,
                    log := K ++ L }, v)
      ∧ (if (vj && y.mURI.isSome && !y.mChannelLoaded) = true then
          CheckLoadPolicy env { y with log := y.log ++ Lj } .ACCEPT
        else ({ y with log := y.log ++ Lj }, vj, .ACCEPT))
        = ({ y with log := y.log ++ L }, v)
      ∧ L.countP Effect.isStateNotification = 0 ∧ L.countP Effect.isChannelOpen = 0 := by
    obtain ⟨L, h₂, h₁, hn, ho⟩ := CheckLoadPolicy_replay hq { y with log := y.log ++ Lj } .ACCEPT
      f a c b (K ++ Lj)
    split_ifs
    · refine ⟨Lj ++ L, (CheckLoadPolicy env { y with log := y.log ++ Lj } .ACCEPT).2,
        ?_, ?_, ?_, ?_⟩
      · rw [h₂, List.append_assoc]
      · exact Prod.ext (by rw [h₁]; simp [List.append_assoc]) rfl
      · rw [List.countP_append, hjn, hn]
      · rw [List.countP_append, hjo, ho]
    · exact ⟨Lj, _, rfl, rfl, hjn, hjo⟩
  obtain ⟨Ll, vl, hl₂, hl₁, hln, hlo⟩ := hL
  rw [hl₂, hl₁]
  simp only []
  -- the process policy
  obtain ⟨L, h₂, h₁, hn, ho⟩ := CheckProcessPolicy_replay hq { y with log := y.log ++ Ll } vl.2
    f a c b (K ++ Ll)
  split_ifs
  · refine ⟨Ll ++ L, ?_, ?_, ?_, ?_⟩
    · rw [h₂, List.append_assoc]
    · rw [h₁]
      simp [List.append_assoc]
    · rw [List.countP_append, hln, hn]
    · rw [List.countP_append, hlo, ho]
  · exact ⟨Ll, rfl, rfl, hln, hlo⟩

theorem LoadObject_security_of_null (env : Env) (y : State) (ctx : LoadCtx)
    (h : y.mType = .eType_Null) :
    LoadObject_security env y ctx = LoadObject_gate env y ctx := by
  unfold LoadObject_security
  rw [if_neg (not_not.mpr h)]

/-- The block "Security checks" of `LoadObject` when the policy calls leave
`mIsLoading` set: the load goes on with the type, or with `eType_Null` and the
reason of the denial. -/
theorem LoadObject_security_eq (env : Env) (y : State) (ctx : LoadCtx) (l : List Effect)
    (ht : y.mType ≠ .eType_Null) (hl : y.mIsLoading = true)
    (hL : (LoadObject_policy env y).1 = { y with log := l }) :
    LoadObject_security env y ctx
      = if (LoadObject_policy env y).2.1 = true then LoadObject_gate env { y with log := l } ctx
        else
          LoadObject_gate env { y with mType := .eType_Null, log := l }
            { ctx with fallbackType :=
                if (LoadObject_policy env y).2.2 = .REJECT_TYPE then .eFallbackUserDisabled
                else .eFallbackSuppressed } := by
  unfold LoadObject_security
  rw [if_pos ht]
  simp only [hL, hl, Bool.not_true, Bool.false_eq_true, if_false]
  cases (LoadObject_policy env y).2.1 <;> simp

/-- `LoadObject` from the security checks on, on a state with nothing loaded,
no pending event and no loaded channel, of a type other than `eType_Image` and
`eType_Document`, where it ends with `eType_Null`: but for the type, the
fallback type, the activation flag, the channel and the log the state is left
as it is; and the same blocks run again on what they left (whatever the
stopping flag and the log), with the same fallback reason and the old type and
state being those left, leave the same again, notify nothing and open no
channel. -/
theorem LoadObject_security_replay {env : Env} (hq : env.quiet) (y : State) (ctx : LoadCtx)
    (hl : y.mIsLoading = true) (hfl : y.mFrameLoader = none) (hio : y.mInstanceOwner = none)
    (hp₁ : y.mPendingInstantiateEvent = none) (hp₂ : y.mPendingCheckPluginStopEvent = none)
    (hcl : y.mChannelLoaded = false)
    (hty : y.mType ≠ .eType_Image ∧ y.mType ≠ .eType_Document)
    (hX : (LoadObject_security env y ctx).mType = .eType_Null) :
    ∃ f a c l, LoadObject_security env y ctx
        = { y with mType := .eType_Null, mFallbackType := f, mActivated := a, mChannel := c,
                   log := l }
      ∧ (c = none ∨ c = y.mChannel)
      ∧ ∀ (b : Bool) (K : List Effect) (ctx' : LoadCtx),
          ctx'.fallbackType = ctx.fallbackType → ctx'.oldType = .eType_Null →
          ctx'.oldState = ObjectState env { y with mType := .eType_Null, mFallbackType := f } →
          ∃ L', LoadObject_security env
                { y with mFallbackType := f, mActivated := a, mChannel := c, mIsStopping := b,
                         log := K } ctx'
              = { y with mType := .eType_Null, mFallbackType := f, mActivated := a, mChannel := c,
                         mIsStopping := b, log := K ++ L' }
            ∧ L'.countP Effect.isStateNotification = 0 ∧ L'.countP Effect.isChannelOpen = 0 := by
  by_cases ht : y.mType = .eType_Null
  · rw [LoadObject_security_of_null env y ctx ht] at hX ⊢
    obtain ⟨f, a, c, l, hform, hc, hre⟩ := LoadObject_gate_replay hq y ctx hl hfl hio hp₁ hp₂
      hcl hty hX
    refine ⟨f, a, c, l, hform, hc, ?_⟩
    intro b K ctx' h₁ h₂ h₃
    rw [LoadObject_security_of_null env
      { y with mFallbackType := f, mActivated := a, mChannel := c, mIsStopping := b, log := K }
      ctx' ht]
    exact hre b K ctx' h₁ h₂ h₃
  · obtain ⟨L₁, hL₁⟩ := LoadObject_policy_log hq y
    rw [LoadObject_security_eq env y ctx _ ht hl hL₁] at hX ⊢
    by_cases hv : (LoadObject_policy env y).2.1 = true
    · rw [if_pos hv] at hX ⊢
      obtain ⟨f, a, c, l, hform, hc, hre⟩ := LoadObject_gate_replay hq
        { y with log := y.log ++ L₁ } ctx hl hfl hio hp₁ hp₂ hcl hty hX
      refine ⟨f, a, c, l, hform, hc, ?_⟩
      intro b K ctx' h₁ h₂ h₃
      obtain ⟨L₂, hpol, -, hn₂, ho₂⟩ := LoadObject_policy_replay hq y f a c b K
      rw [LoadObject_security_eq env
        { y with mFallbackType := f, mActivated := a, mChannel := c, mIsStopping := b, log := K }
        ctx' (K ++ L₂) ht hl (by rw [hpol]), hpol, if_pos hv]
      obtain ⟨L', hL', hn, ho⟩ := hre b (K ++ L₂) ctx' h₁ h₂ h₃
      refine ⟨L₂ ++ L', ?_, ?_, ?_⟩
      · rw [← List.append_assoc]
        exact hL'
      · rw [List.countP_append, hn₂, hn]
      · rw [List.countP_append, ho₂, ho]
    · rw [if_neg hv] at hX ⊢
      obtain ⟨f, a, c, l, hform, hc, hre⟩ := LoadObject_gate_replay hq
        { y with mType := .eType_Null, log := y.log ++ L₁ }
        { ctx with fallbackType :=
            if (LoadObject_policy env y).2.2 = .REJECT_TYPE then .eFallbackUserDisabled
            else .eFallbackSuppressed }
        hl hfl hio hp₁ hp₂ hcl ⟨by simp, by simp⟩ hX
      refine ⟨f, a, c, l, hform, hc, ?_⟩
      intro b K ctx' h₁ h₂ h₃
      obtain ⟨L₂, hpol, -, hn₂, ho₂⟩ := LoadObject_policy_replay hq y f a c b K
      rw [LoadObject_security_eq env
        { y with mFallbackType := f, mActivated := a, mChannel := c, mIsStopping := b, log := K }
        ctx' (K ++ L₂) ht hl (by rw [hpol]), hpol, if_neg hv]
      obtain ⟨L', hL', hn, ho⟩ := hre b (K ++ L₂)
        { ctx' with fallbackType :=
            if (LoadObject_policy env y).2.2 = .REJECT_TYPE then .eFallbackUserDisabled
            else .eFallbackSuppressed } rfl h₂ h₃
      refine ⟨L₂ ++ L', ?_, ?_, ?_⟩
      · rw [← List.append_assoc]
        exact hL'
      · rw [List.countP_append, hn₂, hn]
      · rw [List.countP_append, ho₂, ho]

/-! ## Runs without nested entries: the block on the channel -/

theorem CloseChannel_flags {env : Env} (hq : env.quiet) (s : State) :
    (CloseChannel env s).mInstantiating = s.mInstantiating
    ∧ (CloseChannel env s).mScriptRequested = s.mScriptRequested := by
  unfold CloseChannel
  simp only [hq.eq]
  split
  · exact ⟨rfl, rfl⟩
  · split <;> exact ⟨rfl, rfl⟩

theorem DoStopPlugin_flags {env : Env} (hq : env.quiet) (s : State) (o : Nat) (d f : Bool) :
    (DoStopPlugin env s o d f).mInstantiating = s.mInstantiating
    ∧ (DoStopPlugin env s o d f).mScriptRequested = s.mScriptRequested := by
  unfold DoStopPlugin
  simp only [hq.eq]
  split_ifs <;> exact ⟨rfl, rfl⟩

theorem StopPluginInstance_flags {env : Env} (hq : env.quiet) (s : State) :
    (StopPluginInstance env s).mInstantiating = false
    ∧ (StopPluginInstance env s).mScriptRequested = s.mScriptRequested := by
  have htail : ∀ s₂ : State, s₂.mInstantiating = false →
      s₂.mScriptRequested = s.mScriptRequested →
      (match s₂.mInstanceOwner with
        | none => s₂
        | some owner =>
          DoStopPlugin env { s₂.emit (.ownerSetFrame owner false) with mInstanceOwner := none }
            owner
            (env.xpWin && env.ownerHasInstance
              && decide (env.instanceMIMEType = some "audio/x-pn-realaudio-plugin"))
            false).mInstantiating = false
      ∧ (match s₂.mInstanceOwner with
        | none => s₂
        | some owner =>
          DoStopPlugin env { s₂.emit (.ownerSetFrame owner false) with mInstanceOwner := none }
            owner
            (env.xpWin && env.ownerHasInstance
              && decide (env.instanceMIMEType = some "audio/x-pn-realaudio-plugin"))
            false).mScriptRequested = s.mScriptRequested := by
    intro s₂ h₁ h₂
    split
    · exact ⟨h₁, h₂⟩
    · exact ⟨(DoStopPlugin_flags hq _ _ _ _).1.trans h₁,
        (DoStopPlugin_flags hq _ _ _ _).2.trans h₂⟩
  unfold StopPluginInstance
  dsimp only
  split_ifs
  · exact ⟨rfl, rfl⟩
  · exact htail _ ((CloseChannel_flags hq _).1.trans rfl) ((CloseChannel_flags hq _).2.trans rfl)
  · exact htail _ rfl rfl

/-- In a run without nested entries `UnloadObject` leaves `mInstantiating`
and `mScriptRequested` cleared. -/
theorem UnloadObject_flags {env : Env} (hq : env.quiet) (s : State) (r : Bool) :
    (UnloadObject env s r).mInstantiating = false
    ∧ (UnloadObject env s r).mScriptRequested = false := by
  unfold UnloadObject
  refine ⟨(StopPluginInstance_flags hq _).1, (StopPluginInstance_flags hq _).2.trans ?_⟩
  simp only []
  split_ifs <;> rfl

/-- With no frame loader and no instance owner `UnloadObject(false)` cancels
the image requests, tears down the prototype chain and clears the flags and
the pending events. -/
theorem UnloadObject_bare (env : Env) (u : State) (hfl : u.mFrameLoader = none)
    (hio : u.mInstanceOwner = none) :
    UnloadObject env u false
      = { u with mInstantiating := false, mScriptRequested := false, mIsStopping := false,
                 mPendingInstantiateEvent := none, mPendingCheckPluginStopEvent := none,
                 log := u.log ++ [.cancelImageRequests, .teardownProtoChain] } := by
  rcases u with ⟨a1, a2, a3, a4, a5, a6, a7, a8, a9, a10, a11, a12, a13, a14, a15, a16, a17,
    a18, a19, a20, a21, a22, a23⟩
  simp only at hfl hio
  subst hfl
  subst hio
  simp [UnloadObject, destroyFrameLoader, StopPluginInstance, State.emit]

/-- In a run without nested entries, where `LoadObject` goes on after the
block on the channel: nothing is loaded, no event is pending, the flags are
cleared, the type and the parameters are those the block found, the channel is
marked as not loaded when the channel parameters changed, and with
`eType_Loading` there is no channel. -/
theorem LoadObject_channel_goesOn {env : Env} (hq : env.quiet) (y x : State) (ctx : LoadCtx)
    (h : LoadObject_channel env y ctx = .goesOn x) :
    x.mFrameLoader = none ∧ x.mInstanceOwner = none ∧ x.mPendingInstantiateEvent = none
    ∧ x.mPendingCheckPluginStopEvent = none
    ∧ x.mInstantiating = false ∧ x.mScriptRequested = false
    ∧ x.mType = y.mType ∧ x.params = y.params
    ∧ x.mChannelLoaded = (if ctx.stateChange.eParamChannelChanged = true then false
        else y.mChannelLoaded)
    ∧ (x.mType = .eType_Loading → x.mChannel = none) := by
  obtain ⟨s1, s2, s3, s4⟩ := LoadObject_channel_sane hq y x ctx h
  have hf := UnloadObject_flags hq y false
  have hcf := CloseChannel_flags hq (UnloadObject env y false)
  have hty : (UnloadObject env y false).mType = y.mType :=
    congrArg Res.ty (UnloadObject_res hq y false)
  have hpar := LoadObject_channel_params hq y ctx
  rw [h] at hpar
  refine ⟨s1, s2, s3, s4, ?_⟩
  unfold LoadObject_channel at h
  simp only [] at h
  split_ifs at h with h1 h2 h3 h4 h5
  · cases h
    exact ⟨hcf.1.trans hf.1, hcf.2.trans hf.2, (CloseChannel_mType hq _).trans hty, hpar,
      by simp [h2], fun _ => CloseChannel_mChannel hq _⟩
  · cases h
    exact ⟨hcf.1.trans hf.1, hcf.2.trans hf.2, (CloseChannel_mType hq _).trans hty, hpar,
      by simp [h2, hq], fun _ => CloseChannel_mChannel hq _⟩
  · cases h
    refine ⟨hf.1, hf.2, hty, hpar, by simp [h2, hq], fun hl => ?_⟩
    simp only [hl, decide_True, Bool.true_and] at h4
    simpa using h4

/-- In a run without nested entries that begins with `mIsLoading` set, where
`LoadObject` returns from the block on the channel: the channel parameters did
not change, and the type, the parameters and `mChannelLoaded` are those the
block found. -/
theorem LoadObject_channel_returned {env : Env} (hq : env.quiet) (y t : State) (ctx : LoadCtx)
    (hl : y.mIsLoading = true) (h : LoadObject_channel env y ctx = .returned t) :
    ctx.stateChange.eParamChannelChanged = false
    ∧ t.mType = y.mType ∧ t.params = y.params ∧ t.mChannelLoaded = y.mChannelLoaded := by
  have hty : (UnloadObject env y false).mType = y.mType :=
    congrArg Res.ty (UnloadObject_res hq y false)
  have hpar := LoadObject_channel_params hq y ctx
  rw [h] at hpar
  have hl' : (UnloadObject env y false).mIsLoading = true :=
    (congrArg Params.mIsLoading (UnloadObject_params hq y)).trans hl
  unfold LoadObject_channel at h
  simp only [] at h
  split_ifs at h with h1 h2 h3 h4 h5
  · simp [hl'] at h1
  · cases h
    exact ⟨by simpa using h2, hty, hpar, by simp [hq]⟩
  · cases h
    exact ⟨by simpa using h2, hty, hpar, by simp [hq]⟩

/-! ## Runs without nested entries: from the security checks to the sanity checks -/

theorem LoadObject_play_toSanity (env : Env) (x : State) (ctx : LoadCtx) :
    ∃ t a l c, LoadObject_play env x ctx
        = LoadObject_sanity env { x with mType := t, mActivated := a, log := l } c
      ∧ (t = x.mType ∨ t = .eType_Null) := by
  obtain ⟨t, a, l, fp, hw, hcw, ht, -⟩ := LoadObject_played_replay env x ctx
  refine ⟨t, a, l, { ctx with fallbackType := fp }, ?_, ht⟩
  unfold LoadObject_play
  rw [hw, hcw]

theorem LoadObject_gate_toSanity (env : Env) (x : State) (ctx : LoadCtx) :
    ∃ t a l c, LoadObject_gate env x ctx
        = LoadObject_sanity env { x with mType := t, mActivated := a, log := l } c
      ∧ (t = x.mType ∨ t = .eType_Null) := by
  unfold LoadObject_gate
  split_ifs
  · obtain ⟨t, a, l, c, h, ht⟩ := LoadObject_play_toSanity env { x with mType := .eType_Null } ctx
    refine ⟨t, a, l, c, h, Or.inr ?_⟩
    rcases ht with ht | ht <;> exact ht
  · exact LoadObject_play_toSanity env x ctx

/-- In a run without nested entries that has `mIsLoading` set, the blocks of
`LoadObject` from the security checks to the sanity checks write the type, the
activation flag and the log only, and the type they leave is the type they
found or `eType_Null`. -/
theorem LoadObject_security_toSanity {env : Env} (hq : env.quiet) (x : State) (ctx : LoadCtx)
    (hl : x.mIsLoading = true) :
    ∃ t a l c, LoadObject_security env x ctx
        = LoadObject_sanity env { x with mType := t, mActivated := a, log := l } c
      ∧ (t = x.mType ∨ t = .eType_Null) := by
  by_cases ht : x.mType = .eType_Null
  · rw [LoadObject_security_of_null env x ctx ht]
    exact LoadObject_gate_toSanity env x ctx
  · obtain ⟨L₁, hL₁⟩ := LoadObject_policy_log hq x
    rw [LoadObject_security_eq env x ctx _ ht hl hL₁]
    by_cases hv : (LoadObject_policy env x).2.1 = true
    · rw [if_pos hv]
      exact LoadObject_gate_toSanity env { x with log := x.log ++ L₁ } ctx
    · rw [if_neg hv]
      obtain ⟨t, a, l, c, h, ht⟩ := LoadObject_gate_toSanity env
        { x with mType := .eType_Null, log := x.log ++ L₁ }
        { ctx with fallbackType :=
            if (LoadObject_policy env x).2.2 = .REJECT_TYPE then .eFallbackUserDisabled
            else .eFallbackSuppressed }
      refine ⟨t, a, l, c, h, Or.inr ?_⟩
      rcases ht with ht | ht <;> exact ht

theorem LoadObject_security_mChannelLoaded {env : Env} (hq : env.quiet) (x : State)
    (ctx : LoadCtx) (hl : x.mIsLoading = true) :
    (LoadObject_security env x ctx).mChannelLoaded = x.mChannelLoaded := by
  obtain ⟨t, a, l, c, h, -⟩ := LoadObject_security_toSanity hq x ctx hl
  rw [h, LoadObject_sanity_mChannelLoaded hq]

theorem LoadObject_security_mType {env : Env} (hq : env.quiet) (x : State)
    (ctx : LoadCtx) (hl : x.mIsLoading = true) :
    (LoadObject_security env x ctx).mType = x.mType
    ∨ (LoadObject_security env x ctx).mType = .eType_Null := by
  obtain ⟨t, a, l, c, h, ht⟩ := LoadObject_security_toSanity hq x ctx hl
  rw [h]
  exact mType_or_trans ht (LoadObject_sanity_mType hq _ c)

/-- The block on the channel on what a load that fell back has left, with the
type reset by the resolver and channel parameters that did not change: the
load goes on, with the flags and the pending events cleared as they were. -/
theorem LoadObject_channel_again (env : Env) (x : State) (f : FallbackType) (a : Bool)
    (c : Option Channel) (l : List Effect) (ctx' : LoadCtx)
    (hfl : x.mFrameLoader = none) (hio : x.mInstanceOwner = none)
    (hp₁ : x.mPendingInstantiateEvent = none) (hp₂ : x.mPendingCheckPluginStopEvent = none)
    (hi : x.mInstantiating = false) (hs : x.mScriptRequested = false)
    (hl : x.mIsLoading = true) (hcl : x.mChannelLoaded = false)
    (hty : x.mType ≠ .eType_Null) (hch : x.mType = .eType_Loading → c = none)
    (hcc : ctx'.stateChange.eParamChannelChanged = false) :
    LoadObject_channel env
        { x with mFallbackType := f, mActivated := a, mChannel := c, log := l } ctx'
      = .goesOn
          { x with mFallbackType := f, mActivated := a, mChannel := c, mIsStopping := false,
                   log := l ++ [.cancelImageRequests, .teardownProtoChain] } := by
  unfold LoadObject_channel
  rw [UnloadObject_bare env
    { x with mFallbackType := f, mActivated := a, mChannel := c, log := l } hfl hio]
  rcases x with ⟨a1, a2, a3, a4, a5, a6, a7, a8, a9, a10, a11, a12, a13, a14, a15, a16, a17,
    a18, a19, a20, a21, a22, a23⟩
  simp only at hfl hio hp₁ hp₂ hi hs hl hcl hty hch
  subst hfl hio hp₁ hp₂ hi hs hl hcl
  simp only [hcc, hty, Bool.not_true, Bool.false_eq_true, if_false, decide_False,
    Bool.false_and]
  by_cases hld : a1 = .eType_Loading
  · simp [hld, hch hld]
  · simp [hld]

/-- In a run without nested entries that begins with `mIsLoading` set,
`LoadObject` from `UnloadObject(false)` on marks the channel as not loaded when
the channel parameters changed and leaves `mChannelLoaded` otherwise, and the
type it leaves is the type it found or `eType_Null`. -/
theorem LoadObject_unload_settles {env : Env} (hq : env.quiet) (y : State) (ctx : LoadCtx)
    (hl : y.mIsLoading = true) :
    (LoadObject_unload env y ctx).mChannelLoaded
        = (if ctx.stateChange.eParamChannelChanged = true then false else y.mChannelLoaded)
    ∧ ((LoadObject_unload env y ctx).mType = y.mType
        ∨ (LoadObject_unload env y ctx).mType = .eType_Null) := by
  rcases hch : LoadObject_channel env y ctx with t | x
  · have hu : LoadObject_unload env y ctx = t := by
      unfold LoadObject_unload
      rw [hch]
    obtain ⟨hcc, hty, -, hcl⟩ := LoadObject_channel_returned hq y t ctx hl hch
    rw [hu]
    exact ⟨by rw [hcl, hcc]; simp, Or.inl hty⟩
  · have hu : LoadObject_unload env y ctx = LoadObject_security env x ctx := by
      unfold LoadObject_unload
      rw [hch]
    obtain ⟨-, -, -, -, -, -, hty, hpar, hcl, -⟩ := LoadObject_channel_goesOn hq y x ctx hch
    have hlx : x.mIsLoading = true := (congrArg Params.mIsLoading hpar).trans hl
    rw [hu, LoadObject_security_mChannelLoaded hq x ctx hlx]
    refine ⟨hcl, ?_⟩
    rw [← hty]
    exact LoadObject_security_mType hq x ctx hlx

/-- In a run without nested entries: where `LoadObject` from `UnloadObject(false)`
on, begun with a type other than `eType_Null`, `eType_Image` and
`eType_Document`, ends with `eType_Null` and a channel not loaded, the same
blocks begun again with what was left, the type being set back, the fallback
reason being the same, the channel parameters unchanged and the old type and
state being those left, leave everything but the stopping flag and the log as
it is, notify nothing and open no channel. -/
theorem LoadObject_unload_replay {env : Env} (hq : env.quiet) (y : State) (ctx : LoadCtx)
    (hl : y.mIsLoading = true)
    (hcl : (LoadObject_unload env y ctx).mChannelLoaded = false)
    (hty : y.mType ≠ .eType_Image ∧ y.mType ≠ .eType_Document) (hne : y.mType ≠ .eType_Null)
    (hX : (LoadObject_unload env y ctx).mType = .eType_Null)
    (ctx' : LoadCtx) (h₁ : ctx'.fallbackType = ctx.fallbackType)
    (h₂ : ctx'.oldType = .eType_Null)
    (h₃ : ctx'.oldState = ObjectState env (LoadObject_unload env y ctx))
    (h₄ : ctx'.stateChange.eParamChannelChanged = false) :
    ∃ L', LoadObject_unload env { LoadObject_unload env y ctx with mType := y.mType } ctx'
        = { LoadObject_unload env y ctx with
              mIsStopping := false, log := (LoadObject_unload env y ctx).log ++ L' }
      ∧ L'.countP Effect.isStateNotification = 0 ∧ L'.countP Effect.isChannelOpen = 0 := by
  rcases hch : LoadObject_channel env y ctx with t | x
  · have hu : LoadObject_unload env y ctx = t := by
      unfold LoadObject_unload
      rw [hch]
    obtain ⟨-, hty', -, -⟩ := LoadObject_channel_returned hq y t ctx hl hch
    rw [hu] at hX
    exact absurd (hty'.symm.trans hX) hne
  · have hu : LoadObject_unload env y ctx = LoadObject_security env x ctx := by
      unfold LoadObject_unload
      rw [hch]
    obtain ⟨hfl, hio, hp₁, hp₂, hi, hs, hxty, hpar, -, hchan⟩ :=
      LoadObject_channel_goesOn hq y x ctx hch
    have hlx : x.mIsLoading = true := (congrArg Params.mIsLoading hpar).trans hl
    rw [hu] at hcl hX h₃ ⊢
    rw [LoadObject_security_mChannelLoaded hq x ctx hlx] at hcl
    rw [← hxty] at hty hne ⊢
    obtain ⟨f, a, c, l, hform, hc, hre⟩ := LoadObject_security_replay hq x ctx hlx hfl hio hp₁
      hp₂ hcl hty hX
    rw [hform] at h₃ ⊢
    have hc' : x.mType = .eType_Loading → c = none := by
      intro h
      rcases hc with hc | hc
      · exact hc
      · exact hc.trans (hchan h)
    have hagain := LoadObject_channel_again env x f a c l ctx' hfl hio hp₁ hp₂ hi hs hlx hcl hne
      hc' h₄
    obtain ⟨L', hL', hn, ho⟩ := hre false (l ++ [.cancelImageRequests, .teardownProtoChain]) ctx'
      h₁ h₂ (h₃.trans (ObjectState_congr _ _ _ rfl rfl))
    refine ⟨[.cancelImageRequests, .teardownProtoChain] ++ L', ?_, ?_, ?_⟩
    · unfold LoadObject_unload
      rw [show ({ ({ x with mType := .eType_Null, mFallbackType := f, mActivated := a,
                            mChannel := c, log := l } : State) with mType := x.mType } : State)
            = { x with mFallbackType := f, mActivated := a, mChannel := c, log := l } from rfl,
        hagain]
      simp only []
      rw [hL', List.append_assoc]
    · rw [List.countP_append, hn]
      rfl
    · rw [List.countP_append, ho]
      rfl

/-! ## Theorems: `LoadObject` twice -/

/-- What the entry of `LoadObject` leaves when the guards let it through. The
original content type and URI and the base URI are the resolved ones. Where no
channel is loaded, or the load goes on with changed channel parameters, the
type, the URI and (for a type other than `eType_Loading`) the content type are
those that the attributes resolve to without a channel, and the fallback
reason of the load is Alternate unless the attributes resolve to `eType_Null`.
Where a channel is loaded and the channel parameters did not change, the type
is not `eType_Loading`. -/
theorem LoadObject_entry_facts (env : Env) (s : State) (n f : Bool) (c : Option Nat)
    (hdoc : env.inActiveDocument = true)
    (himg : (env.isBeingUsedAsImage || env.isLoadedAsData) = false) :
    (LoadObject_entry env s n f c).1.mOriginalContentType = (resolved env false).newMime
    ∧ (LoadObject_entry env s n f c).1.mOriginalURI = (resolved env false).newURI
    ∧ (LoadObject_entry env s n f c).1.mBaseURI = (resolved env false).newBaseURI
    ∧ (((LoadObject_entry env s n f c).1.mChannelLoaded = false
          ∨ ∃ ctx, (LoadObject_entry env s n f c).2 = some ctx
              ∧ ctx.stateChange.eParamChannelChanged = true) →
        (LoadObject_entry env s n f c).1.mType
            = (determineFinalType env (resolved env false).stateInvalid false
                (resolved env false).newMime (resolved env false).newURI).1
        ∧ (LoadObject_entry env s n f c).1.mURI = (resolved env false).newURI
        ∧ ((determineFinalType env (resolved env false).stateInvalid false
              (resolved env false).newMime (resolved env false).newURI).1 ≠ .eType_Loading →
            (LoadObject_entry env s n f c).1.mContentType
              = (determineFinalType env (resolved env false).stateInvalid false
                  (resolved env false).newMime (resolved env false).newURI).2)
        ∧ ∀ ctx, (LoadObject_entry env s n f c).2 = some ctx →
            (determineFinalType env (resolved env false).stateInvalid false
              (resolved env false).newMime (resolved env false).newURI).1 ≠ .eType_Null →
            ctx.fallbackType = .eFallbackAlternate)
    ∧ ((LoadObject_entry env s n f c).1.mChannelLoaded = true →
        (∀ ctx, (LoadObject_entry env s n f c).2 = some ctx →
          ctx.stateChange.eParamChannelChanged = false) →
        (LoadObject_entry env s n f c).1.mType ≠ .eType_Loading) := by
  unfold LoadObject_entry UpdateObjectParameters
  simp only [hdoc, himg, Bool.not_true, Bool.false_eq_true, if_false]
  generalize (if (f && s.mChannelLoaded) = true then
      { CloseChannel env s with mChannelLoaded := false } else s) = s₁
  have hst := updateFromResolved_stores env s₁ (resolved env false)
  have hlv := updateFromResolved_leaves env s₁ (resolved env false) (resolved_java_no_uri env false)
  generalize updateFromResolved env s₁ (resolved env false) = u at hst hlv ⊢
  generalize determineFinalType env (resolved env false).stateInvalid false
    (resolved env false).newMime (resolved env false).newURI = d at hlv ⊢
  rcases u with ⟨u1, ⟨cc, sc, tc⟩⟩
  rcases d with ⟨t₀, m₀⟩
  simp only at hst hlv
  obtain ⟨hs1, hs2, hs3, hs4⟩ := hst
  obtain ⟨hl1, hl2⟩ := hlv
  rw [← hs4] at hl1 hl2
  simp only []
  by_cases hret : (!(⟨cc, sc, tc⟩ : ParameterUpdateFlags).any && !f) = true
  · rw [if_pos hret]
    have hcc : cc = false := by
      cases cc
      · rfl
      · simp [ParameterUpdateFlags.any] at hret
    subst hcc
    refine ⟨hs1, hs2, hs3, ?_, ?_⟩
    · rintro (h | ⟨ctx, h, -⟩)
      · obtain ⟨a, b, c⟩ := hl1 (Or.inl h)
        exact ⟨a, b, c, fun ctx h => by cases h⟩
      · cases h
    · intro h _
      exact hl2 h rfl
  · rw [if_neg hret]
    simp only []
    have hfield : ∀ (b : Bool),
        (if b = true then { u1 with mActivated := false } else u1).mType = u1.mType
        ∧ (if b = true then { u1 with mActivated := false } else u1).mURI = u1.mURI
        ∧ (if b = true then { u1 with mActivated := false } else u1).mContentType
            = u1.mContentType
        ∧ (if b = true then { u1 with mActivated := false } else u1).mChannelLoaded
            = u1.mChannelLoaded
        ∧ (if b = true then { u1 with mActivated := false } else u1).mOriginalContentType
            = u1.mOriginalContentType
        ∧ (if b = true then { u1 with mActivated := false } else u1).mOriginalURI
            = u1.mOriginalURI
        ∧ (if b = true then { u1 with mActivated := false } else u1).mBaseURI = u1.mBaseURI := by
      intro b
      cases b <;> exact ⟨rfl, rfl, rfl, rfl, rfl, rfl, rfl⟩
    obtain ⟨f1, f2, f3, f4, f5, f6, f7⟩ := hfield (u1.mActivated && tc)
    rw [f1, f2, f3, f4, f5, f6, f7]
    refine ⟨hs1, hs2, hs3, ?_, ?_⟩
    · intro h
      have h' : u1.mChannelLoaded = false ∨ cc = true := by
        rcases h with h | ⟨ctx, h, h'⟩
        · exact Or.inl h
        · cases h
          exact Or.inr h'
      obtain ⟨a, b, c⟩ := hl1 h'
      refine ⟨a, b, c, ?_⟩
      intro ctx hctx ht
      cases hctx
      simp only []
      rw [a, if_neg]
      exact fun hh => ht hh.1
    · intro h hc
      exact hl2 h (hc _ rfl)

theorem determineFinalType_noChannel (env : Env) (si : Bool) (m : String) (u : Option URI) :
    (determineFinalType env si false m u).1 ≠ .eType_Image
    ∧ (determineFinalType env si false m u).1 ≠ .eType_Document := by
  unfold determineFinalType
  simp only [Bool.false_eq_true, if_false]
  split_ifs <;> simp

/-- Where the guards of `LoadObject` hold it back, it leaves the object as it
is. -/
theorem LoadObject_guarded (env : Env) (s : State) (n f : Bool) (c : Option Nat)
    (h : ¬ (env.inActiveDocument = true
      ∧ (env.isBeingUsedAsImage || env.isLoadedAsData) = false)) :
    (LoadObject env s n f c).1 = s := by
  unfold LoadObject LoadObject_entry
  by_cases hdoc : env.inActiveDocument = true
  · have himg : (env.isBeingUsedAsImage || env.isLoadedAsData) = true := by
      cases hb : (env.isBeingUsedAsImage || env.isLoadedAsData)
      · exact absurd ⟨hdoc, hb⟩ h
      · rfl
    simp [hdoc, himg]
  · simp [hdoc]

/-- Where the resolver changes and reports nothing, `LoadObject` without a
forced reload leaves the object as it is. -/
theorem LoadObject_of_noChange (env : Env) (s : State) (n : Bool) (c : Option Nat)
    (h : updateFromResolved env s (resolved env false) = (s, ⟨false, false, false⟩)) :
    (LoadObject env s n false c).1 = s := by
  unfold LoadObject LoadObject_entry UpdateObjectParameters
  simp only [Bool.false_and, Bool.false_eq_true, if_false, h, ParameterUpdateFlags.any,
    Bool.or_self, Bool.not_false, Bool.and_self, if_true]
  split_ifs <;> rfl

/-- Where the guards let it through and the resolver sets a type other than
`eType_Null` on the state, reports a changed state only and changes nothing
else, `LoadObject` without a forced reload runs the load from
`UnloadObject(false)` on with that type and the fallback reason Alternate. -/
theorem LoadObject_of_typeChange (env : Env) (s : State) (n : Bool) (c : Option Nat)
    (t : ObjectType) (hdoc : env.inActiveDocument = true)
    (himg : (env.isBeingUsedAsImage || env.isLoadedAsData) = false)
    (ht : t ≠ .eType_Null)
    (h : updateFromResolved env s (resolved env false)
      = ({ s with mType := t }, ⟨false, true, false⟩)) :
    (LoadObject env s n false c).1
      = { LoadObject_unload env { s with mType := t, mIsLoading := true }
            ⟨n, false, c, ObjectState env s, s.mType, ⟨false, true, false⟩, .eFallbackAlternate⟩
          with mIsLoading := false } := by
  unfold LoadObject LoadObject_entry UpdateObjectParameters
  simp only [hdoc, himg, Bool.not_true, Bool.false_and, Bool.false_eq_true, if_false, h,
    ParameterUpdateFlags.any, Bool.or_false, Bool.false_or, Bool.and_false, Bool.and_true,
    Bool.not_false, Bool.or_true, Bool.true_or, ht, false_and]

theorem LoadObject_of_entry_none (env : Env) (s e : State) (n f : Bool) (c : Option Nat)
    (hdoc : env.inActiveDocument = true)
    (he : LoadObject_entry env s n f c = (e, none)) :
    (LoadObject env s n f c).1 = e := by
  unfold LoadObject
  simp only [hdoc, he, Bool.not_true, Bool.false_eq_true, if_false]

theorem LoadObject_of_entry_some (env : Env) (s e : State) (n f : Bool) (c : Option Nat)
    (ctx : LoadCtx) (hdoc : env.inActiveDocument = true)
    (he : LoadObject_entry env s n f c = (e, some ctx)) :
    (LoadObject env s n f c).1
      = { LoadObject_unload env { e with mIsLoading := true } ctx with mIsLoading := false } := by
  unfold LoadObject
  simp only [hdoc, he, Bool.not_true, Bool.false_eq_true, if_false]

theorem State.mIsLoading_eta (X : State) (t : ObjectType) (h : X.mIsLoading = true) :
    ({ X with mType := t, mIsLoading := true } : State) = { X with mType := t } := by
  cases X
  simp only at h
  subst h
  rfl

/-- In a run without nested entries, what a call of `LoadObject` that the
guards let through leaves. The original content type and URI and the base URI
are the resolved ones. With a loaded channel the type is not `eType_Loading`.
Without one, the URI and (for a type other than `eType_Loading`) the content
type are those that the attributes resolve to without a channel, and the type
is the one they resolve to, or it is `eType_Null` and the load run again from
`UnloadObject(false)` on with the resolved type, the fallback reason Alternate,
unchanged channel parameters and the old type and state being those left,
leaves everything but the stopping flag and the log as it is, notifies nothing
and opens no channel. -/
theorem LoadObject_left {env : Env} (hq : env.quiet) (s : State) (n f : Bool) (c : Option Nat)
    (hdoc : env.inActiveDocument = true)
    (himg : (env.isBeingUsedAsImage || env.isLoadedAsData) = false) :
    (LoadObject env s n f c).1.mOriginalContentType = (resolved env false).newMime
    ∧ (LoadObject env s n f c).1.mOriginalURI = (resolved env false).newURI
    ∧ (LoadObject env s n f c).1.mBaseURI = (resolved env false).newBaseURI
    ∧ ((LoadObject env s n f c).1.mChannelLoaded = true →
        (LoadObject env s n f c).1.mType ≠ .eType_Loading)
    ∧ ((LoadObject env s n f c).1.mChannelLoaded = false →
        (LoadObject env s n f c).1.mURI = (resolved env false).newURI
        ∧ ((determineFinalType env (resolved env false).stateInvalid false
              (resolved env false).newMime (resolved env false).newURI).1 ≠ .eType_Loading →
            (LoadObject env s n f c).1.mContentType
              = (determineFinalType env (resolved env false).stateInvalid false
                  (resolved env false).newMime (resolved env false).newURI).2)
        ∧ ((LoadObject env s n f c).1.mType
              = (determineFinalType env (resolved env false).stateInvalid false
                  (resolved env false).newMime (resolved env false).newURI).1
          ∨ ((LoadObject env s n f c).1.mType = .eType_Null
            ∧ ∀ ctx' : LoadCtx, ctx'.fallbackType = .eFallbackAlternate →
                ctx'.oldType = .eType_Null →
                ctx'.oldState = ObjectState env (LoadObject env s n f c).1 →
                ctx'.stateChange.eParamChannelChanged = false →
                ∃ L', { LoadObject_unload env
                          { (LoadObject env s n f c).1 with
                              mType := (determineFinalType env (resolved env false).stateInvalid
                                false (resolved env false).newMime (resolved env false).newURI).1,
                              mIsLoading := true } ctx'
                        with mIsLoading := false }
                    = { (LoadObject env s n f c).1 with
                          mIsStopping := false,
                          log := (LoadObject env s n f c).1.log ++ L' }
                  ∧ L'.countP Effect.isStateNotification = 0
                  ∧ L'.countP Effect.isChannelOpen = 0))) := by
  have hef := LoadObject_entry_facts env s n f c hdoc himg
  have hnc := determineFinalType_noChannel env (resolved env false).stateInvalid
    (resolved env false).newMime (resolved env false).newURI
  generalize determineFinalType env (resolved env false).stateInvalid false
    (resolved env false).newMime (resolved env false).newURI = d at hef hnc ⊢
  rcases d with ⟨t₀, m₀⟩
  simp only at hef hnc ⊢
  rcases he : LoadObject_entry env s n f c with ⟨e, _ | ctx⟩
  · rw [LoadObject_of_entry_none env s e n f c hdoc he]
    rw [he] at hef
    simp only at hef
    obtain ⟨h1, h2, h3, h4, h5⟩ := hef
    refine ⟨h1, h2, h3, fun h => h5 h (fun ctx hctx => by cases hctx), fun h => ?_⟩
    obtain ⟨a, b, c', -⟩ := h4 (Or.inl h)
    exact ⟨b, c', Or.inl a⟩
  · rw [LoadObject_of_entry_some env s e n f c ctx hdoc he]
    rw [he] at hef
    simp only at hef
    obtain ⟨h1, h2, h3, h4, h5⟩ := hef
    obtain ⟨hXcl, hXty⟩ := LoadObject_unload_settles hq { e with mIsLoading := true } ctx rfl
    have hpar := LoadObject_unload_params hq { e with mIsLoading := true } ctx
    have hrep := LoadObject_unload_replay hq { e with mIsLoading := true } ctx rfl
    generalize LoadObject_unload env { e with mIsLoading := true } ctx = X
      at hXcl hXty hpar hrep ⊢
    simp only at hXcl hXty hrep ⊢
    have hXl : X.mIsLoading = true := congrArg Params.mIsLoading hpar
    refine ⟨(congrArg Params.mOriginalContentType hpar).trans h1,
      (congrArg Params.mOriginalURI hpar).trans h2,
      (congrArg Params.mBaseURI hpar).trans h3, ?_, ?_⟩
    · intro hcl
      rw [hXcl] at hcl
      have hcc : ctx.stateChange.eParamChannelChanged = false := by
        cases hc : ctx.stateChange.eParamChannelChanged
        · rfl
        · simp [hc] at hcl
      rw [hcc] at hcl
      have hne := h5 (by simpa using hcl) (fun ctx' hctx' => by cases hctx'; exact hcc)
      rcases hXty with h | h
      · rw [h]
        exact hne
      · rw [h]
        decide
    · intro hcl
      have hcl' := hcl
      rw [hXcl] at hcl'
      have hpre : e.mChannelLoaded = false
          ∨ ∃ ctx', some ctx = some ctx' ∧ ctx'.stateChange.eParamChannelChanged = true := by
        cases hc : ctx.stateChange.eParamChannelChanged
        · left
          simpa [hc] using hcl'
        · exact Or.inr ⟨ctx, rfl, hc⟩
      obtain ⟨a, b, c', hfb⟩ := h4 hpre
      refine ⟨(congrArg Params.mURI hpar).trans b,
        fun h => (congrArg Params.mContentType hpar).trans (c' h), ?_⟩
      rcases hXty with h | h
      · exact Or.inl (h.trans a)
      · by_cases hn : t₀ = .eType_Null
        · exact Or.inl (h.trans hn.symm)
        · refine Or.inr ⟨h, ?_⟩
          intro ctx' k₁ k₂ k₃ k₄
          have hty : e.mType ≠ .eType_Image ∧ e.mType ≠ .eType_Document := by
            rw [a]
            exact hnc
          have hne : e.mType ≠ .eType_Null := by
            rw [a]
            exact hn
          obtain ⟨L', hL', hn', ho'⟩ := hrep hcl hty hne h ctx'
            (k₁.trans (hfb ctx rfl hn).symm) k₂
            (k₃.trans (ObjectState_congr _ _ _ rfl rfl)) k₄
          refine ⟨L', ?_, hn', ho'⟩
          rw [a] at hL'
          rw [show ({ ({ X with mIsLoading := false } : State) with
              mType := t₀, mIsLoading := true } : State)
              = { X with mType := t₀, mIsLoading := true } from rfl,
            State.mIsLoading_eta X t₀ hXl, hL']

theorem State.log_eta (x : State) :
    x = { x with log := x.log ++ [], mIsStopping := x.mIsStopping } := by
  cases x
  simp

theorem State.mType_eta (x : State) (t : ObjectType) (h : x.mType = t) :
    ({ x with mType := t } : State) = x := by
  cases x
  simp only at h
  subst h
  rfl

/-- Where the guards let it through and the resolver reports changed channel
parameters, `LoadObject` leaves the channel marked as not loaded. -/
theorem LoadObject_channelChanged_drops {env : Env} (hq : env.quiet) (s : State) (n : Bool)
    (c : Option Nat) (hdoc : env.inActiveDocument = true)
    (himg : (env.isBeingUsedAsImage || env.isLoadedAsData) = false)
    (hcc : (updateFromResolved env s (resolved env false)).2.eParamChannelChanged = true) :
    (LoadObject env s n false c).1.mChannelLoaded = false := by
  have hany : (updateFromResolved env s (resolved env false)).2.any = true := by
    simp [ParameterUpdateFlags.any, hcc]
  have he : LoadObject_entry env s n false c
      = ((LoadObject_entry env s n false c).1,
         some ⟨n, false, c, ObjectState env s, s.mType,
           (updateFromResolved env s (resolved env false)).2,
           (if (updateFromResolved env s (resolved env false)).1.mType = .eType_Null
              ∧ GetTypeOfContent env (updateFromResolved env s (resolved env false)).1.mContentType
                = .eType_Null then
             .eFallbackUnsupported
           else .eFallbackAlternate)⟩) := by
    unfold LoadObject_entry UpdateObjectParameters
    simp only [hdoc, himg, hany, Bool.not_true, Bool.false_and, Bool.false_eq_true, if_false]
  rw [LoadObject_of_entry_some env s _ n false c _ hdoc he]
  simp only []
  rw [(LoadObject_unload_settles hq _ _ rfl).1]
  simp only [hcc, if_true]

/-- C2, amended: in a run without nested entries, take the state that a call
of `LoadObject` (with any arguments, on any state) has left, and call
`LoadObject` again without a forced reload, with the same attributes,
capabilities and collaborator answers. Unless the guards let `LoadObject`
through and the state left has `mChannelLoaded` set while the attributes,
resolved without the channel, give a type other than `eType_Loading`, the
second call leaves every member but the log and the internal stopping flag as
it is (type, content type, URIs, fallback type, activation, channel, instance
owner, frame loader, pending events), and what it adds to the log holds no
state-change notification and no opened channel. -/
theorem LoadObject_twice_unchanged {env : Env} (hq : env.quiet) (s : State)
    (aNotify aForceLoad : Bool) (aLoadingChannel : Option Nat) (aNotify₂ : Bool)
    (aLoadingChannel₂ : Option Nat)
    (hkeep : env.inActiveDocument = true →
      (env.isBeingUsedAsImage || env.isLoadedAsData) = false →
      (LoadObject env s aNotify aForceLoad aLoadingChannel).1.mChannelLoaded = true →
      (determineFinalType env (resolved env false).stateInvalid false
        (resolved env false).newMime (resolved env false).newURI).1 = .eType_Loading) :
    ∃ L b,
      (LoadObject env (LoadObject env s aNotify aForceLoad aLoadingChannel).1 aNotify₂ false
          aLoadingChannel₂).1
        = { (LoadObject env s aNotify aForceLoad aLoadingChannel).1 with
              log := (LoadObject env s aNotify aForceLoad aLoadingChannel).1.log ++ L,
              mIsStopping := b }
      ∧ L.countP Effect.isStateNotification = 0 ∧ L.countP Effect.isChannelOpen = 0 := by
  by_cases hg : env.inActiveDocument = true
      ∧ (env.isBeingUsedAsImage || env.isLoadedAsData) = false
  swap
  · refine ⟨[], (LoadObject env s aNotify aForceLoad aLoadingChannel).1.mIsStopping, ?_, rfl,
      rfl⟩
    rw [LoadObject_guarded env _ aNotify₂ false aLoadingChannel₂ hg]
    exact State.log_eta _
  obtain ⟨hdoc, himg⟩ := hg
  replace hkeep := hkeep hdoc himg
  obtain ⟨h1, h2, h3, h4, h5⟩ :=
    LoadObject_left hq s aNotify aForceLoad aLoadingChannel hdoc himg
  generalize (LoadObject env s aNotify aForceLoad aLoadingChannel).1 = s' at hkeep h1 h2 h3 h4 h5 ⊢
  obtain ⟨a1, a2, -⟩ := updateFromResolved_again env s' (resolved env false) h1 h2 h3
  rcases Bool.eq_false_or_eq_true s'.mChannelLoaded with hcl | hcl
  · -- a loaded channel: the resolver keeps what the channel gave
    refine ⟨[], s'.mIsStopping, ?_, rfl, rfl⟩
    rw [LoadObject_of_noChange env s' aNotify₂ aLoadingChannel₂ (a2 hcl (h4 hcl) (hkeep hcl))]
    exact State.log_eta _
  · obtain ⟨h6, h7, h8⟩ := h5 hcl
    have hu := a1 hcl h6 h7
    by_cases hty : s'.mType
        = (determineFinalType env (resolved env false).stateInvalid false
            (resolved env false).newMime (resolved env false).newURI).1
    · -- the type is the resolved one: the resolver reports nothing
      refine ⟨[], s'.mIsStopping, ?_, rfl, rfl⟩
      rw [LoadObject_of_noChange env s' aNotify₂ aLoadingChannel₂]
      · exact State.log_eta _
      · rw [hu, State.mType_eta s' _ hty]
        simp [hty]
    · -- the load fell back: it runs again and falls back again
      rcases h8 with h8 | ⟨hnull, hrp⟩
      · exact absurd h8 hty
      · have hne : (determineFinalType env (resolved env false).stateInvalid false
            (resolved env false).newMime (resolved env false).newURI).1 ≠ .eType_Null := by
          intro h
          exact hty (hnull.trans h.symm)
        have hu' : updateFromResolved env s' (resolved env false)
            = ({ s' with mType := (determineFinalType env (resolved env false).stateInvalid false
                  (resolved env false).newMime (resolved env false).newURI).1 },
               ⟨false, true, false⟩) := by
          rw [hu]
          simp [Ne.symm hty]
        rw [LoadObject_of_typeChange env s' aNotify₂ aLoadingChannel₂ _ hdoc himg hne hu']
        obtain ⟨L', hL', hn, ho⟩ := hrp
          ⟨aNotify₂, false, aLoadingChannel₂, ObjectState env s', s'.mType,
            ⟨false, true, false⟩, .eFallbackAlternate⟩ rfl hnull rfl rfl
        exact ⟨L', false, hL', hn, ho⟩

/-- Witness for C2 amended: the `<object>` with an image type and a data URI,
when its channel has started. `OnStartRequest` marks the channel as loaded and
calls `LoadObject` with it; the call leaves an image fed by the channel, the
channel marked as loaded, and the attributes alone resolve to `eType_Loading`.
A second `LoadObject` leaves the image and the channel as they are. -/
theorem LoadObject_twice_unchanged_witness :
    (OnStartRequest imageObjectEnv imageLoading (some 0)).1
      = (LoadObject imageObjectEnv { imageLoading with mChannelLoaded := true } true false
          (some 0)).1
    ∧ (LoadObject imageObjectEnv { imageLoading with mChannelLoaded := true } true false
        (some 0)).1.mType = .eType_Image
    ∧ (LoadObject imageObjectEnv { imageLoading with mChannelLoaded := true } true false
        (some 0)).1.mChannelLoaded = true
    ∧ (LoadObject imageObjectEnv { imageLoading with mChannelLoaded := true } true false
        (some 0)).1.mChannel = some imageChannel
    ∧ ∃ L b,
        (LoadObject imageObjectEnv
            (LoadObject imageObjectEnv { imageLoading with mChannelLoaded := true } true false
              (some 0)).1 true false none).1
          = { (LoadObject imageObjectEnv { imageLoading with mChannelLoaded := true } true false
                (some 0)).1 with
                log := (LoadObject imageObjectEnv { imageLoading with mChannelLoaded := true }
                  true false (some 0)).1.log ++ L,
                mIsStopping := b }
        ∧ L.countP Effect.isStateNotification = 0 ∧ L.countP Effect.isChannelOpen = 0 :=
  ⟨by decide, by decide, by decide, by decide,
    LoadObject_twice_unchanged (fun _ _ => rfl) { imageLoading with mChannelLoaded := true } true
      false (some 0) true none (by decide)⟩

/-- The exception made for a loaded channel is exact: in a run without nested
entries, where the guards let `LoadObject` through and the state it left has
`mChannelLoaded` set while the attributes, resolved without the channel, give
a type other than `eType_Loading`, a second `LoadObject` without a forced
reload does change the object: it leaves `mChannelLoaded` cleared. -/
theorem LoadObject_twice_channel_dropped {env : Env} (hq : env.quiet) (s : State)
    (aNotify aForceLoad : Bool) (aLoadingChannel : Option Nat) (aNotify₂ : Bool)
    (aLoadingChannel₂ : Option Nat)
    (hdoc : env.inActiveDocument = true)
    (himg : (env.isBeingUsedAsImage || env.isLoadedAsData) = false)
    (hcl : (LoadObject env s aNotify aForceLoad aLoadingChannel).1.mChannelLoaded = true)
    (hty : (determineFinalType env (resolved env false).stateInvalid false
        (resolved env false).newMime (resolved env false).newURI).1 ≠ .eType_Loading) :
    (LoadObject env (LoadObject env s aNotify aForceLoad aLoadingChannel).1 aNotify₂ false
        aLoadingChannel₂).1.mChannelLoaded = false := by
  obtain ⟨h1, h2, h3, h4, -⟩ :=
    LoadObject_left hq s aNotify aForceLoad aLoadingChannel hdoc himg
  generalize (LoadObject env s aNotify aForceLoad aLoadingChannel).1 = s' at hcl h1 h2 h3 h4 ⊢
  obtain ⟨-, -, a3⟩ := updateFromResolved_again env s' (resolved env false) h1 h2 h3
  exact LoadObject_channelChanged_drops hq s' aNotify₂ aLoadingChannel₂ hdoc himg
    (a3 hcl (h4 hcl) hty)

/-- A load that falls back, twice: on the page whose content policy rejects
the load the first `LoadObject` ends with `eType_Null`, and the resolver still
gives `eType_Loading`; the second call runs the load again, asks the policy
again and falls back again. The object is as the first call left it; the
calls added to the log are `CancelImageRequests`, the teardown of the
prototype chain, the load policy check and `UpdateState`. -/
theorem LoadObject_twice_rejected :
    (LoadObject blockedObjectEnv State.init true false none).1.mType = .eType_Null
    ∧ (LoadObject blockedObjectEnv (LoadObject blockedObjectEnv State.init true false none).1
        true false none).1
      = { (LoadObject blockedObjectEnv State.init true false none).1 with
            log := (LoadObject blockedObjectEnv State.init true false none).1.log
              ++ [.cancelImageRequests, .teardownProtoChain, .checkLoadPolicy, .updateState] } := by
  decide

/-! ## Reachable states: a plugin has a content type -/

theorem GetTypeOfContent_plugin (env : Env) (m : String)
    (h : GetTypeOfContent env m = .eType_Plugin) : m ≠ "" := by
  intro hm
  subst hm
  simp [GetTypeOfContent] at h

theorem determineFinalType_plugin (env : Env) (si nc : Bool) (m : String) (u : Option URI)
    (h : (determineFinalType env si nc m u).1 = .eType_Plugin) :
    (determineFinalType env si nc m u).2 ≠ "" := by
  unfold determineFinalType at h ⊢
  split_ifs at h ⊢ with h1 h2 h3 h4 <;> simp only [] at h ⊢ <;>
    first
      | exact GetTypeOfContent_plugin env m h
      | (simp only [Bool.and_eq_true, decide_eq_true_eq] at h3
         exact GetTypeOfContent_plugin env m h3.2)

/-- A pass of the resolver that finds a content type with `eType_Plugin`, or
a type other than `eType_Plugin`, leaves a content type with `eType_Plugin`. -/
theorem updateFromResolved_plugin (env : Env) (s : State) (r : Resolved)
    (h : s.mType = .eType_Plugin → s.mContentType ≠ "") :
    (updateFromResolved env s r).1.mType = .eType_Plugin →
    (updateFromResolved env s r).1.mContentType ≠ "" := by
  unfold updateFromResolved
  generalize channelInformed env s r = ci
  rcases ci with ⟨cc, uc, nc, nm, nu, si, ch, lg⟩
  simp only []
  have hd := determineFinalType_plugin env si nc nm nu
  generalize determineFinalType env si nc nm nu = d at hd ⊢
  rcases d with ⟨t₀, m₁⟩
  simp only at hd ⊢
  cases uc <;> cases nc <;> by_cases hl : t₀ = .eType_Loading <;>
    by_cases hm : s.mContentType = m₁ <;>
    simp [hl, hm] <;>
    intros <;> (try split_ifs at *) <;> simp_all

theorem LoadObject_entry_plugin {env : Env} (hq : env.quiet) (s : State) (n f : Bool)
    (c : Option Nat) (h : s.mType = .eType_Plugin → s.mContentType ≠ "") :
    (LoadObject_entry env s n f c).1.mType = .eType_Plugin →
    (LoadObject_entry env s n f c).1.mContentType ≠ "" := by
  have h₁ : (if (f && s.mChannelLoaded) = true then
        ({ CloseChannel env s with mChannelLoaded := false } : State) else s).mType
        = .eType_Plugin →
      (if (f && s.mChannelLoaded) = true then
        ({ CloseChannel env s with mChannelLoaded := false } : State) else s).mContentType
        ≠ "" := by
    split_ifs
    · intro ht
      have hc : (CloseChannel env s).mContentType = s.mContentType :=
        congrArg Params.mContentType (CloseChannel_params hq s)
      have ht' : (CloseChannel env s).mType = s.mType := CloseChannel_mType hq s
      exact hc ▸ h (ht'.symm.trans ht)
    · exact h
  unfold LoadObject_entry UpdateObjectParameters
  simp only []
  generalize (if (f && s.mChannelLoaded) = true then
      ({ CloseChannel env s with mChannelLoaded := false } : State) else s) = s₁ at h₁ ⊢
  have h₂ := updateFromResolved_plugin env s₁ (resolved env false) h₁
  split_ifs <;> first | exact h | exact h₂

/-- In a run without nested entries `LoadObject` keeps a content type with
`eType_Plugin`. -/
theorem LoadObject_plugin {env : Env} (hq : env.quiet) (s : State) (n f : Bool)
    (c : Option Nat) (h : s.mType = .eType_Plugin → s.mContentType ≠ "") :
    (LoadObject env s n f c).1.mType = .eType_Plugin →
    (LoadObject env s n f c).1.mContentType ≠ "" := by
  have he := LoadObject_entry_plugin hq s n f c h
  unfold LoadObject
  split_ifs
  · exact h
  · rcases hent : LoadObject_entry env s n f c with ⟨e, _ | ctx⟩
    · rw [hent] at he
      exact he
    · rw [hent] at he
      simp only at he ⊢
      obtain ⟨-, hty⟩ := LoadObject_unload_settles hq { e with mIsLoading := true } ctx rfl
      have hpar := LoadObject_unload_params hq { e with mIsLoading := true } ctx
      intro ht
      rw [show (LoadObject_unload env { e with mIsLoading := true } ctx).mContentType
        = e.mContentType from congrArg Params.mContentType hpar]
      rcases hty with h' | h'
      · exact he (h'.symm.trans ht)
      · rw [h'] at ht
        cases ht

theorem OnStartRequest_plugin {env : Env} (hq : env.quiet) (s : State) (rq : Option Nat)
    (h : s.mType = .eType_Plugin → s.mContentType ≠ "") :
    (OnStartRequest env s rq).1.mType = .eType_Plugin →
    (OnStartRequest env s rq).1.mContentType ≠ "" := by
  have hm : (MakePluginListener env s).1.mType = s.mType :=
    congrArg Res.ty (MakePluginListener_res env s)
  have hmc : (MakePluginListener env s).1.mContentType = s.mContentType :=
    congrArg Params.mContentType (MakePluginListener_params env s)
  have hf : (finalListenerOnStart env (MakePluginListener env s).1 rq).1.mType = s.mType :=
    (congrArg Res.ty (finalListenerOnStart_res hq _ rq)).trans hm
  have hfc : (finalListenerOnStart env (MakePluginListener env s).1 rq).1.mContentType
      = s.mContentType :=
    (congrArg Params.mContentType (finalListenerOnStart_params hq _ rq)).trans hmc
  unfold OnStartRequest
  simp only []
  split_ifs <;>
    first
      | exact h
      | (rw [hf, hfc]
         exact h)
      | (rw [hm, hmc]
         exact h)
      | exact LoadObject_plugin hq _ _ _ _ h

theorem PluginCrashed_mType {env : Env} (hq : env.quiet) (s : State) (a b c d : String)
    (e : Bool) : (PluginCrashed env s a b c d e).1.mType = .eType_Null := by
  unfold PluginCrashed
  simp only []
  split_ifs
  · exact LoadFallback_mType hq _ _ _
  · exact LoadFallback_mType hq _ _ _

/-- In every reachable state of type `eType_Plugin` the content type is not
empty: the resolver sets this type only for a content type that
`GetTypeOfContent` gives to a plugin, and `GetTypeOfContent` gives the empty
type to none. -/
theorem Reachable.plugin_contentType {s : State} (h : Reachable s) :
    s.mType = .eType_Plugin → s.mContentType ≠ "" := by
  induction h with
  | init =>
    intro h
    cases h
  | loadObject env hq s n f c _ ih => exact LoadObject_plugin hq s n f c ih
  | initializeFromChannel env s ch _ ih =>
    unfold InitializeFromChannel
    split_ifs
    · exact ih
    · intro h
      cases h
  | onStartRequest env hq s rq _ ih => exact OnStartRequest_plugin hq s rq ih
  | onStopRequest env hq s cc rq st _ ih =>
    unfold OnStopRequest
    simp only []
    split_ifs
    · exact ih
    · exact ih
    · split
      · simp only [hq.eq]
        exact ih
      · exact ih
  | asyncOnChannelRedirect s o nw _ ih =>
    unfold AsyncOnChannelRedirect
    split_ifs <;> exact ih
  | instantiatePluginInstance env hq s b _ ih =>
    rw [InstantiatePluginInstance_mType hq s b,
      show (InstantiatePluginInstance env s b).1.mContentType = s.mContentType from
        congrArg Params.mContentType (InstantiatePluginInstance_params hq s b)]
    exact ih
  | stopPluginInstance env hq s _ ih =>
    rw [show (StopPluginInstance env s).mType = s.mType from
        congrArg Res.ty (StopPluginInstance_res hq s),
      show (StopPluginInstance env s).mContentType = s.mContentType from
        congrArg Params.mContentType (StopPluginInstance_params hq s)]
    exact ih
  | pluginCrashed env hq s a b c d e _ _ =>
    intro h
    rw [PluginCrashed_mType hq] at h
    cases h
  | unloadObject env hq s r _ ih =>
    cases r
    · rw [show (UnloadObject env s false).mType = s.mType from
          congrArg Res.ty (UnloadObject_res hq s false),
        show (UnloadObject env s false).mContentType = s.mContentType from
          congrArg Params.mContentType (UnloadObject_params hq s)]
      exact ih
    · intro h
      rw [show (UnloadObject env s true).mType = .eType_Loading from
          congrArg Res.ty (UnloadObject_res hq s true)] at h
      cases h

/-! ## Theorems: a crashed plugin, on a reachable state -/

theorem streamedPluginRunning_reachable : Reachable streamedPluginRunning :=
  Reachable.onStartRequest streamedPluginEnv (fun _ _ => rfl) streamedPluginWaiting (some 0)
    (Reachable.loadObject streamedPluginEnv (fun _ _ => rfl) State.init true false none
      Reachable.init)

/-- C22, amended: in a run without nested entries, on an object with an
instance owner, `PluginCrashed` destroys and detaches the instance owner and
leaves `mType` equal to `eType_Null`; `mFallbackType` is Crashed when the
element is an HTML element and the content type is not empty, and Alternate
otherwise; on a reachable state of type `eType_Plugin` the content type is not
empty, and `mFallbackType` is Crashed when the element is an HTML element and
Alternate when it is not. When the dispatch to the current thread succeeds, one
crash event is queued, the last call made, with the plugin dump id, the browser
dump id, the name and file name of the plugin and the flag given; when the
dispatch fails none is queued. The method returns `NS_OK` in either case. -/
theorem PluginCrashed_forces_fallback {env : Env} (hq : env.quiet) (s : State) (owner : Nat)
    (pluginName pluginFilename pluginDumpID browserDumpID : String)
    (submittedCrashReport : Bool)
    (hinstance : s.mInstanceOwner = some owner) :
    (PluginCrashed env s pluginName pluginFilename pluginDumpID browserDumpID
        submittedCrashReport).1.mInstanceOwner = none
    ∧ (PluginCrashed env s pluginName pluginFilename pluginDumpID browserDumpID
        submittedCrashReport).1.mType = .eType_Null
    ∧ (PluginCrashed env s pluginName pluginFilename pluginDumpID browserDumpID
        submittedCrashReport).1.mFallbackType
        = (if env.element.isHTML = true ∧ s.mContentType ≠ "" then .eFallbackCrashed
           else .eFallbackAlternate)
    ∧ (Reachable s → s.mType = .eType_Plugin →
        (PluginCrashed env s pluginName pluginFilename pluginDumpID browserDumpID
          submittedCrashReport).1.mFallbackType
          = (if env.element.isHTML = true then .eFallbackCrashed else .eFallbackAlternate))
    ∧ (PluginCrashed env s pluginName pluginFilename pluginDumpID browserDumpID
        submittedCrashReport).1.log.countP Effect.isCrashEvent
        = s.log.countP Effect.isCrashEvent + (if env.dispatchOk = true then 1 else 0)
    ∧ (env.dispatchOk = true →
        (PluginCrashed env s pluginName pluginFilename pluginDumpID browserDumpID
          submittedCrashReport).1.log.getLast?
          = some (.postPluginCrashedEvent pluginDumpID browserDumpID pluginName pluginFilename
              submittedCrashReport))
    ∧ (PluginCrashed env s pluginName pluginFilename pluginDumpID browserDumpID
        submittedCrashReport).1.log.countP (fun e => decide (e = .ownerDestroy owner))
        = s.log.countP (fun e => decide (e = .ownerDestroy owner)) + 1
    ∧ (PluginCrashed env s pluginName pluginFilename pluginDumpID browserDumpID
        submittedCrashReport).2 = .NS_OK := by
  obtain ⟨h1, h2, h3, h4, h5, h6, h7⟩ := PluginCrashed_effect hq s owner pluginName
    pluginFilename pluginDumpID browserDumpID submittedCrashReport hinstance
  refine ⟨h1, h2, h3, ?_, h4, h5, h6, h7⟩
  intro hreach hkind
  rw [h3]
  have hct := hreach.plugin_contentType hkind
  by_cases hh : env.element.isHTML = true
  · rw [if_pos ⟨hh, hct⟩, if_pos hh]
  · rw [if_neg (fun h => hh h.1), if_neg hh]

/-- Witness for C22 amended: the running plugin of the page
`streamedPluginEnv`, a reachable state, crashes; the dispatch succeeds and the
element is an HTML element. -/
theorem PluginCrashed_forces_fallback_witness :
    streamedPluginRunning.mType = .eType_Plugin
    ∧ (PluginCrashed streamedPluginEnv streamedPluginRunning "Test" "libtest.so" "pd" "bd"
        true).1.mInstanceOwner = none
    ∧ (PluginCrashed streamedPluginEnv streamedPluginRunning "Test" "libtest.so" "pd" "bd"
        true).1.mType = .eType_Null
    ∧ (PluginCrashed streamedPluginEnv streamedPluginRunning "Test" "libtest.so" "pd" "bd"
        true).1.mFallbackType = .eFallbackCrashed
    ∧ (PluginCrashed streamedPluginEnv streamedPluginRunning "Test" "libtest.so" "pd" "bd"
        true).1.log.getLast? = some (.postPluginCrashedEvent "pd" "bd" "Test" "libtest.so" true) :=
  have h := PluginCrashed_forces_fallback (fun _ _ => rfl) streamedPluginRunning 1 "Test"
    "libtest.so" "pd" "bd" true (by decide)
  ⟨by decide, h.1, h.2.1,
    (h.2.2.2.1 streamedPluginRunning_reachable (by decide)).trans (by decide),
    h.2.2.2.2.2.1 (by decide)⟩

end ObjLC
